import Mathlib

/-! # Bluetooth Security Manager (`stack/btm/btm_sec.c`)

A shallow embedding of the security manager of the Bluetooth host stack and
the properties proved about it.

Conventions of the embedding

* C unsigned integers are natural numbers; every place where the C code narrows
  a value (an assignment to a `UINT8`/`UINT16` object, an explicit cast) is an
  explicit `% 2 ^ w`.
* The global `btm_cb` is the record `tBTM_CB`, passed in and returned.
* Pointers into the two fixed tables of `btm_cb` are indices into the
  corresponding lists; `NULL` is `none`.
* Calls that leave this file (HCI commands, application callbacks, L2CAP
  helpers, timers) are appended to an output trace of `Event`s; the values they
  return are read from an environment `Env`.
* Macros and build switches that live in headers outside this file are the
  fields of `Hdr`; theorems say which relations between them they rely on.
-/

namespace BtmSec

/-! ## Machine arithmetic -/

/-- Narrowing to `UINT8`. -/
def u8 (x : Nat) : Nat := x % 2 ^ 8

/-- Narrowing to `UINT16`. -/
def u16 (x : Nat) : Nat := x % 2 ^ 16

/-- The C expression `(UINT16)(x & ~m)`: the operands are promoted to `int`, the
mask is complemented, and the result is stored in a 16-bit object. -/
def andNot16 (x m : Nat) : Nat := x &&& ((2 ^ 16 - 1) ^^^ (m % 2 ^ 16))

/-- The C expression `(UINT8)(x & ~m)`. -/
def andNot8 (x m : Nat) : Nat := x &&& ((2 ^ 8 - 1) ^^^ (m % 2 ^ 8))

/-- The C truth value of `x & m`. -/
def tst (x m : Nat) : Bool := (x &&& m) != 0

/-! ## Header constants -/

/-- Macros and build switches used by `btm_sec.c` whose definitions are in headers
outside this file (`btm_api.h`, `btm_int.h`, `bt_target.h`, `hcidefs.h`). They are
parameters of the whole development. -/
structure Hdr where
  /- service security levels, `btm_api.h` -/
  BTM_SEC_IN_AUTHORIZE : Nat
  BTM_SEC_IN_AUTHENTICATE : Nat
  BTM_SEC_IN_ENCRYPT : Nat
  BTM_SEC_OUT_AUTHORIZE : Nat
  BTM_SEC_OUT_AUTHENTICATE : Nat
  BTM_SEC_OUT_ENCRYPT : Nat
  BTM_SEC_FORCE_MASTER : Nat
  BTM_SEC_ATTEMPT_MASTER : Nat
  BTM_SEC_FORCE_SLAVE : Nat
  BTM_SEC_ATTEMPT_SLAVE : Nat
  BTM_SEC_IN_MITM : Nat
  BTM_SEC_OUT_MITM : Nat
  BTM_SEC_SECURE_CONN : Nat
  BTM_SEC_IN_AUTH_HIGH : Nat
  /- record flags, `btm_int.h` -/
  BTM_SEC_IN_USE : Nat
  BTM_SEC_AUTHORIZED : Nat
  BTM_SEC_AUTHENTICATED : Nat
  BTM_SEC_ENCRYPTED : Nat
  BTM_SEC_NAME_KNOWN : Nat
  BTM_SEC_LINK_KEY_KNOWN : Nat
  BTM_SEC_LINK_KEY_AUTHED : Nat
  BTM_SEC_ROLE_SWITCHED : Nat
  BTM_SEC_LE_AUTHENTICATED : Nat
  BTM_SEC_LE_ENCRYPTED : Nat
  BTM_SEC_LE_MASK : Nat
  BTM_SEC_INVALID_HANDLE : Nat
  BTM_SEC_NO_LAST_SERVICE_ID : Nat
  /- trusted-service masks, `btm_api.h` -/
  BTM_SEC_MAX_SERVICES : Nat
  BTM_SEC_SERVICE_ARRAY_SIZE : Nat
  BTM_SEC_TRUST_ALL : Nat
  /-- The truth value of `BTM_SEC_IS_SERVICE_TRUSTED (p, service)`. -/
  BTM_SEC_IS_SERVICE_TRUSTED : List Nat → Nat → Bool
  /- what is known of the peer's pairing generation (`sm4`), `btm_int.h` -/
  BTM_SM4_KNOWN : Nat
  BTM_SM4_REQ_PEND : Nat
  BTM_SM4_UPGRADE : Nat
  BTM_SM4_RETRY : Nat
  BTM_SM4_CONN_PEND : Nat
  /-- The truth value of `BTM_SEC_IS_SM4 (sm)`. -/
  BTM_SEC_IS_SM4 : Nat → Bool
  /-- The truth value of `BTM_SEC_IS_SM4_LEGACY (sm)`. -/
  BTM_SEC_IS_SM4_LEGACY : Nat → Bool
  /-- The truth value of `BTM_SEC_IS_SM4_UNKNOWN (sm)`. -/
  BTM_SEC_IS_SM4_UNKNOWN : Nat → Bool
  /- link key types and IO capabilities, `hcidefs.h`, `btm_api.h` -/
  BTM_LKEY_TYPE_UNAUTH_COMB : Nat
  HCI_LKEY_TYPE_UNAUTH_COMB_P256 : Nat
  HCI_LKEY_TYPE_AUTH_COMB_P256 : Nat
  BTM_IO_CAP_MAX : Nat
  /- transports and well-known PSMs, `bt_types.h` -/
  BT_TRANSPORT_BR_EDR : Nat
  BT_TRANSPORT_LE : Nat
  BT_PSM_SDP : Nat
  /- security modes, `btm_api.h` -/
  BTM_SEC_MODE_SP : Nat
  BTM_SEC_MODE_LINK : Nat
  /- pairing, `btm_int.h`, `btm_api.h`, `bt_target.h` -/
  BTM_PAIR_FLAGS_WE_STARTED_DD : Nat
  BTM_PAIR_FLAGS_PEER_STARTED_DD : Nat
  BTM_PAIR_FLAGS_DISC_WHEN_DONE : Nat
  BTM_PAIR_FLAGS_PIN_REQD : Nat
  BTM_PAIR_FLAGS_PRE_FETCH_PIN : Nat
  BTM_PAIR_FLAGS_REJECTED_CONNECT : Nat
  BTM_PAIR_FLAGS_WE_CANCEL_DD : Nat
  BTM_PAIR_FLAGS_LE_ACTIVE : Nat
  BTM_SEC_NONE : Nat
  PIN_CODE_LEN : Nat
  BTM_SEC_TIMEOUT_VALUE : Nat
  BT_1SEC_TIMEOUT : Nat
  BTM_SEC_MAX_COLLISION_DELAY : Nat
  BTM_INVALID_HCI_HANDLE : Nat
  BTM_SEC_RS_PENDING : Nat
  BTM_SEC_DISC_PENDING : Nat
  BTM_SEC_RS_NOT_PENDING : Nat
  BTM_SM4_TRUE : Nat
  BTM_AUTH_AP_NO : Nat
  BTM_AUTH_AP_YES : Nat
  BTM_AUTH_DD_BOND : Nat
  BTM_OOB_NONE : Nat
  /-- The numeric value of the status `BTM_DEVICE_TIMEOUT`, with which a disconnect
  reason is compared at line 4865. -/
  BTM_DEVICE_TIMEOUT : Nat
  /- HCI status codes and PIN types, `hcidefs.h` -/
  HCI_SUCCESS : Nat
  HCI_ERR_AUTH_FAILURE : Nat
  HCI_ERR_KEY_MISSING : Nat
  HCI_ERR_COMMAND_DISALLOWED : Nat
  HCI_ERR_HOST_REJECT_SECURITY : Nat
  HCI_ERR_PEER_USER : Nat
  HCI_ERR_CONN_CAUSE_LOCAL_HOST : Nat
  HCI_ERR_LMP_ERR_TRANS_COLLISION : Nat
  HCI_ERR_DIFF_TRANSACTION_COLLISION : Nat
  HCI_ERR_CONNECTION_TOUT : Nat
  HCI_ERR_REPEATED_ATTEMPTS : Nat
  HCI_ERR_CONN_FAILED_ESTABLISHMENT : Nat
  HCI_ERR_LMP_RESPONSE_TIMEOUT : Nat
  HCI_ROLE_UNKNOWN : Nat
  HCI_PIN_TYPE_FIXED : Nat
  /-- The truth value of `HCI_SIMPLE_PAIRING_SUPPORTED (x)` on a page of LMP
  features. -/
  HCI_SIMPLE_PAIRING_SUPPORTED : List Nat → Bool
  /- class of device, `btm_api.h` -/
  BTM_COD_MAJOR_CLASS_MASK : Nat
  BTM_COD_MINOR_CLASS_MASK : Nat
  BTM_COD_MAJOR_AUDIO : Nat
  BTM_COD_MAJOR_PERIPHERAL : Nat
  BTM_COD_MINOR_CONFM_HANDSFREE : Nat
  BTM_COD_MINOR_CAR_AUDIO : Nat
  BTM_COD_MINOR_KEYBOARD : Nat
  /- build switches, `bt_target.h` -/
  L2CAP_UCD_INCLUDED : Bool
  BTM_SECURE_CONN_HOST_INCLUDED : Bool
  BLE_INCLUDED : Bool
  SMP_INCLUDED : Bool
  BTM_SEC_SERVICE_NAME_LEN : Nat
  BTM_SEC_FORCE_RNR_FOR_DBOND : Bool
  BTM_DISC_DURING_RS : Bool
  BTM_BUSY_LEVEL_CHANGE_INCLUDED : Bool
  PORCHE_PAIRING_CONFLICT : Bool
  BTM_OOB_INCLUDED : Bool
  /-- The IO capability the build gives the local device. -/
  BTM_LOCAL_IO_CAPS : Nat
  /- authentication requirements and OOB data of an IO capability reply,
  `btm_api.h` and `bt_target.h` -/
  BTM_AUTH_SP_YES : Nat
  BTM_AUTH_SPGB_NO : Nat
  BTM_AUTH_SPGB_YES : Nat
  BTM_AUTH_YN_BIT : Nat
  BTM_DEFAULT_AUTH_REQ : Nat
  BTM_DEFAULT_DD_AUTH_REQ : Nat
  BTM_OOB_UNKNOWN : Nat
  HCI_ERR_PAIRING_NOT_ALLOWED : Nat
  HCI_ERR_HOST_BUSY_PAIRING : Nat
  HCI_ENCRYPT_MODE_DISABLED : Nat
  HCI_ERR_PAGE_TIMEOUT : Nat
  HCI_ERR_CONNECTION_EXISTS : Nat
  HCI_ERR_HOST_REJECT_DEVICE : Nat
  HCI_ERR_UNSPECIFIED : Nat
  HCI_ERR_ENCRY_MODE_NOT_ACCEPTABLE : Nat
  HCI_ERR_UNIT_KEY_USED : Nat
  HCI_ERR_PAIRING_WITH_UNIT_KEY_NOT_SUPPORTED : Nat
  BTM_LKEY_TYPE_REMOTE_UNIT : Nat
  BTM_SEC_LE_LINK_KEY_KNOWN : Nat
  BT_DEVICE_TYPE_BREDR : Nat
  /-- Whether `BTM_BYPASS_EXTRA_ACL_SETUP` is defined and `TRUE`. -/
  BTM_BYPASS_EXTRA_ACL_SETUP : Bool
  /-- Whether `BRCM_NOT_4_BTE` is defined. -/
  BRCM_NOT_4_BTE : Bool
  /-- The function named by `APPL_AUTH_WRITE_EXCEPTION`, when that name is defined. -/
  APPL_AUTH_WRITE_EXCEPTION : Option (List Nat → Bool)

/-! ## C strings -/

/-- The characters of the C string stored in a buffer: the bytes before the first
NUL. -/
def cstr (buf : List Nat) : List Nat := buf.takeWhile (fun b => b != 0)

/-- The value of `strlen`. -/
def strlen (buf : List Nat) : Nat := (cstr buf).length

/-- Whether `strncmp (a, b, n)` is `0`. -/
def strncmp_eq (a b : List Nat) (n : Nat) : Bool := (cstr a).take n == (cstr b).take n

/-- The first `n` bytes of the destination after `strncpy (dst, src, n)`: the
characters of `src`, at most `n` of them, padded with NUL. -/
def strncpy (src : List Nat) (n : Nat) : List Nat :=
  (cstr src).take n ++ List.replicate (n - ((cstr src).take n).length) 0

/-! ## Service security registry -/

/-- Modelled from the spec: the type `tBTM_SEC_SERV_REC` is declared in `btm_int.h`,
which is not part of the sources; the fields are the ones `btm_sec.c` reads and
writes (the spec's ServiceSecurityRecord). -/
structure tBTM_SEC_SERV_REC where
  mx_proto_id : Nat
  orig_mx_chan_id : Nat
  term_mx_chan_id : Nat
  psm : Nat
  security_flags : Nat
  service_id : Nat
  ucd_security_flags : Nat
  orig_service_name : List Nat
  term_service_name : List Nat
deriving DecidableEq, Repr

/-- The record left by `memset (p_srec, 0, sizeof(tBTM_SEC_SERV_REC))`. -/
def tBTM_SEC_SERV_REC.zero (K : Hdr) : tBTM_SEC_SERV_REC where
  mx_proto_id := 0
  orig_mx_chan_id := 0
  term_mx_chan_id := 0
  psm := 0
  security_flags := 0
  service_id := 0
  ucd_security_flags := 0
  orig_service_name := List.replicate (K.BTM_SEC_SERVICE_NAME_LEN + 1) 0
  term_service_name := List.replicate (K.BTM_SEC_SERVICE_NAME_LEN + 1) 0

/-- A `CONNECTION_TYPE` value, decoded: `orig` is `conn_type & CONNECTION_TYPE_ORIG_MASK`,
`connless` is `conn_type & CONNECTION_TYPE_CONNLESS_MASK`. Without
`L2CAP_UCD_INCLUDED` the argument is the plain `is_originator` flag and `connless`
is not looked at. -/
structure CONNECTION_TYPE where
  orig : Bool
  connless : Bool
deriving DecidableEq, Repr

def CONN_ORIENT_TERM : CONNECTION_TYPE := ⟨false, false⟩
def CONN_ORIENT_ORIG : CONNECTION_TYPE := ⟨true, false⟩
def CONNLESS_TERM : CONNECTION_TYPE := ⟨false, true⟩
def CONNLESS_ORIG : CONNECTION_TYPE := ⟨true, true⟩

/-- The registry part of `btm_cb`: the service table `sec_serv_rec` (its length is
`BTM_SEC_MAX_SERVICE_RECORDS`), the cached outgoing service `p_out_serv` and the
security mode. -/
structure ServDb where
  sec_serv_rec : List tBTM_SEC_SERV_REC
  p_out_serv : Option Nat
  security_mode : Nat
deriving DecidableEq, Repr

/-- The test at lines 652-666 of `btm_sec_set_security_level`: the record is the one
being registered (same PSM, multiplexer protocol and service id and, when names are
kept, the same name on either side). -/
def servMatches (K : Hdr) (r : tBTM_SEC_SERV_REC) (p_name : List Nat)
    (service_id psm mx_proto_id : Nat) : Bool :=
  if K.BTM_SEC_SERVICE_NAME_LEN > 0 then
    r.psm == psm && r.mx_proto_id == mx_proto_id && service_id == r.service_id &&
      (strncmp_eq p_name r.orig_service_name K.BTM_SEC_SERVICE_NAME_LEN ||
       strncmp_eq p_name r.term_service_name K.BTM_SEC_SERVICE_NAME_LEN)
  else
    r.psm == psm && r.mx_proto_id == mx_proto_id && service_id == r.service_id

/-- The locals of `btm_sec_set_security_level` when its search loop is left. -/
structure ServScan where
  /-- The table, with the first free slot zeroed if one was met. -/
  recs : List tBTM_SEC_SERV_REC
  /-- The loop counter `index`. -/
  index : Nat
  record_allocated : Bool
  first_unused_record : Nat
deriving DecidableEq, Repr

/-- The search loop of `btm_sec_set_security_level` (lines 649-679). `seen` holds the
records already visited, so the loop counter is `seen.length`; `rest` the records
still to visit. -/
def servScan (K : Hdr) (p_name : List Nat) (service_id psm mx_proto_id : Nat) :
    List tBTM_SEC_SERV_REC → List tBTM_SEC_SERV_REC → Bool → Nat → ServScan
  | seen, [], record_allocated, first_unused_record =>
      { recs := seen, index := seen.length, record_allocated, first_unused_record }
  | seen, r :: rest, record_allocated, first_unused_record =>
      if tst r.security_flags K.BTM_SEC_IN_USE then
        if servMatches K r p_name service_id psm mx_proto_id then
          { recs := seen ++ r :: rest, index := seen.length, record_allocated := true,
            first_unused_record }
        else
          servScan K p_name service_id psm mx_proto_id (seen ++ [r]) rest
            record_allocated first_unused_record
      else if !record_allocated then
        servScan K p_name service_id psm mx_proto_id (seen ++ [tBTM_SEC_SERV_REC.zero K]) rest
          true seen.length
      else
        servScan K p_name service_id psm mx_proto_id (seen ++ [r]) rest
          record_allocated first_unused_record

/-- The bits an originator registration clears from the flags of its record
(lines 716-722). -/
def origClearMask (K : Hdr) : Nat :=
  K.BTM_SEC_OUT_AUTHORIZE ||| K.BTM_SEC_OUT_ENCRYPT ||| K.BTM_SEC_OUT_AUTHENTICATE |||
    K.BTM_SEC_OUT_MITM ||| K.BTM_SEC_FORCE_MASTER ||| K.BTM_SEC_ATTEMPT_MASTER |||
    K.BTM_SEC_FORCE_SLAVE ||| K.BTM_SEC_ATTEMPT_SLAVE

/-- The bits an acceptor registration clears (lines 765-771). -/
def termClearMask (K : Hdr) : Nat :=
  K.BTM_SEC_IN_AUTHORIZE ||| K.BTM_SEC_IN_ENCRYPT ||| K.BTM_SEC_IN_AUTHENTICATE |||
    K.BTM_SEC_IN_MITM ||| K.BTM_SEC_FORCE_MASTER ||| K.BTM_SEC_ATTEMPT_MASTER |||
    K.BTM_SEC_FORCE_SLAVE ||| K.BTM_SEC_ATTEMPT_SLAVE

/-- The acceptor-side requirement bits: the mask removed from an originator's
`sec_level` at line 726. -/
def inLevelMask (K : Hdr) : Nat :=
  K.BTM_SEC_IN_AUTHORIZE ||| K.BTM_SEC_IN_ENCRYPT ||| K.BTM_SEC_IN_AUTHENTICATE |||
    K.BTM_SEC_IN_MITM

/-- The originator-side requirement bits: the mask removed from an acceptor's
`sec_level` at line 775. -/
def outLevelMask (K : Hdr) : Nat :=
  K.BTM_SEC_OUT_AUTHORIZE ||| K.BTM_SEC_OUT_ENCRYPT ||| K.BTM_SEC_OUT_AUTHENTICATE |||
    K.BTM_SEC_OUT_MITM

/-- The value of `sec_level` after the originator branch (lines 725-736). -/
def origSecLevel (K : Hdr) (security_mode sec_level : Nat) : Nat :=
  let s1 := andNot16 sec_level (inLevelMask K)
  let s2 := if security_mode == K.BTM_SEC_MODE_SP && tst s1 K.BTM_SEC_OUT_AUTHENTICATE
            then u16 (s1 ||| K.BTM_SEC_OUT_MITM) else s1
  if tst s2 K.BTM_SEC_OUT_ENCRYPT then u16 (s2 ||| K.BTM_SEC_OUT_AUTHENTICATE) else s2

/-- The value of `sec_level` after the acceptor branch (lines 774-785). -/
def termSecLevel (K : Hdr) (security_mode sec_level : Nat) : Nat :=
  let s1 := andNot16 sec_level (outLevelMask K)
  let s2 := if security_mode == K.BTM_SEC_MODE_SP && tst s1 K.BTM_SEC_IN_AUTHENTICATE
            then u16 (s1 ||| K.BTM_SEC_IN_MITM) else s1
  if tst s2 K.BTM_SEC_IN_ENCRYPT then u16 (s2 ||| K.BTM_SEC_IN_AUTHENTICATE) else s2

/-- The assignments made to the chosen record `p_srec` (lines 695-810). -/
def servUpdate (K : Hdr) (security_mode : Nat) (r : tBTM_SEC_SERV_REC)
    (is_originator is_ucd : Bool) (p_name : List Nat)
    (service_id sec_level psm mx_proto_id mx_chan_id : Nat) : tBTM_SEC_SERV_REC :=
  let r := { r with psm := psm, service_id := service_id, mx_proto_id := mx_proto_id }
  let sc := if K.BTM_SECURE_CONN_HOST_INCLUDED then K.BTM_SEC_SECURE_CONN else 0
  let r :=
    if is_originator then
      let r := { r with orig_mx_chan_id := mx_chan_id }
      let r := if K.BTM_SEC_SERVICE_NAME_LEN > 0 then
          { r with orig_service_name :=
              strncpy p_name K.BTM_SEC_SERVICE_NAME_LEN ++
                r.orig_service_name.drop K.BTM_SEC_SERVICE_NAME_LEN }
        else r
      if is_ucd then
        { r with ucd_security_flags := andNot16 r.ucd_security_flags (origClearMask K) }
      else
        { r with security_flags := andNot16 r.security_flags (origClearMask K ||| sc) }
    else
      let r := { r with term_mx_chan_id := mx_chan_id }
      let r := if K.BTM_SEC_SERVICE_NAME_LEN > 0 then
          { r with term_service_name :=
              strncpy p_name K.BTM_SEC_SERVICE_NAME_LEN ++
                r.term_service_name.drop K.BTM_SEC_SERVICE_NAME_LEN }
        else r
      if is_ucd then
        { r with ucd_security_flags := andNot16 r.ucd_security_flags (termClearMask K) }
      else
        { r with security_flags := andNot16 r.security_flags (termClearMask K ||| sc) }
  let sec_level :=
    if is_originator then origSecLevel K security_mode sec_level
    else termSecLevel K security_mode sec_level
  if is_ucd then
    { r with security_flags := r.security_flags ||| u16 K.BTM_SEC_IN_USE,
             ucd_security_flags := r.ucd_security_flags ||| u16 (sec_level ||| K.BTM_SEC_IN_USE) }
  else
    { r with security_flags := r.security_flags ||| u16 (sec_level ||| K.BTM_SEC_IN_USE) }

/-- What `btm_sec_set_security_level` leaves behind: its return value, the final
value of its local `index` (the record it worked on, also written to the trace log)
and the registry. -/
structure SetLevelResult where
  ret : Bool
  index : Nat
  db : ServDb
deriving DecidableEq, Repr

/-- `btm_sec_set_security_level` (lines 614-823). -/
def btm_sec_set_security_level (K : Hdr) (db : ServDb) (conn_type : CONNECTION_TYPE)
    (p_name : List Nat) (service_id sec_level psm mx_proto_id mx_chan_id : Nat) :
    SetLevelResult :=
  let is_originator := conn_type.orig
  let is_ucd := K.L2CAP_UCD_INCLUDED && conn_type.connless
  let sc := servScan K p_name service_id psm mx_proto_id [] db.sec_serv_rec false 0
  if !sc.record_allocated then
    { ret := false, index := sc.index, db := { db with sec_serv_rec := sc.recs } }
  else
    let index := if sc.index ≥ db.sec_serv_rec.length then sc.first_unused_record else sc.index
    match sc.recs[index]? with
    | none => { ret := true, index := index, db := { db with sec_serv_rec := sc.recs } }
    | some r =>
      let r := servUpdate K db.security_mode r is_originator is_ucd p_name
                 service_id sec_level psm mx_proto_id mx_chan_id
      { ret := true, index := index,
        db := { db with
          sec_serv_rec := sc.recs.set index r,
          p_out_serv := if is_originator && !is_ucd then some index else db.p_out_serv } }

/-- `BTM_SetSecurityLevel` (lines 575-593). -/
def BTM_SetSecurityLevel (K : Hdr) (db : ServDb) (is_originator : Bool)
    (p_name : List Nat) (service_id sec_level psm mx_proto_id mx_chan_id : Nat) :
    SetLevelResult :=
  btm_sec_set_security_level K db
    (if is_originator then CONN_ORIENT_ORIG else CONN_ORIENT_TERM)
    p_name service_id sec_level psm mx_proto_id mx_chan_id

/-- The constants of the stack's usual headers, used to evaluate the model on
concrete inputs. -/
def stdHdr : Hdr where
  BTM_SEC_IN_AUTHORIZE := 0x0001
  BTM_SEC_IN_AUTHENTICATE := 0x0002
  BTM_SEC_IN_ENCRYPT := 0x0004
  BTM_SEC_OUT_AUTHORIZE := 0x0008
  BTM_SEC_OUT_AUTHENTICATE := 0x0010
  BTM_SEC_OUT_ENCRYPT := 0x0020
  BTM_SEC_FORCE_MASTER := 0x0100
  BTM_SEC_ATTEMPT_MASTER := 0x0200
  BTM_SEC_FORCE_SLAVE := 0x0400
  BTM_SEC_ATTEMPT_SLAVE := 0x0800
  BTM_SEC_IN_MITM := 0x1000
  BTM_SEC_OUT_MITM := 0x2000
  BTM_SEC_SECURE_CONN := 0x0040
  BTM_SEC_IN_AUTH_HIGH := 0x4000
  BTM_SEC_IN_USE := 0x80
  BTM_SEC_AUTHORIZED := 0x01
  BTM_SEC_AUTHENTICATED := 0x02
  BTM_SEC_ENCRYPTED := 0x04
  BTM_SEC_NAME_KNOWN := 0x08
  BTM_SEC_LINK_KEY_KNOWN := 0x10
  BTM_SEC_LINK_KEY_AUTHED := 0x20
  BTM_SEC_ROLE_SWITCHED := 0x40
  BTM_SEC_LE_AUTHENTICATED := 0x0200
  BTM_SEC_LE_ENCRYPTED := 0x0400
  BTM_SEC_LE_MASK := 0x3f00
  BTM_SEC_INVALID_HANDLE := 0xFFFF
  BTM_SEC_NO_LAST_SERVICE_ID := 0
  BTM_SEC_MAX_SERVICES := 65
  BTM_SEC_SERVICE_ARRAY_SIZE := 3
  BTM_SEC_TRUST_ALL := 0xFFFFFFFF
  BTM_SEC_IS_SERVICE_TRUSTED := fun p service =>
    tst (p.getD (service / 32) 0) ((1 <<< (service % 32)) % 2 ^ 32)
  BTM_SM4_KNOWN := 0x10
  BTM_SM4_REQ_PEND := 0x08
  BTM_SM4_UPGRADE := 0x04
  BTM_SM4_RETRY := 0x02
  BTM_SM4_CONN_PEND := 0x40
  BTM_SEC_IS_SM4 := fun sm => 0x11 == (sm &&& 0x11)
  BTM_SEC_IS_SM4_LEGACY := fun sm => 0x10 == (sm &&& 0x11)
  BTM_SEC_IS_SM4_UNKNOWN := fun sm => 0x00 == (sm &&& 0x11)
  BTM_LKEY_TYPE_UNAUTH_COMB := 0x04
  HCI_LKEY_TYPE_UNAUTH_COMB_P256 := 0x07
  HCI_LKEY_TYPE_AUTH_COMB_P256 := 0x08
  BTM_IO_CAP_MAX := 4
  BT_TRANSPORT_BR_EDR := 1
  BT_TRANSPORT_LE := 2
  BT_PSM_SDP := 0x0001
  BTM_SEC_MODE_SP := 4
  BTM_SEC_MODE_LINK := 3
  BTM_PAIR_FLAGS_WE_STARTED_DD := 0x01
  BTM_PAIR_FLAGS_PEER_STARTED_DD := 0x02
  BTM_PAIR_FLAGS_DISC_WHEN_DONE := 0x04
  BTM_PAIR_FLAGS_PIN_REQD := 0x08
  BTM_PAIR_FLAGS_PRE_FETCH_PIN := 0x10
  BTM_PAIR_FLAGS_REJECTED_CONNECT := 0x20
  BTM_PAIR_FLAGS_WE_CANCEL_DD := 0x40
  BTM_PAIR_FLAGS_LE_ACTIVE := 0x80
  BTM_SEC_NONE := 0
  PIN_CODE_LEN := 16
  BTM_SEC_TIMEOUT_VALUE := 35
  BT_1SEC_TIMEOUT := 1
  BTM_SEC_MAX_COLLISION_DELAY := 5000
  BTM_INVALID_HCI_HANDLE := 0xFFFF
  BTM_SEC_RS_PENDING := 1
  BTM_SEC_DISC_PENDING := 2
  BTM_SEC_RS_NOT_PENDING := 0
  BTM_SM4_TRUE := 0x11
  BTM_AUTH_AP_NO := 2
  BTM_AUTH_AP_YES := 3
  BTM_AUTH_DD_BOND := 2
  BTM_OOB_NONE := 0
  BTM_DEVICE_TIMEOUT := 8
  HCI_SUCCESS := 0x00
  HCI_ERR_AUTH_FAILURE := 0x05
  HCI_ERR_KEY_MISSING := 0x06
  HCI_ERR_COMMAND_DISALLOWED := 0x0C
  HCI_ERR_HOST_REJECT_SECURITY := 0x0E
  HCI_ERR_PEER_USER := 0x13
  HCI_ERR_CONN_CAUSE_LOCAL_HOST := 0x16
  HCI_ERR_LMP_ERR_TRANS_COLLISION := 0x23
  HCI_ERR_DIFF_TRANSACTION_COLLISION := 0x2A
  HCI_ERR_CONNECTION_TOUT := 0x08
  HCI_ERR_REPEATED_ATTEMPTS := 0x17
  HCI_ERR_CONN_FAILED_ESTABLISHMENT := 0x3E
  HCI_ERR_LMP_RESPONSE_TIMEOUT := 0x22
  HCI_ROLE_UNKNOWN := 0xFF
  HCI_PIN_TYPE_FIXED := 0x01
  HCI_SIMPLE_PAIRING_SUPPORTED := fun x => tst (x.getD 6 0) 0x08
  BTM_COD_MAJOR_CLASS_MASK := 0x1F
  BTM_COD_MINOR_CLASS_MASK := 0xFC
  BTM_COD_MAJOR_AUDIO := 0x04
  BTM_COD_MAJOR_PERIPHERAL := 0x05
  BTM_COD_MINOR_CONFM_HANDSFREE := 0x08
  BTM_COD_MINOR_CAR_AUDIO := 0x20
  BTM_COD_MINOR_KEYBOARD := 0x40
  L2CAP_UCD_INCLUDED := true
  BTM_SECURE_CONN_HOST_INCLUDED := true
  BLE_INCLUDED := true
  SMP_INCLUDED := true
  BTM_SEC_SERVICE_NAME_LEN := 21
  BTM_SEC_FORCE_RNR_FOR_DBOND := false
  BTM_DISC_DURING_RS := true
  BTM_BUSY_LEVEL_CHANGE_INCLUDED := true
  PORCHE_PAIRING_CONFLICT := true
  BTM_OOB_INCLUDED := true
  BTM_LOCAL_IO_CAPS := 1
  BTM_AUTH_SP_YES := 1
  BTM_AUTH_SPGB_NO := 4
  BTM_AUTH_SPGB_YES := 5
  BTM_AUTH_YN_BIT := 1
  BTM_DEFAULT_AUTH_REQ := 4
  BTM_DEFAULT_DD_AUTH_REQ := 3
  BTM_OOB_UNKNOWN := 2
  HCI_ERR_PAIRING_NOT_ALLOWED := 0x18
  HCI_ERR_HOST_BUSY_PAIRING := 0x38
  HCI_ENCRYPT_MODE_DISABLED := 0x00
  HCI_ERR_PAGE_TIMEOUT := 0x04
  HCI_ERR_CONNECTION_EXISTS := 0x0B
  HCI_ERR_HOST_REJECT_DEVICE := 0x0F
  HCI_ERR_UNSPECIFIED := 0x1F
  HCI_ERR_ENCRY_MODE_NOT_ACCEPTABLE := 0x25
  HCI_ERR_UNIT_KEY_USED := 0x26
  HCI_ERR_PAIRING_WITH_UNIT_KEY_NOT_SUPPORTED := 0x29
  BTM_LKEY_TYPE_REMOTE_UNIT := 0x02
  BTM_SEC_LE_LINK_KEY_KNOWN := 0x1000
  BT_DEVICE_TYPE_BREDR := 0x01
  BTM_BYPASS_EXTRA_ACL_SETUP := false
  BRCM_NOT_4_BTE := false
  APPL_AUTH_WRITE_EXCEPTION := none

/-- A two-slot registry with no service registered, in Secure Simple Pairing mode. -/
def exampleDb : ServDb :=
  { sec_serv_rec := [tBTM_SEC_SERV_REC.zero stdHdr, tBTM_SEC_SERV_REC.zero stdHdr],
    p_out_serv := none, security_mode := 4 }

/-- A service record in use whose acceptor side requires authorization,
authentication, encryption and MITM protection. -/
def exampleServRec : tBTM_SEC_SERV_REC :=
  { tBTM_SEC_SERV_REC.zero stdHdr with
    psm := 0x1001, service_id := 3, security_flags := 0x1087,
    ucd_security_flags := 0x1087 }

/-- A two-slot registry whose first record is `exampleServRec`. -/
def exampleDbInUse : ServDb :=
  { sec_serv_rec := [exampleServRec, tBTM_SEC_SERV_REC.zero stdHdr],
    p_out_serv := none, security_mode := 4 }

/-! ## Out-of-band data blob -/

/-- Modelled from the spec: `BD_ADDR_LEN` of `bt_types.h` (the spec's 6-byte device
address). -/
def BD_ADDR_LEN : Nat := 6

/-- Modelled from the spec: `BTM_OOB_MANDATORY_SIZE` of `btm_api.h`, the 2-byte total
length followed by the 6-byte device address. -/
def BTM_OOB_MANDATORY_SIZE : Nat := 8

/-- Modelled from the spec: `BTM_OOB_BD_ADDR_SIZE` of `btm_api.h`. -/
def BTM_OOB_BD_ADDR_SIZE : Nat := 6

/-- Modelled from the spec: `BTM_OOB_HASH_C_SIZE` of `btm_api.h`, the size of a
`BT_OCTET16`. -/
def BTM_OOB_HASH_C_SIZE : Nat := 16

/-- Modelled from the spec: `BTM_OOB_RAND_R_SIZE` of `btm_api.h`, the size of a
`BT_OCTET16`. -/
def BTM_OOB_RAND_R_SIZE : Nat := 16

/-- Modelled from the spec: `BTM_OOB_COD_SIZE` of `btm_api.h`, the size of a
`DEV_CLASS` (three bytes). -/
def BTM_OOB_COD_SIZE : Nat := 3

/-- Modelled from the spec: the tags of the entries of the blob (`btm_api.h`), each
stored in one byte. Their values are parameters. -/
structure EirTags where
  BTM_EIR_OOB_BD_ADDR_TYPE : Nat
  BTM_EIR_OOB_COD_TYPE : Nat
  BTM_EIR_OOB_SSP_HASH_C_TYPE : Nat
  BTM_EIR_OOB_SSP_RAND_R_TYPE : Nat
  BTM_EIR_SHORTENED_LOCAL_NAME_TYPE : Nat
  BTM_EIR_COMPLETE_LOCAL_NAME_TYPE : Nat
deriving DecidableEq, Repr

/-- The tag values of the stack's usual headers. -/
def stdTags : EirTags where
  BTM_EIR_OOB_BD_ADDR_TYPE := 0x0C
  BTM_EIR_OOB_COD_TYPE := 0x0D
  BTM_EIR_OOB_SSP_HASH_C_TYPE := 0x0E
  BTM_EIR_OOB_SSP_RAND_R_TYPE := 0x0F
  BTM_EIR_SHORTENED_LOCAL_NAME_TYPE := 0x08
  BTM_EIR_COMPLETE_LOCAL_NAME_TYPE := 0x09

/-- Modelled from the spec: `UINT16_TO_STREAM` of `bt_types.h`, the two bytes of a
16-bit value, low byte first. -/
def UINT16_TO_STREAM (v : Nat) : List Nat := [u8 v, u8 (v >>> 8)]

/-- Modelled from the spec: `STREAM_TO_UINT16` of `bt_types.h`, the 16-bit value
whose low byte is at `p` and high byte at `p + 1`. -/
def STREAM_TO_UINT16 (mem : List Nat) (p : Nat) : Nat :=
  u16 (mem.getD p 0 + (mem.getD (p + 1) 0 <<< 8))

/-- Modelled from the spec: `ARRAY_TO_STREAM (p, a, len)` of `bt_types.h`, the bytes
`(UINT8) a[0]`, ..., `(UINT8) a[len - 1]`. -/
def ARRAY_TO_STREAM (a : List Nat) (len : Nat) : List Nat :=
  (List.range len).map (fun i => u8 (a.getD i 0))

/-- Modelled from the spec: `BDADDR_TO_STREAM` of `bt_types.h`, the six bytes of an
address, last byte first. -/
def BDADDR_TO_STREAM (a : List Nat) : List Nat :=
  (List.range BD_ADDR_LEN).map (fun i => u8 (a.getD (BD_ADDR_LEN - 1 - i) 0))

/-- Modelled from the spec: `DEVCLASS_TO_STREAM` of `bt_types.h`, the three bytes of
a class of device, last byte first. -/
def DEVCLASS_TO_STREAM (a : List Nat) : List Nat :=
  (List.range 3).map (fun i => u8 (a.getD (3 - 1 - i) 0))

/-- The fields of `btm_cb` read by `BTM_BuildOobData`: `devcb.local_addr`,
`devcb.dev_class` and the buffer `cfg.bd_name`. -/
structure LocalDevice where
  local_addr : List Nat
  dev_class : List Nat
  bd_name : List Nat
deriving DecidableEq, Repr

/-- The locals of `BTM_BuildOobData` between two optional entries: the bytes written
so far (from `p_data` up to `p`), `len` and what is left of `max_len`. -/
structure OobBuild where
  out : List Nat
  len : Nat
  max_len : Nat
deriving DecidableEq, Repr

/-- One optional entry of `BTM_BuildOobData`: written when `max_len >= delta`, where
`delta` is the size of the value plus 2. -/
def oobEntry (st : OobBuild) (size : Nat) (tag : Nat) (value : List Nat) : OobBuild :=
  let delta := u16 (size + 2)
  if st.max_len ≥ delta then
    { out := st.out ++ [u8 (size + 1), u8 tag] ++ value,
      len := u16 (st.len + delta),
      max_len := u16 (st.max_len - delta) }
  else st

/-- `BTM_BuildOobData` (lines 1938-2014). `p_data` tells whether the buffer pointer is
non-null, `name_included` is the build switch `BTM_MAX_LOC_BD_NAME_LEN > 0`. The
result is the returned length and the bytes the call has stored at the start of the
buffer. -/
def BTM_BuildOobData (T : EirTags) (name_included : Bool) (dev : LocalDevice)
    (p_data : Bool) (max_len : Nat) (c r : List Nat) (name_len : Nat) : Nat × List Nat :=
  if p_data && max_len ≥ BTM_OOB_MANDATORY_SIZE then
    /- add mandatory part -/
    let st : OobBuild :=
      { out := UINT16_TO_STREAM 0 ++ BDADDR_TO_STREAM dev.local_addr,
        len := BTM_OOB_MANDATORY_SIZE,
        max_len := u16 (max_len - BTM_OOB_MANDATORY_SIZE) }
    /- add Hash C -/
    let st := oobEntry st BTM_OOB_HASH_C_SIZE T.BTM_EIR_OOB_SSP_HASH_C_TYPE
      (ARRAY_TO_STREAM c BTM_OOB_HASH_C_SIZE)
    /- add Rand R -/
    let st := oobEntry st BTM_OOB_RAND_R_SIZE T.BTM_EIR_OOB_SSP_RAND_R_TYPE
      (ARRAY_TO_STREAM r BTM_OOB_RAND_R_SIZE)
    /- add class of device -/
    let st := oobEntry st BTM_OOB_COD_SIZE T.BTM_EIR_OOB_COD_TYPE
      (DEVCLASS_TO_STREAM dev.dev_class)
    let st :=
      if name_included then
        let name_size := name_len
        let name_type :=
          if name_size > strlen dev.bd_name then T.BTM_EIR_COMPLETE_LOCAL_NAME_TYPE
          else T.BTM_EIR_SHORTENED_LOCAL_NAME_TYPE
        let name_size := if name_size > strlen dev.bd_name then u16 (strlen dev.bd_name)
          else name_size
        oobEntry st name_size name_type (ARRAY_TO_STREAM dev.bd_name name_size)
      else st
    /- update len -/
    (st.len, UINT16_TO_STREAM st.len ++ st.out.drop 2)
  else (0, [])

/-- What `BTM_ReadOobData` hands back: the returned pointer as an offset from
`p_data` (`none` for `NULL`), the length stored through `p_len`, and the offsets from
`p_data` of the bytes it has read, in order. -/
structure OobRead where
  p_ret : Option Nat
  ret_len : Nat
  reads : List Nat
deriving DecidableEq, Repr

/-- The `while (max_len > 0)` loop of `BTM_ReadOobData` (lines 2054-2074), with `p` an
offset into the memory at `p_data`. Every iteration that continues lowers `max_len`,
so `fuel = max_len` iterations are enough. -/
def oobReadLoop (mem : List Nat) (eir_tag : Nat) :
    Nat → Nat → Nat → List Nat → OobRead
  | 0, _, _, reads => { p_ret := none, ret_len := 0, reads }
  | fuel + 1, p, max_len, reads =>
    if max_len > 0 then
      let len := mem.getD p 0
      let type := mem.getD (p + 1) 0
      let reads := reads ++ [p, p + 1]
      if eir_tag == type then
        { p_ret := some (p + 2), ret_len := u8 (len + 2 ^ 8 - 1), reads }
      else if max_len > len then
        /- no wrap-around: `max_len - len - 1` is not negative here -/
        oobReadLoop mem eir_tag fuel (p + 2 + u8 (len + 2 ^ 8 - 1)) (max_len - len - 1) reads
      else
        { p_ret := none, ret_len := 0, reads }
    else
      { p_ret := none, ret_len := 0, reads }

/-- `BTM_ReadOobData` (lines 2031-2083). `p_data` is the memory the pointer refers to,
`none` for a null pointer. -/
def BTM_ReadOobData (T : EirTags) (p_data : Option (List Nat)) (eir_tag : Nat) : OobRead :=
  match p_data with
  | none => { p_ret := none, ret_len := 0, reads := [] }
  | some mem =>
    let max_len := STREAM_TO_UINT16 mem 0
    if max_len ≥ BTM_OOB_MANDATORY_SIZE then
      if T.BTM_EIR_OOB_BD_ADDR_TYPE == eir_tag then
        { p_ret := some 2, ret_len := BTM_OOB_BD_ADDR_SIZE, reads := [0, 1] }
      else
        oobReadLoop mem eir_tag (max_len - BTM_OOB_MANDATORY_SIZE) (2 + BD_ADDR_LEN)
          (max_len - BTM_OOB_MANDATORY_SIZE) [0, 1]
    else
      { p_ret := none, ret_len := 0, reads := [0, 1] }

/-- A local device named "abcde". -/
def exampleDevice : LocalDevice :=
  { local_addr := [0x00, 0x11, 0x22, 0x33, 0x44, 0x55],
    dev_class := [0x5A, 0x02, 0x0C],
    bd_name := [0x61, 0x62, 0x63, 0x64, 0x65, 0, 0, 0] }

/-- A 16-byte hash value. -/
def exampleC : List Nat := [1, 2, 3, 4, 5, 6, 7, 8, 9, 10, 11, 12, 13, 14, 15, 16]

/-- A 16-byte randomizer value. -/
def exampleR : List Nat :=
  [0xF0, 0xF1, 0xF2, 0xF3, 0xF4, 0xF5, 0xF6, 0xF7, 0xF8, 0xF9, 0xFA, 0xFB, 0xFC, 0xFD, 0xFE,
   0xFF]

/-! ## Device records, the control block and the outside world -/

/-- A Bluetooth device address, `UINT8[BD_ADDR_LEN]`. -/
abbrev BD_ADDR := List Nat

/-- Modelled from the spec: the status values `tBTM_STATUS` of `btm_api.h` (the
spec's error taxonomy). -/
inductive tBTM_STATUS where
  | BTM_SUCCESS
  | BTM_CMD_STARTED
  | BTM_BUSY
  | BTM_NO_RESOURCES
  | BTM_MODE_UNSUPPORTED
  | BTM_ILLEGAL_VALUE
  | BTM_WRONG_MODE
  | BTM_UNKNOWN_ADDR
  | BTM_DEVICE_TIMEOUT
  | BTM_ERR_PROCESSING
  | BTM_NOT_AUTHORIZED
  | BTM_ILLEGAL_ACTION
  | BTM_DELAY_CHECK
  | BTM_SUCCESS_NO_SECURITY
  | BTM_FAILED_ON_SECURITY
  | BTM_ERR_KEY_MISSING
  | BTM_FAILED_ESTABLISH
  | BTM_HOST_DISCONN
  | BTM_PEER_DISCONN
  | BTM_LMP_TIMEOUT
deriving DecidableEq, Repr

/-- Modelled from the spec: the values `BTM_SEC_STATE_*` of `btm_int.h` held by
`sec_state` (the spec's security-state enum). `IDLE` is the value `0` the source
compares with at line 5415 and stores at line 3983. -/
inductive SecState where
  | IDLE
  | AUTHENTICATING
  | ENCRYPTING
  | GETTING_NAME
  | AUTHORIZING
  | SWITCHING_ROLE
  | DISCONNECTING
  | DELAY_FOR_ENC
deriving DecidableEq, Repr

/-- The pairing states `tBTM_PAIRING_STATE`, as listed by `btm_pair_state_descr`
(lines 6047-6060). -/
inductive tBTM_PAIRING_STATE where
  | BTM_PAIR_STATE_IDLE
  | BTM_PAIR_STATE_GET_REM_NAME
  | BTM_PAIR_STATE_WAIT_PIN_REQ
  | BTM_PAIR_STATE_WAIT_LOCAL_PIN
  | BTM_PAIR_STATE_WAIT_NUMERIC_CONFIRM
  | BTM_PAIR_STATE_KEY_ENTRY
  | BTM_PAIR_STATE_WAIT_LOCAL_OOB_RSP
  | BTM_PAIR_STATE_WAIT_LOCAL_IOCAPS
  | BTM_PAIR_STATE_INCOMING_SSP
  | BTM_PAIR_STATE_WAIT_AUTH_COMPLETE
  | BTM_PAIR_STATE_WAIT_DISCONNECT
deriving DecidableEq, Repr

/-- Modelled from the spec: the type `tBTM_SEC_DEV_REC` is declared in `btm_int.h`,
which is not part of the sources; the fields are the ones `btm_sec.c` reads and
writes (the spec's DeviceSecurityRecord). `p_cur_service` is an index into
`sec_serv_rec`; `p_callback` names a function, `none` being `NULL`. -/
structure tBTM_SEC_DEV_REC where
  bd_addr : BD_ADDR
  dev_class : List Nat
  sec_bd_name : List Nat
  sec_flags : Nat
  trusted_mask : List Nat
  hci_handle : Nat
  ble_hci_handle : Nat
  sec_state : SecState
  is_originator : Bool
  is_ucd : Bool
  security_required : Nat
  p_cur_service : Option Nat
  p_callback : Option Nat
  p_ref_data : Nat
  sm4 : Nat
  link_key_type : Nat
  rmt_io_caps : Nat
  pin_key_len : Nat
  last_author_service_id : Nat
  sec_conn_supported : Bool
  rs_disc_pending : Nat
  enc_key_size : Nat
  /-- The field `ble.key_type`. -/
  ble_key_type : Nat
  rmt_auth_req : Nat
  timestamp : Nat
  device_type : Nat
  link_key_not_sent : Bool
  link_key_changed : Bool
deriving DecidableEq, Repr

/-- An entry of the queue `sec_pending_q`, `tBTM_SEC_QUEUE_ENTRY`, as filled in by
`btm_sec_queue_mx_request` (lines 6114-6121). -/
structure tBTM_SEC_QUEUE_ENTRY where
  bd_addr : BD_ADDR
  psm : Nat
  is_orig : Bool
  p_callback : Option Nat
  p_ref_data : Nat
  mx_proto_id : Nat
  mx_chan_id : Nat
deriving DecidableEq, Repr

/-- The callbacks of `btm_cb.api` that `btm_sec.c` tests for `NULL`: `true` when one
is registered. -/
structure tBTM_APPL_INFO where
  p_authorize_callback : Bool
  p_pin_callback : Bool
  p_auth_complete_callback : Bool
  p_bond_cancel_cmpl_callback : Bool
  p_sp_callback : Bool
  p_abort_callback : Bool
  p_link_key_callback : Bool
deriving DecidableEq, Repr

/-- The part of the global `btm_cb` used by the security manager. -/
structure tBTM_CB extends ServDb where
  sec_dev_rec : List tBTM_SEC_DEV_REC
  api : tBTM_APPL_INFO
  pairing_state : tBTM_PAIRING_STATE
  pairing_bda : BD_ADDR
  pairing_flags : Nat
  pin_code : List Nat
  pin_code_len : Nat
  pin_code_len_saved : Nat
  sec_req_pending : Bool
  sec_pending_q : List tBTM_SEC_QUEUE_ENTRY
  security_mode_changed : Bool
  pin_type_changed : Bool
  cfg_pin_type : Nat
  acl_disc_reason : Nat
  collision_start_time : Nat
  max_collision_delay : Nat
  p_collided_dev_rec : Option Nat
  loc_io_caps : Nat
  local_lmp_features : List Nat
  btm_sec_conn_only_mode : Bool
  btm_sec_conn_supported : Bool
  discing : Bool
  pairing_disabled : Bool
  connecting_bda : BD_ADDR
  connecting_dc : List Nat
  /-- The field `devcb.loc_auth_req`. -/
  loc_auth_req : Nat
  dev_rec_count : Nat
  btm_def_link_policy : Nat
deriving DecidableEq, Repr

/-- The timers of `btm_cb` handled by this file. -/
inductive Timer where
  | pairing_tle
  | sec_collision_tle
deriving DecidableEq, Repr

/-- A call that leaves `btm_sec.c`, with the arguments that matter. -/
inductive Event where
  /-- A stored or supplied `tBTM_SEC_CALLBACK` is invoked:
  `(*p_callback) (bd_addr, transport, p_ref_data, result)`. -/
  | sec_callback (p_callback : Nat) (bd_addr : BD_ADDR) (transport : Nat) (p_ref_data : Nat)
      (result : tBTM_STATUS)
  | btm_initiate_rem_name (bd_addr : BD_ADDR)
  | BTM_ReadRemoteDeviceName (bd_addr : BD_ADDR)
  | btsnd_hcic_auth_request (handle : Nat)
  | btsnd_hcic_set_conn_encrypt (handle : Nat) (enable : Bool)
  | btsnd_hcic_disconnect (handle : Nat) (reason : Nat)
  | btsnd_hcic_write_auth_enable (flag : Bool)
  | btsnd_hcic_write_pin_type (pin_type : Nat)
  | btsnd_hcic_pin_code_neg_reply (bd_addr : BD_ADDR)
  | btsnd_hcic_pin_code_req_reply (bd_addr : BD_ADDR) (pin_len : Nat) (pin : List Nat)
  | btsnd_hcic_user_conf_reply (bd_addr : BD_ADDR) (is_yes : Bool)
  | btsnd_hcic_user_passkey_neg_reply (bd_addr : BD_ADDR)
  | btsnd_hcic_io_cap_req_reply (bd_addr : BD_ADDR) (capability oob_present auth_req : Nat)
  | btsnd_hcic_rem_oob_neg_reply (bd_addr : BD_ADDR)
  | btm_ble_set_encryption (bd_addr : BD_ADDR)
  | SMP_Pair (bd_addr : BD_ADDR)
  | BTM_DeleteStoredLinkKey (bd_addr : BD_ADDR)
  | p_authorize_callback (bd_addr : BD_ADDR) (service_id : Nat) (is_originator : Bool)
  | p_sp_callback_upgrade (bd_addr : BD_ADDR)
  | p_pin_callback (bd_addr : BD_ADDR)
  | p_auth_complete_callback (bd_addr : BD_ADDR) (status : Nat)
  | l2cu_update_lcb_4_bonding (bd_addr : BD_ADDR) (is_bonding : Bool)
  | l2cu_resubmit_pending_sec_req
  | l2cu_start_post_bond_timer (handle : Nat)
  | l2cu_allocate_lcb (bd_addr : BD_ADDR)
  | l2cu_create_conn (bd_addr : BD_ADDR)
  | l2cu_release_lcb (bd_addr : BD_ADDR)
  | btm_acl_update_busy_level
  | btm_acl_resubmit_page
  | btm_ble_update_mode_operation (link_role : Nat) (bd_addr : BD_ADDR) (status : Nat)
  | p_bond_cancel_cmpl_callback (result : tBTM_STATUS)
  | btm_inq_clear_ssp
  | btu_start_timer (t : Timer) (timeout : Nat)
  | btu_stop_timer (t : Timer)
  | l2c_pin_code_request (bd_addr : BD_ADDR)
  | p_abort_callback (bd_addr : BD_ADDR)
  | btsnd_hcic_io_cap_req_neg_reply (bd_addr : BD_ADDR) (err_code : Nat)
  /-- The application's `p_sp_callback` is called with `BTM_SP_IO_REQ_EVT`; the
  arguments are the fields of the event data on entry. -/
  | p_sp_callback_io_req (bd_addr : BD_ADDR) (io_cap oob_data auth_req : Nat)
      (is_orig : Bool)
  /-- The application's `p_sp_callback` is called with `BTM_SP_COMPLT_EVT`. -/
  | p_sp_callback_complt (bd_addr : BD_ADDR) (status : tBTM_STATUS)
  | p_link_key_callback (bd_addr : BD_ADDR) (link_key_type : Nat)
  | btm_ble_link_encrypted (bd_addr : BD_ADDR) (encr_enable status : Nat)
  /-- The call `l2cu_resubmit_pending_sec_req (p_dev_rec->bd_addr)`. -/
  | l2cu_resubmit_pending_sec_req_for (bd_addr : BD_ADDR)
  | btm_set_packet_types
  | BTM_SetLinkPolicy (settings : Nat)
  | btm_acl_created (bd_addr : BD_ADDR) (handle : Nat)
  /-- The code has dereferenced a null pointer: from here on the model no longer
  describes what the code does. -/
  | null_dereference
deriving DecidableEq, Repr

/-- An entry of the ACL table kept by `btm_acl.c`, as seen through
`btm_bda_to_acl`. -/
structure tACL_CONN where
  hci_handle : Nat
  link_role : Nat
deriving DecidableEq, Repr

/-- The link states of an L2CAP link control block that `btm_sec_dd_create_conn`
tells apart. -/
inductive tL2C_LINK_STATE where
  | LST_CONNECTED
  | LST_CONNECTING
  | other
deriving DecidableEq, Repr

/-- Modelled from the spec: the type `tBTM_SP_IO_REQ` is declared in `btm_api.h`,
which is not part of the sources; the fields are the ones `btm_io_capabilities_req`
fills in and reads (lines 3384-3523). -/
structure tBTM_SP_IO_REQ where
  bd_addr : BD_ADDR
  io_cap : Nat
  oob_data : Nat
  auth_req : Nat
  is_orig : Bool
deriving DecidableEq, Repr

/-- What the functions outside `btm_sec.c` answer when called: the other layers are
not modelled, their answers are parameters. -/
structure Env where
  /-- `btsnd_hcic_auth_request (handle)`: whether the command could be sent. -/
  btsnd_hcic_auth_request : Nat → Bool
  /-- `btsnd_hcic_set_conn_encrypt (handle, enable)`. -/
  btsnd_hcic_set_conn_encrypt : Nat → Bool → Bool
  /-- `btsnd_hcic_disconnect (handle, reason)`. -/
  btsnd_hcic_disconnect : Nat → Nat → Bool
  /-- `btm_initiate_rem_name (bd_addr, ...)`. -/
  btm_initiate_rem_name : BD_ADDR → tBTM_STATUS
  /-- The value returned by the application's authorization callback. -/
  p_authorize_callback : BD_ADDR → Nat → Bool → tBTM_STATUS
  /-- The value of `evt_data.upgrade` after the application has seen
  `BTM_SP_UPGRADE_EVT`. -/
  sp_upgrade : BD_ADDR → Bool
  /-- `btm_bda_to_acl (bd_addr, transport)`. -/
  btm_bda_to_acl : BD_ADDR → Nat → Option tACL_CONN
  /-- Whether `GKI_getbuf` finds a buffer for a queue entry. -/
  GKI_getbuf : Bool
  /-- `btm_ble_set_encryption (bd_addr, p_ref_data, link_role)`. -/
  btm_ble_set_encryption : BD_ADDR → tBTM_STATUS
  /-- `BTM_DeleteStoredLinkKey (bd_addr, NULL)`. -/
  BTM_DeleteStoredLinkKey : BD_ADDR → tBTM_STATUS
  /-- Whether `SMP_Pair (bd_addr)` returns `SMP_STARTED`. -/
  SMP_Pair : BD_ADDR → Bool
  /-- `l2cu_find_lcb_by_bd_addr (bd_addr, BT_TRANSPORT_BR_EDR)`: the link state of the
  block found, if any. -/
  l2cu_find_lcb_by_bd_addr : BD_ADDR → Option tL2C_LINK_STATE
  /-- Whether `l2cu_allocate_lcb` finds a free block. -/
  l2cu_allocate_lcb : BD_ADDR → Bool
  /-- `l2cu_create_conn (p_lcb, BT_TRANSPORT_BR_EDR)`. -/
  l2cu_create_conn : BD_ADDR → Bool
  /-- `GKI_get_tick_count ()`. -/
  GKI_get_tick_count : Nat
  /-- The allocation of a device record for an address that has none
  (`btm_sec_alloc_dev` of `btm_dev.c`): the record handed out, if any, and the control
  block after the allocation. -/
  btm_sec_alloc_dev : tBTM_CB → BD_ADDR → Option Nat × tBTM_CB
  /-- The application's `p_sp_callback` for `BTM_SP_IO_REQ_EVT`: the value returned
  and the event data as the application leaves them. -/
  p_sp_callback_io_req : tBTM_SP_IO_REQ → tBTM_STATUS × tBTM_SP_IO_REQ
  /-- The field `transport` of `btm_cb.acl_db[btm_handle_to_acl_index (handle)]`, `none`
  when that index is `MAX_L2CAP_LINKS`. -/
  acl_transport_by_handle : Nat → Option Nat

/-- The state a function of the security manager runs in: the control block and the
calls made to the outside so far. -/
structure World where
  cb : tBTM_CB
  out : List Event
deriving DecidableEq, Repr

/-- Record a call to the outside. -/
def World.emit (w : World) (e : Event) : World := { w with out := w.out ++ [e] }

/-- The record all of whose bytes are zero. -/
def tBTM_SEC_DEV_REC.zero : tBTM_SEC_DEV_REC where
  bd_addr := List.replicate 6 0
  dev_class := List.replicate 3 0
  sec_bd_name := []
  sec_flags := 0
  trusted_mask := []
  hci_handle := 0
  ble_hci_handle := 0
  sec_state := SecState.IDLE
  is_originator := false
  is_ucd := false
  security_required := 0
  p_cur_service := none
  p_callback := none
  p_ref_data := 0
  sm4 := 0
  link_key_type := 0
  rmt_io_caps := 0
  pin_key_len := 0
  last_author_service_id := 0
  sec_conn_supported := false
  rs_disc_pending := 0
  enc_key_size := 0
  ble_key_type := 0
  rmt_auth_req := 0
  timestamp := 0
  device_type := 0
  link_key_not_sent := false
  link_key_changed := false

/-- The device record `*p_dev_rec`, for a pointer into `sec_dev_rec`. -/
def World.dev (w : World) (p_dev_rec : Nat) : tBTM_SEC_DEV_REC :=
  w.cb.sec_dev_rec.getD p_dev_rec tBTM_SEC_DEV_REC.zero

/-- Assignment to fields of `*p_dev_rec`. -/
def World.setDev (w : World) (p_dev_rec : Nat)
    (f : tBTM_SEC_DEV_REC → tBTM_SEC_DEV_REC) : World :=
  { w with cb := { w.cb with
      sec_dev_rec := w.cb.sec_dev_rec.set p_dev_rec (f (w.dev p_dev_rec)) } }

/-! ## Security procedure executor -/

/-- The service record `*p`, for a pointer into `sec_serv_rec`. -/
def World.serv (K : Hdr) (w : World) (p : Nat) : tBTM_SEC_SERV_REC :=
  w.cb.sec_serv_rec.getD p (tBTM_SEC_SERV_REC.zero K)

/-- Reading through the pointer `p_dev_rec->p_cur_service`, which may be `NULL`. -/
def World.derefService (K : Hdr) (w : World) (p : Option Nat) : tBTM_SEC_SERV_REC × World :=
  match p with
  | some s => (w.serv K s, w)
  | none => (tBTM_SEC_SERV_REC.zero K, w.emit Event.null_dereference)

/-- `btm_dev_authenticated` (lines 120-127). -/
def btm_dev_authenticated (K : Hdr) (r : tBTM_SEC_DEV_REC) : Bool :=
  tst r.sec_flags K.BTM_SEC_AUTHENTICATED

/-- `btm_dev_encrypted` (lines 138-145). -/
def btm_dev_encrypted (K : Hdr) (r : tBTM_SEC_DEV_REC) : Bool :=
  tst r.sec_flags K.BTM_SEC_ENCRYPTED

/-- `btm_dev_authorized` (lines 156-163). -/
def btm_dev_authorized (K : Hdr) (r : tBTM_SEC_DEV_REC) : Bool :=
  tst r.sec_flags K.BTM_SEC_AUTHORIZED

/-- `btm_serv_trusted` (lines 174-183). -/
def btm_serv_trusted (K : Hdr) (r : tBTM_SEC_DEV_REC) (s : tBTM_SEC_SERV_REC) : Bool :=
  decide (s.service_id ≤ K.BTM_SEC_MAX_SERVICES) &&
    K.BTM_SEC_IS_SERVICE_TRUSTED r.trusted_mask s.service_id

/-- `btm_sec_are_all_trusted` (lines 5705-5715). -/
def btm_sec_are_all_trusted (K : Hdr) (p_mask : List Nat) : Bool :=
  (List.range K.BTM_SEC_SERVICE_ARRAY_SIZE).all
    (fun trusted_inx => p_mask.getD trusted_inx 0 == K.BTM_SEC_TRUST_ALL)

/-- `btm_sec_start_get_name` (lines 5574-5590). -/
def btm_sec_start_get_name (E : Env) (w : World) (p_dev_rec : Nat) : Bool × World :=
  let tempstate := (w.dev p_dev_rec).sec_state
  let w := w.setDev p_dev_rec (fun r => { r with sec_state := SecState.GETTING_NAME })
  let bd_addr := (w.dev p_dev_rec).bd_addr
  let w := w.emit (Event.btm_initiate_rem_name bd_addr)
  if E.btm_initiate_rem_name bd_addr ≠ tBTM_STATUS.BTM_CMD_STARTED then
    (false, w.setDev p_dev_rec (fun r => { r with sec_state := tempstate }))
  else
    (true, w)

/-- `btm_sec_start_authentication` (lines 5601-5606). -/
def btm_sec_start_authentication (E : Env) (w : World) (p_dev_rec : Nat) : Bool × World :=
  let w := w.setDev p_dev_rec (fun r => { r with sec_state := SecState.AUTHENTICATING })
  let handle := (w.dev p_dev_rec).hci_handle
  (E.btsnd_hcic_auth_request handle, w.emit (Event.btsnd_hcic_auth_request handle))

/-- `btm_sec_start_encryption` (lines 5617-5624). -/
def btm_sec_start_encryption (E : Env) (w : World) (p_dev_rec : Nat) : Bool × World :=
  let handle := (w.dev p_dev_rec).hci_handle
  let w := w.emit (Event.btsnd_hcic_set_conn_encrypt handle true)
  if !E.btsnd_hcic_set_conn_encrypt handle true then
    (false, w)
  else
    (true, w.setDev p_dev_rec (fun r => { r with sec_state := SecState.ENCRYPTING }))

/-- `btm_sec_start_authorization` (lines 5636-5694). -/
def btm_sec_start_authorization (K : Hdr) (E : Env) (w : World) (p_dev_rec : Nat) :
    tBTM_STATUS × World :=
  let r := w.dev p_dev_rec
  if tst r.sec_flags K.BTM_SEC_NAME_KNOWN || r.hci_handle == K.BTM_SEC_INVALID_HANDLE then
    if !w.cb.api.p_authorize_callback then
      (tBTM_STATUS.BTM_MODE_UNSUPPORTED, w)
    else
      let service_id :=
        match r.p_cur_service with
        | some s => (w.serv K s).service_id
        | none => 0
      /- Send authorization request if not already sent during this service connection -/
      if r.last_author_service_id == K.BTM_SEC_NO_LAST_SERVICE_ID
          || r.last_author_service_id != service_id then
        let w := w.setDev p_dev_rec (fun r => { r with sec_state := SecState.AUTHORIZING })
        let w := w.emit (Event.p_authorize_callback r.bd_addr service_id r.is_originator)
        let result := E.p_authorize_callback r.bd_addr service_id r.is_originator
        if result == tBTM_STATUS.BTM_SUCCESS then
          let w := w.setDev p_dev_rec (fun r =>
            { r with
              sec_flags := u16 (r.sec_flags ||| K.BTM_SEC_AUTHORIZED),
              last_author_service_id :=
                if !r.is_originator then service_id else r.last_author_service_id,
              sec_state := SecState.IDLE })
          (result, w)
        else
          (result, w)
      else
        /- Already authorized once for this L2CAP bringup -/
        (tBTM_STATUS.BTM_SUCCESS, w)
  else
    let (_, w) := btm_sec_start_get_name E w p_dev_rec
    (tBTM_STATUS.BTM_CMD_STARTED, w)

/-- The mask cleared from `security_required` when every requirement is met (lines
5552-5556). -/
def satisfiedMask (K : Hdr) : Nat :=
  K.BTM_SEC_OUT_AUTHORIZE ||| K.BTM_SEC_IN_AUTHORIZE |||
    K.BTM_SEC_OUT_AUTHENTICATE ||| K.BTM_SEC_IN_AUTHENTICATE |||
    K.BTM_SEC_OUT_ENCRYPT ||| K.BTM_SEC_IN_ENCRYPT |||
    K.BTM_SEC_FORCE_MASTER ||| K.BTM_SEC_ATTEMPT_MASTER |||
    K.BTM_SEC_FORCE_SLAVE ||| K.BTM_SEC_ATTEMPT_SLAVE

/-- The tail of `btm_sec_execute_procedure` (lines 5532-5561): authorization, then
success. -/
def executeAuthorize (K : Hdr) (E : Env) (w : World) (p_dev_rec : Nat) :
    tBTM_STATUS × World :=
  let r := w.dev p_dev_rec
  let granted : tBTM_STATUS × World :=
    (tBTM_STATUS.BTM_SUCCESS,
      w.setDev p_dev_rec (fun r =>
        { r with security_required := andNot16 r.security_required (satisfiedMask K) }))
  if !tst r.sec_flags K.BTM_SEC_AUTHORIZED
      && ((r.is_originator && tst r.security_required K.BTM_SEC_OUT_AUTHORIZE)
          || (!r.is_originator && tst r.security_required K.BTM_SEC_IN_AUTHORIZE)) then
    if btm_sec_are_all_trusted K r.trusted_mask == false then
      let (s, w1) := w.derefService K r.p_cur_service
      if decide (s.service_id < K.BTM_SEC_MAX_SERVICES)
          && (K.BTM_SEC_IS_SERVICE_TRUSTED r.trusted_mask s.service_id == false) then
        btm_sec_start_authorization K E w1 p_dev_rec
      else
        (tBTM_STATUS.BTM_SUCCESS,
          w1.setDev p_dev_rec (fun r =>
            { r with security_required := andNot16 r.security_required (satisfiedMask K) }))
    else granted
  else granted

/-- The checks of `btm_sec_execute_procedure` compiled in with
`BTM_SECURE_CONN_HOST_INCLUDED` (lines 5474-5507): `true` when one of them fails the
request with `BTM_FAILED_ON_SECURITY`. -/
def secureConnFails (K : Hdr) (w : World) (r : tBTM_SEC_DEV_REC) : Bool :=
  K.BTM_SECURE_CONN_HOST_INCLUDED &&
    ((w.cb.btm_sec_conn_only_mode && tst r.sec_flags K.BTM_SEC_AUTHENTICATED &&
        (!r.sec_conn_supported || !w.cb.btm_sec_conn_supported ||
          (tst r.security_required
              (K.BTM_SEC_OUT_AUTHENTICATE ||| K.BTM_SEC_IN_AUTHENTICATE) &&
            r.link_key_type != K.HCI_LKEY_TYPE_AUTH_COMB_P256)))
     || (tst r.security_required K.BTM_SEC_SECURE_CONN &&
          tst r.sec_flags K.BTM_SEC_AUTHENTICATED &&
          r.link_key_type != K.HCI_LKEY_TYPE_AUTH_COMB_P256))

/-- `btm_sec_execute_procedure` (lines 5409-5562). -/
def btm_sec_execute_procedure (K : Hdr) (E : Env) (w : World) (p_dev_rec : Nat) :
    tBTM_STATUS × World :=
  let r := w.dev p_dev_rec
  /- There is a chance that we are getting name.  Wait until done. -/
  if r.sec_state ≠ SecState.IDLE then
    (tBTM_STATUS.BTM_CMD_STARTED, w)
  /- If any security is required, get the name first -/
  else if !tst r.sec_flags K.BTM_SEC_NAME_KNOWN
      && r.hci_handle != K.BTM_SEC_INVALID_HANDLE then
    let (started, w) := btm_sec_start_get_name E w p_dev_rec
    if !started then (tBTM_STATUS.BTM_NO_RESOURCES, w)
    else (tBTM_STATUS.BTM_CMD_STARTED, w)
  /- high authentication is required for legacy devices -/
  else if K.BTM_SEC_IS_SM4_LEGACY r.sm4
      && (!r.is_originator && tst r.security_required K.BTM_SEC_IN_AUTH_HIGH)
      && (!tst r.sec_flags K.BTM_SEC_AUTHENTICATED
          || (tst r.sec_flags K.BTM_SEC_AUTHENTICATED && decide (r.pin_key_len < 16)))
      && r.hci_handle != K.BTM_SEC_INVALID_HANDLE then
    if K.L2CAP_UCD_INCLUDED && !r.is_originator && r.is_ucd then
      (tBTM_STATUS.BTM_FAILED_ON_SECURITY, w)
    else
      let (started, w) := btm_sec_start_authentication E w p_dev_rec
      if !started then (tBTM_STATUS.BTM_NO_RESOURCES, w)
      else (tBTM_STATUS.BTM_CMD_STARTED, w)
  /- If connection is not authenticated and authentication is required -/
  else if !tst r.sec_flags K.BTM_SEC_AUTHENTICATED
      && ((r.is_originator && tst r.security_required K.BTM_SEC_OUT_AUTHENTICATE)
          || (!r.is_originator && tst r.security_required K.BTM_SEC_IN_AUTHENTICATE))
      && r.hci_handle != K.BTM_SEC_INVALID_HANDLE then
    if K.L2CAP_UCD_INCLUDED && !r.is_originator && r.is_ucd then
      (tBTM_STATUS.BTM_FAILED_ON_SECURITY, w)
    else
      let (started, w) := btm_sec_start_authentication E w p_dev_rec
      if !started then (tBTM_STATUS.BTM_NO_RESOURCES, w)
      else (tBTM_STATUS.BTM_CMD_STARTED, w)
  else if secureConnFails K w r then
    (tBTM_STATUS.BTM_FAILED_ON_SECURITY, w)
  /- If connection is not encrypted and encryption is required -/
  else if !tst r.sec_flags K.BTM_SEC_ENCRYPTED
      && ((r.is_originator && tst r.security_required K.BTM_SEC_OUT_ENCRYPT)
          || (!r.is_originator && tst r.security_required K.BTM_SEC_IN_ENCRYPT))
      && r.hci_handle != K.BTM_SEC_INVALID_HANDLE then
    if K.L2CAP_UCD_INCLUDED && !r.is_originator && r.is_ucd then
      (tBTM_STATUS.BTM_FAILED_ON_SECURITY, w)
    else
      let (started, w) := btm_sec_start_encryption E w p_dev_rec
      if !started then (tBTM_STATUS.BTM_NO_RESOURCES, w)
      else (tBTM_STATUS.BTM_CMD_STARTED, w)
  else
    executeAuthorize K E w p_dev_rec

/-! ## Concrete inputs -/

/-- An application that has registered every callback. -/
def exampleApi : tBTM_APPL_INFO :=
  { p_authorize_callback := true, p_pin_callback := true, p_auth_complete_callback := true,
    p_bond_cancel_cmpl_callback := true, p_sp_callback := true, p_abort_callback := true,
    p_link_key_callback := true }

/-- A known, connected device (handle 1) in the idle state, with its name already
resolved and nothing owed. -/
def exampleDev : tBTM_SEC_DEV_REC :=
  { tBTM_SEC_DEV_REC.zero with
    bd_addr := [0x00, 0x1A, 0x7D, 0xDA, 0x71, 0x13],
    sec_flags := 0x88, hci_handle := 1, ble_hci_handle := 0xFFFF,
    trusted_mask := [0, 0, 0] }

/-- A control block in service-level security mode (2) holding one device and one
registered service, with no pairing going on. -/
def exampleCb : tBTM_CB :=
  { sec_serv_rec := [exampleServRec, tBTM_SEC_SERV_REC.zero stdHdr],
    p_out_serv := none,
    security_mode := 2,
    sec_dev_rec := [exampleDev],
    api := exampleApi,
    pairing_state := tBTM_PAIRING_STATE.BTM_PAIR_STATE_IDLE,
    pairing_bda := [0xFF, 0xFF, 0xFF, 0xFF, 0xFF, 0xFF],
    pairing_flags := 0,
    pin_code := [],
    pin_code_len := 0,
    pin_code_len_saved := 0,
    sec_req_pending := false,
    sec_pending_q := [],
    security_mode_changed := false,
    pin_type_changed := false,
    cfg_pin_type := 0,
    acl_disc_reason := 0,
    collision_start_time := 0,
    max_collision_delay := 5000,
    p_collided_dev_rec := none,
    loc_io_caps := 1,
    local_lmp_features := [],
    btm_sec_conn_only_mode := false,
    btm_sec_conn_supported := false,
    discing := false,
    pairing_disabled := false,
    connecting_bda := [0, 0, 0, 0, 0, 0],
    connecting_dc := [0, 0, 0],
    loc_auth_req := 0,
    dev_rec_count := 0,
    btm_def_link_policy := 0 }

/-- The world holding `exampleCb` before any call to the outside. -/
def exampleWorld : World := { cb := exampleCb, out := [] }

/-- An outside world in which every command can be sent and every request is
granted. -/
def exampleEnv : Env :=
  { btsnd_hcic_auth_request := fun _ => true,
    btsnd_hcic_set_conn_encrypt := fun _ _ => true,
    btsnd_hcic_disconnect := fun _ _ => true,
    btm_initiate_rem_name := fun _ => tBTM_STATUS.BTM_CMD_STARTED,
    p_authorize_callback := fun _ _ _ => tBTM_STATUS.BTM_SUCCESS,
    sp_upgrade := fun _ => true,
    btm_bda_to_acl := fun _ _ => some { hci_handle := 1, link_role := 0 },
    GKI_getbuf := true,
    btm_ble_set_encryption := fun _ => tBTM_STATUS.BTM_CMD_STARTED,
    BTM_DeleteStoredLinkKey := fun _ => tBTM_STATUS.BTM_SUCCESS,
    SMP_Pair := fun _ => true,
    l2cu_find_lcb_by_bd_addr := fun _ => none,
    l2cu_allocate_lcb := fun _ => true,
    l2cu_create_conn := fun _ => true,
    GKI_get_tick_count := 1000,
    btm_sec_alloc_dev := fun cb _ => (none, cb),
    p_sp_callback_io_req := fun evt_data => (tBTM_STATUS.BTM_SUCCESS, evt_data),
    acl_transport_by_handle := fun _ => some 1 }

/-- An outside world in which no HCI command buffer is available: every command
fails to be sent. -/
def exampleEnvNoBuffers : Env :=
  { exampleEnv with
    btsnd_hcic_auth_request := fun _ => false,
    btsnd_hcic_set_conn_encrypt := fun _ _ => false,
    btsnd_hcic_disconnect := fun _ _ => false,
    btm_initiate_rem_name := fun _ => tBTM_STATUS.BTM_NO_RESOURCES }

/-- The example world with the device's name not yet known (flags 0x80) and nothing
owed. -/
def exampleWorldNameUnknown : World :=
  exampleWorld.setDev 0 (fun r => { r with sec_flags := 0x80 })

/-- The example world with the device acting as originator and owing
authentication (0x10). -/
def exampleWorldOwesAuth : World :=
  exampleWorld.setDev 0 (fun r => { r with is_originator := true, security_required := 0x10 })

/-! ## Lookups in the two tables -/

/-- Modelled from the spec: `btm_find_dev` of `btm_dev.c` (find-by-address), the first
record in use whose address is `bd_addr`. -/
def btm_find_dev (K : Hdr) (cb : tBTM_CB) (bd_addr : BD_ADDR) : Option Nat :=
  cb.sec_dev_rec.findIdx? (fun r => tst r.sec_flags K.BTM_SEC_IN_USE && r.bd_addr == bd_addr)

/-- Modelled from the spec: `btm_find_dev_by_handle` of `btm_dev.c` (find-by-handle),
the first record in use one of whose transport handles is `handle`. -/
def btm_find_dev_by_handle (K : Hdr) (cb : tBTM_CB) (handle : Nat) : Option Nat :=
  cb.sec_dev_rec.findIdx? (fun r => tst r.sec_flags K.BTM_SEC_IN_USE &&
    (r.hci_handle == handle || (K.BLE_INCLUDED && r.ble_hci_handle == handle)))

/-- Modelled from the spec: `btm_find_or_alloc_dev` of `btm_dev.c` (find-or-allocate):
the record of the address if there is one, else a newly allocated one. -/
def btm_find_or_alloc_dev (K : Hdr) (E : Env) (w : World) (bd_addr : BD_ADDR) :
    Option Nat × World :=
  match btm_find_dev K w.cb bd_addr with
  | some p => (some p, w)
  | none =>
    let (p, cb) := E.btm_sec_alloc_dev w.cb bd_addr
    (p, { w with cb := cb })

/-- `btm_sec_find_dev_by_sec_state` (lines 5942-5954). -/
def btm_sec_find_dev_by_sec_state (K : Hdr) (cb : tBTM_CB) (state : SecState) : Option Nat :=
  cb.sec_dev_rec.findIdx? (fun r => tst r.sec_flags K.BTM_SEC_IN_USE && r.sec_state == state)

/-- `btm_sec_find_first_serv` (lines 5727-5757). -/
def btm_sec_find_first_serv (K : Hdr) (cb : tBTM_CB) (conn_type : CONNECTION_TYPE)
    (psm : Nat) : Option Nat :=
  let is_originator := conn_type.orig
  let out :=
    match cb.p_out_serv with
    | some o => if is_originator && (cb.sec_serv_rec.getD o (tBTM_SEC_SERV_REC.zero K)).psm == psm
        then some o else none
    | none => none
  match out with
  | some o => some o
  | none =>
    cb.sec_serv_rec.findIdx? (fun s => tst s.security_flags K.BTM_SEC_IN_USE && s.psm == psm)

/-- `btm_sec_find_next_serv` (lines 5770-5787); `p_cur` is a pointer into the
table. -/
def btm_sec_find_next_serv (K : Hdr) (cb : tBTM_CB) (p_cur : Nat) : Option Nat :=
  let cur := cb.sec_serv_rec.getD p_cur (tBTM_SEC_SERV_REC.zero K)
  (List.range cb.sec_serv_rec.length).find? (fun i =>
    let s := cb.sec_serv_rec.getD i (tBTM_SEC_SERV_REC.zero K)
    tst s.security_flags K.BTM_SEC_IN_USE && s.psm == cur.psm && p_cur != i)

/-- `btm_sec_find_mx_serv` (lines 5800-5830). -/
def btm_sec_find_mx_serv (K : Hdr) (cb : tBTM_CB) (is_originator : Bool)
    (psm mx_proto_id mx_chan_id : Nat) : Option Nat :=
  let out :=
    match cb.p_out_serv with
    | some o =>
      let s := cb.sec_serv_rec.getD o (tBTM_SEC_SERV_REC.zero K)
      if is_originator && s.psm == psm && s.mx_proto_id == mx_proto_id
          && s.orig_mx_chan_id == mx_chan_id then some o else none
    | none => none
  match out with
  | some o => some o
  | none =>
    cb.sec_serv_rec.findIdx? (fun s =>
      tst s.security_flags K.BTM_SEC_IN_USE && s.psm == psm && s.mx_proto_id == mx_proto_id
        && ((is_originator && s.orig_mx_chan_id == mx_chan_id)
            || (!is_originator && s.term_mx_chan_id == mx_chan_id)))

/-! ## Access requests -/

/-- The table `btm_sec_io_map` (lines 98-105): `TRUE` when an authenticated link key
is possible. Rows and columns are indexed by IO capability: OUT, IO, IN, NONE. -/
def btm_sec_io_map : List (List Bool) :=
  [ [false, false, true,  false],
    [false, true,  true,  false],
    [true,  true,  true,  false],
    [false, false, false, false] ]

/-- `btm_sec_is_upgrade_possible` (lines 2138-2177). -/
def btm_sec_is_upgrade_possible (K : Hdr) (w : World) (p_dev_rec : Nat)
    (is_originator : Bool) : Bool :=
  let r := w.dev p_dev_rec
  let mtm_check := if is_originator then K.BTM_SEC_OUT_MITM else K.BTM_SEC_IN_MITM
  if tst r.sec_flags K.BTM_SEC_LINK_KEY_KNOWN then
    if tst r.security_required mtm_check
        && (r.link_key_type == K.BTM_LKEY_TYPE_UNAUTH_COMB
            || (K.BTM_SECURE_CONN_HOST_INCLUDED
                && r.link_key_type == K.HCI_LKEY_TYPE_UNAUTH_COMB_P256))
        && decide (r.rmt_io_caps < K.BTM_IO_CAP_MAX)
        && ((btm_sec_io_map.getD r.rmt_io_caps []).getD w.cb.loc_io_caps false) then
      true
    else false
  else true

/-- `btm_sec_check_upgrade` (lines 2189-2221). -/
def btm_sec_check_upgrade (K : Hdr) (E : Env) (w : World) (p_dev_rec : Nat)
    (is_originator : Bool) : World :=
  let r := w.dev p_dev_rec
  /- Only check if link key already exists -/
  if !tst r.sec_flags K.BTM_SEC_LINK_KEY_KNOWN then w
  else if btm_sec_is_upgrade_possible K w p_dev_rec is_originator == true then
    let w := if w.cb.api.p_sp_callback then w.emit (Event.p_sp_callback_upgrade r.bd_addr) else w
    let upgrade := if w.cb.api.p_sp_callback then E.sp_upgrade r.bd_addr else true
    if upgrade then
      w.setDev p_dev_rec (fun r =>
        { r with
          sm4 := u8 (r.sm4 ||| K.BTM_SM4_UPGRADE),
          sec_flags := andNot16
            (andNot16 r.sec_flags (K.BTM_SEC_LINK_KEY_KNOWN ||| K.BTM_SEC_LINK_KEY_AUTHED))
            K.BTM_SEC_AUTHENTICATED })
    else w
  else w

/-- `BTM_SEC_OUT_FLAGS` (line 2241). -/
def BTM_SEC_OUT_FLAGS (K : Hdr) : Nat :=
  K.BTM_SEC_OUT_AUTHENTICATE ||| K.BTM_SEC_OUT_ENCRYPT ||| K.BTM_SEC_OUT_AUTHORIZE

/-- `BTM_SEC_IN_FLAGS` (line 2242). -/
def BTM_SEC_IN_FLAGS (K : Hdr) : Nat :=
  K.BTM_SEC_IN_AUTHENTICATE ||| K.BTM_SEC_IN_ENCRYPT ||| K.BTM_SEC_IN_AUTHORIZE

/-- `btm_sec_queue_mx_request` (lines 6104-6132). -/
def btm_sec_queue_mx_request (E : Env) (w : World) (bd_addr : BD_ADDR) (psm : Nat)
    (is_orig : Bool) (mx_proto_id mx_chan_id : Nat) (p_callback : Option Nat)
    (p_ref_data : Nat) : Bool × World :=
  if E.GKI_getbuf then
    (true, { w with cb := { w.cb with
      sec_pending_q := w.cb.sec_pending_q ++
        [{ bd_addr, psm, is_orig, p_callback, p_ref_data, mx_proto_id, mx_chan_id }] } })
  else (false, w)

/-- The call `(*p_callback) (bd_addr, transport, p_ref_data, result)` through a
pointer that may be null. -/
def World.callback (w : World) (p_callback : Option Nat) (bd_addr : BD_ADDR)
    (transport : Nat) (p_ref_data : Nat) (result : tBTM_STATUS) : World :=
  match p_callback with
  | some c => w.emit (Event.sec_callback c bd_addr transport p_ref_data result)
  | none => w.emit Event.null_dereference

/-- The call guarded by `if (p_callback)`. -/
def World.callbackIf (w : World) (p_callback : Option Nat) (bd_addr : BD_ADDR)
    (transport : Nat) (p_ref_data : Nat) (result : tBTM_STATUS) : World :=
  match p_callback with
  | some c => w.emit (Event.sec_callback c bd_addr transport p_ref_data result)
  | none => w

/-- Following the pointer returned by `btm_find_or_alloc_dev` without testing it: a
null pointer is a fault, after which the model works on a record outside the
table. -/
def World.derefDev (w : World) (p : Option Nat) : Nat × World :=
  match p with
  | some i => (i, w)
  | none => (w.cb.sec_dev_rec.length, w.emit Event.null_dereference)

/-- The test of `btm_sec_mx_access_request` (lines 2608-2637) that lets a request
through although the device is busy: the legacy decision table on the flags the
device already has. -/
def mxLegacyGranted (K : Hdr) (w : World) (p_dev_rec p_serv_rec : Nat)
    (is_originator : Bool) : Bool :=
  let r := w.dev p_dev_rec
  let s := w.serv K p_serv_rec
  let security_required := s.security_flags
  if w.cb.security_mode != K.BTM_SEC_MODE_SP
      || (w.cb.security_mode == K.BTM_SEC_MODE_SP && K.BTM_SM4_KNOWN == r.sm4)
      || (K.BTM_SEC_IS_SM4 r.sm4
          && btm_sec_is_upgrade_possible K w p_dev_rec is_originator == false) then
    if is_originator then
      (security_required &&& BTM_SEC_OUT_FLAGS K) == 0
      || ((security_required &&& BTM_SEC_OUT_FLAGS K) == K.BTM_SEC_OUT_AUTHENTICATE
          && btm_dev_authenticated K r)
      || ((security_required &&& BTM_SEC_OUT_FLAGS K)
            == (K.BTM_SEC_OUT_AUTHENTICATE ||| K.BTM_SEC_OUT_ENCRYPT)
          && btm_dev_encrypted K r)
    else
      (security_required &&& BTM_SEC_IN_FLAGS K) == 0
      || ((security_required &&& BTM_SEC_IN_FLAGS K) == K.BTM_SEC_IN_AUTHENTICATE
          && btm_dev_authenticated K r)
      || ((security_required &&& BTM_SEC_IN_FLAGS K) == K.BTM_SEC_IN_AUTHORIZE
          && (btm_dev_authorized K r || btm_serv_trusted K r s))
      || ((security_required &&& BTM_SEC_IN_FLAGS K)
            == (K.BTM_SEC_IN_AUTHORIZE ||| K.BTM_SEC_IN_AUTHENTICATE)
          && ((btm_dev_authorized K r || btm_serv_trusted K r s)
              && btm_dev_authenticated K r))
      || ((security_required &&& BTM_SEC_IN_FLAGS K)
            == (K.BTM_SEC_IN_AUTHORIZE ||| K.BTM_SEC_IN_ENCRYPT)
          && ((btm_dev_authorized K r || btm_serv_trusted K r s)
              && btm_dev_encrypted K r))
      || ((security_required &&& BTM_SEC_IN_FLAGS K)
            == (K.BTM_SEC_IN_AUTHENTICATE ||| K.BTM_SEC_IN_ENCRYPT)
          && btm_dev_encrypted K r)
  else false

/-- The part of `btm_sec_mx_access_request` after the busy test (lines 2646-2681):
the request takes over the device record and the executor is run. -/
def mxProceed (K : Hdr) (E : Env) (w : World) (p_dev_rec p_serv_rec : Nat)
    (bd_addr : BD_ADDR) (is_originator : Bool) (p_callback : Option Nat)
    (p_ref_data : Nat) : tBTM_STATUS × World :=
  let transport := 0
  let w := w.setDev p_dev_rec (fun r =>
    { r with p_cur_service := some p_serv_rec,
             security_required := (w.serv K p_serv_rec).security_flags })
  let w :=
    if K.BTM_SEC_MODE_SP == w.cb.security_mode then
      if K.BTM_SEC_IS_SM4 (w.dev p_dev_rec).sm4 then
        /- If we already have a link key, check if that link key is good enough -/
        btm_sec_check_upgrade K E w p_dev_rec is_originator
      else w
    else w
  let w := w.setDev p_dev_rec (fun r =>
    { r with is_originator := is_originator, p_callback := p_callback,
             p_ref_data := p_ref_data })
  /- authorization is per access request -/
  let w := w.setDev p_dev_rec (fun r =>
    { r with sec_flags := andNot16 r.sec_flags K.BTM_SEC_AUTHORIZED })
  let (rc, w) := btm_sec_execute_procedure K E w p_dev_rec
  if rc ≠ tBTM_STATUS.BTM_CMD_STARTED then
    match p_callback with
    | some c =>
      let w := w.setDev p_dev_rec (fun r => { r with p_callback := none })
      (rc, w.emit (Event.sec_callback c bd_addr transport p_ref_data rc))
    | none => (rc, w)
  else (rc, w)

/-- `btm_sec_mx_access_request` (lines 2570-2682). -/
def btm_sec_mx_access_request (K : Hdr) (E : Env) (w : World) (bd_addr : BD_ADDR)
    (psm : Nat) (is_originator : Bool) (mx_proto_id mx_chan_id : Nat)
    (p_callback : Option Nat) (p_ref_data : Nat) : tBTM_STATUS × World :=
  let transport := 0
  /- Find or get oldest record -/
  let (p, w) := btm_find_or_alloc_dev K E w bd_addr
  /- Find the service record for the PSM -/
  match btm_sec_find_mx_serv K w.cb is_originator psm mx_proto_id mx_chan_id with
  | none =>
    /- If there is no application registered with this PSM do not allow connection -/
    (tBTM_STATUS.BTM_NO_RESOURCES,
      w.callbackIf p_callback bd_addr transport p_ref_data tBTM_STATUS.BTM_MODE_UNSUPPORTED)
  | some p_serv_rec =>
    let (p_dev_rec, w) := w.derefDev p
    /- we will process one after another -/
    if (w.dev p_dev_rec).p_callback.isSome
        || w.cb.pairing_state != tBTM_PAIRING_STATE.BTM_PAIR_STATE_IDLE then
      if mxLegacyGranted K w p_dev_rec p_serv_rec is_originator then
        mxProceed K E w p_dev_rec p_serv_rec bd_addr is_originator p_callback p_ref_data
      else
        let (_, w) := btm_sec_queue_mx_request E w bd_addr psm is_originator mx_proto_id
          mx_chan_id p_callback p_ref_data
        (tBTM_STATUS.BTM_CMD_STARTED, w)
    else
      mxProceed K E w p_dev_rec p_serv_rec bd_addr is_originator p_callback p_ref_data

/-- `btm_sec_check_pending_reqs` (lines 2859-2894). -/
def btm_sec_check_pending_reqs (K : Hdr) (E : Env) (w : World) : World :=
  if w.cb.pairing_state == tBTM_PAIRING_STATE.BTM_PAIR_STATE_IDLE then
    /- First, resubmit L2CAP requests -/
    let w :=
      if w.cb.sec_req_pending then
        { w with cb := { w.cb with sec_req_pending := false } }.emit
          Event.l2cu_resubmit_pending_sec_req
      else w
    /- Now, re-submit anything in the mux queue -/
    let bq := w.cb.sec_pending_q
    let w := { w with cb := { w.cb with sec_pending_q := [] } }
    bq.foldl (fun w p_e =>
      /- Check that the ACL is still up before starting security procedures -/
      if (E.btm_bda_to_acl p_e.bd_addr K.BT_TRANSPORT_BR_EDR).isSome then
        (btm_sec_mx_access_request K E w p_e.bd_addr p_e.psm p_e.is_orig p_e.mx_proto_id
          p_e.mx_chan_id p_e.p_callback p_e.p_ref_data).2
      else w) w
  else w

/-- The `if (p_dev_rec->p_callback)` block of `btm_sec_dev_rec_cback_event` (lines
6084-6093): the slot is emptied, then the callback that was in it is called. -/
def devRecCallback (K : Hdr) (w : World) (p_dev_rec : Nat) (res : tBTM_STATUS)
    (is_le_transport : Bool) : World :=
  let p_callback := (w.dev p_dev_rec).p_callback
  let transport := if is_le_transport then K.BT_TRANSPORT_LE else K.BT_TRANSPORT_BR_EDR
  match p_callback with
  | some c =>
    let w := w.setDev p_dev_rec (fun r => { r with p_callback := none })
    w.emit (Event.sec_callback c (w.dev p_dev_rec).bd_addr transport
      (w.dev p_dev_rec).p_ref_data res)
  | none => w

/-- `btm_sec_dev_rec_cback_event` (lines 6082-6095). -/
def btm_sec_dev_rec_cback_event (K : Hdr) (E : Env) (w : World) (p_dev_rec : Nat)
    (res : tBTM_STATUS) (is_le_transport : Bool) : World :=
  btm_sec_check_pending_reqs K E (devRecCallback K w p_dev_rec res is_le_transport)

/-- The example world with an access request in flight on the device: it is being
authorized, callback 7 with reference data 42 is stored. -/
def exampleWorldPending : World :=
  exampleWorld.setDev 0 (fun r =>
    { r with sec_state := SecState.AUTHORIZING, p_callback := some 7, p_ref_data := 42,
             p_cur_service := some 0, security_required := 0x1087 })

/-- The decision of `btm_sec_l2cap_access_req` for a connectionless (UCD) request
(lines 2303-2322): `true` when the flags the device already has satisfy the UCD
policy. -/
def l2capUcdGranted (K : Hdr) (r : tBTM_SEC_DEV_REC) (security_required : Nat)
    (is_originator : Bool) : Bool :=
  if is_originator then
    (security_required &&& BTM_SEC_OUT_FLAGS K) == 0
    || ((security_required &&& BTM_SEC_OUT_FLAGS K) == K.BTM_SEC_OUT_AUTHENTICATE
        && tst r.sec_flags K.BTM_SEC_AUTHENTICATED)
    || ((security_required &&& BTM_SEC_OUT_FLAGS K)
          == (K.BTM_SEC_OUT_AUTHENTICATE ||| K.BTM_SEC_OUT_ENCRYPT)
        && tst r.sec_flags K.BTM_SEC_ENCRYPTED)
    || ((security_required &&& BTM_SEC_OUT_FLAGS K) == BTM_SEC_OUT_FLAGS K
        && tst r.sec_flags K.BTM_SEC_AUTHORIZED)
  else
    (security_required &&& BTM_SEC_IN_FLAGS K) == 0
    || ((security_required &&& BTM_SEC_IN_FLAGS K) == K.BTM_SEC_IN_AUTHENTICATE
        && tst r.sec_flags K.BTM_SEC_AUTHENTICATED)
    || ((security_required &&& BTM_SEC_IN_FLAGS K)
          == (K.BTM_SEC_IN_AUTHENTICATE ||| K.BTM_SEC_IN_ENCRYPT)
        && tst r.sec_flags K.BTM_SEC_ENCRYPTED)
    || ((security_required &&& BTM_SEC_IN_FLAGS K) == BTM_SEC_IN_FLAGS K
        && tst r.sec_flags K.BTM_SEC_AUTHORIZED)

/-- The test of `btm_sec_l2cap_access_req` (lines 2346-2375) that answers a request
at once although the device is busy: the legacy decision table on the flags the
device already has. -/
def l2capLegacyGranted (K : Hdr) (w : World) (p_dev_rec p_serv_rec : Nat)
    (security_required : Nat) (is_originator : Bool) : Bool :=
  let r := w.dev p_dev_rec
  let s := w.serv K p_serv_rec
  if w.cb.security_mode != K.BTM_SEC_MODE_SP
      || (w.cb.security_mode == K.BTM_SEC_MODE_SP && K.BTM_SM4_KNOWN == r.sm4)
      || (K.BTM_SEC_IS_SM4 r.sm4
          && btm_sec_is_upgrade_possible K w p_dev_rec is_originator == false) then
    if is_originator then
      (security_required &&& BTM_SEC_OUT_FLAGS K) == 0
      || ((security_required &&& BTM_SEC_OUT_FLAGS K) == K.BTM_SEC_OUT_AUTHENTICATE
          && btm_dev_authenticated K r)
      || ((security_required &&& BTM_SEC_OUT_FLAGS K)
            == (K.BTM_SEC_OUT_AUTHENTICATE ||| K.BTM_SEC_OUT_ENCRYPT)
          && btm_dev_encrypted K r)
      || ((security_required &&& BTM_SEC_OUT_FLAGS K) == BTM_SEC_OUT_FLAGS K
          && btm_dev_authorized K r && btm_dev_encrypted K r)
    else
      (security_required &&& BTM_SEC_IN_FLAGS K) == 0
      || ((security_required &&& BTM_SEC_IN_FLAGS K) == K.BTM_SEC_IN_AUTHENTICATE
          && btm_dev_authenticated K r)
      || ((security_required &&& BTM_SEC_IN_FLAGS K)
            == (K.BTM_SEC_IN_AUTHENTICATE ||| K.BTM_SEC_IN_ENCRYPT)
          && btm_dev_encrypted K r)
      || ((security_required &&& BTM_SEC_IN_FLAGS K) == K.BTM_SEC_IN_AUTHORIZE
          && (btm_dev_authorized K r || btm_serv_trusted K r s))
      || ((security_required &&& BTM_SEC_IN_FLAGS K)
            == (K.BTM_SEC_IN_AUTHENTICATE ||| K.BTM_SEC_IN_AUTHORIZE)
          && ((btm_dev_authorized K r || btm_serv_trusted K r s)
              && btm_dev_authenticated K r))
      || ((security_required &&& BTM_SEC_IN_FLAGS K)
            == (K.BTM_SEC_IN_ENCRYPT ||| K.BTM_SEC_IN_AUTHORIZE)
          && ((btm_dev_authorized K r || btm_serv_trusted K r s)
              && btm_dev_encrypted K r))
      || ((security_required &&& BTM_SEC_IN_FLAGS K) == BTM_SEC_IN_FLAGS K
          && btm_dev_encrypted K r
          && (btm_dev_authorized K r || btm_serv_trusted K r s))
  else false

/-- The end of `btm_sec_l2cap_access_req` (lines 2443-2544), entered with the
adjusted `security_required` and `chk_acp_auth_done`: the request takes over the
device record and, unless the decision is left to a layer above, the executor is
run. -/
def l2capInstall (K : Hdr) (E : Env) (w : World) (p_dev_rec p_serv_rec : Nat)
    (bd_addr : BD_ADDR) (psm : Nat) (is_originator connless : Bool)
    (security_required : Nat) (chk_acp_auth_done : Bool)
    (p_callback : Option Nat) (p_ref_data : Nat) : tBTM_STATUS × World :=
  let transport := 0
  let old_security_required := (w.dev p_dev_rec).security_required
  let old_is_originator := (w.dev p_dev_rec).is_originator
  let w := w.setDev p_dev_rec (fun r =>
    { r with security_required := security_required, p_ref_data := p_ref_data,
             is_originator := is_originator,
             is_ucd := if K.L2CAP_UCD_INCLUDED then connless else r.is_ucd })
  /- If there are multiple service records used through the same PSM
     leave security decision for the multiplexor on the top -/
  if (btm_sec_find_next_serv K w.cb p_serv_rec).isSome && !connless
      && !K.BTM_SEC_IS_SM4 (w.dev p_dev_rec).sm4 then
    /- pre-Lisbon: restore the old settings -/
    let w := w.setDev p_dev_rec (fun r =>
      { r with security_required := old_security_required,
               is_originator := old_is_originator })
    (tBTM_STATUS.BTM_SUCCESS,
      w.callback p_callback bd_addr transport p_ref_data tBTM_STATUS.BTM_SUCCESS)
  /- the originator is using dynamic PSM in legacy mode -/
  else if is_originator
      && (w.cb.security_mode != K.BTM_SEC_MODE_SP || !K.BTM_SEC_IS_SM4 (w.dev p_dev_rec).sm4)
      && decide (psm ≥ 0x1001) then
    /- restore the old settings -/
    let w := w.setDev p_dev_rec (fun r =>
      { r with security_required := old_security_required,
               is_originator := old_is_originator })
    (tBTM_STATUS.BTM_SUCCESS,
      w.callback p_callback bd_addr transport p_ref_data tBTM_STATUS.BTM_SUCCESS)
  else if chk_acp_auth_done
      && (!tst (w.dev p_dev_rec).sec_flags K.BTM_SEC_AUTHENTICATED
          || !tst (w.dev p_dev_rec).sec_flags K.BTM_SEC_ENCRYPTED) then
    /- peer should have initiated security process by now (SM4 to SM4) -/
    let w := w.setDev p_dev_rec (fun r =>
      { r with p_callback := p_callback, sec_state := SecState.DELAY_FOR_ENC })
    (tBTM_STATUS.BTM_CMD_STARTED,
      w.callback p_callback bd_addr transport p_ref_data tBTM_STATUS.BTM_DELAY_CHECK)
  else
    let w := w.setDev p_dev_rec (fun r => { r with p_callback := p_callback })
    let (s, w) := w.derefService K (w.dev p_dev_rec).p_cur_service
    let w :=
      if (w.dev p_dev_rec).last_author_service_id == K.BTM_SEC_NO_LAST_SERVICE_ID
          || (w.dev p_dev_rec).last_author_service_id != s.service_id then
        /- authorization is per access request -/
        w.setDev p_dev_rec (fun r =>
          { r with sec_flags := andNot16 r.sec_flags K.BTM_SEC_AUTHORIZED })
      else w
    let w :=
      if K.BTM_SEC_IS_SM4 (w.dev p_dev_rec).sm4 then
        /- If we already have a link key to the connected peer, is it secure enough ? -/
        btm_sec_check_upgrade K E w p_dev_rec is_originator
      else w
    let (rc, w) := btm_sec_execute_procedure K E w p_dev_rec
    if rc ≠ tBTM_STATUS.BTM_CMD_STARTED then
      let w := w.setDev p_dev_rec (fun r => { r with p_callback := none })
      (rc, w.callback p_callback bd_addr transport (w.dev p_dev_rec).p_ref_data rc)
    else (rc, w)

/-- The part of `btm_sec_l2cap_access_req` entered when the device is not busy
(lines 2390-2441): the service becomes the current one and, in Secure Simple Pairing
mode, the requirement is adjusted to what is known of the peer. -/
def l2capProceed (K : Hdr) (E : Env) (w : World) (p_dev_rec p_serv_rec : Nat)
    (bd_addr : BD_ADDR) (psm : Nat) (is_originator connless : Bool)
    (security_required : Nat) (p_callback : Option Nat) (p_ref_data : Nat) :
    tBTM_STATUS × World :=
  /- Save pointer to service record -/
  let w := w.setDev p_dev_rec (fun r => { r with p_cur_service := some p_serv_rec })
  if w.cb.security_mode == K.BTM_SEC_MODE_SP then
    if K.BTM_SEC_IS_SM4 (w.dev p_dev_rec).sm4 then
      /- SM4 to SM4 -> always authenticate & encrypt; the acceptor needs to make sure
         the authentication is already done -/
      l2capInstall K E w p_dev_rec p_serv_rec bd_addr psm is_originator connless
        (if is_originator
          then u16 (security_required |||
                  (K.BTM_SEC_OUT_AUTHENTICATE ||| K.BTM_SEC_OUT_ENCRYPT))
          else u16 (security_required |||
                  (K.BTM_SEC_IN_AUTHENTICATE ||| K.BTM_SEC_IN_ENCRYPT)))
        (!is_originator) p_callback p_ref_data
    else if !tst K.BTM_SM4_KNOWN (w.dev p_dev_rec).sm4 then
      /- the remote features are not known yet -/
      (tBTM_STATUS.BTM_CMD_STARTED,
        w.setDev p_dev_rec (fun r => { r with sm4 := u8 (r.sm4 ||| K.BTM_SM4_REQ_PEND) }))
    else
      l2capInstall K E w p_dev_rec p_serv_rec bd_addr psm is_originator connless
        security_required false p_callback p_ref_data
  else
    l2capInstall K E w p_dev_rec p_serv_rec bd_addr psm is_originator connless
      security_required false p_callback p_ref_data

/-- `btm_sec_l2cap_access_req` (lines 2244-2545). -/
def btm_sec_l2cap_access_req (K : Hdr) (E : Env) (w : World) (bd_addr : BD_ADDR)
    (psm handle : Nat) (conn_type : CONNECTION_TYPE) (p_callback : Option Nat)
    (p_ref_data : Nat) : tBTM_STATUS × World :=
  let is_originator := conn_type.orig
  let connless := K.L2CAP_UCD_INCLUDED && conn_type.connless
  let transport := 0
  /- Find or get oldest record -/
  let (p, w) := btm_find_or_alloc_dev K E w bd_addr
  let (p_dev_rec, w) := w.derefDev p
  let w := w.setDev p_dev_rec (fun r => { r with hci_handle := handle })
  /- Find the service record for the PSM -/
  match btm_sec_find_first_serv K w.cb conn_type psm with
  | none =>
    /- If there is no application registered with this PSM do not allow connection -/
    (tBTM_STATUS.BTM_MODE_UNSUPPORTED,
      w.callback p_callback bd_addr transport p_ref_data tBTM_STATUS.BTM_MODE_UNSUPPORTED)
  | some p_serv_rec =>
    /- SDP connection we will always let through -/
    if K.BT_PSM_SDP == psm then
      (tBTM_STATUS.BTM_SUCCESS,
        w.callback p_callback bd_addr transport p_ref_data
          tBTM_STATUS.BTM_SUCCESS_NO_SECURITY)
    else
      let security_required :=
        if connless then (w.serv K p_serv_rec).ucd_security_flags
        else (w.serv K p_serv_rec).security_flags
      if connless && l2capUcdGranted K (w.dev p_dev_rec) security_required is_originator then
        (tBTM_STATUS.BTM_SUCCESS,
          w.callbackIf p_callback bd_addr transport p_ref_data tBTM_STATUS.BTM_SUCCESS)
      /- we will process one after another -/
      else if (w.dev p_dev_rec).p_callback.isSome
          || w.cb.pairing_state != tBTM_PAIRING_STATE.BTM_PAIR_STATE_IDLE then
        if l2capLegacyGranted K w p_dev_rec p_serv_rec security_required is_originator then
          (tBTM_STATUS.BTM_SUCCESS,
            w.callbackIf p_callback bd_addr transport p_ref_data tBTM_STATUS.BTM_SUCCESS)
        else
          (tBTM_STATUS.BTM_CMD_STARTED,
            { w with cb := { w.cb with sec_req_pending := true } })
      else
        l2capProceed K E w p_dev_rec p_serv_rec bd_addr psm is_originator connless
          security_required p_callback p_ref_data

/-- `BTM_SetEncryption` (lines 1571-1653). -/
def BTM_SetEncryption (K : Hdr) (E : Env) (w : World) (bd_addr : BD_ADDR) (transport : Nat)
    (p_callback : Option Nat) (p_ref_data : Nat) : tBTM_STATUS × World :=
  let p := if K.BLE_INCLUDED then E.btm_bda_to_acl bd_addr transport else none
  match btm_find_dev K w.cb bd_addr with
  | none =>
    (tBTM_STATUS.BTM_WRONG_MODE,
      w.callbackIf p_callback bd_addr transport p_ref_data tBTM_STATUS.BTM_WRONG_MODE)
  | some p_dev_rec =>
    let r := w.dev p_dev_rec
    if (transport == K.BT_TRANSPORT_BR_EDR && r.hci_handle == K.BTM_SEC_INVALID_HANDLE)
        || (K.BLE_INCLUDED && transport == K.BT_TRANSPORT_LE
            && r.ble_hci_handle == K.BTM_SEC_INVALID_HANDLE) then
      /- Connection should be up and runnning -/
      (tBTM_STATUS.BTM_WRONG_MODE,
        w.callbackIf p_callback bd_addr transport p_ref_data tBTM_STATUS.BTM_WRONG_MODE)
    else if (transport == K.BT_TRANSPORT_BR_EDR && tst r.sec_flags K.BTM_SEC_ENCRYPTED)
        || (K.BLE_INCLUDED && K.SMP_INCLUDED && transport == K.BT_TRANSPORT_LE
            && tst r.sec_flags K.BTM_SEC_LE_ENCRYPTED) then
      (tBTM_STATUS.BTM_SUCCESS,
        w.callbackIf p_callback bd_addr transport p_ref_data tBTM_STATUS.BTM_SUCCESS)
    else if r.p_callback.isSome then
      (tBTM_STATUS.BTM_BUSY,
        w.callbackIf p_callback bd_addr transport p_ref_data tBTM_STATUS.BTM_BUSY)
    else
      let w := w.setDev p_dev_rec (fun r =>
        { r with p_callback := p_callback, p_ref_data := p_ref_data,
                 security_required := u16 (r.security_required |||
                   (K.BTM_SEC_IN_AUTHENTICATE ||| K.BTM_SEC_IN_ENCRYPT)),
                 is_originator := false })
      let (rc, w) :=
        if K.BLE_INCLUDED && K.SMP_INCLUDED && p.isSome && transport == K.BT_TRANSPORT_LE then
          (E.btm_ble_set_encryption bd_addr, w.emit (Event.btm_ble_set_encryption bd_addr))
        else
          btm_sec_execute_procedure K E w p_dev_rec
      if rc ≠ tBTM_STATUS.BTM_CMD_STARTED && rc ≠ tBTM_STATUS.BTM_BUSY then
        match p_callback with
        | some c =>
          let w := w.setDev p_dev_rec (fun r => { r with p_callback := none })
          (rc, w.emit (Event.sec_callback c bd_addr transport (w.dev p_dev_rec).p_ref_data rc))
        | none => (rc, w)
      else (rc, w)

/-- A service on PSM 3 (multiplexer protocol 3, channel 5) that asks for no security
on the acceptor side. -/
def exampleOpenService : tBTM_SEC_SERV_REC :=
  { tBTM_SEC_SERV_REC.zero stdHdr with
    psm := 3, mx_proto_id := 3, term_mx_chan_id := 5, service_id := 9,
    security_flags := 0x80 }

/-- The world `exampleWorldPending` with `exampleOpenService` registered in the
second slot of the registry. -/
def exampleWorldPendingOpen : World :=
  { exampleWorldPending with
    cb := { exampleWorldPending.cb with
      sec_serv_rec := [exampleServRec, exampleOpenService] } }

/-! ## Pairing state machine -/

/-- The value `memset (btm_cb.pairing_bda, 0xFF, BD_ADDR_LEN)` leaves: no pairing
target. -/
def noPairingTarget : BD_ADDR := List.replicate BD_ADDR_LEN 0xFF

/-- `memcpy (dst, src, n)` on byte buffers: the first `n` bytes of `dst` become those
of `src`. -/
def memcpy (dst src : List Nat) (n : Nat) : List Nat :=
  (List.range n).map (fun i => src.getD i 0) ++ dst.drop n

/-- Modelled from the spec: `BTM_SEC_COPY_TRUSTED_DEVICE (p_src, p_dst)` of `btm_api.h`,
the copy of the words of a trusted-service mask. -/
def BTM_SEC_COPY_TRUSTED_DEVICE (K : Hdr) (p_src p_dst : List Nat) : List Nat :=
  memcpy p_dst p_src K.BTM_SEC_SERVICE_ARRAY_SIZE

/-- Assignment to fields of `btm_cb`. -/
def World.setCb (w : World) (f : tBTM_CB → tBTM_CB) : World := { w with cb := f w.cb }

/-- The call `btsnd_hcic_write_auth_enable (TRUE)` behind
`#ifdef APPL_AUTH_WRITE_EXCEPTION` (lines 1053-1056, 6148-6151). -/
def writeAuthEnable (K : Hdr) (w : World) (bd_addr : BD_ADDR) : World :=
  match K.APPL_AUTH_WRITE_EXCEPTION with
  | some exc => if !exc bd_addr then w.emit (Event.btsnd_hcic_write_auth_enable true) else w
  | none => w.emit (Event.btsnd_hcic_write_auth_enable true)

/-- `btm_restore_mode` (lines 5915-5929). -/
def btm_restore_mode (K : Hdr) (w : World) : World :=
  let w :=
    if w.cb.security_mode_changed then
      (w.setCb (fun cb => { cb with security_mode_changed := false })).emit
        (Event.btsnd_hcic_write_auth_enable (w.cb.security_mode == K.BTM_SEC_MODE_LINK))
    else w
  if w.cb.pin_type_changed then
    (w.setCb (fun cb => { cb with pin_type_changed := false })).emit
      (Event.btsnd_hcic_write_pin_type w.cb.cfg_pin_type)
  else w

/-- `btm_sec_change_pairing_state` (lines 5998-6033). -/
def btm_sec_change_pairing_state (K : Hdr) (E : Env) (w : World)
    (new_state : tBTM_PAIRING_STATE) : World :=
  let old_state := w.cb.pairing_state
  let w := w.setCb (fun cb => { cb with pairing_state := new_state })
  if new_state == tBTM_PAIRING_STATE.BTM_PAIR_STATE_IDLE then
    let w := w.emit (Event.btu_stop_timer Timer.pairing_tle)
    let w := w.setCb (fun cb => { cb with pairing_flags := 0, pin_code_len := 0 })
    /- Make sure the the lcb shows we are not bonding -/
    let w := w.emit (Event.l2cu_update_lcb_4_bonding w.cb.pairing_bda false)
    let w := btm_restore_mode K w
    let w := btm_sec_check_pending_reqs K E w
    let w := w.emit Event.btm_inq_clear_ssp
    w.setCb (fun cb => { cb with pairing_bda := noPairingTarget })
  else
    /- If transitionng out of idle, mark the lcb as bonding -/
    let w :=
      if old_state == tBTM_PAIRING_STATE.BTM_PAIR_STATE_IDLE then
        w.emit (Event.l2cu_update_lcb_4_bonding w.cb.pairing_bda true)
      else w
    w.emit (Event.btu_start_timer Timer.pairing_tle K.BTM_SEC_TIMEOUT_VALUE)

/-- `btm_sec_send_hci_disconnect` (lines 1658-1692). -/
def btm_sec_send_hci_disconnect (K : Hdr) (E : Env) (w : World) (p_dev_rec : Nat)
    (reason conn_handle : Nat) : tBTM_STATUS × World :=
  let old_state := (w.dev p_dev_rec).sec_state
  /- if some other thread disconnecting, we do not send second command -/
  if SecState.DISCONNECTING ≠ old_state then
    let w := w.setDev p_dev_rec (fun r => { r with sec_state := SecState.DISCONNECTING })
    if K.BTM_DISC_DURING_RS
        && (w.dev p_dev_rec).rs_disc_pending == K.BTM_SEC_RS_PENDING
        && (w.dev p_dev_rec).hci_handle == conn_handle then
      (tBTM_STATUS.BTM_SUCCESS,
        w.setDev p_dev_rec (fun r => { r with rs_disc_pending := K.BTM_SEC_DISC_PENDING }))
    else
      /- Tear down the HCI link -/
      let w := w.emit (Event.btsnd_hcic_disconnect conn_handle reason)
      if !E.btsnd_hcic_disconnect conn_handle reason then
        /- could not send disconnect. restore old state -/
        (tBTM_STATUS.BTM_NO_RESOURCES,
          w.setDev p_dev_rec (fun r => { r with sec_state := old_state }))
      else (tBTM_STATUS.BTM_CMD_STARTED, w)
  else (tBTM_STATUS.BTM_CMD_STARTED, w)

/-- `btm_sec_dd_create_conn` (lines 3029-3074). -/
def btm_sec_dd_create_conn (K : Hdr) (E : Env) (w : World) (p_dev_rec : Nat) :
    tBTM_STATUS × World :=
  let bd_addr := (w.dev p_dev_rec).bd_addr
  let p_lcb := E.l2cu_find_lcb_by_bd_addr bd_addr
  if p_lcb == some tL2C_LINK_STATE.LST_CONNECTED
      || p_lcb == some tL2C_LINK_STATE.LST_CONNECTING then
    (tBTM_STATUS.BTM_CMD_STARTED, w)
  /- Make sure an L2cap link control block is available -/
  else if p_lcb.isNone && !E.l2cu_allocate_lcb bd_addr then
    (tBTM_STATUS.BTM_NO_RESOURCES, w.emit (Event.l2cu_allocate_lcb bd_addr))
  else
    let w := if p_lcb.isNone then w.emit (Event.l2cu_allocate_lcb bd_addr) else w
    /- set up the control block to indicated dedicated bonding -/
    let w := w.setCb (fun cb =>
      { cb with pairing_flags := u8 (cb.pairing_flags ||| K.BTM_PAIR_FLAGS_DISC_WHEN_DONE) })
    let w := w.emit (Event.l2cu_create_conn bd_addr)
    if E.l2cu_create_conn bd_addr == false then
      (tBTM_STATUS.BTM_NO_RESOURCES, w.emit (Event.l2cu_release_lcb bd_addr))
    else
      let w := if K.BTM_BUSY_LEVEL_CHANGE_INCLUDED then w.emit Event.btm_acl_update_busy_level
        else w
      (tBTM_STATUS.BTM_CMD_STARTED,
        btm_sec_change_pairing_state K E w tBTM_PAIRING_STATE.BTM_PAIR_STATE_WAIT_PIN_REQ)

/-- `BTM_PINCodeReply` (lines 989-1098). `p_pin` and `trusted_mask` are `none` for
null pointers. -/
def BTM_PINCodeReply (K : Hdr) (E : Env) (w : World) (bd_addr : BD_ADDR)
    (res : tBTM_STATUS) (pin_len : Nat) (p_pin : Option (List Nat))
    (trusted_mask : Option (List Nat)) : World :=
  /- If timeout already expired or has been canceled, ignore the reply -/
  if w.cb.pairing_state ≠ tBTM_PAIRING_STATE.BTM_PAIR_STATE_WAIT_LOCAL_PIN then w
  else if bd_addr ≠ w.cb.pairing_bda then w
  else
    match btm_find_dev K w.cb bd_addr with
    | none => w
    | some p_dev_rec =>
      let res := if pin_len > K.PIN_CODE_LEN || pin_len == 0 || p_pin.isNone
        then tBTM_STATUS.BTM_ILLEGAL_VALUE else res
      let w := w.setDev p_dev_rec (fun r => { r with pin_key_len := pin_len })
      if res ≠ tBTM_STATUS.BTM_SUCCESS then
        /- if peer started dd OR we started dd and pre-fetch pin was not used send
           negative reply -/
        if tst w.cb.pairing_flags K.BTM_PAIR_FLAGS_PEER_STARTED_DD
            || (tst w.cb.pairing_flags K.BTM_PAIR_FLAGS_WE_STARTED_DD
                && tst w.cb.pairing_flags K.BTM_PAIR_FLAGS_DISC_WHEN_DONE) then
          let w := btm_sec_change_pairing_state K E w
            tBTM_PAIRING_STATE.BTM_PAIR_STATE_WAIT_AUTH_COMPLETE
          let w := w.setCb (fun cb =>
            { cb with acl_disc_reason := K.HCI_ERR_HOST_REJECT_SECURITY })
          w.emit (Event.btsnd_hcic_pin_code_neg_reply bd_addr)
        else
          let w := w.setDev p_dev_rec (fun r => { r with security_required := K.BTM_SEC_NONE })
          btm_sec_change_pairing_state K E w tBTM_PAIRING_STATE.BTM_PAIR_STATE_IDLE
      else
        let pin := p_pin.getD []
        let w :=
          match trusted_mask with
          | some m => w.setDev p_dev_rec (fun r =>
              { r with trusted_mask := BTM_SEC_COPY_TRUSTED_DEVICE K m r.trusted_mask })
          | none => w
        let w := w.setDev p_dev_rec (fun r =>
          { r with sec_flags := u16 (r.sec_flags ||| K.BTM_SEC_LINK_KEY_AUTHED) })
        if tst w.cb.pairing_flags K.BTM_PAIR_FLAGS_WE_STARTED_DD
            && (w.dev p_dev_rec).hci_handle == K.BTM_SEC_INVALID_HANDLE
            && w.cb.security_mode_changed == false then
          /- This is start of the dedicated bonding if local device is 2.0 -/
          let w := w.setCb (fun cb =>
            { cb with pin_code_len := pin_len, pin_code := memcpy cb.pin_code pin pin_len,
                      security_mode_changed := true })
          let w := writeAuthEnable K w (w.dev p_dev_rec).bd_addr
          let w := w.setCb (fun cb => { cb with acl_disc_reason := 0xff })
          if tst w.cb.pairing_flags K.BTM_PAIR_FLAGS_REJECTED_CONNECT then
            btm_sec_change_pairing_state K E w tBTM_PAIRING_STATE.BTM_PAIR_STATE_WAIT_PIN_REQ
          else if tst (w.dev p_dev_rec).sm4 K.BTM_SM4_CONN_PEND then
            btm_sec_change_pairing_state K E w tBTM_PAIRING_STATE.BTM_PAIR_STATE_WAIT_PIN_REQ
          else
            let (status, w) := btm_sec_dd_create_conn K E w p_dev_rec
            if status ≠ tBTM_STATUS.BTM_CMD_STARTED then
              let w := btm_sec_change_pairing_state K E w
                tBTM_PAIRING_STATE.BTM_PAIR_STATE_IDLE
              let w := w.setDev p_dev_rec (fun r =>
                { r with sec_flags := andNot16 r.sec_flags K.BTM_SEC_LINK_KEY_AUTHED })
              if w.cb.api.p_auth_complete_callback then
                w.emit (Event.p_auth_complete_callback (w.dev p_dev_rec).bd_addr
                  K.HCI_ERR_AUTH_FAILURE)
              else w
            else w
        else
          let w := btm_sec_change_pairing_state K E w
            tBTM_PAIRING_STATE.BTM_PAIR_STATE_WAIT_AUTH_COMPLETE
          let w := w.setCb (fun cb => { cb with acl_disc_reason := K.HCI_SUCCESS })
          let w :=
            if K.PORCHE_PAIRING_CONFLICT then
              /- if this was not pre-fetched, save the PIN -/
              w.setCb (fun cb =>
                { cb with
                  pin_code := if cb.pin_code_len == 0 then memcpy cb.pin_code pin pin_len
                    else cb.pin_code,
                  pin_code_len_saved := pin_len })
            else w
          w.emit (Event.btsnd_hcic_pin_code_req_reply bd_addr pin_len pin)

/-- `btm_sec_check_prefetch_pin` (lines 6134-6179). -/
def btm_sec_check_prefetch_pin (K : Hdr) (E : Env) (w : World) (p_dev_rec : Nat) :
    Bool × World :=
  let r := w.dev p_dev_rec
  let major := u8 (r.dev_class.getD 1 0 &&& K.BTM_COD_MAJOR_CLASS_MASK)
  let minor := u8 (r.dev_class.getD 2 0 &&& K.BTM_COD_MINOR_CLASS_MASK)
  if major == K.BTM_COD_MAJOR_AUDIO
      && (minor == K.BTM_COD_MINOR_CONFM_HANDSFREE || minor == K.BTM_COD_MINOR_CAR_AUDIO) then
    if w.cb.security_mode_changed == false then
      let w := w.setCb (fun cb => { cb with security_mode_changed := true })
      (false, writeAuthEnable K w r.bd_addr)
    else (false, w)
  else
    let w := btm_sec_change_pairing_state K E w
      tBTM_PAIRING_STATE.BTM_PAIR_STATE_WAIT_LOCAL_PIN
    /- If we got a PIN, use that, else try to get one -/
    if w.cb.pin_code_len != 0 then
      (true, BTM_PINCodeReply K E w r.bd_addr tBTM_STATUS.BTM_SUCCESS w.cb.pin_code_len
        (some w.cb.pin_code) (some (w.dev p_dev_rec).trusted_mask))
    else if w.cb.api.p_pin_callback
        && (w.cb.pairing_flags &&& K.BTM_PAIR_FLAGS_PIN_REQD) == 0 then
      /- pin was not supplied - pre-fetch pin code now -/
      let w :=
        if (E.btm_bda_to_acl r.bd_addr K.BT_TRANSPORT_BR_EDR).isNone then
          w.setCb (fun cb =>
            { cb with pairing_flags := u8 (cb.pairing_flags ||| K.BTM_PAIR_FLAGS_PIN_REQD) })
        else w
      (true, w.emit (Event.p_pin_callback r.bd_addr))
    else (true, w)

/-- The mask cleared from `sec_flags` when bonding starts on the classic transport
(lines 1254-1255). -/
def bondClearMask (K : Hdr) : Nat :=
  K.BTM_SEC_LINK_KEY_KNOWN ||| K.BTM_SEC_AUTHENTICATED ||| K.BTM_SEC_ENCRYPTED
    ||| K.BTM_SEC_ROLE_SWITCHED ||| K.BTM_SEC_LINK_KEY_AUTHED

/-- The part of `btm_sec_bond_by_transport` that follows the bookkeeping, on the
classic transport (lines 1254-1337). -/
def bondClassic (K : Hdr) (E : Env) (w : World) (p_dev_rec : Nat) (bd_addr : BD_ADDR)
    (p : Option tACL_CONN) : tBTM_STATUS × World :=
  let w := w.setDev p_dev_rec (fun r =>
    { r with sec_flags := andNot16 r.sec_flags (bondClearMask K) })
  let r := w.dev p_dev_rec
  let w :=
    if !K.HCI_SIMPLE_PAIRING_SUPPORTED w.cb.local_lmp_features
        && (r.dev_class.getD 1 0 &&& K.BTM_COD_MAJOR_CLASS_MASK) == K.BTM_COD_MAJOR_PERIPHERAL
        && tst (r.dev_class.getD 2 0) K.BTM_COD_MINOR_KEYBOARD
        && w.cb.cfg_pin_type != K.HCI_PIN_TYPE_FIXED then
      /- The special case when we authenticate keyboard.  Set pin type to fixed -/
      (w.setCb (fun cb => { cb with pin_type_changed := true })).emit
        (Event.btsnd_hcic_write_pin_type K.HCI_PIN_TYPE_FIXED)
    else w
  let w :=
    if K.BTM_SEC_FORCE_RNR_FOR_DBOND then
      w.setDev p_dev_rec (fun r =>
        { r with sec_flags := andNot16 r.sec_flags K.BTM_SEC_NAME_KNOWN })
    else w
  /- If connection already exists... -/
  if (match p with
      | some acl => acl.hci_handle != K.BTM_SEC_INVALID_HANDLE
      | none => false) then
    let (started, w) := btm_sec_start_authentication E w p_dev_rec
    if !started then (tBTM_STATUS.BTM_NO_RESOURCES, w)
    else
      let w := btm_sec_change_pairing_state K E w
        tBTM_PAIRING_STATE.BTM_PAIR_STATE_WAIT_PIN_REQ
      /- Mark lcb as bonding -/
      (tBTM_STATUS.BTM_CMD_STARTED, w.emit (Event.l2cu_update_lcb_4_bonding bd_addr true))
  else
    let prefetch : Bool × World :=
      if !K.HCI_SIMPLE_PAIRING_SUPPORTED w.cb.local_lmp_features
          || (w.dev p_dev_rec).sm4 == K.BTM_SM4_KNOWN then
        btm_sec_check_prefetch_pin K E w p_dev_rec
      else (false, w)
    if prefetch.1 then (tBTM_STATUS.BTM_CMD_STARTED, prefetch.2)
    else
      let w := prefetch.2
      if K.BTM_SEC_MODE_SP == w.cb.security_mode
          && K.BTM_SEC_IS_SM4_UNKNOWN (w.dev p_dev_rec).sm4 then
        /- local is 2.1 and peer is unknown -/
        if ((w.dev p_dev_rec).sm4 &&& K.BTM_SM4_CONN_PEND) == 0 then
          /- we are not accepting connection request from peer -> RNR -/
          let w := btm_sec_change_pairing_state K E w
            tBTM_PAIRING_STATE.BTM_PAIR_STATE_GET_REM_NAME
          (tBTM_STATUS.BTM_CMD_STARTED, w.emit (Event.BTM_ReadRemoteDeviceName bd_addr))
        else
          /- We are accepting connection request from peer -/
          (tBTM_STATUS.BTM_CMD_STARTED,
            btm_sec_change_pairing_state K E w
              tBTM_PAIRING_STATE.BTM_PAIR_STATE_WAIT_PIN_REQ)
      else
        /- both local and peer are 2.1 -/
        let (status, w) := btm_sec_dd_create_conn K E w p_dev_rec
        if status ≠ tBTM_STATUS.BTM_CMD_STARTED then
          (status, btm_sec_change_pairing_state K E w
            tBTM_PAIRING_STATE.BTM_PAIR_STATE_IDLE)
        else (status, w)

/-- `btm_sec_bond_by_transport` (lines 1174-1338). `p_pin` and `trusted_mask` are
`none` for null pointers. -/
def btm_sec_bond_by_transport (K : Hdr) (E : Env) (w : World) (bd_addr : BD_ADDR)
    (transport pin_len : Nat) (p_pin : Option (List Nat))
    (trusted_mask : Option (List Nat)) : tBTM_STATUS × World :=
  let p := E.btm_bda_to_acl bd_addr transport
  /- Other security process is in progress -/
  if w.cb.pairing_state ≠ tBTM_PAIRING_STATE.BTM_PAIR_STATE_IDLE then
    (tBTM_STATUS.BTM_WRONG_MODE, w)
  else
    match btm_find_or_alloc_dev K E w bd_addr with
    | (none, w) => (tBTM_STATUS.BTM_NO_RESOURCES, w)
    | (some p_dev_rec, w) =>
      let r := w.dev p_dev_rec
      /- Finished if connection is active and already paired -/
      if (r.hci_handle != K.BTM_SEC_INVALID_HANDLE && transport == K.BT_TRANSPORT_BR_EDR
            && tst r.sec_flags K.BTM_SEC_AUTHENTICATED)
          || (K.BLE_INCLUDED && r.ble_hci_handle != K.BTM_SEC_INVALID_HANDLE
              && transport == K.BT_TRANSPORT_LE
              && tst r.sec_flags K.BTM_SEC_LE_AUTHENTICATED) then
        (tBTM_STATUS.BTM_SUCCESS, w)
      else
        /- Tell controller to get rid of the link key if it has one stored -/
        let w := w.emit (Event.BTM_DeleteStoredLinkKey bd_addr)
        if E.BTM_DeleteStoredLinkKey bd_addr ≠ tBTM_STATUS.BTM_SUCCESS then
          (tBTM_STATUS.BTM_NO_RESOURCES, w)
        else
          /- Save the PIN code if we got a valid one -/
          let w :=
            match p_pin with
            | some pin =>
              if pin_len ≤ K.PIN_CODE_LEN && pin_len != 0 then
                w.setCb (fun cb =>
                  { cb with pin_code_len := pin_len,
                            pin_code := memcpy cb.pin_code pin K.PIN_CODE_LEN })
              else w
            | none => w
          let w := w.setCb (fun cb =>
            { cb with pairing_bda := bd_addr,
                      pairing_flags := K.BTM_PAIR_FLAGS_WE_STARTED_DD })
          let w := w.setDev p_dev_rec (fun r =>
            { r with security_required := K.BTM_SEC_OUT_AUTHENTICATE, is_originator := true,
                     trusted_mask := match trusted_mask with
                       | some m => BTM_SEC_COPY_TRUSTED_DEVICE K m r.trusted_mask
                       | none => r.trusted_mask })
          if K.BLE_INCLUDED && K.SMP_INCLUDED && transport == K.BT_TRANSPORT_LE then
            let w := w.setDev p_dev_rec (fun r =>
              { r with sec_flags := andNot16 r.sec_flags K.BTM_SEC_LE_MASK })
            let w := w.emit (Event.SMP_Pair bd_addr)
            if E.SMP_Pair bd_addr then
              let w := w.setCb (fun cb =>
                { cb with pairing_flags := u8 (cb.pairing_flags ||| K.BTM_PAIR_FLAGS_LE_ACTIVE) })
              let w := w.setDev p_dev_rec (fun r =>
                { r with sec_state := SecState.AUTHENTICATING })
              (tBTM_STATUS.BTM_CMD_STARTED,
                btm_sec_change_pairing_state K E w
                  tBTM_PAIRING_STATE.BTM_PAIR_STATE_WAIT_AUTH_COMPLETE)
            else
              (tBTM_STATUS.BTM_NO_RESOURCES, w.setCb (fun cb => { cb with pairing_flags := 0 }))
          else
            bondClassic K E w p_dev_rec bd_addr p

/-! ## Authentication complete and collisions -/

/-- `btm_sec_auth_collision` (lines 3961-3990). The tick counter is read through
`GKI_get_tick_count`; its 32-bit difference with the start of the episode is compared
with `max_collision_delay`. -/
def btm_sec_auth_collision (K : Hdr) (E : Env) (w : World) (handle : Nat) : World :=
  let w :=
    if w.cb.collision_start_time == 0 then
      w.setCb (fun cb => { cb with collision_start_time := E.GKI_get_tick_count })
    else w
  if (E.GKI_get_tick_count + 2 ^ 32 - w.cb.collision_start_time) % 2 ^ 32
      < w.cb.max_collision_delay then
    let p_dev_rec :=
      if handle == K.BTM_SEC_INVALID_HANDLE then
        match btm_sec_find_dev_by_sec_state K w.cb SecState.AUTHENTICATING with
        | some p => some p
        | none => btm_sec_find_dev_by_sec_state K w.cb SecState.ENCRYPTING
      else btm_find_dev_by_handle K w.cb handle
    match p_dev_rec with
    | some p =>
      /- We will restart authentication after timeout -/
      let w :=
        if (w.dev p).sec_state == SecState.AUTHENTICATING
            || (w.dev p).sec_state == SecState.ENCRYPTING then
          w.setDev p (fun r => { r with sec_state := SecState.IDLE })
        else w
      let w := w.setCb (fun cb => { cb with p_collided_dev_rec := some p })
      w.emit (Event.btu_start_timer Timer.sec_collision_tle K.BT_1SEC_TIMEOUT)
    | none => w
  else w

/-- The end of `btm_sec_auth_complete` (lines 4143-4199), once the pairing
bookkeeping is done and `sec_state` is back to idle: retry, failure or the next
step. -/
def authCompleteFinish (K : Hdr) (E : Env) (w : World) (p_dev_rec : Nat)
    (status old_sm4 : Nat) : World :=
  /- If authentication failed, notify the waiting layer -/
  if status != K.HCI_SUCCESS then
    let w :=
      if (old_sm4 &&& K.BTM_SM4_RETRY) == 0 then
        /- allow retry only once -/
        if status == K.HCI_ERR_LMP_ERR_TRANS_COLLISION then
          w.setDev p_dev_rec (fun r => { r with sm4 := u8 (r.sm4 ||| K.BTM_SM4_RETRY) })
        else if K.HCI_ERR_KEY_MISSING == status && K.BTM_SEC_IS_SM4 (w.dev p_dev_rec).sm4 then
          w.setDev p_dev_rec (fun r =>
            { r with sm4 := u8 (r.sm4 ||| K.BTM_SM4_RETRY),
                     sec_flags := andNot16 r.sec_flags K.BTM_SEC_LINK_KEY_KNOWN })
        else w
      else w
    if (old_sm4 &&& K.BTM_SM4_RETRY) == 0 && tst (w.dev p_dev_rec).sm4 K.BTM_SM4_RETRY then
      (btm_sec_execute_procedure K E w p_dev_rec).2
    else
      let w := btm_sec_dev_rec_cback_event K E w p_dev_rec tBTM_STATUS.BTM_ERR_PROCESSING false
      let w :=
        if tst w.cb.pairing_flags K.BTM_PAIR_FLAGS_DISC_WHEN_DONE then
          (btm_sec_send_hci_disconnect K E w p_dev_rec K.HCI_ERR_AUTH_FAILURE
            (w.dev p_dev_rec).hci_handle).2
        else w
      if K.BTM_SEC_IS_SM4_LEGACY (w.dev p_dev_rec).sm4
          && tst (w.dev p_dev_rec).security_required K.BTM_SEC_IN_AUTH_HIGH then
        /- disconnect the exising ACL links if present on SAP authentication failure -/
        let w :=
          if (w.dev p_dev_rec).hci_handle != K.BTM_SEC_INVALID_HANDLE then
            (btm_sec_send_hci_disconnect K E w p_dev_rec K.HCI_ERR_AUTH_FAILURE
              (w.dev p_dev_rec).hci_handle).2
          else w
        w.setDev p_dev_rec (fun r => { r with pin_key_len := 0 })
      else w
  else
    let w := w.setDev p_dev_rec (fun r =>
      { r with sec_flags := u16 (r.sec_flags ||| K.BTM_SEC_AUTHENTICATED) })
    /- Authentication succeeded, execute the next security procedure, if any -/
    let (status, w) := btm_sec_execute_procedure K E w p_dev_rec
    /- If there is no next procedure, or procedure failed to start, notify the caller -/
    if status ≠ tBTM_STATUS.BTM_CMD_STARTED then
      btm_sec_dev_rec_cback_event K E w p_dev_rec status false
    else w

/-- The part of `btm_sec_auth_complete` for a known device (lines 4071-4141). -/
def authCompleteKnown (K : Hdr) (E : Env) (w : World) (p_dev_rec : Nat) (status : Nat)
    (old_state : tBTM_PAIRING_STATE) : World :=
  /- keep the old sm4 flag and clear the retry bit in control block -/
  let old_sm4 := (w.dev p_dev_rec).sm4
  let w := w.setDev p_dev_rec (fun r => { r with sm4 := andNot8 r.sm4 K.BTM_SM4_RETRY })
  let are_bonding :=
    w.cb.pairing_state != tBTM_PAIRING_STATE.BTM_PAIR_STATE_IDLE
      && tst w.cb.pairing_flags K.BTM_PAIR_FLAGS_WE_STARTED_DD
      && (w.dev p_dev_rec).bd_addr == w.cb.pairing_bda
  let w :=
    if w.cb.pairing_state != tBTM_PAIRING_STATE.BTM_PAIR_STATE_IDLE
        && (w.dev p_dev_rec).bd_addr == w.cb.pairing_bda then
      btm_sec_change_pairing_state K E w tBTM_PAIRING_STATE.BTM_PAIR_STATE_IDLE
    else w
  if (w.dev p_dev_rec).sec_state ≠ SecState.AUTHENTICATING then
    if w.cb.api.p_auth_complete_callback && status != K.HCI_SUCCESS
        && old_state != tBTM_PAIRING_STATE.BTM_PAIR_STATE_IDLE then
      w.emit (Event.p_auth_complete_callback (w.dev p_dev_rec).bd_addr status)
    else w
  else
    /- There can be a race condition, when we are starting authentication and the
       peer device is doing encryption. -/
    let status :=
      if status == K.HCI_ERR_COMMAND_DISALLOWED
          && ((w.dev p_dev_rec).sec_flags
                &&& (K.BTM_SEC_AUTHENTICATED ||| K.BTM_SEC_ENCRYPTED))
              == (K.BTM_SEC_AUTHENTICATED ||| K.BTM_SEC_ENCRYPTED) then
        K.HCI_SUCCESS
      else status
    let w :=
      if w.cb.api.p_auth_complete_callback
          && old_state != tBTM_PAIRING_STATE.BTM_PAIR_STATE_IDLE then
        /- report the suthentication status -/
        w.emit (Event.p_auth_complete_callback (w.dev p_dev_rec).bd_addr status)
      else w
    let w := w.setDev p_dev_rec (fun r => { r with sec_state := SecState.IDLE })
    /- If this is a bonding procedure can disconnect the link now -/
    if are_bonding then
      let w := w.setDev p_dev_rec (fun r =>
        { r with security_required := andNot16 r.security_required K.BTM_SEC_OUT_AUTHENTICATE })
      if status != K.HCI_SUCCESS then
        if status != K.HCI_ERR_PEER_USER && status != K.HCI_ERR_CONN_CAUSE_LOCAL_HOST then
          (btm_sec_send_hci_disconnect K E w p_dev_rec K.HCI_ERR_PEER_USER
            (w.dev p_dev_rec).hci_handle).2
        else w
      else
        w.emit (Event.l2cu_start_post_bond_timer (w.dev p_dev_rec).hci_handle)
    else
      authCompleteFinish K E w p_dev_rec status old_sm4

/-- `btm_sec_auth_complete` (lines 4002-4200). -/
def btm_sec_auth_complete (K : Hdr) (E : Env) (w : World) (handle status : Nat) : World :=
  let old_state := w.cb.pairing_state
  let p_dev_rec := btm_find_dev_by_handle K w.cb handle
  /- For transaction collision we need to wait and repeat. -/
  if status == K.HCI_ERR_LMP_ERR_TRANS_COLLISION
      || status == K.HCI_ERR_DIFF_TRANSACTION_COLLISION then
    let w := btm_sec_change_pairing_state K E w
      tBTM_PAIRING_STATE.BTM_PAIR_STATE_WAIT_PIN_REQ
    btm_sec_auth_collision K E w handle
  else
    let w := w.setCb (fun cb => { cb with collision_start_time := 0 })
    let w := btm_restore_mode K w
    match p_dev_rec with
    | none =>
      /- check if the handle is BTM_INVALID_HCI_HANDLE -/
      if handle == K.BTM_INVALID_HCI_HANDLE then
        /- get the device with auth type as BTM_SEC_STATE_AUTHENTICATING -/
        match btm_sec_find_dev_by_sec_state K w.cb SecState.AUTHENTICATING with
        | some p =>
          if w.cb.api.p_auth_complete_callback then
            w.emit (Event.p_auth_complete_callback (w.dev p).bd_addr status)
          else w
        | none => w
      else w
    | some p =>
      /- Check if connection was made just to do bonding. -/
      let w :=
        if tst w.cb.pairing_flags K.BTM_PAIR_FLAGS_WE_STARTED_DD
            && !tst w.cb.pairing_flags K.BTM_PAIR_FLAGS_DISC_WHEN_DONE then
          (w.setDev p (fun r =>
            { r with security_required :=
                andNot16 r.security_required K.BTM_SEC_OUT_AUTHENTICATE })).emit
            (Event.l2cu_start_post_bond_timer (w.dev p).hci_handle)
        else w
      authCompleteKnown K E w p status old_state

/-- `btm_sec_init` (lines 2905-2918). -/
def btm_sec_init (K : Hdr) (w : World) (sec_mode : Nat) : World :=
  w.setCb (fun cb =>
    { cb with security_mode := sec_mode, pairing_bda := noPairingTarget,
              max_collision_delay := K.BTM_SEC_MAX_COLLISION_DELAY })

/-- The control block all of whose bytes are zero, with tables of `n_dev` device
records and `n_serv` service records: what `btm_init` leaves before it calls
`btm_sec_init`. -/
def tBTM_CB.zero (K : Hdr) (n_dev n_serv : Nat) : tBTM_CB :=
  { sec_serv_rec := List.replicate n_serv (tBTM_SEC_SERV_REC.zero K),
    p_out_serv := none,
    security_mode := 0,
    sec_dev_rec := List.replicate n_dev tBTM_SEC_DEV_REC.zero,
    api := { p_authorize_callback := false, p_pin_callback := false,
             p_auth_complete_callback := false, p_bond_cancel_cmpl_callback := false,
             p_sp_callback := false, p_abort_callback := false,
             p_link_key_callback := false },
    pairing_state := tBTM_PAIRING_STATE.BTM_PAIR_STATE_IDLE,
    pairing_bda := List.replicate BD_ADDR_LEN 0,
    pairing_flags := 0,
    pin_code := List.replicate 16 0,
    pin_code_len := 0,
    pin_code_len_saved := 0,
    sec_req_pending := false,
    sec_pending_q := [],
    security_mode_changed := false,
    pin_type_changed := false,
    cfg_pin_type := 0,
    acl_disc_reason := 0,
    collision_start_time := 0,
    max_collision_delay := 0,
    p_collided_dev_rec := none,
    loc_io_caps := 0,
    local_lmp_features := List.replicate 8 0,
    btm_sec_conn_only_mode := false,
    btm_sec_conn_supported := false,
    discing := false,
    pairing_disabled := false,
    connecting_bda := List.replicate BD_ADDR_LEN 0,
    connecting_dc := List.replicate 3 0,
    loc_auth_req := 0,
    dev_rec_count := 0,
    btm_def_link_policy := 0 }

/-- The security manager right after start-up in Secure Simple Pairing mode: four
device records, four service records, nothing registered. -/
def startWorld : World :=
  btm_sec_init stdHdr { cb := tBTM_CB.zero stdHdr 4 4, out := [] } 4

/-- `BTM_SetSecurityLevel` acting on the control block of a world. -/
def World.BTM_SetSecurityLevel (K : Hdr) (w : World) (is_originator : Bool)
    (p_name : List Nat) (service_id sec_level psm mx_proto_id mx_chan_id : Nat) :
    Bool × World :=
  let res := BtmSec.BTM_SetSecurityLevel K w.cb.toServDb is_originator p_name service_id
    sec_level psm mx_proto_id mx_chan_id
  (res.ret, w.setCb (fun cb => { cb with toServDb := res.db }))

/-- The example world while a bonding started by the peer waits for the local PIN
of device 00:1A:7D:DA:71:13. -/
def exampleWorldPairing : World :=
  exampleWorld.setCb (fun cb =>
    { cb with pairing_state := tBTM_PAIRING_STATE.BTM_PAIR_STATE_WAIT_LOCAL_PIN,
              pairing_bda := [0x00, 0x1A, 0x7D, 0xDA, 0x71, 0x13],
              pairing_flags := 0x02, pin_code := [0x30, 0x30, 0x30, 0x30], pin_code_len := 4 })

/-- A record as the allocator hands it out for a device whose name is already
known from an inquiry: in use, name known, no link handle yet. -/
def traceDev (bd_addr : BD_ADDR) : tBTM_SEC_DEV_REC :=
  { tBTM_SEC_DEV_REC.zero with
    bd_addr := bd_addr, sec_flags := 0x88, hci_handle := 0xFFFF, ble_hci_handle := 0xFFFF }

/-- An outside world like `exampleEnv` in which a device met for the first time gets
the first record of the table, with its name known and its ACL link not yet
recorded. -/
def traceEnv : Env :=
  { exampleEnv with
    btm_sec_alloc_dev := fun cb bd_addr =>
      (some 0, { cb with sec_dev_rec := cb.sec_dev_rec.set 0 (traceDev bd_addr) }) }

/-- The security manager started in service-level security mode (2). -/
def traceStart : World :=
  btm_sec_init stdHdr { cb := tBTM_CB.zero stdHdr 4 4, out := [] } 2

/-- After start-up, an application registers an outgoing service on PSM 3 that
requires authentication (0x10). -/
def traceRegistered : World :=
  (traceStart.BTM_SetSecurityLevel stdHdr true [0x73] 7 0x10 3 0 0).2

/-- Then L2CAP asks whether the outgoing connection on handle 1 to
00:1A:7D:DA:71:13 may proceed: authentication is started. -/
def traceRequested : World :=
  (btm_sec_l2cap_access_req stdHdr traceEnv traceRegistered
    [0x00, 0x1A, 0x7D, 0xDA, 0x71, 0x13] 3 1 CONN_ORIENT_ORIG (some 7) 42).2

/-- Then the controller reports that the authentication on handle 1 ran into an LMP
transaction collision (status 0x23). -/
def traceCollided : World :=
  btm_sec_auth_complete stdHdr traceEnv traceRequested 1 0x23

/-! ## IO capabilities -/

/-- `BTM_IO_CAP_OUT`, DisplayOnly (line 106). -/
def BTM_IO_CAP_OUT : Nat := 0

/-- `BTM_IO_CAP_IO`, DisplayYesNo (line 107). -/
def BTM_IO_CAP_IO : Nat := 1

/-- `BTM_IO_CAP_IN`, KeyboardOnly (line 108). -/
def BTM_IO_CAP_IN : Nat := 2

/-- `BTM_IO_CAP_NONE`, NoInputNoOutput (line 109). -/
def BTM_IO_CAP_NONE : Nat := 3

/-- The entry `btm_sec_io_map[a][b]` of the table. -/
def ioMapAt (a b : Nat) : Bool := (btm_sec_io_map.getD a []).getD b false

/-- In the words of the specification: a side that can input is DisplayYesNo or
KeyboardOnly. -/
def canInput (c : Nat) : Bool := c == BTM_IO_CAP_IO || c == BTM_IO_CAP_IN

/-- In the words of the specification: a side that can display or confirm is
DisplayOnly or DisplayYesNo. -/
def canDisplay (c : Nat) : Bool := c == BTM_IO_CAP_OUT || c == BTM_IO_CAP_IO

/-- In the words of the specification: the device has no connection handle on the
requested transport (the low-energy handle counts only when `BLE_INCLUDED`). -/
def noHandleOn (K : Hdr) (r : tBTM_SEC_DEV_REC) (transport : Nat) : Bool :=
  (transport == K.BT_TRANSPORT_BR_EDR && r.hci_handle == K.BTM_SEC_INVALID_HANDLE)
    || (K.BLE_INCLUDED && transport == K.BT_TRANSPORT_LE
        && r.ble_hci_handle == K.BTM_SEC_INVALID_HANDLE)

/-- In the words of the specification: the link is already encrypted on the requested
transport (the low-energy flag counts only when `BLE_INCLUDED` and `SMP_INCLUDED`). -/
def encryptedOn (K : Hdr) (r : tBTM_SEC_DEV_REC) (transport : Nat) : Bool :=
  (transport == K.BT_TRANSPORT_BR_EDR && tst r.sec_flags K.BTM_SEC_ENCRYPTED)
    || (K.BLE_INCLUDED && K.SMP_INCLUDED && transport == K.BT_TRANSPORT_LE
        && tst r.sec_flags K.BTM_SEC_LE_ENCRYPTED)

/-- The example world with the link of the device encrypted. -/
def exampleWorldEncrypted : World :=
  exampleWorld.setDev 0 (fun r => { r with sec_flags := 0x8E })

/-- A service record for the discovery service: PSM 1, in use, no requirement. -/
def exampleSdpService : tBTM_SEC_SERV_REC :=
  { tBTM_SEC_SERV_REC.zero stdHdr with psm := 1, service_id := 1, security_flags := 0x80 }

/-- The example world with the discovery service registered in the second slot of the
registry. -/
def exampleWorldSdp : World :=
  exampleWorld.setCb (fun cb => { cb with sec_serv_rec := [exampleServRec, exampleSdpService] })

/-- The authenticate bit of a service policy for the direction of a request. -/
def authenticateBit (K : Hdr) (is_originator : Bool) : Nat :=
  if is_originator then K.BTM_SEC_OUT_AUTHENTICATE else K.BTM_SEC_IN_AUTHENTICATE

/-- The encrypt bit of a service policy for the direction of a request. -/
def encryptBit (K : Hdr) (is_originator : Bool) : Nat :=
  if is_originator then K.BTM_SEC_OUT_ENCRYPT else K.BTM_SEC_IN_ENCRYPT

/-- The authorize bit of a service policy for the direction of a request. -/
def authorizeBit (K : Hdr) (is_originator : Bool) : Nat :=
  if is_originator then K.BTM_SEC_OUT_AUTHORIZE else K.BTM_SEC_IN_AUTHORIZE

/-- In the words of the specification: every requirement of the policy
`security_required` for the direction of the request is already met by the device
record `r`. Authenticate implies the authenticated or the encrypted flag, encrypt
implies the encrypted flag, authorize implies that the device is authorized or that the
service `s` is in its trusted mask. -/
def policyMet (K : Hdr) (r : tBTM_SEC_DEV_REC) (s : tBTM_SEC_SERV_REC)
    (security_required : Nat) (is_originator : Bool) : Bool :=
  (!tst security_required (authenticateBit K is_originator)
      || tst r.sec_flags K.BTM_SEC_AUTHENTICATED || tst r.sec_flags K.BTM_SEC_ENCRYPTED)
  && (!tst security_required (encryptBit K is_originator)
      || tst r.sec_flags K.BTM_SEC_ENCRYPTED)
  && (!tst security_required (authorizeBit K is_originator)
      || tst r.sec_flags K.BTM_SEC_AUTHORIZED || btm_serv_trusted K r s)

/-- The three policy bits of each direction are pairwise disjoint. -/
def Hdr.policyBitsDisjoint (K : Hdr) : Prop :=
  K.BTM_SEC_IN_AUTHENTICATE &&& K.BTM_SEC_IN_ENCRYPT = 0 ∧
  K.BTM_SEC_IN_AUTHENTICATE &&& K.BTM_SEC_IN_AUTHORIZE = 0 ∧
  K.BTM_SEC_IN_ENCRYPT &&& K.BTM_SEC_IN_AUTHORIZE = 0 ∧
  K.BTM_SEC_OUT_AUTHENTICATE &&& K.BTM_SEC_OUT_ENCRYPT = 0 ∧
  K.BTM_SEC_OUT_AUTHENTICATE &&& K.BTM_SEC_OUT_AUTHORIZE = 0 ∧
  K.BTM_SEC_OUT_ENCRYPT &&& K.BTM_SEC_OUT_AUTHORIZE = 0

/-! ## The pairing timer seen through the calls made -/

/-- What a call does to the pairing timer: `some true` when it starts it, `some
false` when it stops it, `none` when it does not touch it. -/
def pairingTimerEvent (e : Event) : Option Bool :=
  match e with
  | Event.btu_start_timer Timer.pairing_tle _ => some true
  | Event.btu_stop_timer Timer.pairing_tle => some false
  | _ => none

/-- The last thing the calls `out` did to the pairing timer, if they touched it. -/
def lastPairingTimer (out : List Event) : Option Bool :=
  out.foldl (fun last e => (pairingTimerEvent e).orElse (fun _ => last)) none

/-- Whether the pairing timer is running after the calls `out`, given whether it was
running before them. -/
def pairingTimerRunning (before : Bool) (out : List Event) : Bool :=
  (lastPairingTimer out).getD before

/-- The part of the world that a service-level security procedure leaves alone: the
pairing state, flags, cached PIN length and target, the size of the device table, and
the pairing timer. -/
structure PairView where
  pairing_state : tBTM_PAIRING_STATE
  pairing_flags : Nat
  pin_code_len : Nat
  pairing_bda : BD_ADDR
  n_dev : Nat
  timer : Option Bool
deriving DecidableEq, Repr

/-- The pairing view of a control block and a list of calls. -/
def pairViewOf (cb : tBTM_CB) (out : List Event) : PairView :=
  { pairing_state := cb.pairing_state, pairing_flags := cb.pairing_flags,
    pin_code_len := cb.pin_code_len, pairing_bda := cb.pairing_bda,
    n_dev := cb.sec_dev_rec.length, timer := lastPairingTimer out }

/-- The pairing view of a world. -/
def World.pairView (w : World) : PairView := pairViewOf w.cb w.out

/-- What is assumed of `btm_sec_alloc_dev`, which is outside this file: it changes
nothing in the control block but the contents of the device table, whose size is
fixed. -/
def Env.allocKeepsPairing (E : Env) : Prop :=
  ∀ (cb : tBTM_CB) (bd_addr : BD_ADDR) (out : List Event),
    pairViewOf (E.btm_sec_alloc_dev cb bd_addr).2 out = pairViewOf cb out

/-! ## Expiry of the pairing timer -/

/-- `btm_sec_bond_cancel_complete` (lines 2786-2810). -/
def btm_sec_bond_cancel_complete (K : Hdr) (E : Env) (w : World) : World :=
  if tst w.cb.pairing_flags K.BTM_PAIR_FLAGS_DISC_WHEN_DONE
      || (tBTM_PAIRING_STATE.BTM_PAIR_STATE_WAIT_LOCAL_PIN == w.cb.pairing_state
          && tst K.BTM_PAIR_FLAGS_WE_STARTED_DD w.cb.pairing_flags)
      || (w.cb.pairing_state == tBTM_PAIRING_STATE.BTM_PAIR_STATE_GET_REM_NAME
          && tst K.BTM_PAIR_FLAGS_WE_CANCEL_DD w.cb.pairing_flags) then
    let w :=
      match btm_find_dev K w.cb w.cb.pairing_bda with
      | some p_dev_rec =>
        w.setDev p_dev_rec (fun r => { r with security_required := K.BTM_SEC_NONE })
      | none => w
    let w := btm_sec_change_pairing_state K E w tBTM_PAIRING_STATE.BTM_PAIR_STATE_IDLE
    /- Notify application that the cancel succeeded -/
    if w.cb.api.p_bond_cancel_cmpl_callback then
      w.emit (Event.p_bond_cancel_cmpl_callback tBTM_STATUS.BTM_SUCCESS)
    else w
  else w

/-- The notification of `btm_sec_pairing_timeout` (lines 5083-5096, 5147-5160): the
application is told that the pairing timed out. -/
def pairingTimeoutNotify (K : Hdr) (w : World) (p_dev_rec : Option Nat) : World :=
  if w.cb.api.p_auth_complete_callback then
    match p_dev_rec with
    | none => w.emit (Event.p_auth_complete_callback w.cb.pairing_bda K.HCI_ERR_CONNECTION_TOUT)
    | some p =>
      w.emit (Event.p_auth_complete_callback (w.dev p).bd_addr K.HCI_ERR_CONNECTION_TOUT)
  else w

/-- `btm_sec_pairing_timeout` (lines 5051-5168). The cases behind `#if` fall to the
default case when they are compiled out. -/
def btm_sec_pairing_timeout (K : Hdr) (E : Env) (w : World) : World :=
  let auth_req :=
    if K.BTM_LOCAL_IO_CAPS == BTM_IO_CAP_NONE then K.BTM_AUTH_AP_NO else K.BTM_AUTH_AP_YES
  let p_dev_rec := btm_find_dev K w.cb w.cb.pairing_bda
  let default := btm_sec_change_pairing_state K E w tBTM_PAIRING_STATE.BTM_PAIR_STATE_IDLE
  match w.cb.pairing_state with
  | tBTM_PAIRING_STATE.BTM_PAIR_STATE_WAIT_PIN_REQ => btm_sec_bond_cancel_complete K E w
  | tBTM_PAIRING_STATE.BTM_PAIR_STATE_WAIT_LOCAL_PIN =>
    let w :=
      if (w.cb.pairing_flags &&& K.BTM_PAIR_FLAGS_PRE_FETCH_PIN) == 0 then
        w.emit (Event.btsnd_hcic_pin_code_neg_reply w.cb.pairing_bda)
      else w
    let w := btm_sec_change_pairing_state K E w tBTM_PAIRING_STATE.BTM_PAIR_STATE_IDLE
    /- We need to notify the UI that no longer need the PIN -/
    pairingTimeoutNotify K w p_dev_rec
  | tBTM_PAIRING_STATE.BTM_PAIR_STATE_WAIT_NUMERIC_CONFIRM =>
    w.emit (Event.btsnd_hcic_user_conf_reply w.cb.pairing_bda false)
  | tBTM_PAIRING_STATE.BTM_PAIR_STATE_KEY_ENTRY =>
    if K.BTM_LOCAL_IO_CAPS != BTM_IO_CAP_NONE then
      w.emit (Event.btsnd_hcic_user_passkey_neg_reply w.cb.pairing_bda)
    else default
  | tBTM_PAIRING_STATE.BTM_PAIR_STATE_WAIT_LOCAL_IOCAPS =>
    if K.BTM_OOB_INCLUDED then
      let auth_req :=
        if tst w.cb.pairing_flags K.BTM_PAIR_FLAGS_WE_STARTED_DD
          then u8 (auth_req ||| K.BTM_AUTH_DD_BOND) else auth_req
      let w := w.emit (Event.btsnd_hcic_io_cap_req_reply w.cb.pairing_bda w.cb.loc_io_caps
        K.BTM_OOB_NONE auth_req)
      btm_sec_change_pairing_state K E w tBTM_PAIRING_STATE.BTM_PAIR_STATE_IDLE
    else default
  | tBTM_PAIRING_STATE.BTM_PAIR_STATE_WAIT_LOCAL_OOB_RSP =>
    if K.BTM_OOB_INCLUDED then
      let w := w.emit (Event.btsnd_hcic_rem_oob_neg_reply w.cb.pairing_bda)
      btm_sec_change_pairing_state K E w tBTM_PAIRING_STATE.BTM_PAIR_STATE_IDLE
    else default
  | tBTM_PAIRING_STATE.BTM_PAIR_STATE_WAIT_DISCONNECT =>
    /- simple pairing failed: now it is time to tear down the ACL link -/
    match p_dev_rec with
    | none => w
    | some p =>
      let (_, w) := btm_sec_send_hci_disconnect K E w p K.HCI_ERR_AUTH_FAILURE
        (w.dev p).hci_handle
      btm_sec_change_pairing_state K E w tBTM_PAIRING_STATE.BTM_PAIR_STATE_IDLE
  | tBTM_PAIRING_STATE.BTM_PAIR_STATE_WAIT_AUTH_COMPLETE
  | tBTM_PAIRING_STATE.BTM_PAIR_STATE_GET_REM_NAME =>
    /- We need to notify the UI that timeout has happened while waiting for
       authentication -/
    let w := btm_sec_change_pairing_state K E w tBTM_PAIRING_STATE.BTM_PAIR_STATE_IDLE
    pairingTimeoutNotify K w p_dev_rec
  | _ => default

/-- The cases in which the expiry handler brings the pairing state back to idle, as
listed in C14 (amended). -/
def timeoutReturnsToIdle (K : Hdr) (w : World) : Bool :=
  match w.cb.pairing_state with
  | tBTM_PAIRING_STATE.BTM_PAIR_STATE_WAIT_PIN_REQ =>
    tst w.cb.pairing_flags K.BTM_PAIR_FLAGS_DISC_WHEN_DONE
  | tBTM_PAIRING_STATE.BTM_PAIR_STATE_WAIT_NUMERIC_CONFIRM => false
  | tBTM_PAIRING_STATE.BTM_PAIR_STATE_KEY_ENTRY => K.BTM_LOCAL_IO_CAPS == BTM_IO_CAP_NONE
  | tBTM_PAIRING_STATE.BTM_PAIR_STATE_WAIT_DISCONNECT =>
    (btm_find_dev K w.cb w.cb.pairing_bda).isSome
  | _ => true

/-- The example world while the user is asked to confirm a number for device
00:1A:7D:DA:71:13. -/
def exampleWorldConfirm : World :=
  exampleWorld.setCb (fun cb =>
    { cb with pairing_state := tBTM_PAIRING_STATE.BTM_PAIR_STATE_WAIT_NUMERIC_CONFIRM,
              pairing_bda := [0x00, 0x1A, 0x7D, 0xDA, 0x71, 0x13],
              pairing_flags := 0x02 })

/-! ## Loss of the link -/

/-- The status given to a waiting callback for a disconnect reason (lines
4863-4876). -/
def disconnectStatus (K : Hdr) (reason : Nat) : tBTM_STATUS :=
  if reason == K.HCI_ERR_CONN_FAILED_ESTABLISHMENT then tBTM_STATUS.BTM_FAILED_ESTABLISH
  else if reason == K.BTM_DEVICE_TIMEOUT then tBTM_STATUS.BTM_DEVICE_TIMEOUT
  else if reason == K.HCI_ERR_CONN_CAUSE_LOCAL_HOST then tBTM_STATUS.BTM_HOST_DISCONN
  else if reason == K.HCI_ERR_PEER_USER then tBTM_STATUS.BTM_PEER_DISCONN
  else if reason == K.HCI_ERR_LMP_RESPONSE_TIMEOUT then tBTM_STATUS.BTM_LMP_TIMEOUT
  else if reason == K.HCI_ERR_KEY_MISSING then tBTM_STATUS.BTM_ERR_KEY_MISSING
  else tBTM_STATUS.BTM_ERR_PROCESSING

/-- The mask of the flags of the classic link cleared by `btm_sec_disconnected` (line
4851). -/
def disconnectClearMask (K : Hdr) : Nat :=
  K.BTM_SEC_AUTHORIZED ||| K.BTM_SEC_AUTHENTICATED ||| K.BTM_SEC_ENCRYPTED
    ||| K.BTM_SEC_ROLE_SWITCHED

/-- The block of `btm_sec_disconnected` for a link lost in the middle of bonding
(lines 4813-4836): the client is told that authentication failed. -/
def disconnectedBonding (K : Hdr) (E : Env) (w : World) (p_dev_rec : Nat)
    (reason old_pairing_flags : Nat) : World :=
  if w.cb.pairing_state != tBTM_PAIRING_STATE.BTM_PAIR_STATE_IDLE
      && w.cb.pairing_bda == (w.dev p_dev_rec).bd_addr then
    let w := btm_sec_change_pairing_state K E w tBTM_PAIRING_STATE.BTM_PAIR_STATE_IDLE
    let w := w.setDev p_dev_rec (fun r =>
      { r with sec_flags := andNot16 r.sec_flags K.BTM_SEC_LINK_KEY_KNOWN })
    if w.cb.api.p_auth_complete_callback then
      let result :=
        if reason == K.HCI_ERR_REPEATED_ATTEMPTS then K.HCI_ERR_REPEATED_ATTEMPTS
        else if tst old_pairing_flags K.BTM_PAIR_FLAGS_WE_STARTED_DD then
          K.HCI_ERR_HOST_REJECT_SECURITY
        else K.HCI_ERR_AUTH_FAILURE
      w.emit (Event.p_auth_complete_callback (w.dev p_dev_rec).bd_addr result)
    else w
  else w

/-- The resets of `btm_sec_disconnected` (lines 4838-4855): the handle of the lost
link and the flags that describe it, then the security state. -/
def disconnectedReset (K : Hdr) (w : World) (p_dev_rec : Nat) (transport : Nat) : World :=
  let w :=
    if K.BLE_INCLUDED && K.SMP_INCLUDED then
      (w.setDev p_dev_rec (fun r => { r with enc_key_size := 0 })).emit
        (Event.btm_ble_update_mode_operation K.HCI_ROLE_UNKNOWN (w.dev p_dev_rec).bd_addr
          K.HCI_SUCCESS)
    else w
  let w :=
    if K.BLE_INCLUDED && K.SMP_INCLUDED && transport == K.BT_TRANSPORT_LE then
      w.setDev p_dev_rec (fun r =>
        { r with ble_hci_handle := K.BTM_SEC_INVALID_HANDLE,
                 sec_flags := andNot16 r.sec_flags
                   (K.BTM_SEC_LE_AUTHENTICATED ||| K.BTM_SEC_LE_ENCRYPTED) })
    else
      w.setDev p_dev_rec (fun r =>
        { r with hci_handle := K.BTM_SEC_INVALID_HANDLE,
                 sec_flags := andNot16 r.sec_flags (disconnectClearMask K) })
  w.setDev p_dev_rec (fun r =>
    { r with sec_state := SecState.IDLE, security_required := K.BTM_SEC_NONE })

/-- The end of `btm_sec_disconnected` (lines 4857-4877): if security is pending, the
slot is emptied and the callback is called to clean up the security state. -/
def disconnectedCallback (K : Hdr) (w : World) (p_dev_rec : Nat) (transport reason : Nat) :
    World :=
  match (w.dev p_dev_rec).p_callback with
  | some c =>
    let w := w.setDev p_dev_rec (fun r => { r with p_callback := none })
    w.emit (Event.sec_callback c (w.dev p_dev_rec).bd_addr transport
      (w.dev p_dev_rec).p_ref_data (disconnectStatus K reason))
  | none => w

/-- `btm_sec_disconnected` (lines 4779-4883). -/
def btm_sec_disconnected (K : Hdr) (E : Env) (w : World) (handle reason : Nat) : World :=
  let p_dev_rec := btm_find_dev_by_handle K w.cb handle
  let old_pairing_flags := w.cb.pairing_flags
  /- If page was delayed for disc complete, can do it now -/
  let w := w.setCb (fun cb => { cb with discing := false })
  let w := w.emit Event.btm_acl_resubmit_page
  match p_dev_rec with
  | none => w
  | some p =>
    let transport :=
      if handle == (w.dev p).hci_handle then K.BT_TRANSPORT_BR_EDR else K.BT_TRANSPORT_LE
    let w := w.setDev p (fun r => { r with rs_disc_pending := K.BTM_SEC_RS_NOT_PENDING })
    /- clear unused flags -/
    let w := w.setDev p (fun r => { r with sm4 := r.sm4 &&& K.BTM_SM4_TRUE })
    /- If we are in the process of bonding we need to tell client that auth failed -/
    let w := disconnectedBonding K E w p reason old_pairing_flags
    let w := disconnectedReset K w p transport
    disconnectedCallback K w p transport reason

/-- The example world with the link of the device authenticated, encrypted and its
link key known (flags 0x9E), while callback 7 waits on the device. -/
def exampleWorldSecured : World :=
  exampleWorld.setDev 0 (fun r =>
    { r with sec_flags := 0x9E, sec_state := SecState.ENCRYPTING, p_callback := some 7,
             p_ref_data := 42, security_required := 0x06 })

/-- The world `exampleWorldSecured` in the middle of a bonding with the device. -/
def exampleWorldSecuredBonding : World :=
  exampleWorldSecured.setCb (fun cb =>
    { cb with pairing_state := tBTM_PAIRING_STATE.BTM_PAIR_STATE_WAIT_AUTH_COMPLETE,
              pairing_bda := [0x00, 0x1A, 0x7D, 0xDA, 0x71, 0x13],
              pairing_flags := 0x01 })

/-! ## Bonded devices -/

/-- What `btm_sec_find_bonded_dev` hands back: its return value and the values it has
stored through `p_found_idx` and `p_rec` (`none` when it has stored nothing). -/
structure BondedDev where
  found : Bool
  p_found_idx : Option Nat
  p_rec : Option Nat
deriving DecidableEq, Repr

/-- `btm_sec_find_bonded_dev` (lines 6265-6291). The length of `sec_dev_rec` is
`BTM_SEC_MAX_DEVICE_RECORDS`. -/
def btm_sec_find_bonded_dev (K : Hdr) (cb : tBTM_CB) (start_idx : Nat) : BondedDev :=
  let found := false
  if K.SMP_INCLUDED then
    if start_idx ≥ cb.sec_dev_rec.length then
      { found, p_found_idx := none, p_rec := none }
    else
      match ((List.range cb.sec_dev_rec.length).drop start_idx).find? (fun i =>
          let r := cb.sec_dev_rec.getD i tBTM_SEC_DEV_REC.zero
          r.ble_key_type != 0 || tst r.sec_flags K.BTM_SEC_LINK_KEY_KNOWN) with
      | some i => { found, p_found_idx := some (u8 i), p_rec := some i }
      | none => { found, p_found_idx := none, p_rec := none }
  else
    { found, p_found_idx := none, p_rec := none }

/-- The example world with the device owing authorization as acceptor for the
service of the first slot of the registry. -/
def exampleWorldOwesAuthorization : World :=
  exampleWorld.setDev 0 (fun r =>
    { r with security_required := 0x01, p_cur_service := some 0 })

/-- An outside world like `exampleEnv` in which the application refuses every
authorization at once. -/
def exampleEnvRefuses : Env :=
  { exampleEnv with p_authorize_callback := fun _ _ _ => tBTM_STATUS.BTM_NOT_AUTHORIZED }

/-! ## Ordering of the steps -/

/-- The test of `BTM_SecClrService` at lines 852-853: the record is in use, is not
the discovery service, and `service_id` is 0 or the id of the record. -/
def clrMatches (K : Hdr) (service_id : Nat) (r : tBTM_SEC_SERV_REC) : Bool :=
  tst r.security_flags K.BTM_SEC_IN_USE && r.psm != K.BT_PSM_SDP &&
    (service_id == 0 || service_id == r.service_id)

/-- The assignments of `BTM_SecClrService` to a record it clears (lines 856-859). -/
def clrRecord (K : Hdr) (r : tBTM_SEC_SERV_REC) : tBTM_SEC_SERV_REC :=
  { r with security_flags := 0,
           ucd_security_flags := if K.L2CAP_UCD_INCLUDED then 0 else r.ucd_security_flags }

/-- The loop of `BTM_SecClrService` (lines 849-862) over the records still to visit;
`num_freed` is a `UINT8` counter. -/
def clrLoop (K : Hdr) (service_id : Nat) :
    List tBTM_SEC_SERV_REC → Nat → List tBTM_SEC_SERV_REC × Nat
  | [], num_freed => ([], num_freed)
  | r :: rest, num_freed =>
      if clrMatches K service_id r then
        let res := clrLoop K service_id rest (u8 (num_freed + 1))
        (clrRecord K r :: res.1, res.2)
      else
        let res := clrLoop K service_id rest num_freed
        (r :: res.1, res.2)

/-- `BTM_SecClrService` (lines 843-865): the value returned and the registry after
the call. -/
def BTM_SecClrService (K : Hdr) (db : ServDb) (service_id : Nat) : Nat × ServDb :=
  let res := clrLoop K service_id db.sec_serv_rec 0
  (res.2, { db with sec_serv_rec := res.1 })

/-- A service record in use for service id 9 on a second PSM. -/
def exampleOtherService : tBTM_SEC_SERV_REC :=
  { tBTM_SEC_SERV_REC.zero stdHdr with
    psm := 0x1003, service_id := 9, security_flags := 0x0092, ucd_security_flags := 0x0082 }

/-- A registry of four slots: the discovery service (PSM 1, id 3), `exampleServRec`
(id 3), `exampleOtherService` (id 9) and a free slot. -/
def exampleDbThree : ServDb :=
  { sec_serv_rec := [{ tBTM_SEC_SERV_REC.zero stdHdr with
                        psm := 1, service_id := 3, security_flags := 0x80 },
                     exampleServRec, exampleOtherService, tBTM_SEC_SERV_REC.zero stdHdr],
    p_out_serv := some 1, security_mode := 4 }

/-! ## IO capability request -/

/-- The locals `is_orig`, `evt_data.auth_req` and `err_code` of
`btm_io_capabilities_req` after the test of the pairing state (lines 3407-3445). -/
def ioCapReqState (K : Hdr) (w : World) (p_dev_rec : Nat) (bd_addr : BD_ADDR) :
    Bool × Nat × Nat :=
  let auth_req := K.BTM_DEFAULT_AUTH_REQ
  if w.cb.pairing_state ≠ tBTM_PAIRING_STATE.BTM_PAIR_STATE_IDLE then
    if w.cb.pairing_state == tBTM_PAIRING_STATE.BTM_PAIR_STATE_INCOMING_SSP then
      /- received IO capability response already-> not the originator of SSP -/
      if K.BTM_AUTH_SP_YES == (w.dev p_dev_rec).rmt_auth_req then
        (false, K.BTM_AUTH_SP_YES, 0)
      else if tst w.cb.pairing_flags K.BTM_PAIR_FLAGS_PEER_STARTED_DD then
        (false, K.BTM_DEFAULT_DD_AUTH_REQ, 0)
      else
        (false, auth_req, 0)
    /- security is already in progress -/
    else if w.cb.pairing_state == tBTM_PAIRING_STATE.BTM_PAIR_STATE_WAIT_PIN_REQ then
      if bd_addr != w.cb.pairing_bda then
        /- and it's not the device in bonding -> reject it -/
        (true, auth_req, K.HCI_ERR_HOST_BUSY_PAIRING)
      else
        /- local device initiated dedicated bonding -/
        (true, K.BTM_DEFAULT_DD_AUTH_REQ, 0)
    else
      (true, auth_req, K.HCI_ERR_HOST_BUSY_PAIRING)
  else
    (true, auth_req, 0)

/-- `btm_io_capabilities_req` (lines 3382-3526); `bd_addr` is the address read from
the event. -/
def btm_io_capabilities_req (K : Hdr) (E : Env) (w : World) (bd_addr : BD_ADDR) : World :=
  /- setup the default response according to compile options -/
  let io_cap := w.cb.loc_io_caps
  let oob_data := K.BTM_OOB_NONE
  let (p, w) := btm_find_or_alloc_dev K E w bd_addr
  let (p_dev_rec, w) := w.derefDev p
  let w := w.setDev p_dev_rec (fun r => { r with sm4 := u8 (r.sm4 ||| K.BTM_SM4_TRUE) })
  let (is_orig, auth_req, err_code) := ioCapReqState K w p_dev_rec bd_addr
  /- paring is not allowed -/
  let err_code := if w.cb.pairing_disabled then K.HCI_ERR_PAIRING_NOT_ALLOWED else err_code
  if err_code != 0 then
    w.emit (Event.btsnd_hcic_io_cap_req_neg_reply bd_addr err_code)
  else
    let auth_req :=
      /- local device initiated the pairing non-bonding -> use p_cur_service -/
      match (w.dev p_dev_rec).p_cur_service with
      | some s =>
        if is_orig && !tst w.cb.pairing_flags K.BTM_PAIR_FLAGS_WE_STARTED_DD
            && tst (w.serv K s).security_flags K.BTM_SEC_OUT_AUTHENTICATE then
          if tst (w.serv K s).security_flags K.BTM_SEC_OUT_MITM then K.BTM_AUTH_SPGB_YES
          else K.BTM_AUTH_SPGB_NO
        else auth_req
      | none => auth_req
    /- Notify L2CAP to increase timeout -/
    let w := w.emit (Event.l2c_pin_code_request bd_addr)
    let w := w.setCb (fun cb => { cb with pairing_bda := bd_addr })
    let w :=
      if bd_addr == w.cb.connecting_bda then
        w.setDev p_dev_rec (fun r => { r with dev_class := w.cb.connecting_dc })
      else w
    let w := btm_sec_change_pairing_state K E w
      tBTM_PAIRING_STATE.BTM_PAIR_STATE_WAIT_LOCAL_IOCAPS
    let evt_data : tBTM_SP_IO_REQ := { bd_addr, io_cap, oob_data, auth_req, is_orig }
    let (callback_rc, evt_data, w) :=
      if tst (w.dev p_dev_rec).sm4 K.BTM_SM4_UPGRADE then
        /- link key upgrade: always use SPGB_YES -/
        (tBTM_STATUS.BTM_SUCCESS, { evt_data with auth_req := K.BTM_AUTH_SPGB_YES },
          w.setDev p_dev_rec (fun r => { r with sm4 := andNot8 r.sm4 K.BTM_SM4_UPGRADE }))
      else if w.cb.api.p_sp_callback then
        /- the callback function implementation may change the IO capability... -/
        ((E.p_sp_callback_io_req evt_data).1, (E.p_sp_callback_io_req evt_data).2,
          w.emit (Event.p_sp_callback_io_req evt_data.bd_addr evt_data.io_cap
            evt_data.oob_data evt_data.auth_req evt_data.is_orig))
      else
        (tBTM_STATUS.BTM_SUCCESS, evt_data, w)
    if callback_rc == tBTM_STATUS.BTM_SUCCESS
        || (K.BTM_OOB_INCLUDED && K.BTM_OOB_UNKNOWN != evt_data.oob_data) then
      let auth_req :=
        if tst w.cb.pairing_flags K.BTM_PAIR_FLAGS_WE_STARTED_DD then
          K.BTM_AUTH_DD_BOND ||| (evt_data.auth_req &&& K.BTM_AUTH_YN_BIT)
        else evt_data.auth_req
      /- if the user does not indicate "reply later" by setting the oob_data to unknown
         send the response right now. Save the current IO capability in the control
         block -/
      let w := w.setCb (fun cb =>
        { cb with loc_auth_req := auth_req, loc_io_caps := evt_data.io_cap })
      w.emit (Event.btsnd_hcic_io_cap_req_reply evt_data.bd_addr evt_data.io_cap
        evt_data.oob_data auth_req)
    else w

/-- A second known, connected device (handle 2), address 00:1B:DC:07:32:A1. -/
def exampleDevB : tBTM_SEC_DEV_REC :=
  { tBTM_SEC_DEV_REC.zero with
    bd_addr := [0x00, 0x1B, 0xDC, 0x07, 0x32, 0xA1],
    sec_flags := 0x88, hci_handle := 2, ble_hci_handle := 0xFFFF,
    trusted_mask := [0, 0, 0] }

/-- The example world with a second device, while the pairing started by the peer
00:1A:7D:DA:71:13 (its IO capability response has been received) is going on. -/
def exampleWorldIncomingSsp : World :=
  exampleWorld.setCb (fun cb =>
    { cb with sec_dev_rec := [exampleDev, exampleDevB],
              pairing_state := tBTM_PAIRING_STATE.BTM_PAIR_STATE_INCOMING_SSP,
              pairing_bda := [0x00, 0x1A, 0x7D, 0xDA, 0x71, 0x13] })

/-- The same world while the local device waits for the PIN request of the peer
00:1A:7D:DA:71:13. -/
def exampleWorldWaitPinReq : World :=
  exampleWorld.setCb (fun cb =>
    { cb with sec_dev_rec := [exampleDev, exampleDevB],
              pairing_state := tBTM_PAIRING_STATE.BTM_PAIR_STATE_WAIT_PIN_REQ,
              pairing_bda := [0x00, 0x1A, 0x7D, 0xDA, 0x71, 0x13] })

/-! ## The single retry of an authentication -/

/-- The state of `btm_sec_auth_complete` when it reaches the test of the status at
line 4143, for a device that was authenticating while no pairing was going on: the
collision time is cleared (line 4037), the modes are restored (line 4039), the retry
bit of the device is cleared (line 4073) and its `sec_state` is idle (line 4125). -/
def authCompleteIdle (K : Hdr) (w : World) (p_dev_rec : Nat) : World :=
  ((btm_restore_mode K (w.setCb (fun cb => { cb with collision_start_time := 0 }))).setDev
      p_dev_rec (fun r => { r with sm4 := andNot8 r.sm4 K.BTM_SM4_RETRY })).setDev
    p_dev_rec (fun r => { r with sec_state := SecState.IDLE })

/-- The assignments of `btm_sec_auth_complete` before it retries for a missing key
(lines 4160-4161). -/
def authCompleteRetry (K : Hdr) (w : World) (p_dev_rec : Nat) : World :=
  w.setDev p_dev_rec (fun r =>
    { r with sm4 := u8 (r.sm4 ||| K.BTM_SM4_RETRY),
             sec_flags := andNot16 r.sec_flags K.BTM_SEC_LINK_KEY_KNOWN })

/-- What `btm_sec_auth_complete` does after it has notified the waiting layer of a
failure (lines 4178-4188). -/
def authCompleteFailed (K : Hdr) (E : Env) (w : World) (p_dev_rec : Nat) : World :=
  let w :=
    if tst w.cb.pairing_flags K.BTM_PAIR_FLAGS_DISC_WHEN_DONE then
      (btm_sec_send_hci_disconnect K E w p_dev_rec K.HCI_ERR_AUTH_FAILURE
        (w.dev p_dev_rec).hci_handle).2
    else w
  if K.BTM_SEC_IS_SM4_LEGACY (w.dev p_dev_rec).sm4
      && tst (w.dev p_dev_rec).security_required K.BTM_SEC_IN_AUTH_HIGH then
    /- disconnect the exising ACL links if present on SAP authentication failure -/
    let w :=
      if (w.dev p_dev_rec).hci_handle != K.BTM_SEC_INVALID_HANDLE then
        (btm_sec_send_hci_disconnect K E w p_dev_rec K.HCI_ERR_AUTH_FAILURE
          (w.dev p_dev_rec).hci_handle).2
      else w
    w.setDev p_dev_rec (fun r => { r with pin_key_len := 0 })
  else w

/-- The world `traceRequested` with the device known to support Simple Pairing
(`sm4` 0x11) and the retry bit clear. -/
def traceRequestedSm4 : World :=
  traceRequested.setDev 0 (fun r => { r with sm4 := 0x11 })

/-- The world `traceRequested` with the device known to support Simple Pairing and
one retry already made (`sm4` 0x13). -/
def traceRequestedRetried : World :=
  traceRequested.setDev 0 (fun r => { r with sm4 := 0x13 })

/-! ## Removal of a service that is the cached outgoing service -/

/-- `BTM_SecClrService` acting on the control block of a world. -/
def World.BTM_SecClrService (K : Hdr) (w : World) (service_id : Nat) : Nat × World :=
  let res := BtmSec.BTM_SecClrService K w.cb.toServDb service_id
  (res.1, w.setCb (fun cb => { cb with toServDb := res.2 }))

/-- After `traceRegistered`, the application removes the service it has registered
(service id 7). -/
def traceCleared : World :=
  (traceRegistered.BTM_SecClrService stdHdr 7).2

/-! ## Abort of an access request -/

/-- `btm_sec_abort_access_req` (lines 3001-3017). -/
def btm_sec_abort_access_req (K : Hdr) (w : World) (bd_addr : BD_ADDR) : World :=
  match btm_find_dev K w.cb bd_addr with
  | none => w
  | some p_dev_rec =>
    let w :=
      if w.cb.api.p_abort_callback then w.emit (Event.p_abort_callback bd_addr) else w
    if (w.dev p_dev_rec).sec_state ≠ SecState.AUTHORIZING
        && (w.dev p_dev_rec).sec_state ≠ SecState.AUTHENTICATING then
      w
    else
      w.setDev p_dev_rec (fun r => { r with sec_state := SecState.IDLE, p_callback := none })

/-- The calls `btm_sec_abort_access_req` makes: the application's abort callback, if
one is registered, and nothing else. -/
def abortCalls (w : World) (bd_addr : BD_ADDR) : List Event :=
  if w.cb.api.p_abort_callback then [Event.p_abort_callback bd_addr] else []

/-- Whether a call to the outside is a command sent to the controller (the functions
`btsnd_hcic_...`). -/
def Event.isControllerCommand : Event → Bool
  | Event.btsnd_hcic_auth_request _ => true
  | Event.btsnd_hcic_set_conn_encrypt _ _ => true
  | Event.btsnd_hcic_disconnect _ _ => true
  | Event.btsnd_hcic_write_auth_enable _ => true
  | Event.btsnd_hcic_write_pin_type _ => true
  | Event.btsnd_hcic_pin_code_neg_reply _ => true
  | Event.btsnd_hcic_pin_code_req_reply _ _ _ => true
  | Event.btsnd_hcic_user_conf_reply _ _ => true
  | Event.btsnd_hcic_user_passkey_neg_reply _ => true
  | Event.btsnd_hcic_io_cap_req_reply _ _ _ _ => true
  | Event.btsnd_hcic_rem_oob_neg_reply _ => true
  | Event.btsnd_hcic_io_cap_req_neg_reply _ _ => true
  | _ => false

/-- The example world with the device being authenticated for an access request:
callback 7 with reference data 42 is stored. -/
def exampleWorldAuthenticating : World :=
  exampleWorld.setDev 0 (fun r =>
    { r with sec_state := SecState.AUTHENTICATING, p_callback := some 7, p_ref_data := 42 })

/-! ## The collision window -/

/-- The device `btm_sec_auth_collision` works on (lines 3970-3976): for an invalid
handle the first device being authenticated, else the first being encrypted; for
another handle the device of that handle. -/
def collidedDevice (K : Hdr) (cb : tBTM_CB) (handle : Nat) : Option Nat :=
  if handle == K.BTM_SEC_INVALID_HANDLE then
    match btm_sec_find_dev_by_sec_state K cb SecState.AUTHENTICATING with
    | some p => some p
    | none => btm_sec_find_dev_by_sec_state K cb SecState.ENCRYPTING
  else btm_find_dev_by_handle K cb handle

/-- The collision start time `btm_sec_auth_collision` works with (lines 3965-3966):
the tick count of this call if none is recorded, else the recorded one. -/
def collisionStart (E : Env) (cb : tBTM_CB) : Nat :=
  if cb.collision_start_time == 0 then E.GKI_get_tick_count else cb.collision_start_time

/-- The ticks elapsed since the collision start time, as the `UINT32` subtraction of
line 3968 computes them. -/
def collisionElapsed (E : Env) (cb : tBTM_CB) : Nat :=
  (E.GKI_get_tick_count + 2 ^ 32 - collisionStart E cb) % 2 ^ 32

/-- The world `traceRequested` in which a collision has been recorded at tick 100
(the tick count of every call is 1000, the window is 5000 ticks). -/
def traceRequestedInWindow : World :=
  traceRequested.setCb (fun cb => { cb with collision_start_time := 100, max_collision_delay := 5000 })

/-- The world `traceRequested` in which a collision has been recorded at tick 100
and the window is 500 ticks: the window is over at tick 1000. -/
def traceRequestedLate : World :=
  traceRequested.setCb (fun cb => { cb with collision_start_time := 100, max_collision_delay := 500 })

/-! ## The IO capability reply of a link-key upgrade -/

/-- The example world with a link-key upgrade pending on the device (`sm4` 0x15) and
no pairing going on. -/
def exampleWorldUpgrade : World :=
  exampleWorld.setDev 0 (fun r => { r with sm4 := 0x15 })

/-- The example world with a link-key upgrade pending on the device (`sm4` 0x15)
while a dedicated bonding started locally (pairing flags 0x01) waits for the PIN request
of that device. -/
def exampleWorldUpgradeBonding : World :=
  (exampleWorld.setDev 0 (fun r => { r with sm4 := 0x15 })).setCb (fun cb =>
    { cb with pairing_state := tBTM_PAIRING_STATE.BTM_PAIR_STATE_WAIT_PIN_REQ,
              pairing_bda := [0x00, 0x1A, 0x7D, 0xDA, 0x71, 0x13],
              pairing_flags := 0x01 })

/-- The authentication requirement `btm_io_capabilities_req` sends for a link-key
upgrade: `BTM_AUTH_SPGB_YES` (line 3494), replaced by dedicated bonding with the
yes/no bit of that value when the local device has started a dedicated bonding
(lines 3508-3511). -/
def upgradeAuthReq (K : Hdr) (pairing_flags : Nat) : Nat :=
  if tst pairing_flags K.BTM_PAIR_FLAGS_WE_STARTED_DD then
    K.BTM_AUTH_DD_BOND ||| (K.BTM_AUTH_SPGB_YES &&& K.BTM_AUTH_YN_BIT)
  else K.BTM_AUTH_SPGB_YES

/-! ## Role hints and MITM bit of a registration -/

/-- The registry `exampleDb` after an acceptor-side registration of service 3 on PSM
0x1001 that requires authentication and asks for the master role (`sec_level`
0x0102). -/
def exampleDbRoleHint : ServDb :=
  (btm_sec_set_security_level stdHdr exampleDb CONN_ORIENT_TERM [0x41] 3 0x0102 0x1001 0 0).db

/-- The MITM bit of a service policy for the direction of a registration. -/
def mitmBit (K : Hdr) (is_originator : Bool) : Nat :=
  if is_originator then K.BTM_SEC_OUT_MITM else K.BTM_SEC_IN_MITM

/-! ## Encrypted and authenticated flags -/

/-- The update of the security flags in `btm_sec_encrypt_change` (lines 4264-4280),
on the record found for `handle`. -/
def encryptChangeFlags (K : Hdr) (r : tBTM_SEC_DEV_REC) (handle status encr_enable : Nat) :
    tBTM_SEC_DEV_REC :=
  let r :=
    if status == K.HCI_SUCCESS && encr_enable != 0 then
      if r.hci_handle == handle then
        let set := K.BTM_SEC_AUTHENTICATED ||| K.BTM_SEC_ENCRYPTED
        { r with sec_flags := u16 (r.sec_flags ||| set) }
      else
        let set := K.BTM_SEC_LE_AUTHENTICATED ||| K.BTM_SEC_LE_ENCRYPTED
        { r with sec_flags := u16 (r.sec_flags ||| set) }
    else r
  /- It is possible that we decrypted the link to perform role switch -/
  if status == K.HCI_SUCCESS && !(encr_enable != 0) then
    if r.hci_handle == handle then
      { r with sec_flags := andNot16 r.sec_flags K.BTM_SEC_ENCRYPTED }
    else
      { r with sec_flags := andNot16 r.sec_flags K.BTM_SEC_LE_ENCRYPTED }
  else r

/-- The initialisation of the security flags at the end of `btm_sec_connected`
(lines 4679-4686). `bit_shift` is the local of that name: 0, or 8 when the handle is the
LE handle of the record (line 4456). -/
def connectedFlags (K : Hdr) (security_mode : Nat) (r : tBTM_SEC_DEV_REC)
    (bit_shift enc_mode : Nat) : tBTM_SEC_DEV_REC :=
  let clr := K.BTM_SEC_AUTHORIZED ||| K.BTM_SEC_AUTHENTICATED ||| K.BTM_SEC_ENCRYPTED
    ||| K.BTM_SEC_ROLE_SWITCHED
  let r := { r with sec_flags := andNot16 r.sec_flags (clr <<< bit_shift) }
  let r :=
    if enc_mode != K.HCI_ENCRYPT_MODE_DISABLED then
      let set := K.BTM_SEC_AUTHENTICATED ||| K.BTM_SEC_ENCRYPTED
      { r with sec_flags := u16 (r.sec_flags ||| (set <<< bit_shift)) }
    else r
  if security_mode == K.BTM_SEC_MODE_LINK then
    { r with sec_flags := u16 (r.sec_flags ||| (K.BTM_SEC_AUTHENTICATED <<< bit_shift)) }
  else r

/-- Whether the flags of a record satisfy: encrypted on the classic transport implies
authenticated on the classic transport. -/
def encryptedImpliesAuthenticated (K : Hdr) (r : tBTM_SEC_DEV_REC) : Bool :=
  !tst r.sec_flags K.BTM_SEC_ENCRYPTED || tst r.sec_flags K.BTM_SEC_AUTHENTICATED

/-- The example world in Secure Simple Pairing mode (4) with the device connected,
authenticated and encrypted (`sec_flags` 0x9E) on a link key of the unauthenticated
combination type (4); the peer supports Secure Simple Pairing (`sm4` 0x11) and has
reported the IO capability display-yes/no (1). -/
def exampleWorldUpgradable : World :=
  (exampleWorld.setDev 0 (fun r =>
    { r with sm4 := 0x11, sec_flags := 0x9E, link_key_type := 4, rmt_io_caps := 1 })).setCb
    (fun cb => { cb with security_mode := 4 })

/-- The world `exampleWorldUpgradable` as `btm_sec_l2cap_access_req` has it when it
calls `btm_sec_check_upgrade` for an incoming request on PSM 0x1001: the requirement of
the service (0x1087, with MITM protection) is stored in the record of the device. -/
def exampleWorldUpgradableOwing : World :=
  exampleWorldUpgradable.setDev 0 (fun r =>
    { r with security_required := 0x1087, p_cur_service := some 0 })

/-! ## Encryption change, Simple Pairing complete and connection complete -/

/-- `btm_sec_encrypt_change` (lines 4241-4328). The flag update of lines 4264-4280
is `encryptChangeFlags`. -/
def btm_sec_encrypt_change (K : Hdr) (E : Env) (w : World) (handle status encr_enable : Nat) :
    World :=
  let p_dev_rec := btm_find_dev_by_handle K w.cb handle
  /- For transaction collision we need to wait and repeat. -/
  if status == K.HCI_ERR_LMP_ERR_TRANS_COLLISION
      || status == K.HCI_ERR_DIFF_TRANSACTION_COLLISION then
    btm_sec_auth_collision K E w handle
  else
    let w := w.setCb (fun cb => { cb with collision_start_time := 0 })
    match p_dev_rec with
    | none => w
    | some p =>
      let w := w.setDev p (fun r => encryptChangeFlags K r handle status encr_enable)
      if K.BLE_INCLUDED && K.SMP_INCLUDED
          && E.acl_transport_by_handle handle == some K.BT_TRANSPORT_LE then
        let w :=
          if status == K.HCI_ERR_KEY_MISSING || status == K.HCI_ERR_AUTH_FAILURE
              || status == K.HCI_ERR_ENCRY_MODE_NOT_ACCEPTABLE then
            w.setDev p (fun r =>
              { r with sec_flags := andNot16 r.sec_flags K.BTM_SEC_LE_LINK_KEY_KNOWN })
          else w
        w.emit (Event.btm_ble_link_encrypted (w.dev p).bd_addr encr_enable status)
      else
        /- BR/EDR connection, update the encryption key size to be 16 as always -/
        let w :=
          if K.BLE_INCLUDED && K.SMP_INCLUDED then
            w.setDev p (fun r => { r with enc_key_size := 16 })
          else w
        /- If this encryption was started by peer do not need to do anything -/
        if (w.dev p).sec_state != SecState.ENCRYPTING then
          if SecState.DELAY_FOR_ENC == (w.dev p).sec_state then
            let w := w.setDev p (fun r =>
              { r with sec_state := SecState.IDLE, p_callback := none })
            w.emit (Event.l2cu_resubmit_pending_sec_req_for (w.dev p).bd_addr)
          else w
        else
          let w := w.setDev p (fun r => { r with sec_state := SecState.IDLE })
          /- If encryption setup failed, notify the waiting layer -/
          if status != K.HCI_SUCCESS then
            btm_sec_dev_rec_cback_event K E w p tBTM_STATUS.BTM_ERR_PROCESSING false
          else
            /- Encryption setup succeeded, execute the next security procedure, if any -/
            let (rc, w) := btm_sec_execute_procedure K E w p
            /- If there is no next procedure, or procedure failed to start, notify the
               caller -/
            if rc != tBTM_STATUS.BTM_CMD_STARTED then
              btm_sec_dev_rec_cback_event K E w p rc false
            else w

/-- `btm_simple_pair_complete` (lines 3769-3837). The event parameters are given
parsed: the status byte and the address. -/
def btm_simple_pair_complete (K : Hdr) (E : Env) (w : World) (status : Nat)
    (bd_addr : BD_ADDR) : World :=
  match btm_find_dev K w.cb bd_addr with
  | none => w
  | some p =>
    let (evt_status, disc, w) :=
      if status == K.HCI_SUCCESS then
        (tBTM_STATUS.BTM_SUCCESS, false,
          w.setDev p (fun r =>
            { r with sec_flags := u16 (r.sec_flags ||| K.BTM_SEC_AUTHENTICATED) }))
      else if status == K.HCI_ERR_PAIRING_NOT_ALLOWED then
        /- The test spec wants the peer device to get this failure code. -/
        let w := btm_sec_change_pairing_state K E w
          tBTM_PAIRING_STATE.BTM_PAIR_STATE_WAIT_DISCONNECT
        /- Change the timer to 1 second -/
        (tBTM_STATUS.BTM_ERR_PROCESSING, false,
          w.emit (Event.btu_start_timer Timer.pairing_tle K.BT_1SEC_TIMEOUT))
      else if w.cb.pairing_bda == bd_addr then
        /- stop the timer -/
        let w := w.emit (Event.btu_stop_timer Timer.pairing_tle)
        (tBTM_STATUS.BTM_ERR_PROCESSING, (w.dev p).sec_state != SecState.AUTHENTICATING, w)
      else (tBTM_STATUS.BTM_ERR_PROCESSING, true, w)
    /- Let the pairing state stay active, p_auth_complete_callback will report the
       failure -/
    let w :=
      if w.cb.api.p_sp_callback then
        w.emit (Event.p_sp_callback_complt (w.dev p).bd_addr evt_status)
      else w
    if disc then
      /- simple pairing failed. Avoid sending disconnect on HCI_ERR_PEER_USER -/
      if status != K.HCI_ERR_PEER_USER && status != K.HCI_ERR_CONN_CAUSE_LOCAL_HOST then
        (btm_sec_send_hci_disconnect K E w p K.HCI_ERR_AUTH_FAILURE (w.dev p).hci_handle).2
      else w
    else w

/-- `btm_send_link_key_notif` (lines 5870-5876). -/
def btm_send_link_key_notif (w : World) (p_dev_rec : Nat) : World :=
  if w.cb.api.p_link_key_callback then
    w.emit (Event.p_link_key_callback (w.dev p_dev_rec).bd_addr (w.dev p_dev_rec).link_key_type)
  else w

/-- The end of `btm_sec_connected` (lines 4552-4692), from the call of
`btm_restore_mode` on. `is_pairing_device` and `bit_shift` are the locals of these
names. The function stored in `sec_collision_tle.param` is not part of the state. -/
def connectedTail (K : Hdr) (E : Env) (w : World) (p : Nat) (bda : BD_ADDR)
    (handle status enc_mode bit_shift : Nat) (is_pairing_device : Bool) : World :=
  /- If connection was made to do bonding restore link security if changed -/
  let w := btm_restore_mode K w
  /- if connection fails during pin request, notify application -/
  if status != K.HCI_SUCCESS then
    let (status, w) :=
      /- If connection failed because of during pairing, need to tell user -/
      if is_pairing_device then
        let w := w.setDev p (fun r =>
          { r with security_required :=
              andNot16 r.security_required K.BTM_SEC_OUT_AUTHENTICATE })
        let clr := K.BTM_SEC_LINK_KEY_KNOWN ||| K.BTM_SEC_LINK_KEY_AUTHED
        let w := w.setDev p (fun r =>
          { r with sec_flags := andNot16 r.sec_flags (clr <<< bit_shift) })
        let w := btm_sec_change_pairing_state K E w tBTM_PAIRING_STATE.BTM_PAIR_STATE_IDLE
        /- We need to notify host that the key is not known any more -/
        if w.cb.api.p_auth_complete_callback then
          (status, w.emit (Event.p_auth_complete_callback (w.dev p).bd_addr status))
        else (status, w)
      /- Do not send authentication failure, if following conditions hold good -/
      else if decide ((w.dev p).link_key_type ≤ K.BTM_LKEY_TYPE_REMOTE_UNIT)
          && (status == K.HCI_ERR_AUTH_FAILURE || status == K.HCI_ERR_KEY_MISSING
              || status == K.HCI_ERR_HOST_REJECT_SECURITY
              || status == K.HCI_ERR_UNIT_KEY_USED
              || status == K.HCI_ERR_PAIRING_WITH_UNIT_KEY_NOT_SUPPORTED
              || status == K.HCI_ERR_ENCRY_MODE_NOT_ACCEPTABLE
              || status == K.HCI_ERR_REPEATED_ATTEMPTS) then
        let w := w.setDev p (fun r =>
          { r with security_required :=
              andNot16 r.security_required K.BTM_SEC_OUT_AUTHENTICATE })
        let w := w.setDev p (fun r =>
          { r with sec_flags :=
              andNot16 r.sec_flags (K.BTM_SEC_LE_LINK_KEY_KNOWN <<< bit_shift) })
        /- If we rejected pairing, pass this special result code -/
        let status :=
          if K.BRCM_NOT_4_BTE && w.cb.acl_disc_reason == K.HCI_ERR_HOST_REJECT_SECURITY then
            K.HCI_ERR_HOST_REJECT_SECURITY
          else status
        /- We need to notify host that the key is not known any more -/
        if w.cb.api.p_auth_complete_callback then
          (status, w.emit (Event.p_auth_complete_callback (w.dev p).bd_addr status))
        else (status, w)
      else (status, w)
    if status == K.HCI_ERR_CONNECTION_TOUT || status == K.HCI_ERR_LMP_RESPONSE_TIMEOUT
        || status == K.HCI_ERR_UNSPECIFIED || status == K.HCI_ERR_PAGE_TIMEOUT then
      btm_sec_dev_rec_cback_event K E w p tBTM_STATUS.BTM_DEVICE_TIMEOUT false
    else
      btm_sec_dev_rec_cback_event K E w p tBTM_STATUS.BTM_ERR_PROCESSING false
  /- If dedicated bonding, and we now have a link key, we are all done -/
  else if is_pairing_device && tst (w.dev p).sec_flags K.BTM_SEC_LINK_KEY_KNOWN then
    let w :=
      if (w.dev p).link_key_not_sent then
        btm_send_link_key_notif (w.setDev p (fun r => { r with link_key_not_sent := false })) p
      else w
    let w := w.setDev p (fun r =>
      { r with security_required :=
          andNot16 r.security_required K.BTM_SEC_OUT_AUTHENTICATE })
    /- remember flag before it is initialized -/
    let res := tst w.cb.pairing_flags K.BTM_PAIR_FLAGS_WE_STARTED_DD
    let w :=
      if w.cb.api.p_auth_complete_callback then
        w.emit (Event.p_auth_complete_callback (w.dev p).bd_addr K.HCI_SUCCESS)
      else w
    let w := btm_sec_change_pairing_state K E w tBTM_PAIRING_STATE.BTM_PAIR_STATE_IDLE
    if res then
      /- Let l2cap start bond timer -/
      w.emit (Event.l2cu_update_lcb_4_bonding (w.dev p).bd_addr true)
    else w
  else
    let w := w.setDev p (fun r => { r with hci_handle := handle })
    let w :=
      if (E.btm_bda_to_acl bda K.BT_TRANSPORT_BR_EDR).isSome
          && !K.BTM_BYPASS_EXTRA_ACL_SETUP then
        /- Set the packet types to the default allowed by the device -/
        let w := w.emit Event.btm_set_packet_types
        if w.cb.btm_def_link_policy != 0 then
          w.emit (Event.BTM_SetLinkPolicy w.cb.btm_def_link_policy)
        else w
      else w
    let w := w.emit (Event.btm_acl_created bda handle)
    /- Initialize security flags. -/
    let w := w.setDev p (fun r => connectedFlags K w.cb.security_mode r bit_shift enc_mode)
    w.setDev p (fun r => { r with link_key_changed := false })

/-- The middle of `btm_sec_connected` (lines 4501-4550), once `p_dev_rec` points to a
record: the test of the pairing target. -/
def connectedKnown (K : Hdr) (E : Env) (w : World) (p : Nat) (bda : BD_ADDR)
    (handle status enc_mode bit_shift : Nat) : World :=
  let w :=
    if K.BLE_INCLUDED then
      w.setDev p (fun r => { r with device_type := u8 (r.device_type ||| K.BT_DEVICE_TYPE_BREDR) })
    else w
  let w :=
    if K.BTM_DISC_DURING_RS then
      w.setDev p (fun r => { r with rs_disc_pending := K.BTM_SEC_RS_NOT_PENDING })
    else w
  let w := w.setDev p (fun r => { r with rs_disc_pending := K.BTM_SEC_RS_NOT_PENDING })
  if w.cb.pairing_state != tBTM_PAIRING_STATE.BTM_PAIR_STATE_IDLE
      && w.cb.pairing_bda == bda then
    /- if we rejected incoming connection from bonding device -/
    if status == K.HCI_ERR_HOST_REJECT_DEVICE
        && tst w.cb.pairing_flags K.BTM_PAIR_FLAGS_REJECTED_CONNECT then
      let w := w.setCb (fun cb =>
        { cb with pairing_flags := andNot8 cb.pairing_flags K.BTM_PAIR_FLAGS_REJECTED_CONNECT })
      if K.BTM_SEC_IS_SM4_UNKNOWN (w.dev p).sm4 then
        /- Try again: RNR when no ACL causes HCI_RMT_HOST_SUP_FEAT_NOTIFY_EVT -/
        let w := btm_sec_change_pairing_state K E w
          tBTM_PAIRING_STATE.BTM_PAIR_STATE_GET_REM_NAME
        w.emit (Event.BTM_ReadRemoteDeviceName bda)
      /- if we already have pin code -/
      else if w.cb.pairing_state != tBTM_PAIRING_STATE.BTM_PAIR_STATE_WAIT_LOCAL_PIN then
        /- Start timer with 0 to initiate connection with new LCB -/
        let w := w.setCb (fun cb => { cb with p_collided_dev_rec := some p })
        w.emit (Event.btu_start_timer Timer.sec_collision_tle 0)
      else w
    /- wait for incoming connection without resetting pairing state -/
    else if status == K.HCI_ERR_CONNECTION_EXISTS then w
    else connectedTail K E w p bda handle status enc_mode bit_shift true
  else connectedTail K E w p bda handle status enc_mode bit_shift false

/-- `btm_sec_connected` (lines 4403-4692). -/
def btm_sec_connected (K : Hdr) (E : Env) (w : World) (bda : BD_ADDR)
    (handle status enc_mode : Nat) : World :=
  let p_dev_rec := btm_find_dev K w.cb bda
  let w := w.emit Event.btm_acl_resubmit_page
  match p_dev_rec with
  | none =>
    /- There is no device record for new connection.  Allocate one -/
    if status == K.HCI_SUCCESS then
      let (p, cb) := E.btm_sec_alloc_dev w.cb bda
      let (p, w) := ({ w with cb := cb } : World).derefDev p
      connectedKnown K E w p bda handle status enc_mode 0
    /- if the device matches with stored paring address reset the paring state to
       idle -/
    else if w.cb.pairing_state != tBTM_PAIRING_STATE.BTM_PAIR_STATE_IDLE
        && w.cb.pairing_bda == bda then
      btm_sec_change_pairing_state K E w tBTM_PAIRING_STATE.BTM_PAIR_STATE_IDLE
    /- can not find the device record and the status is error, just ignore it -/
    else w
  | some p =>
    let bit_shift := if K.BLE_INCLUDED && handle == (w.dev p).ble_hci_handle then 8 else 0
    /- Update the timestamp for this device -/
    let w := w.setDev p (fun r => { r with timestamp := w.cb.dev_rec_count })
    let w := w.setCb (fun cb => { cb with dev_rec_count := (cb.dev_rec_count + 1) % 2 ^ 32 })
    if tst (w.dev p).sm4 K.BTM_SM4_CONN_PEND then
      /- tell L2CAP it's a bonding connection. -/
      if w.cb.pairing_state != tBTM_PAIRING_STATE.BTM_PAIR_STATE_IDLE
          && w.cb.pairing_bda == (w.dev p).bd_addr
          && tst w.cb.pairing_flags K.BTM_PAIR_FLAGS_WE_STARTED_DD then
        /- if incoming connection failed while pairing, then try to connect and
           continue -/
        if status != K.HCI_SUCCESS
            && w.cb.pairing_state == tBTM_PAIRING_STATE.BTM_PAIR_STATE_WAIT_PIN_REQ then
          let w := w.setDev p (fun r => { r with sm4 := andNot8 r.sm4 K.BTM_SM4_CONN_PEND })
          let w :=
            if tst (w.dev p).sec_flags K.BTM_SEC_NAME_KNOWN then
              /- Start timer with 0 to initiate connection with new LCB -/
              let w := w.setCb (fun cb => { cb with p_collided_dev_rec := some p })
              w.emit (Event.btu_start_timer Timer.sec_collision_tle 0)
            else
              let w := btm_sec_change_pairing_state K E w
                tBTM_PAIRING_STATE.BTM_PAIR_STATE_GET_REM_NAME
              w.emit (Event.BTM_ReadRemoteDeviceName (w.dev p).bd_addr)
          if K.BTM_DISC_DURING_RS then
            w.setDev p (fun r => { r with rs_disc_pending := K.BTM_SEC_RS_NOT_PENDING })
          else w
        else
          let w := w.emit (Event.l2cu_update_lcb_4_bonding (w.dev p).bd_addr true)
          /- always clear the pending flag -/
          let w := w.setDev p (fun r => { r with sm4 := andNot8 r.sm4 K.BTM_SM4_CONN_PEND })
          connectedKnown K E w p bda handle status enc_mode bit_shift
      else
        /- always clear the pending flag -/
        let w := w.setDev p (fun r => { r with sm4 := andNot8 r.sm4 K.BTM_SM4_CONN_PEND })
        connectedKnown K E w p bda handle status enc_mode bit_shift
    else connectedKnown K E w p bda handle status enc_mode bit_shift

/-! ## The flags of the device records as an invariant -/

/-- The flags of the classic transport that the operations below may change without
touching the encrypted, authenticated or link-key-known flag, with the masks that
`btm_sec_connected` clears for the LE handle (shift 8). -/
def otherFlags (K : Hdr) : Nat :=
  K.BTM_SEC_AUTHORIZED ||| K.BTM_SEC_NAME_KNOWN ||| K.BTM_SEC_LINK_KEY_AUTHED
    ||| K.BTM_SEC_ROLE_SWITCHED ||| K.BTM_SEC_LE_MASK ||| K.BTM_SEC_LE_AUTHENTICATED
    ||| K.BTM_SEC_LE_ENCRYPTED ||| K.BTM_SEC_LE_LINK_KEY_KNOWN
    ||| ((K.BTM_SEC_AUTHORIZED ||| K.BTM_SEC_AUTHENTICATED ||| K.BTM_SEC_ENCRYPTED
          ||| K.BTM_SEC_ROLE_SWITCHED) <<< 8)
    ||| ((K.BTM_SEC_LINK_KEY_KNOWN ||| K.BTM_SEC_LINK_KEY_AUTHED) <<< 8)
    ||| (K.BTM_SEC_LE_LINK_KEY_KNOWN <<< 8)

/-- What is assumed of the header values of the security flags: the encrypted,
authenticated and link-key-known flags are 16-bit masks, the authenticated flag is
not empty, and the three are apart from one another and from the other flags. -/
structure Hdr.flagsApart (K : Hdr) : Prop where
  auth_ne : K.BTM_SEC_AUTHENTICATED ≠ 0
  auth16 : K.BTM_SEC_AUTHENTICATED < 2 ^ 16
  enc16 : K.BTM_SEC_ENCRYPTED < 2 ^ 16
  known16 : K.BTM_SEC_LINK_KEY_KNOWN < 2 ^ 16
  enc_auth : K.BTM_SEC_ENCRYPTED &&& K.BTM_SEC_AUTHENTICATED = 0
  auth_known : K.BTM_SEC_AUTHENTICATED &&& K.BTM_SEC_LINK_KEY_KNOWN = 0
  enc_known : K.BTM_SEC_ENCRYPTED &&& K.BTM_SEC_LINK_KEY_KNOWN = 0
  enc_other : K.BTM_SEC_ENCRYPTED &&& otherFlags K = 0
  auth_other : K.BTM_SEC_AUTHENTICATED &&& otherFlags K = 0
  known_other : K.BTM_SEC_LINK_KEY_KNOWN &&& otherFlags K = 0

/-- Whether a value of `sec_flags` respects the implication: encrypted on the classic
transport implies authenticated on the classic transport. When `strict` is `false`,
flags whose link-key-known bit is clear pass as well. -/
def flagsOkOf (K : Hdr) (strict : Bool) (sec_flags : Nat) : Bool :=
  !tst sec_flags K.BTM_SEC_ENCRYPTED || tst sec_flags K.BTM_SEC_AUTHENTICATED
    || (!strict && !tst sec_flags K.BTM_SEC_LINK_KEY_KNOWN)

/-- The test `flagsOkOf` on the flags of a device record. -/
def flagsOk (K : Hdr) (strict : Bool) (r : tBTM_SEC_DEV_REC) : Bool :=
  flagsOkOf K strict r.sec_flags

/-- The invariant: every record of the device table passes `flagsOk`. In the strict
form the application's Simple Pairing callback is registered as well, so that the
application is asked before a link key is upgraded. -/
def World.flagsKept (K : Hdr) (strict : Bool) (w : World) : Prop :=
  (∀ r ∈ w.cb.sec_dev_rec, flagsOk K strict r = true) ∧
  (strict = true → w.cb.api.p_sp_callback = true)

/-- What is assumed of `btm_sec_alloc_dev`, which is outside this file: the table it
leaves passes the test if the one it got did, and it does not touch the registered
callbacks. -/
def Env.allocKeepsFlags (E : Env) (K : Hdr) (strict : Bool) : Prop :=
  ∀ (cb : tBTM_CB) (bd_addr : BD_ADDR) (out : List Event),
    World.flagsKept K strict { cb := cb, out := out } →
    World.flagsKept K strict { cb := (E.btm_sec_alloc_dev cb bd_addr).2, out := out }

/-- The application declines every link-key upgrade it is asked about. -/
def Env.declinesUpgrade (E : Env) : Prop := ∀ bd_addr : BD_ADDR, E.sp_upgrade bd_addr = false

/-! ## The operations on the security state -/

/-- The functions of `btm_sec.c` modelled above that work on the state, each with its
arguments. Every function of the file that writes the encrypted or the authenticated
flag of a device record is among them: `btm_sec_bond_by_transport` (line 1254),
`btm_sec_check_upgrade` (line 2217), `btm_simple_pair_complete` (line 3794),
`btm_sec_auth_complete` (line 4192), `btm_sec_encrypt_change` (lines 4267 and 4277),
`btm_sec_connected` (lines 4679-4686) and `btm_sec_disconnected` (line 4852). -/
inductive Operation where
  | BTM_SetSecurityLevel (is_originator : Bool) (p_name : List Nat)
      (service_id sec_level psm mx_proto_id mx_chan_id : Nat)
  | BTM_SecClrService (service_id : Nat)
  | BTM_PINCodeReply (bd_addr : BD_ADDR) (res : tBTM_STATUS) (pin_len : Nat)
      (p_pin : Option (List Nat)) (trusted_mask : Option (List Nat))
  | btm_sec_bond_by_transport (bd_addr : BD_ADDR) (transport pin_len : Nat)
      (p_pin : Option (List Nat)) (trusted_mask : Option (List Nat))
  | BTM_SetEncryption (bd_addr : BD_ADDR) (transport : Nat) (p_callback : Option Nat)
      (p_ref_data : Nat)
  | btm_sec_l2cap_access_req (bd_addr : BD_ADDR) (psm handle : Nat)
      (conn_type : CONNECTION_TYPE) (p_callback : Option Nat) (p_ref_data : Nat)
  | btm_sec_mx_access_request (bd_addr : BD_ADDR) (psm : Nat) (is_originator : Bool)
      (mx_proto_id mx_chan_id : Nat) (p_callback : Option Nat) (p_ref_data : Nat)
  | btm_sec_init (sec_mode : Nat)
  | btm_sec_dev_rec_cback_event (p_dev_rec : Nat) (res : tBTM_STATUS)
      (is_le_transport : Bool)
  | btm_sec_abort_access_req (bd_addr : BD_ADDR)
  | btm_sec_dd_create_conn (p_dev_rec : Nat)
  | btm_io_capabilities_req (bd_addr : BD_ADDR)
  | btm_simple_pair_complete (status : Nat) (bd_addr : BD_ADDR)
  | btm_sec_auth_collision (handle : Nat)
  | btm_sec_auth_complete (handle status : Nat)
  | btm_sec_encrypt_change (handle status encr_enable : Nat)
  | btm_sec_connected (bda : BD_ADDR) (handle status enc_mode : Nat)
  | btm_sec_disconnected (handle reason : Nat)
  | btm_sec_bond_cancel_complete
  | btm_sec_pairing_timeout
  | btm_sec_execute_procedure (p_dev_rec : Nat)
  | btm_sec_start_get_name (p_dev_rec : Nat)
  | btm_sec_start_authentication (p_dev_rec : Nat)
  | btm_sec_start_encryption (p_dev_rec : Nat)
  | btm_sec_start_authorization (p_dev_rec : Nat)
  | btm_send_link_key_notif (p_dev_rec : Nat)
  | btm_restore_mode
  | btm_sec_send_hci_disconnect (p_dev_rec reason conn_handle : Nat)
  | btm_sec_change_pairing_state (new_state : tBTM_PAIRING_STATE)
  | btm_sec_check_prefetch_pin (p_dev_rec : Nat)
  | btm_sec_queue_mx_request (bd_addr : BD_ADDR) (psm : Nat) (is_orig : Bool)
      (mx_proto_id mx_chan_id : Nat) (p_callback : Option Nat) (p_ref_data : Nat)
  | btm_sec_check_pending_reqs
  | btm_sec_check_upgrade (p_dev_rec : Nat) (is_originator : Bool)

/-- The state an operation leaves; a status the function returns is dropped. -/
def Operation.run (K : Hdr) (E : Env) (op : Operation) (w : World) : World :=
  match op with
  | .BTM_SetSecurityLevel is_originator p_name service_id sec_level psm mx_proto_id
      mx_chan_id =>
    (w.BTM_SetSecurityLevel K is_originator p_name service_id sec_level psm mx_proto_id
      mx_chan_id).2
  | .BTM_SecClrService service_id => (w.BTM_SecClrService K service_id).2
  | .BTM_PINCodeReply bd_addr res pin_len p_pin trusted_mask =>
    BtmSec.BTM_PINCodeReply K E w bd_addr res pin_len p_pin trusted_mask
  | .btm_sec_bond_by_transport bd_addr transport pin_len p_pin trusted_mask =>
    (BtmSec.btm_sec_bond_by_transport K E w bd_addr transport pin_len p_pin trusted_mask).2
  | .BTM_SetEncryption bd_addr transport p_callback p_ref_data =>
    (BtmSec.BTM_SetEncryption K E w bd_addr transport p_callback p_ref_data).2
  | .btm_sec_l2cap_access_req bd_addr psm handle conn_type p_callback p_ref_data =>
    (BtmSec.btm_sec_l2cap_access_req K E w bd_addr psm handle conn_type p_callback
      p_ref_data).2
  | .btm_sec_mx_access_request bd_addr psm is_originator mx_proto_id mx_chan_id p_callback
      p_ref_data =>
    (BtmSec.btm_sec_mx_access_request K E w bd_addr psm is_originator mx_proto_id
      mx_chan_id p_callback p_ref_data).2
  | .btm_sec_init sec_mode => BtmSec.btm_sec_init K w sec_mode
  | .btm_sec_dev_rec_cback_event p_dev_rec res is_le_transport =>
    BtmSec.btm_sec_dev_rec_cback_event K E w p_dev_rec res is_le_transport
  | .btm_sec_abort_access_req bd_addr => BtmSec.btm_sec_abort_access_req K w bd_addr
  | .btm_sec_dd_create_conn p_dev_rec => (BtmSec.btm_sec_dd_create_conn K E w p_dev_rec).2
  | .btm_io_capabilities_req bd_addr => BtmSec.btm_io_capabilities_req K E w bd_addr
  | .btm_simple_pair_complete status bd_addr =>
    BtmSec.btm_simple_pair_complete K E w status bd_addr
  | .btm_sec_auth_collision handle => BtmSec.btm_sec_auth_collision K E w handle
  | .btm_sec_auth_complete handle status => BtmSec.btm_sec_auth_complete K E w handle status
  | .btm_sec_encrypt_change handle status encr_enable =>
    BtmSec.btm_sec_encrypt_change K E w handle status encr_enable
  | .btm_sec_connected bda handle status enc_mode =>
    BtmSec.btm_sec_connected K E w bda handle status enc_mode
  | .btm_sec_disconnected handle reason => BtmSec.btm_sec_disconnected K E w handle reason
  | .btm_sec_bond_cancel_complete => BtmSec.btm_sec_bond_cancel_complete K E w
  | .btm_sec_pairing_timeout => BtmSec.btm_sec_pairing_timeout K E w
  | .btm_sec_execute_procedure p_dev_rec => (BtmSec.btm_sec_execute_procedure K E w p_dev_rec).2
  | .btm_sec_start_get_name p_dev_rec => (BtmSec.btm_sec_start_get_name E w p_dev_rec).2
  | .btm_sec_start_authentication p_dev_rec =>
    (BtmSec.btm_sec_start_authentication E w p_dev_rec).2
  | .btm_sec_start_encryption p_dev_rec => (BtmSec.btm_sec_start_encryption E w p_dev_rec).2
  | .btm_sec_start_authorization p_dev_rec =>
    (BtmSec.btm_sec_start_authorization K E w p_dev_rec).2
  | .btm_send_link_key_notif p_dev_rec => BtmSec.btm_send_link_key_notif w p_dev_rec
  | .btm_restore_mode => BtmSec.btm_restore_mode K w
  | .btm_sec_send_hci_disconnect p_dev_rec reason conn_handle =>
    (BtmSec.btm_sec_send_hci_disconnect K E w p_dev_rec reason conn_handle).2
  | .btm_sec_change_pairing_state new_state =>
    BtmSec.btm_sec_change_pairing_state K E w new_state
  | .btm_sec_check_prefetch_pin p_dev_rec =>
    (BtmSec.btm_sec_check_prefetch_pin K E w p_dev_rec).2
  | .btm_sec_queue_mx_request bd_addr psm is_orig mx_proto_id mx_chan_id p_callback
      p_ref_data =>
    (BtmSec.btm_sec_queue_mx_request E w bd_addr psm is_orig mx_proto_id mx_chan_id
      p_callback p_ref_data).2
  | .btm_sec_check_pending_reqs => BtmSec.btm_sec_check_pending_reqs K E w
  | .btm_sec_check_upgrade p_dev_rec is_originator =>
    BtmSec.btm_sec_check_upgrade K E w p_dev_rec is_originator

/-! # Properties -/

/-! ## Bit-level lemmas -/

theorem testBit_u16 (x i : Nat) : (u16 x).testBit i = (decide (i < 16) && x.testBit i) := by
  unfold u16; exact Nat.testBit_mod_two_pow x 16 i

theorem testBit_andNot16 (x m i : Nat) :
    (andNot16 x m).testBit i = (x.testBit i && (decide (i < 16) && !m.testBit i)) := by
  unfold andNot16
  simp only [Nat.testBit_and, Nat.testBit_xor, Nat.testBit_two_pow_sub_one,
    Nat.testBit_mod_two_pow]
  cases x.testBit i <;> cases m.testBit i <;> cases decide (i < 16) <;> rfl

theorem testBit_of_lt16 {x i : Nat} (hx : x < 2 ^ 16) (h : x.testBit i = true) : i < 16 := by
  by_contra hlt
  have h16 : 16 ≤ i := Nat.le_of_not_lt hlt
  have : x < 2 ^ i := Nat.lt_of_lt_of_le hx (Nat.pow_le_pow_right (by decide) h16)
  rw [Nat.testBit_lt_two_pow this] at h
  exact Bool.false_ne_true h

/-- Containment of a mask, bit by bit. -/
theorem and_eq_right_iff (x m : Nat) :
    x &&& m = m ↔ ∀ i, m.testBit i = true → x.testBit i = true := by
  constructor
  · intro h i hm
    have := congrArg (fun n => n.testBit i) h
    simp only [Nat.testBit_and, hm, Bool.and_true] at this
    exact this
  · intro h
    apply Nat.eq_of_testBit_eq
    intro i
    rw [Nat.testBit_and]
    cases hm : m.testBit i
    · simp
    · simp [h i hm]

/-- Disjointness of two masks, bit by bit. -/
theorem and_eq_zero_iff_bits (a b : Nat) :
    a &&& b = 0 ↔ ∀ i, a.testBit i = true → b.testBit i = false := by
  constructor
  · intro h i ha
    have := congrArg (fun n => n.testBit i) h
    simp only [Nat.testBit_and, ha, Bool.true_and, Nat.zero_testBit] at this
    exact this
  · intro h
    apply Nat.eq_of_testBit_eq
    intro i
    rw [Nat.testBit_and, Nat.zero_testBit]
    cases ha : a.testBit i
    · simp
    · simp [h i ha]

theorem tst_eq_true_iff (x m : Nat) :
    tst x m = true ↔ ∃ i, x.testBit i = true ∧ m.testBit i = true := by
  unfold tst
  rw [bne_iff_ne]
  constructor
  · intro h
    obtain ⟨i, hi⟩ := Nat.ne_zero_implies_bit_true h
    rw [Nat.testBit_and] at hi
    exact ⟨i, by simpa using hi⟩
  · rintro ⟨i, hx, hm⟩ h0
    have := congrArg (fun n => n.testBit i) h0
    simp [Nat.testBit_and, hx, hm] at this

theorem tst_of_contains {x m : Nat} (hm : m ≠ 0) (h : x &&& m = m) : tst x m = true := by
  unfold tst; rw [h]; simpa using hm

theorem lt16_of_contains {x m : Nat} (hx : x < 2 ^ 16) (h : x &&& m = m) : m < 2 ^ 16 := by
  apply Nat.lt_pow_two_of_testBit
  intro i hi
  cases hm : m.testBit i
  · rfl
  · have := testBit_of_lt16 hx ((and_eq_right_iff x m).1 h i hm)
    omega

/-- The normalisation shared by the two directions: strip the other side's bits, add
the MITM bit under a condition, force the authenticate bit when the encrypt bit is
set. -/
theorem level_contains (sl strip enc auth mitm : Nat) (c : Bool)
    (hsl : sl < 2 ^ 16) (hauth : auth < 2 ^ 16) (hne : enc ≠ 0)
    (hdis : enc &&& strip = 0) (h : sl &&& enc = enc) :
    let s1 := andNot16 sl strip
    let s2 := if c then u16 (s1 ||| mitm) else s1
    let s3 := if tst s2 enc then u16 (s2 ||| auth) else s2
    s3 &&& enc = enc ∧ s3 &&& auth = auth := by
  intro s1 s2 s3
  have henc16 : enc < 2 ^ 16 := lt16_of_contains hsl h
  have hsub := (and_eq_right_iff sl enc).1 h
  have hd := (and_eq_zero_iff_bits enc strip).1 hdis
  have h2 : ∀ i, enc.testBit i = true → s2.testBit i = true := by
    intro i hi
    have hi16 := testBit_of_lt16 henc16 hi
    have h1 : s1.testBit i = true := by
      simp only [s1, testBit_andNot16, hsub i hi, hd i hi, hi16, decide_True, Bool.not_false,
        Bool.and_self]
    simp only [s2]
    split
    · simp [testBit_u16, Nat.testBit_or, h1, hi16]
    · exact h1
  have ht : tst s2 enc = true := tst_of_contains hne ((and_eq_right_iff s2 enc).2 h2)
  have hs3 : s3 = u16 (s2 ||| auth) := by simp only [s3, ht, if_true]
  rw [hs3]
  constructor
  · apply (and_eq_right_iff _ _).2
    intro i hi
    simp [testBit_u16, Nat.testBit_or, h2 i hi, testBit_of_lt16 henc16 hi]
  · apply (and_eq_right_iff _ _).2
    intro i hi
    simp [testBit_u16, Nat.testBit_or, hi, testBit_of_lt16 hauth hi]

theorem origSecLevel_contains (K : Hdr) (mode sl : Nat)
    (hsl : sl < 2 ^ 16) (hauth : K.BTM_SEC_OUT_AUTHENTICATE < 2 ^ 16)
    (hne : K.BTM_SEC_OUT_ENCRYPT ≠ 0)
    (hdis : K.BTM_SEC_OUT_ENCRYPT &&& inLevelMask K = 0)
    (h : sl &&& K.BTM_SEC_OUT_ENCRYPT = K.BTM_SEC_OUT_ENCRYPT) :
    origSecLevel K mode sl &&& K.BTM_SEC_OUT_ENCRYPT = K.BTM_SEC_OUT_ENCRYPT ∧
    origSecLevel K mode sl &&& K.BTM_SEC_OUT_AUTHENTICATE = K.BTM_SEC_OUT_AUTHENTICATE :=
  level_contains sl (inLevelMask K) _ _ K.BTM_SEC_OUT_MITM _ hsl hauth hne hdis h

theorem termSecLevel_contains (K : Hdr) (mode sl : Nat)
    (hsl : sl < 2 ^ 16) (hauth : K.BTM_SEC_IN_AUTHENTICATE < 2 ^ 16)
    (hne : K.BTM_SEC_IN_ENCRYPT ≠ 0)
    (hdis : K.BTM_SEC_IN_ENCRYPT &&& outLevelMask K = 0)
    (h : sl &&& K.BTM_SEC_IN_ENCRYPT = K.BTM_SEC_IN_ENCRYPT) :
    termSecLevel K mode sl &&& K.BTM_SEC_IN_ENCRYPT = K.BTM_SEC_IN_ENCRYPT ∧
    termSecLevel K mode sl &&& K.BTM_SEC_IN_AUTHENTICATE = K.BTM_SEC_IN_AUTHENTICATE :=
  level_contains sl (outLevelMask K) _ _ K.BTM_SEC_IN_MITM _ hsl hauth hne hdis h

/-- Bits of a 16-bit mask present in `lvl` are present in `flags | (UINT16)(lvl | u)`. -/
theorem or_u16_contains (flags lvl u m : Nat) (hm : m < 2 ^ 16) (h : lvl &&& m = m) :
    (flags ||| u16 (lvl ||| u)) &&& m = m := by
  apply (and_eq_right_iff _ _).2
  intro i hi
  simp [Nat.testBit_or, testBit_u16, (and_eq_right_iff lvl m).1 h i hi, testBit_of_lt16 hm hi]

/-! ## The search loop of the registry -/

theorem servScan_length (K : Hdr) (p_name : List Nat) (service_id psm mx_proto_id : Nat)
    (rest : List tBTM_SEC_SERV_REC) :
    ∀ (seen : List tBTM_SEC_SERV_REC) (a : Bool) (f : Nat),
      (servScan K p_name service_id psm mx_proto_id seen rest a f).recs.length
        = seen.length + rest.length := by
  induction rest with
  | nil => intro seen a f; simp [servScan]
  | cons r rs ih =>
    intro seen a f
    unfold servScan
    split_ifs
    · simp
    · rw [ih]; simp; omega
    · rw [ih]; simp; omega
    · rw [ih]; simp; omega

theorem servScan_index_le (K : Hdr) (p_name : List Nat) (service_id psm mx_proto_id : Nat)
    (rest : List tBTM_SEC_SERV_REC) :
    ∀ (seen : List tBTM_SEC_SERV_REC) (a : Bool) (f : Nat),
      (servScan K p_name service_id psm mx_proto_id seen rest a f).index
        ≤ seen.length + rest.length := by
  induction rest with
  | nil => intro seen a f; simp [servScan]
  | cons r rs ih =>
    intro seen a f
    unfold servScan
    split_ifs
    · simp
    · have := ih (seen ++ [r]) a f; simp at this ⊢; omega
    · have := ih (seen ++ [tBTM_SEC_SERV_REC.zero K]) true seen.length; simp at this ⊢; omega
    · have := ih (seen ++ [r]) a f; simp at this ⊢; omega

/-- When the loop runs to the end with a record allocated, `first_unused_record` is
the slot it had on entry (if one was already allocated) or a slot of the part still
to visit. -/
theorem servScan_first_unused (K : Hdr) (p_name : List Nat) (service_id psm mx_proto_id : Nat)
    (rest : List tBTM_SEC_SERV_REC) :
    ∀ (seen : List tBTM_SEC_SERV_REC) (a : Bool) (f : Nat),
      (servScan K p_name service_id psm mx_proto_id seen rest a f).record_allocated = true →
      seen.length + rest.length
        ≤ (servScan K p_name service_id psm mx_proto_id seen rest a f).index →
      (a = true →
        (servScan K p_name service_id psm mx_proto_id seen rest a f).first_unused_record = f) ∧
      (a = false →
        seen.length
          ≤ (servScan K p_name service_id psm mx_proto_id seen rest a f).first_unused_record ∧
        (servScan K p_name service_id psm mx_proto_id seen rest a f).first_unused_record
          < seen.length + rest.length) := by
  induction rest with
  | nil =>
    intro seen a f h _
    simp only [servScan] at h ⊢
    subst h
    simp
  | cons r rs ih =>
    intro seen a f
    unfold servScan
    split_ifs with h1 h2 h3
    · intro _ hidx; simp at hidx
    · intro h hidx
      have := ih (seen ++ [r]) a f h (by simp at hidx ⊢; omega)
      simp at this ⊢
      constructor
      · exact this.1
      · intro ha; have := this.2 ha; omega
    · intro h hidx
      have := ih (seen ++ [tBTM_SEC_SERV_REC.zero K]) true seen.length h
        (by simp at hidx ⊢; omega)
      have h3' : a = false := by simpa using h3
      have hf := this.1 rfl
      constructor
      · intro ha; rw [ha] at h3'; cases h3'
      · intro _; rw [hf]; simp
    · intro h hidx
      have := ih (seen ++ [r]) a f h (by simp at hidx ⊢; omega)
      simp at this ⊢
      constructor
      · exact this.1
      · intro ha; have := this.2 ha; omega

/-- The loop never touches a record that is in use. -/
theorem servScan_in_use (K : Hdr) (p_name : List Nat) (service_id psm mx_proto_id : Nat)
    (rest : List tBTM_SEC_SERV_REC) :
    ∀ (seen : List tBTM_SEC_SERV_REC) (a : Bool) (f : Nat) (i : Nat) (r : tBTM_SEC_SERV_REC),
      (seen ++ rest)[i]? = some r → tst r.security_flags K.BTM_SEC_IN_USE = true →
      (servScan K p_name service_id psm mx_proto_id seen rest a f).recs[i]? = some r := by
  induction rest with
  | nil => intro seen a f i r h _; simpa [servScan] using h
  | cons x xs ih =>
    intro seen a f i r h hr
    unfold servScan
    split_ifs with h1 h2 h3
    · exact h
    · exact ih (seen ++ [x]) a f i r (by simpa using h) hr
    · apply ih (seen ++ [tBTM_SEC_SERV_REC.zero K]) true seen.length i r _ hr
      rcases Nat.lt_trichotomy i seen.length with hlt | heq | hgt
      · rw [List.getElem?_append_left hlt] at h
        rw [List.append_assoc, List.getElem?_append_left hlt]; exact h
      · subst heq
        rw [List.getElem?_append_right (Nat.le_refl _)] at h
        simp at h
        subst h
        rw [hr] at h1; exact absurd rfl h1
      · rw [List.getElem?_append_right (Nat.le_of_lt hgt)] at h
        rw [List.append_assoc, List.getElem?_append_right (Nat.le_of_lt hgt)]
        obtain ⟨k, hk⟩ : ∃ k, i - seen.length = k + 1 := ⟨i - seen.length - 1, by omega⟩
        rw [hk] at h ⊢
        simpa using h
    · exact ih (seen ++ [x]) a f i r (by simpa using h) hr

/-- A successful registration rewrites exactly one record, the one at the returned
index, by `servUpdate`; when that record was in use before the call, the update is
applied to its previous contents. -/
theorem set_level_record (K : Hdr) (db : ServDb) (ct : CONNECTION_TYPE) (p_name : List Nat)
    (service_id sec_level psm mx_proto_id mx_chan_id : Nat)
    (h : (btm_sec_set_security_level K db ct p_name service_id sec_level psm mx_proto_id
            mx_chan_id).ret = true) :
    ∃ r0,
      (btm_sec_set_security_level K db ct p_name service_id sec_level psm mx_proto_id
          mx_chan_id).db.sec_serv_rec[(btm_sec_set_security_level K db ct p_name service_id
          sec_level psm mx_proto_id mx_chan_id).index]?
        = some (servUpdate K db.security_mode r0 ct.orig (K.L2CAP_UCD_INCLUDED && ct.connless)
            p_name service_id sec_level psm mx_proto_id mx_chan_id) ∧
      ∀ r, db.sec_serv_rec[(btm_sec_set_security_level K db ct p_name service_id
          sec_level psm mx_proto_id mx_chan_id).index]? = some r →
        tst r.security_flags K.BTM_SEC_IN_USE = true → r0 = r := by
  have hlen := servScan_length K p_name service_id psm mx_proto_id db.sec_serv_rec [] false 0
  have hle := servScan_index_le K p_name service_id psm mx_proto_id db.sec_serv_rec [] false 0
  have hfu := servScan_first_unused K p_name service_id psm mx_proto_id db.sec_serv_rec [] false 0
  have hin := servScan_in_use K p_name service_id psm mx_proto_id db.sec_serv_rec [] false 0
  simp only [List.length_nil, Nat.zero_add, List.nil_append] at hlen hle hfu hin
  unfold btm_sec_set_security_level at h ⊢
  generalize servScan K p_name service_id psm mx_proto_id [] db.sec_serv_rec false 0 = sc
    at h hlen hle hfu hin ⊢
  cases hra : sc.record_allocated
  · simp [hra] at h
  · simp only [hra, Bool.not_true, Bool.false_eq_true, if_false] at h ⊢
    have hidx : (if sc.index ≥ db.sec_serv_rec.length then sc.first_unused_record else sc.index)
        < sc.recs.length := by
      split_ifs with hge
      · have := (hfu hra hge).2 trivial
        omega
      · omega
    generalize (if sc.index ≥ db.sec_serv_rec.length then sc.first_unused_record else sc.index)
      = idx at h hidx ⊢
    have hget : sc.recs[idx]? = some sc.recs[idx] := List.getElem?_eq_getElem hidx
    rw [hget]
    refine ⟨sc.recs[idx], ?_, ?_⟩
    · simp [List.getElem?_set, hidx]
    · intro r hr hu
      have := hin idx r hr hu
      rw [hget] at this
      exact Option.some.inj this

theorem servUpdate_flags_conn (K : Hdr) (mode : Nat) (r : tBTM_SEC_SERV_REC) (orig : Bool)
    (p_name : List Nat) (service_id sec_level psm mx_proto_id mx_chan_id : Nat) :
    (servUpdate K mode r orig false p_name service_id sec_level psm mx_proto_id
        mx_chan_id).security_flags
      = andNot16 r.security_flags
          ((if orig then origClearMask K else termClearMask K) |||
            (if K.BTM_SECURE_CONN_HOST_INCLUDED then K.BTM_SEC_SECURE_CONN else 0))
        ||| u16 ((if orig then origSecLevel K mode sec_level else termSecLevel K mode sec_level)
              ||| K.BTM_SEC_IN_USE) ∧
    (servUpdate K mode r orig false p_name service_id sec_level psm mx_proto_id
        mx_chan_id).ucd_security_flags = r.ucd_security_flags := by
  unfold servUpdate
  cases orig <;> simp <;> split_ifs <;> simp

theorem servUpdate_flags_ucd (K : Hdr) (mode : Nat) (r : tBTM_SEC_SERV_REC) (orig : Bool)
    (p_name : List Nat) (service_id sec_level psm mx_proto_id mx_chan_id : Nat) :
    (servUpdate K mode r orig true p_name service_id sec_level psm mx_proto_id
        mx_chan_id).security_flags = r.security_flags ||| u16 K.BTM_SEC_IN_USE ∧
    (servUpdate K mode r orig true p_name service_id sec_level psm mx_proto_id
        mx_chan_id).ucd_security_flags
      = andNot16 r.ucd_security_flags (if orig then origClearMask K else termClearMask K)
        ||| u16 ((if orig then origSecLevel K mode sec_level else termSecLevel K mode sec_level)
              ||| K.BTM_SEC_IN_USE) := by
  unfold servUpdate
  cases orig <;> simp <;> split_ifs <;> simp

theorem and_or_eq_zero {a b c : Nat} (h : a &&& (b ||| c) = 0) : a &&& b = 0 ∧ a &&& c = 0 := by
  have hb := (and_eq_zero_iff_bits a (b ||| c)).1 h
  constructor
  · apply (and_eq_zero_iff_bits a b).2
    intro i hi
    have := hb i hi
    rw [Nat.testBit_or] at this
    cases hbi : b.testBit i
    · rfl
    · rw [hbi] at this; simp at this
  · apply (and_eq_zero_iff_bits a c).2
    intro i hi
    have := hb i hi
    rw [Nat.testBit_or] at this
    cases hci : c.testBit i
    · rfl
    · rw [hci] at this; simp at this

/-- The normalised level has none of the stripped bits, when the two bits that may be
added are not among them. -/
theorem level_disjoint (sl strip enc auth mitm : Nat) (c : Bool)
    (hm : strip &&& mitm = 0) (ha : strip &&& auth = 0) :
    let s1 := andNot16 sl strip
    let s2 := if c then u16 (s1 ||| mitm) else s1
    let s3 := if tst s2 enc then u16 (s2 ||| auth) else s2
    strip &&& s3 = 0 := by
  intro s1 s2 s3
  have hm' := (and_eq_zero_iff_bits _ _).1 hm
  have ha' := (and_eq_zero_iff_bits _ _).1 ha
  have h1 : ∀ i, strip.testBit i = true → s1.testBit i = false := by
    intro i hi
    simp [s1, testBit_andNot16, hi]
  have h2 : ∀ i, strip.testBit i = true → s2.testBit i = false := by
    intro i hi
    simp only [s2]
    split
    · simp [testBit_u16, Nat.testBit_or, h1 i hi, hm' i hi]
    · exact h1 i hi
  apply (and_eq_zero_iff_bits _ _).2
  intro i hi
  simp only [s3]
  split
  · simp [testBit_u16, Nat.testBit_or, h2 i hi, ha' i hi]
  · exact h2 i hi

/-- Bits outside the cleared mask, the new level and the in-use bit keep their value
through `flags = (flags & ~clr) | (UINT16)(lvl | use)`. -/
theorem keep_bits (f clr lvl use keep : Nat) (hf : f < 2 ^ 16)
    (h1 : keep &&& clr = 0) (h2 : keep &&& lvl = 0) (h3 : keep &&& use = 0) :
    (andNot16 f clr ||| u16 (lvl ||| use)) &&& keep = f &&& keep := by
  have h1' := (and_eq_zero_iff_bits _ _).1 h1
  have h2' := (and_eq_zero_iff_bits _ _).1 h2
  have h3' := (and_eq_zero_iff_bits _ _).1 h3
  apply Nat.eq_of_testBit_eq
  intro i
  simp only [Nat.testBit_and, Nat.testBit_or, testBit_andNot16, testBit_u16]
  cases hk : keep.testBit i
  · simp
  · simp only [h1' i hk, h2' i hk, h3' i hk, Bool.not_false, Bool.and_true, Bool.or_false,
      Bool.and_false]
    cases hfi : f.testBit i
    · simp
    · simp [testBit_of_lt16 hf hfi]

theorem keep_bits_use (f use keep : Nat) (h3 : keep &&& use = 0) :
    (f ||| u16 use) &&& keep = f &&& keep := by
  have h3' := (and_eq_zero_iff_bits _ _).1 h3
  apply Nat.eq_of_testBit_eq
  intro i
  simp only [Nat.testBit_and, Nat.testBit_or, testBit_u16]
  cases hk : keep.testBit i
  · simp
  · simp [h3' i hk]

theorem origClearMask_parts {K : Hdr} {a : Nat} (h : a &&& origClearMask K = 0) :
    a &&& K.BTM_SEC_OUT_MITM = 0 ∧ a &&& K.BTM_SEC_OUT_AUTHENTICATE = 0 := by
  unfold origClearMask at h
  have h1 := (and_or_eq_zero (and_or_eq_zero (and_or_eq_zero (and_or_eq_zero h).1).1).1).1
  exact ⟨(and_or_eq_zero h1).2, (and_or_eq_zero (and_or_eq_zero h1).1).2⟩

theorem termClearMask_parts {K : Hdr} {a : Nat} (h : a &&& termClearMask K = 0) :
    a &&& K.BTM_SEC_IN_MITM = 0 ∧ a &&& K.BTM_SEC_IN_AUTHENTICATE = 0 := by
  unfold termClearMask at h
  have h1 := (and_or_eq_zero (and_or_eq_zero (and_or_eq_zero (and_or_eq_zero h).1).1).1).1
  exact ⟨(and_or_eq_zero h1).2, (and_or_eq_zero (and_or_eq_zero h1).1).2⟩

theorem and_ite_zero {a b : Nat} (c : Bool) (h : a &&& b = 0) :
    a &&& (if c then b else 0) = 0 := by
  cases c <;> simp [h]

theorem and_or_zero {a b c : Nat} (hb : a &&& b = 0) (hc : a &&& c = 0) :
    a &&& (b ||| c) = 0 := by
  rw [Nat.and_or_distrib_left, hb, hc]; rfl

/-- C9: a connection-oriented registration (originator or acceptor) that succeeds
with a `sec_level` containing that direction's encrypt bit leaves the record's
`security_flags` containing that direction's encrypt bit and authenticate bit. -/
theorem C9_encrypt_forces_authenticate (K : Hdr) (db : ServDb) (orig : Bool)
    (p_name : List Nat) (service_id sec_level psm mx_proto_id mx_chan_id : Nat)
    (hsl : sec_level < 2 ^ 16)
    (hauth_out : K.BTM_SEC_OUT_AUTHENTICATE < 2 ^ 16)
    (hauth_in : K.BTM_SEC_IN_AUTHENTICATE < 2 ^ 16)
    (hne_out : K.BTM_SEC_OUT_ENCRYPT ≠ 0) (hne_in : K.BTM_SEC_IN_ENCRYPT ≠ 0)
    (hdis_out : K.BTM_SEC_OUT_ENCRYPT &&& inLevelMask K = 0)
    (hdis_in : K.BTM_SEC_IN_ENCRYPT &&& outLevelMask K = 0)
    (henc : sec_level &&& (if orig then K.BTM_SEC_OUT_ENCRYPT else K.BTM_SEC_IN_ENCRYPT)
              = (if orig then K.BTM_SEC_OUT_ENCRYPT else K.BTM_SEC_IN_ENCRYPT))
    (hret : (btm_sec_set_security_level K db ⟨orig, false⟩ p_name service_id sec_level psm
              mx_proto_id mx_chan_id).ret = true) :
    ∃ r, (btm_sec_set_security_level K db ⟨orig, false⟩ p_name service_id sec_level psm
            mx_proto_id mx_chan_id).db.sec_serv_rec[(btm_sec_set_security_level K db
            ⟨orig, false⟩ p_name service_id sec_level psm mx_proto_id mx_chan_id).index]?
          = some r ∧
      r.security_flags &&& (if orig then K.BTM_SEC_OUT_ENCRYPT else K.BTM_SEC_IN_ENCRYPT)
        = (if orig then K.BTM_SEC_OUT_ENCRYPT else K.BTM_SEC_IN_ENCRYPT) ∧
      r.security_flags &&&
          (if orig then K.BTM_SEC_OUT_AUTHENTICATE else K.BTM_SEC_IN_AUTHENTICATE)
        = (if orig then K.BTM_SEC_OUT_AUTHENTICATE else K.BTM_SEC_IN_AUTHENTICATE) := by
  obtain ⟨r0, hr0, -⟩ := set_level_record K db ⟨orig, false⟩ p_name service_id sec_level psm
    mx_proto_id mx_chan_id hret
  refine ⟨_, hr0, ?_⟩
  simp only [Bool.and_false]
  rw [(servUpdate_flags_conn K db.security_mode r0 orig p_name service_id sec_level psm
    mx_proto_id mx_chan_id).1]
  cases orig
  · simp only [Bool.false_eq_true, if_false] at henc ⊢
    obtain ⟨he, ha⟩ := termSecLevel_contains K db.security_mode sec_level hsl hauth_in hne_in
      hdis_in henc
    have he16 := lt16_of_contains hsl henc
    exact ⟨or_u16_contains _ _ _ _ he16 he, or_u16_contains _ _ _ _ hauth_in ha⟩
  · simp only [if_true] at henc ⊢
    obtain ⟨he, ha⟩ := origSecLevel_contains K db.security_mode sec_level hsl hauth_out hne_out
      hdis_out henc
    have he16 := lt16_of_contains hsl henc
    exact ⟨or_u16_contains _ _ _ _ he16 he, or_u16_contains _ _ _ _ hauth_out ha⟩

/-- C9 at a concrete input: an originator registers encrypt-only (0x20) in an empty
two-slot registry. -/
theorem C9_encrypt_forces_authenticate_witness :
    ∃ r, (btm_sec_set_security_level stdHdr exampleDb ⟨true, false⟩ [0x41] 3 0x20 0x1001 0
            0).db.sec_serv_rec[(btm_sec_set_security_level stdHdr exampleDb
            ⟨true, false⟩ [0x41] 3 0x20 0x1001 0 0).index]? = some r ∧
      r.security_flags &&& stdHdr.BTM_SEC_OUT_ENCRYPT = stdHdr.BTM_SEC_OUT_ENCRYPT ∧
      r.security_flags &&& stdHdr.BTM_SEC_OUT_AUTHENTICATE = stdHdr.BTM_SEC_OUT_AUTHENTICATE :=
  C9_encrypt_forces_authenticate stdHdr exampleDb true [0x41] 3 0x20 0x1001 0 0
    (by decide) (by decide) (by decide) (by decide) (by decide) (by decide) (by decide)
    (by decide) (by decide)

/-- C10: on a record that is already in use, a successful originator registration
leaves the acceptor-side authorize, encrypt, authenticate and MITM bits as they were,
and a successful acceptor registration leaves the four originator-side bits as they
were, whatever `sec_level` is passed; this holds for the connection-oriented flags
and for the connectionless (UCD) flags of the record. -/
theorem C10_other_direction_untouched (K : Hdr) (db : ServDb) (ct : CONNECTION_TYPE)
    (p_name : List Nat) (service_id sec_level psm mx_proto_id mx_chan_id : Nat)
    (r : tBTM_SEC_SERV_REC)
    (hflags : r.security_flags < 2 ^ 16) (hucd : r.ucd_security_flags < 2 ^ 16)
    (hdis_in : inLevelMask K &&&
        (origClearMask K ||| K.BTM_SEC_SECURE_CONN ||| K.BTM_SEC_IN_USE) = 0)
    (hdis_out : outLevelMask K &&&
        (termClearMask K ||| K.BTM_SEC_SECURE_CONN ||| K.BTM_SEC_IN_USE) = 0)
    (hret : (btm_sec_set_security_level K db ct p_name service_id sec_level psm
              mx_proto_id mx_chan_id).ret = true)
    (hrec : db.sec_serv_rec[(btm_sec_set_security_level K db ct p_name service_id sec_level
              psm mx_proto_id mx_chan_id).index]? = some r)
    (huse : tst r.security_flags K.BTM_SEC_IN_USE = true) :
    ∃ r', (btm_sec_set_security_level K db ct p_name service_id sec_level psm
            mx_proto_id mx_chan_id).db.sec_serv_rec[(btm_sec_set_security_level K db
            ct p_name service_id sec_level psm mx_proto_id mx_chan_id).index]? = some r' ∧
      r'.security_flags &&& (if ct.orig then inLevelMask K else outLevelMask K)
        = r.security_flags &&& (if ct.orig then inLevelMask K else outLevelMask K) ∧
      r'.ucd_security_flags &&& (if ct.orig then inLevelMask K else outLevelMask K)
        = r.ucd_security_flags &&& (if ct.orig then inLevelMask K else outLevelMask K) := by
  obtain ⟨r0, hr0, hsame⟩ := set_level_record K db ct p_name service_id sec_level psm
    mx_proto_id mx_chan_id hret
  have hr0r : r0 = r := hsame r hrec huse
  subst hr0r
  refine ⟨_, hr0, ?_⟩
  obtain ⟨hi1, hi_use⟩ := and_or_eq_zero hdis_in
  obtain ⟨hi_clr, hi_sc⟩ := and_or_eq_zero hi1
  obtain ⟨ho1, ho_use⟩ := and_or_eq_zero hdis_out
  obtain ⟨ho_clr, ho_sc⟩ := and_or_eq_zero ho1
  obtain ⟨hi_mitm, hi_auth⟩ := origClearMask_parts hi_clr
  obtain ⟨ho_mitm, ho_auth⟩ := termClearMask_parts ho_clr
  have hlo : ∀ mode, inLevelMask K &&& origSecLevel K mode sec_level = 0 := fun mode =>
    level_disjoint sec_level (inLevelMask K) _ _ K.BTM_SEC_OUT_MITM _ hi_mitm hi_auth
  have hlt : ∀ mode, outLevelMask K &&& termSecLevel K mode sec_level = 0 := fun mode =>
    level_disjoint sec_level (outLevelMask K) _ _ K.BTM_SEC_IN_MITM _ ho_mitm ho_auth
  cases hu : (K.L2CAP_UCD_INCLUDED && ct.connless)
  · rw [(servUpdate_flags_conn K db.security_mode r0 ct.orig p_name service_id sec_level psm
      mx_proto_id mx_chan_id).1, (servUpdate_flags_conn K db.security_mode r0 ct.orig p_name
      service_id sec_level psm mx_proto_id mx_chan_id).2]
    refine ⟨?_, rfl⟩
    cases ct.orig
    · simp only [Bool.false_eq_true, if_false]
      exact keep_bits _ _ _ _ _ hflags
        (and_or_zero ho_clr (and_ite_zero _ ho_sc)) (hlt _) ho_use
    · simp only [if_true]
      exact keep_bits _ _ _ _ _ hflags
        (and_or_zero hi_clr (and_ite_zero _ hi_sc)) (hlo _) hi_use
  · rw [(servUpdate_flags_ucd K db.security_mode r0 ct.orig p_name service_id sec_level psm
      mx_proto_id mx_chan_id).1, (servUpdate_flags_ucd K db.security_mode r0 ct.orig p_name
      service_id sec_level psm mx_proto_id mx_chan_id).2]
    cases ct.orig
    · simp only [Bool.false_eq_true, if_false]
      exact ⟨keep_bits_use _ _ _ ho_use, keep_bits _ _ _ _ _ hucd ho_clr (hlt _) ho_use⟩
    · simp only [if_true]
      exact ⟨keep_bits_use _ _ _ hi_use, keep_bits _ _ _ _ _ hucd hi_clr (hlo _) hi_use⟩

/-- C10 at a concrete input: an originator registers with every requirement bit of
both directions set (0x303f) on a record whose acceptor side is fully set. -/
theorem C10_other_direction_untouched_witness :
    ∃ r, (btm_sec_set_security_level stdHdr exampleDbInUse CONN_ORIENT_ORIG [] 3 0x303f
            0x1001 0 0).db.sec_serv_rec[(btm_sec_set_security_level stdHdr exampleDbInUse
            CONN_ORIENT_ORIG [] 3 0x303f 0x1001 0 0).index]? = some r ∧
      r.security_flags &&& inLevelMask stdHdr
        = exampleServRec.security_flags &&& inLevelMask stdHdr ∧
      r.ucd_security_flags &&& inLevelMask stdHdr
        = exampleServRec.ucd_security_flags &&& inLevelMask stdHdr :=
  C10_other_direction_untouched stdHdr exampleDbInUse CONN_ORIENT_ORIG [] 3 0x303f 0x1001 0 0
    exampleServRec (by decide) (by decide) (by decide) (by decide) (by decide) (by decide)
    (by decide)

/-! ## Out-of-band data blob: building then parsing -/

theorem array_to_stream_take (a : List Nat) (n : Nat) (hn : n ≤ a.length)
    (hb : ∀ b ∈ a, b < 256) : ARRAY_TO_STREAM a n = a.take n := by
  unfold ARRAY_TO_STREAM
  apply List.ext_getElem
  · simp [hn]
  · intro i h1 h2
    simp only [List.length_map, List.length_range] at h1
    have hi : i < a.length := Nat.lt_of_lt_of_le h1 hn
    simp only [List.getElem_map, List.getElem_range, List.getElem_take]
    rw [List.getD_eq_getElem _ _ hi]
    unfold u8
    exact Nat.mod_eq_of_lt (hb _ (List.getElem_mem hi))

theorem array_to_stream_all (a : List Nat) (n : Nat) (hn : a.length = n)
    (hb : ∀ b ∈ a, b < 256) : ARRAY_TO_STREAM a n = a := by
  rw [array_to_stream_take a n (Nat.le_of_eq hn.symm) hb, ← hn, List.take_length]

theorem array_to_stream_length (a : List Nat) (n : Nat) : (ARRAY_TO_STREAM a n).length = n := by
  simp [ARRAY_TO_STREAM]

/-- Reading back a 16-bit length stored low byte first. -/
theorem stream_uint16_roundtrip (v : Nat) (hv : v < 2 ^ 16) (rest : List Nat) :
    STREAM_TO_UINT16 (UINT16_TO_STREAM v ++ rest) 0 = v := by
  simp only [STREAM_TO_UINT16, UINT16_TO_STREAM, u8, u16, List.cons_append, List.nil_append,
    List.getD_cons_zero, List.getD_cons_succ, Nat.shiftRight_eq_div_pow, Nat.shiftLeft_eq]
  omega

/-- An optional entry that fits is appended, and the two counters move by its size. -/
theorem oobEntry_written (st : OobBuild) (size tag : Nat) (value : List Nat)
    (hfit : size + 2 ≤ st.max_len) (hinv : st.len + st.max_len < 2 ^ 16) :
    oobEntry st size tag value =
      { out := st.out ++ [u8 (size + 1), u8 tag] ++ value,
        len := st.len + (size + 2),
        max_len := st.max_len - (size + 2) } := by
  have h16 : u16 (size + 2) = size + 2 := by unfold u16; omega
  unfold oobEntry
  simp only [h16]
  rw [if_pos hfit]
  have h1 : u16 (st.len + (size + 2)) = st.len + (size + 2) := by unfold u16; omega
  have h2 : u16 (st.max_len - (size + 2)) = st.max_len - (size + 2) := by unfold u16; omega
  rw [h1, h2]

/-- An optional entry, written or not, only appends to the bytes already written and
keeps `len + max_len`. -/
theorem oobEntry_extends (st : OobBuild) (size tag : Nat) (value : List Nat)
    (hinv : st.len + st.max_len < 2 ^ 16) :
    ∃ tail, (oobEntry st size tag value).out = st.out ++ tail ∧
      (oobEntry st size tag value).len + (oobEntry st size tag value).max_len
        = st.len + st.max_len ∧
      st.len ≤ (oobEntry st size tag value).len := by
  unfold oobEntry
  dsimp only
  split_ifs with h
  · refine ⟨[u8 (size + 1), u8 tag] ++ value, by simp, ?_, ?_⟩
    · simp only [u16] at h ⊢; omega
    · simp only [u16] at h ⊢; omega
  · exact ⟨[], by simp, rfl, Nat.le_refl _⟩

theorem oobReadLoop_hit (mem : List Nat) (tag fuel p max_len : Nat) (reads : List Nat)
    (hmax : 0 < max_len) (htype : mem.getD (p + 1) 0 = tag) :
    oobReadLoop mem tag (fuel + 1) p max_len reads =
      { p_ret := some (p + 2), ret_len := u8 (mem.getD p 0 + 2 ^ 8 - 1),
        reads := reads ++ [p, p + 1] } := by
  rw [oobReadLoop]
  simp only [gt_iff_lt, hmax, if_true, htype, beq_self_eq_true]

theorem oobReadLoop_skip (mem : List Nat) (tag fuel p max_len : Nat) (reads : List Nat)
    (htype : mem.getD (p + 1) 0 ≠ tag) (hlen : mem.getD p 0 < max_len) :
    oobReadLoop mem tag (fuel + 1) p max_len reads =
      oobReadLoop mem tag fuel (p + 2 + u8 (mem.getD p 0 + 2 ^ 8 - 1))
        (max_len - mem.getD p 0 - 1) (reads ++ [p, p + 1]) := by
  have hmax : 0 < max_len := by omega
  have hne : ¬ tag = mem.getD (p + 1) 0 := fun h => htype h.symm
  have hbeq : (tag == mem.getD (p + 1) 0) = false := by simpa using hne
  rw [oobReadLoop]
  simp only [gt_iff_lt, hmax, if_true, hbeq, Bool.false_eq_true, if_false, hlen]

theorem getD_entry_len (pre rest : List Nat) (l : Nat) :
    (pre ++ l :: rest).getD pre.length 0 = l := by
  rw [List.getD_append_right _ _ _ _ (Nat.le_refl _)]
  simp

theorem getD_entry_type (pre rest : List Nat) (l t : Nat) :
    (pre ++ l :: t :: rest).getD (pre.length + 1) 0 = t := by
  rw [List.getD_append_right _ _ _ _ (Nat.le_add_right _ _)]
  simp

/-- The loop stops at an entry whose type is the tag looked for. -/
theorem oobReadLoop_hit_entry (pre rest : List Nat) (l tag fuel max_len : Nat)
    (reads : List Nat) (hmax : 0 < max_len) :
    oobReadLoop (pre ++ l :: tag :: rest) tag (fuel + 1) pre.length max_len reads =
      { p_ret := some (pre.length + 2), ret_len := u8 (l + 2 ^ 8 - 1),
        reads := reads ++ [pre.length, pre.length + 1] } := by
  rw [oobReadLoop_hit _ _ _ _ _ _ hmax (getD_entry_type pre rest l tag), getD_entry_len]

/-- The loop steps over an entry of another type whose length byte matches its
value. -/
theorem oobReadLoop_skip_entry (pre v rest : List Nat) (l t tag fuel max_len : Nat)
    (reads : List Nat) (hv : v.length = u8 (l + 2 ^ 8 - 1)) (ht : t ≠ tag)
    (hl : l < max_len) :
    oobReadLoop (pre ++ l :: t :: (v ++ rest)) tag (fuel + 1) pre.length max_len reads =
      oobReadLoop ((pre ++ l :: t :: v) ++ rest) tag fuel (pre ++ l :: t :: v).length
        (max_len - l - 1) (reads ++ [pre.length, pre.length + 1]) := by
  have hmem : (pre ++ l :: t :: v) ++ rest = pre ++ l :: t :: (v ++ rest) := by simp
  rw [hmem, oobReadLoop_skip _ _ _ _ _ _
    (by rw [getD_entry_type]; exact ht) (by rw [getD_entry_len]; exact hl), getD_entry_len]
  have hp : (pre ++ l :: t :: v).length = pre.length + 2 + u8 (l + 2 ^ 8 - 1) := by
    simp [hv]; omega
  rw [hp]

theorem bdaddr_stream_length (a : List Nat) : (BDADDR_TO_STREAM a).length = 6 := by
  simp [BDADDR_TO_STREAM, BD_ADDR_LEN]

theorem devclass_stream_length (a : List Nat) : (DEVCLASS_TO_STREAM a).length = 3 := by
  simp [DEVCLASS_TO_STREAM]

/-- Parsing a blob `length ++ address ++ entries`: the loop starts at the first entry
with the length less the mandatory part. -/
theorem read_enters_loop (T : EirTags) (tag len : Nat) (A E : List Nat)
    (hA : A.length = 6) (hlen : 8 ≤ len) (hlen16 : len < 2 ^ 16)
    (htag : T.BTM_EIR_OOB_BD_ADDR_TYPE ≠ tag) :
    BTM_ReadOobData T (some ((UINT16_TO_STREAM len ++ A) ++ E)) tag =
      oobReadLoop ((UINT16_TO_STREAM len ++ A) ++ E) tag (len - 8)
        (UINT16_TO_STREAM len ++ A).length (len - 8) [0, 1] := by
  have hbeq : (T.BTM_EIR_OOB_BD_ADDR_TYPE == tag) = false := by simpa using htag
  have hpl : (UINT16_TO_STREAM len ++ A).length = 2 + BD_ADDR_LEN := by
    simp [UINT16_TO_STREAM, hA, BD_ADDR_LEN]
  unfold BTM_ReadOobData
  simp only
  rw [List.append_assoc, stream_uint16_roundtrip len hlen16, ← List.append_assoc, hpl]
  simp only [BTM_OOB_MANDATORY_SIZE, ge_iff_le, hlen, if_true, hbeq, Bool.false_eq_true,
    if_false]

/-- The state of `BTM_BuildOobData` after the mandatory part and the two entries for
hash C and randomizer R, when the buffer holds at least these 44 bytes. -/
theorem build_after_hash_rand (T : EirTags) (dev : LocalDevice) (max_len : Nat)
    (c r : List Nat) (hmax : max_len < 2 ^ 16) (hbig : 44 ≤ max_len)
    (hc : c.length = 16) (hcb : ∀ b ∈ c, b < 256)
    (hr : r.length = 16) (hrb : ∀ b ∈ r, b < 256)
    (hH : T.BTM_EIR_OOB_SSP_HASH_C_TYPE < 256) (hR : T.BTM_EIR_OOB_SSP_RAND_R_TYPE < 256) :
    oobEntry
      (oobEntry
        { out := UINT16_TO_STREAM 0 ++ BDADDR_TO_STREAM dev.local_addr,
          len := BTM_OOB_MANDATORY_SIZE,
          max_len := u16 (max_len - BTM_OOB_MANDATORY_SIZE) }
        BTM_OOB_HASH_C_SIZE T.BTM_EIR_OOB_SSP_HASH_C_TYPE
        (ARRAY_TO_STREAM c BTM_OOB_HASH_C_SIZE))
      BTM_OOB_RAND_R_SIZE T.BTM_EIR_OOB_SSP_RAND_R_TYPE
      (ARRAY_TO_STREAM r BTM_OOB_RAND_R_SIZE)
    = { out := UINT16_TO_STREAM 0 ++ BDADDR_TO_STREAM dev.local_addr
               ++ [17, T.BTM_EIR_OOB_SSP_HASH_C_TYPE] ++ c
               ++ [17, T.BTM_EIR_OOB_SSP_RAND_R_TYPE] ++ r,
        len := 44, max_len := max_len - 44 } := by
  have hHt : u8 T.BTM_EIR_OOB_SSP_HASH_C_TYPE = T.BTM_EIR_OOB_SSP_HASH_C_TYPE :=
    Nat.mod_eq_of_lt hH
  have hRt : u8 T.BTM_EIR_OOB_SSP_RAND_R_TYPE = T.BTM_EIR_OOB_SSP_RAND_R_TYPE :=
    Nat.mod_eq_of_lt hR
  have hm : u16 (max_len - 8) = max_len - 8 := by unfold u16; omega
  simp only [BTM_OOB_MANDATORY_SIZE, BTM_OOB_HASH_C_SIZE, BTM_OOB_RAND_R_SIZE, hm]
  rw [oobEntry_written (⟨_, 8, max_len - 8⟩ : OobBuild) 16 _ _ (by dsimp only; omega)
    (by dsimp only; omega)]
  rw [oobEntry_written _ 16 _ _ (by dsimp only; omega) (by dsimp only; omega)]
  rw [array_to_stream_all c _ hc hcb, array_to_stream_all r _ hr hrb, hHt, hRt]
  simp only [u8]
  congr 1

/-- The blob built in a buffer of at least 44 bytes: its length field, the address,
the hash C entry, the randomizer R entry, and whatever optional entries follow. -/
theorem build_shape (T : EirTags) (name_included : Bool) (dev : LocalDevice) (max_len : Nat)
    (c r : List Nat) (name_len : Nat) (hmax : max_len < 2 ^ 16) (hbig : 44 ≤ max_len)
    (hc : c.length = 16) (hcb : ∀ b ∈ c, b < 256)
    (hr : r.length = 16) (hrb : ∀ b ∈ r, b < 256)
    (hH : T.BTM_EIR_OOB_SSP_HASH_C_TYPE < 256) (hR : T.BTM_EIR_OOB_SSP_RAND_R_TYPE < 256) :
    ∃ len tail, 44 ≤ len ∧ len < 2 ^ 16 ∧
      BTM_BuildOobData T name_included dev true max_len c r name_len =
        (len, (UINT16_TO_STREAM len ++ BDADDR_TO_STREAM dev.local_addr)
              ++ 17 :: T.BTM_EIR_OOB_SSP_HASH_C_TYPE :: (c
              ++ 17 :: T.BTM_EIR_OOB_SSP_RAND_R_TYPE :: (r ++ tail))) := by
  unfold BTM_BuildOobData
  have h8 : (true && decide (max_len ≥ BTM_OOB_MANDATORY_SIZE)) = true := by
    simp [BTM_OOB_MANDATORY_SIZE]; omega
  rw [if_pos h8]
  simp only
  rw [build_after_hash_rand T dev max_len c r hmax hbig hc hcb hr hrb hH hR]
  obtain ⟨st2, hst2⟩ : ∃ st2 : OobBuild, st2 =
      ⟨UINT16_TO_STREAM 0 ++ BDADDR_TO_STREAM dev.local_addr
        ++ [17, T.BTM_EIR_OOB_SSP_HASH_C_TYPE] ++ c
        ++ [17, T.BTM_EIR_OOB_SSP_RAND_R_TYPE] ++ r, 44, max_len - 44⟩ := ⟨_, rfl⟩
  rw [← hst2]
  have hout2 : st2.out = UINT16_TO_STREAM 0 ++ BDADDR_TO_STREAM dev.local_addr
               ++ [17, T.BTM_EIR_OOB_SSP_HASH_C_TYPE] ++ c
               ++ [17, T.BTM_EIR_OOB_SSP_RAND_R_TYPE] ++ r := by rw [hst2]
  have hlen2 : st2.len = 44 := by rw [hst2]
  have hinv2 : st2.len + st2.max_len < 2 ^ 16 := by rw [hst2]; simp only; omega
  obtain ⟨t3, ho3, hi3, hl3⟩ := oobEntry_extends st2 BTM_OOB_COD_SIZE T.BTM_EIR_OOB_COD_TYPE
    (DEVCLASS_TO_STREAM dev.dev_class) hinv2
  generalize oobEntry st2 BTM_OOB_COD_SIZE T.BTM_EIR_OOB_COD_TYPE
    (DEVCLASS_TO_STREAM dev.dev_class) = st3 at ho3 hi3 hl3 ⊢
  have hinv3 : st3.len + st3.max_len < 2 ^ 16 := by omega
  have key : ∀ st4 : OobBuild, (∃ t4, st4.out = st3.out ++ t4) → st3.len ≤ st4.len →
      st4.len + st4.max_len = st3.len + st3.max_len →
      ∃ len tail, 44 ≤ len ∧ len < 2 ^ 16 ∧
        (st4.len, UINT16_TO_STREAM st4.len ++ st4.out.drop 2) =
        (len, (UINT16_TO_STREAM len ++ BDADDR_TO_STREAM dev.local_addr)
              ++ 17 :: T.BTM_EIR_OOB_SSP_HASH_C_TYPE :: (c
              ++ 17 :: T.BTM_EIR_OOB_SSP_RAND_R_TYPE :: (r ++ tail))) := by
    rintro st4 ⟨t4, ho4⟩ hl4 hi4
    refine ⟨st4.len, t3 ++ t4, by omega, by omega, ?_⟩
    rw [ho4, ho3, hout2]
    simp [UINT16_TO_STREAM]
  cases name_included
  · exact key st3 ⟨[], by simp⟩ (Nat.le_refl _) rfl
  · simp only [if_true]
    obtain ⟨t4, ho4, hi4, hl4⟩ := oobEntry_extends st3
      (if name_len > strlen dev.bd_name then u16 (strlen dev.bd_name) else name_len)
      (if name_len > strlen dev.bd_name then T.BTM_EIR_COMPLETE_LOCAL_NAME_TYPE
        else T.BTM_EIR_SHORTENED_LOCAL_NAME_TYPE)
      (ARRAY_TO_STREAM dev.bd_name
        (if name_len > strlen dev.bd_name then u16 (strlen dev.bd_name) else name_len)) hinv3
    exact key _ ⟨t4, ho4⟩ hl4 hi4

theorem drop_entry (pre rest : List Nat) (l t : Nat) :
    (pre ++ l :: t :: rest).drop (pre.length + 2) = rest := by
  rw [List.drop_append_eq_append_drop]
  simp

/-- C7: for 16-byte `c` and `r` and a buffer of at least 44 bytes (mandatory part and
both entries), parsing the blob built by `BTM_BuildOobData` with `BTM_ReadOobData`
returns for the hash-C tag a 16-byte region holding `c`, and for the randomizer-R tag
a 16-byte region holding `r`. -/
theorem C7_oob_roundtrip_hash_rand (T : EirTags) (name_included : Bool) (dev : LocalDevice)
    (max_len : Nat) (c r : List Nat) (name_len : Nat)
    (hmax : max_len < 2 ^ 16) (hbig : 44 ≤ max_len)
    (hc : c.length = 16) (hcb : ∀ b ∈ c, b < 256)
    (hr : r.length = 16) (hrb : ∀ b ∈ r, b < 256)
    (hH : T.BTM_EIR_OOB_SSP_HASH_C_TYPE < 256) (hR : T.BTM_EIR_OOB_SSP_RAND_R_TYPE < 256)
    (hAH : T.BTM_EIR_OOB_BD_ADDR_TYPE ≠ T.BTM_EIR_OOB_SSP_HASH_C_TYPE)
    (hAR : T.BTM_EIR_OOB_BD_ADDR_TYPE ≠ T.BTM_EIR_OOB_SSP_RAND_R_TYPE)
    (hHR : T.BTM_EIR_OOB_SSP_HASH_C_TYPE ≠ T.BTM_EIR_OOB_SSP_RAND_R_TYPE) :
    (∃ off,
      (BTM_ReadOobData T
          (some (BTM_BuildOobData T name_included dev true max_len c r name_len).2)
          T.BTM_EIR_OOB_SSP_HASH_C_TYPE).p_ret = some off ∧
      (BTM_ReadOobData T
          (some (BTM_BuildOobData T name_included dev true max_len c r name_len).2)
          T.BTM_EIR_OOB_SSP_HASH_C_TYPE).ret_len = 16 ∧
      ((BTM_BuildOobData T name_included dev true max_len c r name_len).2.drop off).take 16
        = c) ∧
    (∃ off,
      (BTM_ReadOobData T
          (some (BTM_BuildOobData T name_included dev true max_len c r name_len).2)
          T.BTM_EIR_OOB_SSP_RAND_R_TYPE).p_ret = some off ∧
      (BTM_ReadOobData T
          (some (BTM_BuildOobData T name_included dev true max_len c r name_len).2)
          T.BTM_EIR_OOB_SSP_RAND_R_TYPE).ret_len = 16 ∧
      ((BTM_BuildOobData T name_included dev true max_len c r name_len).2.drop off).take 16
        = r) := by
  obtain ⟨len, tail, h44, h16, hb⟩ := build_shape T name_included dev max_len c r name_len
    hmax hbig hc hcb hr hrb hH hR
  rw [hb]
  simp only
  obtain ⟨f, hf⟩ : ∃ f, len - 8 = f + 1 + 1 := ⟨len - 10, by omega⟩
  constructor
  · rw [read_enters_loop T _ len _ _ (bdaddr_stream_length _) (by omega) h16 hAH, hf,
      oobReadLoop_hit_entry _ _ _ _ _ _ _ (by omega)]
    refine ⟨_, rfl, by simp [u8], ?_⟩
    rw [drop_entry]
    exact List.take_left' hc
  · rw [read_enters_loop T _ len _ _ (bdaddr_stream_length _) (by omega) h16 hAR, hf,
      oobReadLoop_skip_entry _ c _ 17 _ _ _ _ _ (by simp [u8, hc]) hHR (by omega),
      oobReadLoop_hit_entry _ _ _ _ _ _ _ (by omega)]
    refine ⟨_, rfl, by simp [u8], ?_⟩
    have hmem : (UINT16_TO_STREAM len ++ BDADDR_TO_STREAM dev.local_addr)
          ++ 17 :: T.BTM_EIR_OOB_SSP_HASH_C_TYPE :: (c
          ++ 17 :: T.BTM_EIR_OOB_SSP_RAND_R_TYPE :: (r ++ tail))
        = ((UINT16_TO_STREAM len ++ BDADDR_TO_STREAM dev.local_addr)
          ++ 17 :: T.BTM_EIR_OOB_SSP_HASH_C_TYPE :: c)
          ++ 17 :: T.BTM_EIR_OOB_SSP_RAND_R_TYPE :: (r ++ tail) := by simp
    rw [hmem, drop_entry]
    exact List.take_left' hr

/-- C7 at a concrete input: a 100-byte buffer, the hash value 1..16 and the randomizer
0xF0..0xFF. -/
theorem C7_oob_roundtrip_hash_rand_witness :
    (∃ off,
      (BTM_ReadOobData stdTags
          (some (BTM_BuildOobData stdTags true exampleDevice true 100 exampleC exampleR 3).2)
          stdTags.BTM_EIR_OOB_SSP_HASH_C_TYPE).p_ret = some off ∧
      (BTM_ReadOobData stdTags
          (some (BTM_BuildOobData stdTags true exampleDevice true 100 exampleC exampleR 3).2)
          stdTags.BTM_EIR_OOB_SSP_HASH_C_TYPE).ret_len = 16 ∧
      ((BTM_BuildOobData stdTags true exampleDevice true 100 exampleC exampleR 3).2.drop
        off).take 16 = exampleC) ∧
    (∃ off,
      (BTM_ReadOobData stdTags
          (some (BTM_BuildOobData stdTags true exampleDevice true 100 exampleC exampleR 3).2)
          stdTags.BTM_EIR_OOB_SSP_RAND_R_TYPE).p_ret = some off ∧
      (BTM_ReadOobData stdTags
          (some (BTM_BuildOobData stdTags true exampleDevice true 100 exampleC exampleR 3).2)
          stdTags.BTM_EIR_OOB_SSP_RAND_R_TYPE).ret_len = 16 ∧
      ((BTM_BuildOobData stdTags true exampleDevice true 100 exampleC exampleR 3).2.drop
        off).take 16 = exampleR) :=
  C7_oob_roundtrip_hash_rand stdTags true exampleDevice 100 exampleC exampleR 3
    (by decide) (by decide) (by decide) (by decide) (by decide) (by decide)
    (by decide) (by decide) (by decide) (by decide) (by decide)

theorem take_cstr (b : List Nat) (n : Nat) (hn : n ≤ strlen b) :
    (cstr b).take n = b.take n := by
  have hp : cstr b <+: b := List.takeWhile_prefix _
  have h := List.prefix_iff_eq_take.1 hp
  unfold strlen at hn
  rw [h, List.take_take, Nat.min_eq_left hn]

theorem strlen_le_length (b : List Nat) : strlen b ≤ b.length :=
  (List.takeWhile_prefix _ : cstr b <+: b).length_le

/-- The blob built when the buffer has room for every entry and the requested name
length is not above the length of the local name. -/
theorem build_full (T : EirTags) (dev : LocalDevice) (max_len : Nat)
    (c r : List Nat) (name_len : Nat) (hmax : max_len < 2 ^ 16)
    (hbig : 51 + name_len ≤ max_len) (hname : name_len ≤ strlen dev.bd_name) :
    BTM_BuildOobData T true dev true max_len c r name_len =
      (51 + name_len,
        (UINT16_TO_STREAM (51 + name_len) ++ BDADDR_TO_STREAM dev.local_addr)
          ++ u8 17 :: u8 T.BTM_EIR_OOB_SSP_HASH_C_TYPE :: (ARRAY_TO_STREAM c 16
          ++ u8 17 :: u8 T.BTM_EIR_OOB_SSP_RAND_R_TYPE :: (ARRAY_TO_STREAM r 16
          ++ u8 4 :: u8 T.BTM_EIR_OOB_COD_TYPE :: (DEVCLASS_TO_STREAM dev.dev_class
          ++ u8 (name_len + 1) :: u8 T.BTM_EIR_SHORTENED_LOCAL_NAME_TYPE ::
              ARRAY_TO_STREAM dev.bd_name name_len)))) := by
  unfold BTM_BuildOobData
  have h8 : (true && decide (max_len ≥ BTM_OOB_MANDATORY_SIZE)) = true := by
    simp [BTM_OOB_MANDATORY_SIZE]; omega
  have hm : u16 (max_len - 8) = max_len - 8 := by unfold u16; omega
  have hgt : ¬ name_len > strlen dev.bd_name := by omega
  rw [if_pos h8]
  simp only [BTM_OOB_MANDATORY_SIZE, BTM_OOB_HASH_C_SIZE, BTM_OOB_RAND_R_SIZE,
    BTM_OOB_COD_SIZE, hm, if_true, hgt, if_false]
  rw [oobEntry_written (⟨_, 8, max_len - 8⟩ : OobBuild) 16 _ _ (by dsimp only; omega)
    (by dsimp only; omega)]
  rw [oobEntry_written (⟨_, 8 + (16 + 2), max_len - 8 - (16 + 2)⟩ : OobBuild) 16 _ _
    (by dsimp only; omega) (by dsimp only; omega)]
  rw [oobEntry_written (⟨_, 8 + (16 + 2) + (16 + 2), max_len - 8 - (16 + 2) - (16 + 2)⟩ :
    OobBuild) 3 _ _ (by dsimp only; omega) (by dsimp only; omega)]
  rw [oobEntry_written _ name_len _ _ (by dsimp only; omega) (by dsimp only; omega)]
  simp only [UINT16_TO_STREAM, Prod.mk.injEq, List.append_assoc, List.cons_append,
    List.nil_append, List.drop_succ_cons, List.drop_zero]
  constructor
  · omega
  · have : 8 + (16 + 2) + (16 + 2) + (3 + 2) + (name_len + 2) = 51 + name_len := by omega
    rw [this]

/-- C8: when the requested `name_len` is smaller than the length of the local device
name and the buffer has room for every entry, parsing the blob built by
`BTM_BuildOobData` with the shortened-local-name tag returns a region of length
`name_len` holding the first `name_len` bytes of the local device name. -/
theorem C8_oob_roundtrip_short_name (T : EirTags) (dev : LocalDevice) (max_len : Nat)
    (c r : List Nat) (name_len : Nat)
    (hmax : max_len < 2 ^ 16) (hbig : 8 + 18 + 18 + 5 + (name_len + 2) ≤ max_len)
    (hname : name_len < strlen dev.bd_name) (hname8 : name_len < 2 ^ 8)
    (hnb : ∀ b ∈ dev.bd_name, b < 256)
    (hH : T.BTM_EIR_OOB_SSP_HASH_C_TYPE < 256) (hR : T.BTM_EIR_OOB_SSP_RAND_R_TYPE < 256)
    (hC : T.BTM_EIR_OOB_COD_TYPE < 256) (hS : T.BTM_EIR_SHORTENED_LOCAL_NAME_TYPE < 256)
    (hAS : T.BTM_EIR_OOB_BD_ADDR_TYPE ≠ T.BTM_EIR_SHORTENED_LOCAL_NAME_TYPE)
    (hHS : T.BTM_EIR_OOB_SSP_HASH_C_TYPE ≠ T.BTM_EIR_SHORTENED_LOCAL_NAME_TYPE)
    (hRS : T.BTM_EIR_OOB_SSP_RAND_R_TYPE ≠ T.BTM_EIR_SHORTENED_LOCAL_NAME_TYPE)
    (hCS : T.BTM_EIR_OOB_COD_TYPE ≠ T.BTM_EIR_SHORTENED_LOCAL_NAME_TYPE) :
    ∃ off,
      (BTM_ReadOobData T (some (BTM_BuildOobData T true dev true max_len c r name_len).2)
          T.BTM_EIR_SHORTENED_LOCAL_NAME_TYPE).p_ret = some off ∧
      (BTM_ReadOobData T (some (BTM_BuildOobData T true dev true max_len c r name_len).2)
          T.BTM_EIR_SHORTENED_LOCAL_NAME_TYPE).ret_len = name_len ∧
      ((BTM_BuildOobData T true dev true max_len c r name_len).2.drop off).take name_len
        = (cstr dev.bd_name).take name_len ∧
      ((cstr dev.bd_name).take name_len).length = name_len := by
  have hle : name_len ≤ strlen dev.bd_name := Nat.le_of_lt hname
  have hHt : u8 T.BTM_EIR_OOB_SSP_HASH_C_TYPE = T.BTM_EIR_OOB_SSP_HASH_C_TYPE :=
    Nat.mod_eq_of_lt hH
  have hRt : u8 T.BTM_EIR_OOB_SSP_RAND_R_TYPE = T.BTM_EIR_OOB_SSP_RAND_R_TYPE :=
    Nat.mod_eq_of_lt hR
  have hCt : u8 T.BTM_EIR_OOB_COD_TYPE = T.BTM_EIR_OOB_COD_TYPE := Nat.mod_eq_of_lt hC
  have hSt : u8 T.BTM_EIR_SHORTENED_LOCAL_NAME_TYPE = T.BTM_EIR_SHORTENED_LOCAL_NAME_TYPE :=
    Nat.mod_eq_of_lt hS
  have h17 : u8 17 = 17 := rfl
  have h4 : u8 4 = 4 := rfl
  have hN : ARRAY_TO_STREAM dev.bd_name name_len = (cstr dev.bd_name).take name_len := by
    rw [array_to_stream_take _ _ (Nat.le_trans hle (strlen_le_length _)) hnb, take_cstr _ _ hle]
  have hNlen : ((cstr dev.bd_name).take name_len).length = name_len := by
    rw [List.length_take]; unfold strlen at hle; omega
  rw [build_full T dev max_len c r name_len hmax (by omega) hle, hHt, hRt, hCt, hSt, h17, h4, hN]
  simp only
  obtain ⟨f, hf⟩ : ∃ f, 51 + name_len - 8 = f + 1 + 1 + 1 + 1 := ⟨name_len + 39, by omega⟩
  rw [read_enters_loop T _ (51 + name_len) _ _ (bdaddr_stream_length _) (by omega) (by omega)
      hAS, hf,
    oobReadLoop_skip_entry _ (ARRAY_TO_STREAM c 16) _ 17 _ _ _ _ _
      (by rw [array_to_stream_length]; rfl) hHS (by omega),
    oobReadLoop_skip_entry _ (ARRAY_TO_STREAM r 16) _ 17 _ _ _ _ _
      (by rw [array_to_stream_length]; rfl) hRS (by omega),
    oobReadLoop_skip_entry _ (DEVCLASS_TO_STREAM dev.dev_class) _ 4 _ _ _ _ _
      (by rw [devclass_stream_length]; rfl) hCS (by omega),
    oobReadLoop_hit_entry _ _ _ _ _ _ _ (by omega)]
  refine ⟨_, rfl, by simp only [u8]; omega, ?_, hNlen⟩
  have hmem : (UINT16_TO_STREAM (51 + name_len) ++ BDADDR_TO_STREAM dev.local_addr)
        ++ 17 :: T.BTM_EIR_OOB_SSP_HASH_C_TYPE :: (ARRAY_TO_STREAM c 16
        ++ 17 :: T.BTM_EIR_OOB_SSP_RAND_R_TYPE :: (ARRAY_TO_STREAM r 16
        ++ 4 :: T.BTM_EIR_OOB_COD_TYPE :: (DEVCLASS_TO_STREAM dev.dev_class
        ++ u8 (name_len + 1) :: T.BTM_EIR_SHORTENED_LOCAL_NAME_TYPE ::
            List.take name_len (cstr dev.bd_name))))
      = ((((UINT16_TO_STREAM (51 + name_len) ++ BDADDR_TO_STREAM dev.local_addr)
        ++ 17 :: T.BTM_EIR_OOB_SSP_HASH_C_TYPE :: ARRAY_TO_STREAM c 16)
        ++ 17 :: T.BTM_EIR_OOB_SSP_RAND_R_TYPE :: ARRAY_TO_STREAM r 16)
        ++ 4 :: T.BTM_EIR_OOB_COD_TYPE :: DEVCLASS_TO_STREAM dev.dev_class)
        ++ u8 (name_len + 1) :: T.BTM_EIR_SHORTENED_LOCAL_NAME_TYPE ::
            List.take name_len (cstr dev.bd_name) := by simp
  rw [hmem, drop_entry]
  rw [List.take_take, Nat.min_self]

/-- C8 at a concrete input: the first three bytes of the name "abcde". -/
theorem C8_oob_roundtrip_short_name_witness :
    ∃ off,
      (BTM_ReadOobData stdTags
          (some (BTM_BuildOobData stdTags true exampleDevice true 100 exampleC exampleR 3).2)
          stdTags.BTM_EIR_SHORTENED_LOCAL_NAME_TYPE).p_ret = some off ∧
      (BTM_ReadOobData stdTags
          (some (BTM_BuildOobData stdTags true exampleDevice true 100 exampleC exampleR 3).2)
          stdTags.BTM_EIR_SHORTENED_LOCAL_NAME_TYPE).ret_len = 3 ∧
      ((BTM_BuildOobData stdTags true exampleDevice true 100 exampleC exampleR 3).2.drop
        off).take 3 = (cstr exampleDevice.bd_name).take 3 ∧
      ((cstr exampleDevice.bd_name).take 3).length = 3 :=
  C8_oob_roundtrip_short_name stdTags exampleDevice 100 exampleC exampleR 3
    (by decide) (by decide) (by decide) (by decide) (by decide) (by decide)
    (by decide) (by decide) (by decide) (by decide) (by decide) (by decide) (by decide)

/-! ## Security procedure executor -/

theorem tst_zero_left (m : Nat) : tst 0 m = false := by
  simp [tst]

theorem andNot16_zero_left (m : Nat) : andNot16 0 m = 0 := by
  simp [andNot16]

theorem list_set_getD_self {α : Type} (l : List α) (p : Nat) (d : α) :
    l.set p (l.getD p d) = l := by
  by_cases hp : p < l.length
  · apply List.ext_getElem
    · simp
    · intro i h1 h2
      rw [List.getElem_set]
      split_ifs with hpi
      · subst hpi
        exact List.getD_eq_getElem _ _ hp
      · rfl
  · exact List.set_eq_of_length_le (Nat.le_of_not_lt hp)

/-- Storing into a record the values its fields already have changes nothing. -/
theorem setDev_self (w : World) (p : Nat) (f : tBTM_SEC_DEV_REC → tBTM_SEC_DEV_REC)
    (h : f (w.dev p) = w.dev p) : w.setDev p f = w := by
  unfold World.setDev
  rw [h]
  have hl : w.cb.sec_dev_rec.set p (w.dev p) = w.cb.sec_dev_rec :=
    list_set_getD_self _ _ _
  rw [hl]

/-- For a device record with nothing owed (`security_required` empty) that is idle,
whose name is known or which has no ACL handle, and which passes the
Secure-Connections checks, `btm_sec_execute_procedure` returns `BTM_SUCCESS`, makes no
call to the outside (no remote-name request, no authentication request, no
set-encryption, no callback) and leaves the control block as it was; calling it again
gives the same result. -/
theorem execute_nothing_owed (K : Hdr) (E : Env) (w : World) (p_dev_rec : Nat)
    (hreq : (w.dev p_dev_rec).security_required = 0)
    (hidle : (w.dev p_dev_rec).sec_state = SecState.IDLE)
    (hname : tst (w.dev p_dev_rec).sec_flags K.BTM_SEC_NAME_KNOWN = true ∨
             (w.dev p_dev_rec).hci_handle = K.BTM_SEC_INVALID_HANDLE)
    (hsc : secureConnFails K w (w.dev p_dev_rec) = false) :
    btm_sec_execute_procedure K E w p_dev_rec = (tBTM_STATUS.BTM_SUCCESS, w) ∧
    btm_sec_execute_procedure K E (btm_sec_execute_procedure K E w p_dev_rec).2 p_dev_rec
      = (tBTM_STATUS.BTM_SUCCESS, w) := by
  have hstep : btm_sec_execute_procedure K E w p_dev_rec = (tBTM_STATUS.BTM_SUCCESS, w) := by
    have hn : (!tst (w.dev p_dev_rec).sec_flags K.BTM_SEC_NAME_KNOWN
        && (w.dev p_dev_rec).hci_handle != K.BTM_SEC_INVALID_HANDLE) = false := by
      rcases hname with h | h
      · simp [h]
      · simp [h]
    have hself : w.setDev p_dev_rec (fun r =>
        { r with security_required := andNot16 r.security_required (satisfiedMask K) }) = w := by
      apply setDev_self
      rw [hreq, andNot16_zero_left]
      cases hr : w.dev p_dev_rec
      rw [hr] at hreq
      simp only at hreq
      simp [hreq]
    unfold btm_sec_execute_procedure
    simp only [hidle, ne_eq, not_true_eq_false, if_false, hn, Bool.false_eq_true, hreq,
      tst_zero_left, Bool.and_false, Bool.false_and, Bool.or_self, hsc]
    unfold executeAuthorize
    simp only [hreq, tst_zero_left, Bool.and_false, Bool.or_self, Bool.false_eq_true,
      if_false, hself]
  exact ⟨hstep, by rw [hstep]; exact hstep⟩

/-- The idle example device, name known, nothing owed: `btm_sec_execute_procedure`
returns `BTM_SUCCESS` and leaves the world as it was, twice. -/
theorem execute_nothing_owed_example :
    btm_sec_execute_procedure stdHdr exampleEnv exampleWorld 0
      = (tBTM_STATUS.BTM_SUCCESS, exampleWorld) ∧
    btm_sec_execute_procedure stdHdr exampleEnv
        (btm_sec_execute_procedure stdHdr exampleEnv exampleWorld 0).2 0
      = (tBTM_STATUS.BTM_SUCCESS, exampleWorld) :=
  execute_nothing_owed stdHdr exampleEnv exampleWorld 0 (by decide) (by decide)
    (Or.inl (by decide)) (by decide)

/-- C5 at the failing input: the device owes authentication, is idle and connected,
and the authentication request cannot be sent. `btm_sec_execute_procedure` returns
`BTM_NO_RESOURCES`, but `sec_state`, idle before the call, is left at authenticating,
so that the next call finds the device busy and answers `BTM_CMD_STARTED`. -/
theorem C5_authentication_failure_keeps_state :
    (exampleWorldOwesAuth.dev 0).sec_state = SecState.IDLE ∧
    (btm_sec_execute_procedure stdHdr exampleEnvNoBuffers exampleWorldOwesAuth 0).1
      = tBTM_STATUS.BTM_NO_RESOURCES ∧
    ((btm_sec_execute_procedure stdHdr exampleEnvNoBuffers exampleWorldOwesAuth 0).2.dev
      0).sec_state = SecState.AUTHENTICATING ∧
    (btm_sec_execute_procedure stdHdr exampleEnvNoBuffers
      (btm_sec_execute_procedure stdHdr exampleEnvNoBuffers exampleWorldOwesAuth 0).2 0).1
      = tBTM_STATUS.BTM_CMD_STARTED := by
  decide

/-! ## Delivery of the stored callback -/

theorem dev_emit (w : World) (e : Event) (p : Nat) : (w.emit e).dev p = w.dev p := rfl

theorem dev_setDev_same (w : World) (p : Nat) (f : tBTM_SEC_DEV_REC → tBTM_SEC_DEV_REC) :
    (w.setDev p f).dev p
      = if p < w.cb.sec_dev_rec.length then f (w.dev p) else tBTM_SEC_DEV_REC.zero := by
  unfold World.setDev World.dev
  simp only
  split_ifs with h
  · rw [List.getD_eq_getElem _ _ (by simpa using h)]
    simp
  · rw [List.getD_eq_default _ _ (by simpa using h)]

/-- After the `if` block of `btm_sec_dev_rec_cback_event` the slot is empty. -/
theorem devRecCallback_slot (K : Hdr) (w : World) (p : Nat) (res : tBTM_STATUS) (le : Bool) :
    ((devRecCallback K w p res le).dev p).p_callback = none := by
  unfold devRecCallback
  simp only
  cases h : (w.dev p).p_callback with
  | none => simpa using h
  | some c =>
    simp only [dev_emit, dev_setDev_same]
    split_ifs <;> rfl

theorem devRecCallback_cb (K : Hdr) (w : World) (p : Nat) (res : tBTM_STATUS) (le : Bool) :
    (devRecCallback K w p res le).cb.pairing_state = w.cb.pairing_state ∧
    (devRecCallback K w p res le).cb.sec_pending_q = w.cb.sec_pending_q := by
  unfold devRecCallback
  simp only
  cases (w.dev p).p_callback <;> exact ⟨rfl, rfl⟩

theorem devRecCallback_none (K : Hdr) (w : World) (p : Nat) (res : tBTM_STATUS) (le : Bool)
    (h : (w.dev p).p_callback = none) : devRecCallback K w p res le = w := by
  unfold devRecCallback
  simp only [h]

/-- Replaying a queue none of whose entries still has an ACL link submits nothing. -/
theorem replay_skipped (K : Hdr) (E : Env) (q : List tBTM_SEC_QUEUE_ENTRY) :
    ∀ (w : World),
      (∀ e ∈ q, (E.btm_bda_to_acl e.bd_addr K.BT_TRANSPORT_BR_EDR).isSome = false) →
      q.foldl (fun w p_e =>
        if (E.btm_bda_to_acl p_e.bd_addr K.BT_TRANSPORT_BR_EDR).isSome then
          (btm_sec_mx_access_request K E w p_e.bd_addr p_e.psm p_e.is_orig p_e.mx_proto_id
            p_e.mx_chan_id p_e.p_callback p_e.p_ref_data).2
        else w) w = w := by
  induction q with
  | nil => intro w _; rfl
  | cons e q ih =>
    intro w h
    rw [List.foldl_cons, h e (List.mem_cons_self _ _)]
    simp only [Bool.false_eq_true, if_false]
    exact ih w (fun e' he' => h e' (List.mem_cons_of_mem _ he'))

/-- When no queued request is resubmitted, `btm_sec_check_pending_reqs` leaves the
device table alone and its result is a world it does not change any more. -/
theorem check_pending_no_resubmission (K : Hdr) (E : Env) (w : World)
    (hq : w.cb.pairing_state ≠ tBTM_PAIRING_STATE.BTM_PAIR_STATE_IDLE ∨
          ∀ e ∈ w.cb.sec_pending_q,
            (E.btm_bda_to_acl e.bd_addr K.BT_TRANSPORT_BR_EDR).isSome = false) :
    (btm_sec_check_pending_reqs K E w).cb.sec_dev_rec = w.cb.sec_dev_rec ∧
    btm_sec_check_pending_reqs K E (btm_sec_check_pending_reqs K E w)
      = btm_sec_check_pending_reqs K E w ∧
    (btm_sec_check_pending_reqs K E w).cb.pairing_state = w.cb.pairing_state ∧
    ((btm_sec_check_pending_reqs K E w).cb.pairing_state
        = tBTM_PAIRING_STATE.BTM_PAIR_STATE_IDLE →
      (btm_sec_check_pending_reqs K E w).cb.sec_pending_q = []) := by
  by_cases hidle : w.cb.pairing_state = tBTM_PAIRING_STATE.BTM_PAIR_STATE_IDLE
  · have hskip : ∀ e ∈ w.cb.sec_pending_q,
        (E.btm_bda_to_acl e.bd_addr K.BT_TRANSPORT_BR_EDR).isSome = false := by
      rcases hq with h | h
      · exact absurd hidle h
      · exact h
    have h1 : btm_sec_check_pending_reqs K E w =
        { (if w.cb.sec_req_pending then
            { w with cb := { w.cb with sec_req_pending := false } }.emit
              Event.l2cu_resubmit_pending_sec_req
          else w) with
          cb := { (if w.cb.sec_req_pending then
            { w with cb := { w.cb with sec_req_pending := false } }.emit
              Event.l2cu_resubmit_pending_sec_req
          else w).cb with sec_pending_q := [] } } := by
      unfold btm_sec_check_pending_reqs
      simp only [hidle, beq_self_eq_true, if_true]
      apply replay_skipped
      cases w.cb.sec_req_pending <;> exact hskip
    rw [h1]
    cases hp : w.cb.sec_req_pending
    · refine ⟨by simp, ?_, by simp, by simp⟩
      unfold btm_sec_check_pending_reqs
      simp [hidle, hp]
    · refine ⟨by simp [World.emit], ?_, by simp [World.emit], by simp⟩
      unfold btm_sec_check_pending_reqs
      simp [hidle, World.emit]
  · have h1 : btm_sec_check_pending_reqs K E w = w := by
      unfold btm_sec_check_pending_reqs
      simp [hidle]
    rw [h1]
    exact ⟨rfl, h1, rfl, fun h => absurd h hidle⟩

/-- C6: `btm_sec_dev_rec_cback_event` delivers a stored callback at most once. The
callback is called in a world where the device's slot has already been emptied; the
slot is empty after the call; and, when no queued access request is resubmitted in
between (pairing not idle, or no queued request whose ACL link is still up), a second
call for the same device changes nothing, so that it calls no callback. -/
theorem C6_callback_delivered_once (K : Hdr) (E : Env) (w : World) (p_dev_rec : Nat)
    (res : tBTM_STATUS) (is_le_transport : Bool)
    (hq : w.cb.pairing_state ≠ tBTM_PAIRING_STATE.BTM_PAIR_STATE_IDLE ∨
          ∀ e ∈ w.cb.sec_pending_q,
            (E.btm_bda_to_acl e.bd_addr K.BT_TRANSPORT_BR_EDR).isSome = false) :
    (∀ c, (w.dev p_dev_rec).p_callback = some c →
      ∃ w' : World, ((w'.dev p_dev_rec).p_callback = none ∧ w'.out = w.out) ∧
        devRecCallback K w p_dev_rec res is_le_transport
          = w'.emit (Event.sec_callback c (w.dev p_dev_rec).bd_addr
              (if is_le_transport then K.BT_TRANSPORT_LE else K.BT_TRANSPORT_BR_EDR)
              (w.dev p_dev_rec).p_ref_data res)) ∧
    ((btm_sec_dev_rec_cback_event K E w p_dev_rec res is_le_transport).dev
        p_dev_rec).p_callback = none ∧
    (∀ res2 le2,
      btm_sec_dev_rec_cback_event K E
          (btm_sec_dev_rec_cback_event K E w p_dev_rec res is_le_transport) p_dev_rec res2 le2
        = btm_sec_dev_rec_cback_event K E w p_dev_rec res is_le_transport) := by
  have hcb := devRecCallback_cb K w p_dev_rec res is_le_transport
  have hq1 : (devRecCallback K w p_dev_rec res is_le_transport).cb.pairing_state
        ≠ tBTM_PAIRING_STATE.BTM_PAIR_STATE_IDLE ∨
      ∀ e ∈ (devRecCallback K w p_dev_rec res is_le_transport).cb.sec_pending_q,
        (E.btm_bda_to_acl e.bd_addr K.BT_TRANSPORT_BR_EDR).isSome = false := by
    rw [hcb.1, hcb.2]; exact hq
  obtain ⟨hdev, hfix, -, -⟩ := check_pending_no_resubmission K E _ hq1
  have hslot : ((btm_sec_dev_rec_cback_event K E w p_dev_rec res is_le_transport).dev
      p_dev_rec).p_callback = none := by
    have := devRecCallback_slot K w p_dev_rec res is_le_transport
    unfold btm_sec_dev_rec_cback_event
    unfold World.dev at this ⊢
    rw [hdev]
    exact this
  refine ⟨?_, hslot, ?_⟩
  · intro c hc
    refine ⟨w.setDev p_dev_rec (fun r => { r with p_callback := none }), ⟨?_, rfl⟩, ?_⟩
    · rw [dev_setDev_same]
      split_ifs <;> rfl
    · have hp : p_dev_rec < w.cb.sec_dev_rec.length := by
        by_contra hlt
        unfold World.dev at hc
        rw [List.getD_eq_default _ _ (Nat.le_of_not_lt hlt)] at hc
        cases hc
      unfold devRecCallback
      simp only [hc]
      rw [dev_setDev_same, if_pos hp]
  · intro res2 le2
    unfold btm_sec_dev_rec_cback_event at hslot ⊢
    rw [devRecCallback_none K _ p_dev_rec res2 le2 hslot]
    exact hfix

/-- C6 at a concrete input: callback 7 is stored on the example device and the queue
of pending requests is empty. The call delivers the callback once; a second call
finds nothing to deliver. -/
theorem C6_callback_delivered_once_witness :
    (btm_sec_dev_rec_cback_event stdHdr exampleEnv exampleWorldPending 0
        tBTM_STATUS.BTM_SUCCESS false).out
      = [Event.sec_callback 7 [0x00, 0x1A, 0x7D, 0xDA, 0x71, 0x13] 1 42
          tBTM_STATUS.BTM_SUCCESS] ∧
    ((btm_sec_dev_rec_cback_event stdHdr exampleEnv exampleWorldPending 0
        tBTM_STATUS.BTM_SUCCESS false).dev 0).p_callback = none ∧
    btm_sec_dev_rec_cback_event stdHdr exampleEnv
        (btm_sec_dev_rec_cback_event stdHdr exampleEnv exampleWorldPending 0
          tBTM_STATUS.BTM_SUCCESS false) 0 tBTM_STATUS.BTM_ERR_PROCESSING false
      = btm_sec_dev_rec_cback_event stdHdr exampleEnv exampleWorldPending 0
          tBTM_STATUS.BTM_SUCCESS false :=
  ⟨by decide,
   (C6_callback_delivered_once stdHdr exampleEnv exampleWorldPending 0
      tBTM_STATUS.BTM_SUCCESS false (Or.inr (by decide))).2.1,
   (C6_callback_delivered_once stdHdr exampleEnv exampleWorldPending 0
      tBTM_STATUS.BTM_SUCCESS false (Or.inr (by decide))).2.2
        tBTM_STATUS.BTM_ERR_PROCESSING false⟩

/-! ## The callback slot under a new request -/

theorem dev_callback (w : World) (cbk : Option Nat) (a : BD_ADDR) (t ref : Nat)
    (res : tBTM_STATUS) (p : Nat) : (w.callback cbk a t ref res).dev p = w.dev p := by
  cases cbk <;> rfl

theorem dev_callbackIf (w : World) (cbk : Option Nat) (a : BD_ADDR) (t ref : Nat)
    (res : tBTM_STATUS) (p : Nat) : (w.callbackIf cbk a t ref res).dev p = w.dev p := by
  cases cbk <;> rfl

theorem lt_of_callback_some (w : World) (p c : Nat) (h : (w.dev p).p_callback = some c) :
    p < w.cb.sec_dev_rec.length := by
  by_contra hlt
  unfold World.dev at h
  rw [List.getD_eq_default _ _ (Nat.le_of_not_lt hlt)] at h
  cases h

/-- `BTM_SetEncryption` on a device whose callback slot is occupied: the request is
answered at once (wrong mode, already encrypted, or busy) and the control block is
not touched, so the stored callback and its reference data stay. -/
theorem SetEncryption_keeps_callback (K : Hdr) (E : Env) (w : World) (bd_addr : BD_ADDR)
    (transport : Nat) (p_callback : Option Nat) (p_ref_data p c : Nat)
    (hfind : btm_find_dev K w.cb bd_addr = some p)
    (hc : (w.dev p).p_callback = some c) :
    (BTM_SetEncryption K E w bd_addr transport p_callback p_ref_data).2.cb = w.cb ∧
    ((BTM_SetEncryption K E w bd_addr transport p_callback p_ref_data).1
        = tBTM_STATUS.BTM_WRONG_MODE ∨
     (BTM_SetEncryption K E w bd_addr transport p_callback p_ref_data).1
        = tBTM_STATUS.BTM_SUCCESS ∨
     (BTM_SetEncryption K E w bd_addr transport p_callback p_ref_data).1
        = tBTM_STATUS.BTM_BUSY) := by
  have hcb : ∀ (res : tBTM_STATUS),
      (w.callbackIf p_callback bd_addr transport p_ref_data res).cb = w.cb := by
    intro res; cases p_callback <;> rfl
  unfold BTM_SetEncryption
  simp only [hfind, hc, Option.isSome_some, if_true]
  split_ifs
  · exact ⟨hcb _, Or.inl rfl⟩
  · exact ⟨hcb _, Or.inr (Or.inl rfl)⟩
  · exact ⟨hcb _, Or.inr (Or.inr rfl)⟩

/-- `btm_sec_l2cap_access_req` on a device whose callback slot is occupied: the
request is answered at once or left pending, and the stored callback and its
reference data stay. -/
theorem l2cap_access_req_keeps_callback (K : Hdr) (E : Env) (w : World) (bd_addr : BD_ADDR)
    (psm handle : Nat) (conn_type : CONNECTION_TYPE) (p_callback : Option Nat)
    (p_ref_data p c : Nat)
    (hfind : btm_find_dev K w.cb bd_addr = some p)
    (hc : (w.dev p).p_callback = some c) :
    ((btm_sec_l2cap_access_req K E w bd_addr psm handle conn_type p_callback
        p_ref_data).2.dev p).p_callback = some c ∧
    ((btm_sec_l2cap_access_req K E w bd_addr psm handle conn_type p_callback
        p_ref_data).2.dev p).p_ref_data = (w.dev p).p_ref_data := by
  have hp := lt_of_callback_some w p c hc
  have hdev : (w.setDev p (fun r => { r with hci_handle := handle })).dev p
      = { w.dev p with hci_handle := handle } := by
    rw [dev_setDev_same, if_pos hp]
  have h1 : ((w.setDev p (fun r => { r with hci_handle := handle })).dev p).p_callback
      = some c := by rw [hdev]; exact hc
  have h2 : ((w.setDev p (fun r => { r with hci_handle := handle })).dev p).p_ref_data
      = (w.dev p).p_ref_data := by rw [hdev]
  unfold btm_sec_l2cap_access_req btm_find_or_alloc_dev
  simp only [hfind, World.derefDev]
  split
  · simp only [dev_callback]; exact ⟨h1, h2⟩
  · simp only [h1, Option.isSome_some, Bool.true_or, if_true]
    split_ifs
    all_goals first
      | exact ⟨h1, h2⟩
      | (simp only [dev_callback]; exact ⟨h1, h2⟩)
      | (simp only [dev_callbackIf]; exact ⟨h1, h2⟩)

/-- C1 at the failing input. Callback 7 with reference data 42 is stored on the
device, which is being authorized for a first request. A second request arrives
through `btm_sec_mx_access_request` for a service that asks for no security: the
legacy table grants it at once, the function does not queue it but goes on, stores
callback 9 and reference data 77 in the slot and returns `BTM_CMD_STARTED`; callback 7
is not called and is lost. On the same input `btm_sec_l2cap_access_req` and
`BTM_SetEncryption` keep callback 7. -/
theorem C1_mx_access_request_replaces_callback :
    (exampleWorldPendingOpen.dev 0).p_callback = some 7 ∧
    (exampleWorldPendingOpen.dev 0).p_ref_data = 42 ∧
    (btm_sec_mx_access_request stdHdr exampleEnv exampleWorldPendingOpen
        [0x00, 0x1A, 0x7D, 0xDA, 0x71, 0x13] 3 false 3 5 (some 9) 77).1
      = tBTM_STATUS.BTM_CMD_STARTED ∧
    ((btm_sec_mx_access_request stdHdr exampleEnv exampleWorldPendingOpen
        [0x00, 0x1A, 0x7D, 0xDA, 0x71, 0x13] 3 false 3 5 (some 9) 77).2.dev 0).p_callback
      = some 9 ∧
    ((btm_sec_mx_access_request stdHdr exampleEnv exampleWorldPendingOpen
        [0x00, 0x1A, 0x7D, 0xDA, 0x71, 0x13] 3 false 3 5 (some 9) 77).2.dev 0).p_ref_data
      = 77 ∧
    (btm_sec_mx_access_request stdHdr exampleEnv exampleWorldPendingOpen
        [0x00, 0x1A, 0x7D, 0xDA, 0x71, 0x13] 3 false 3 5 (some 9) 77).2.out = [] ∧
    ((btm_sec_l2cap_access_req stdHdr exampleEnv exampleWorldPendingOpen
        [0x00, 0x1A, 0x7D, 0xDA, 0x71, 0x13] 3 1 CONN_ORIENT_TERM (some 9) 77).2.dev
        0).p_callback = some 7 ∧
    ((BTM_SetEncryption stdHdr exampleEnv exampleWorldPendingOpen
        [0x00, 0x1A, 0x7D, 0xDA, 0x71, 0x13] 1 (some 9) 77).2.dev 0).p_callback = some 7 := by
  decide

/-! ## Pairing state machine -/

/-- C3: called while the pairing state is not idle, `btm_sec_bond_by_transport`
returns `BTM_WRONG_MODE` for every address, transport, PIN and trust mask, and leaves
the whole control block as it was (pairing state, target address, flags and cached
PIN, and every device record); it makes no call to the outside. -/
theorem C3_bond_rejected_while_pairing (K : Hdr) (E : Env) (w : World) (bd_addr : BD_ADDR)
    (transport pin_len : Nat) (p_pin trusted_mask : Option (List Nat))
    (h : w.cb.pairing_state ≠ tBTM_PAIRING_STATE.BTM_PAIR_STATE_IDLE) :
    btm_sec_bond_by_transport K E w bd_addr transport pin_len p_pin trusted_mask
      = (tBTM_STATUS.BTM_WRONG_MODE, w) := by
  unfold btm_sec_bond_by_transport
  simp only [ne_eq, h, not_false_eq_true, if_true]

/-- C3 at a concrete input: a bond request for another device while a pairing waits
for the local PIN. -/
theorem C3_bond_rejected_while_pairing_witness :
    btm_sec_bond_by_transport stdHdr exampleEnv exampleWorldPairing
        [0x11, 0x22, 0x33, 0x44, 0x55, 0x66] 1 4 (some [0x31, 0x32, 0x33, 0x34]) none
      = (tBTM_STATUS.BTM_WRONG_MODE, exampleWorldPairing) :=
  C3_bond_rejected_while_pairing stdHdr exampleEnv exampleWorldPairing
    [0x11, 0x22, 0x33, 0x44, 0x55, 0x66] 1 4 (some [0x31, 0x32, 0x33, 0x34]) none (by decide)

/-- C2 at the failing input, reached through entry points only: start-up
(`btm_sec_init`), registration of an outgoing service that requires authentication
(`BTM_SetSecurityLevel`), an access request that starts authentication
(`btm_sec_l2cap_access_req`), and an authentication-complete event with status
transaction-collision (`btm_sec_auth_complete`). No pairing is going on before the
event; after it the pairing state is wait-pin-request while `pairing_bda` is still
the all-0xFF value, and a bond request is refused with `BTM_WRONG_MODE`. -/
theorem C2_collision_sets_pairing_state_without_target :
    (traceRequested.dev 0).sec_state = SecState.AUTHENTICATING ∧
    traceRequested.cb.pairing_state = tBTM_PAIRING_STATE.BTM_PAIR_STATE_IDLE ∧
    traceCollided.cb.pairing_state = tBTM_PAIRING_STATE.BTM_PAIR_STATE_WAIT_PIN_REQ ∧
    traceCollided.cb.pairing_bda = [0xFF, 0xFF, 0xFF, 0xFF, 0xFF, 0xFF] ∧
    (btm_sec_bond_by_transport stdHdr traceEnv traceCollided
        [0x11, 0x22, 0x33, 0x44, 0x55, 0x66] 1 0 none none).1
      = tBTM_STATUS.BTM_WRONG_MODE := by
  decide

/-! ## The IO-capability table -/

/-- C11: in `btm_sec_io_map` an authenticated link key is possible for KeyboardOnly
with DisplayOnly, and is not possible when one side is NoInputNoOutput, for each of
the four capabilities of the other side; both facts hold with either index taken as
the local side (the code indexes the table by the remote capability first). -/
theorem C11_io_map_entries :
    ioMapAt BTM_IO_CAP_IN BTM_IO_CAP_OUT = true ∧
    ioMapAt BTM_IO_CAP_OUT BTM_IO_CAP_IN = true ∧
    ∀ r : Fin 4, ioMapAt BTM_IO_CAP_NONE r.val = false ∧ ioMapAt r.val BTM_IO_CAP_NONE = false := by
  decide

/-- The claim C12 as stated fails for KeyboardOnly with KeyboardOnly: the table marks
an authenticated link key as possible, one side can input, but the other side cannot
display or confirm. -/
theorem C12_counterexample :
    ioMapAt BTM_IO_CAP_IN BTM_IO_CAP_IN = true ∧
    ¬ ((canInput BTM_IO_CAP_IN = true ∧ canDisplay BTM_IO_CAP_IN = true) ∨
       (canInput BTM_IO_CAP_IN = true ∧ canDisplay BTM_IO_CAP_IN = true)) := by
  decide

/-- C12 (amended): if `btm_sec_io_map` marks an authenticated link key as possible for
`(a, b)`, then neither side is NoInputNoOutput, and either one side can input while
the other can display or confirm, or both sides are KeyboardOnly. -/
theorem C12_authenticated_key_sides (a b : Nat) (h : ioMapAt a b = true) :
    a ≠ BTM_IO_CAP_NONE ∧ b ≠ BTM_IO_CAP_NONE ∧
    ((canInput a = true ∧ canDisplay b = true) ∨
     (canInput b = true ∧ canDisplay a = true) ∨
     (a = BTM_IO_CAP_IN ∧ b = BTM_IO_CAP_IN)) := by
  rcases a with _ | _ | _ | _ | a <;> rcases b with _ | _ | _ | _ | b <;>
    simp [ioMapAt, btm_sec_io_map, canInput, canDisplay, BTM_IO_CAP_IN, BTM_IO_CAP_OUT,
      BTM_IO_CAP_IO, BTM_IO_CAP_NONE] at h ⊢

/-- C12 (amended) at concrete inputs: DisplayYesNo with KeyboardOnly. -/
theorem C12_authenticated_key_sides_witness :
    BTM_IO_CAP_IO ≠ BTM_IO_CAP_NONE ∧ BTM_IO_CAP_IN ≠ BTM_IO_CAP_NONE ∧
    ((canInput BTM_IO_CAP_IO = true ∧ canDisplay BTM_IO_CAP_IN = true) ∨
     (canInput BTM_IO_CAP_IN = true ∧ canDisplay BTM_IO_CAP_IO = true) ∨
     ( BTM_IO_CAP_IO = BTM_IO_CAP_IN ∧ BTM_IO_CAP_IN = BTM_IO_CAP_IN)) :=
  C12_authenticated_key_sides BTM_IO_CAP_IO BTM_IO_CAP_IN (by decide)

/-! ## Replies outside an open PIN request -/

/-- C13: when the pairing state is not wait-local-pin (idle included), or when the
address is not the current pairing target, `BTM_PINCodeReply` returns with the world
as it was, whatever the result code, PIN and trust mask: no controller command is
issued, the pairing control block and every device record are unchanged. -/
theorem C13_pin_reply_ignored (K : Hdr) (E : Env) (w : World) (bd_addr : BD_ADDR)
    (res : tBTM_STATUS) (pin_len : Nat) (p_pin trusted_mask : Option (List Nat))
    (h : w.cb.pairing_state ≠ tBTM_PAIRING_STATE.BTM_PAIR_STATE_WAIT_LOCAL_PIN ∨
         bd_addr ≠ w.cb.pairing_bda) :
    BTM_PINCodeReply K E w bd_addr res pin_len p_pin trusted_mask = w := by
  unfold BTM_PINCodeReply
  rcases h with h | h
  · rw [if_pos h]
  · split_ifs
    · rfl
    · rfl

/-- C13 at concrete inputs: a reply while pairing is idle, and a reply for another
address while the PIN of the pairing target is awaited. -/
theorem C13_pin_reply_ignored_witness :
    BTM_PINCodeReply stdHdr exampleEnv exampleWorld [0x00, 0x1A, 0x7D, 0xDA, 0x71, 0x13]
        tBTM_STATUS.BTM_SUCCESS 4 (some [0x31, 0x32, 0x33, 0x34]) none = exampleWorld ∧
    BTM_PINCodeReply stdHdr exampleEnv exampleWorldPairing [0x11, 0x22, 0x33, 0x44, 0x55, 0x66]
        tBTM_STATUS.BTM_SUCCESS 4 (some [0x31, 0x32, 0x33, 0x34]) none = exampleWorldPairing :=
  ⟨C13_pin_reply_ignored stdHdr exampleEnv exampleWorld [0x00, 0x1A, 0x7D, 0xDA, 0x71, 0x13]
      tBTM_STATUS.BTM_SUCCESS 4 (some [0x31, 0x32, 0x33, 0x34]) none (Or.inl (by decide)),
   C13_pin_reply_ignored stdHdr exampleEnv exampleWorldPairing
      [0x11, 0x22, 0x33, 0x44, 0x55, 0x66]
      tBTM_STATUS.BTM_SUCCESS 4 (some [0x31, 0x32, 0x33, 0x34]) none (Or.inr (by decide))⟩

/-! ## Requests that are answered at once -/

theorem find_first_serv_setDev (K : Hdr) (w : World) (p : Nat)
    (f : tBTM_SEC_DEV_REC → tBTM_SEC_DEV_REC) (conn_type : CONNECTION_TYPE) (psm : Nat) :
    btm_sec_find_first_serv K (w.setDev p f).cb conn_type psm
      = btm_sec_find_first_serv K w.cb conn_type psm := rfl

/-- The claim C16 as stated fails when no service record is registered for the SDP
PSM: the request is refused with `BTM_MODE_UNSUPPORTED`, which is also what the
callback is told. -/
theorem C16_counterexample :
    stdHdr.BT_PSM_SDP = 1 ∧
    (btm_sec_l2cap_access_req stdHdr exampleEnv exampleWorld
        [0x00, 0x1A, 0x7D, 0xDA, 0x71, 0x13] 1 1 CONN_ORIENT_TERM (some 9) 77).1
      = tBTM_STATUS.BTM_MODE_UNSUPPORTED ∧
    (btm_sec_l2cap_access_req stdHdr exampleEnv exampleWorld
        [0x00, 0x1A, 0x7D, 0xDA, 0x71, 0x13] 1 1 CONN_ORIENT_TERM (some 9) 77).2.out
      = [Event.sec_callback 9 [0x00, 0x1A, 0x7D, 0xDA, 0x71, 0x13] 0 77
          tBTM_STATUS.BTM_MODE_UNSUPPORTED] := by
  decide

/-- C16 (amended): when a device record is found or allocated for the address (world
`w1`, record `p`) and a service record is registered for the SDP PSM, an L2CAP access
request for that PSM returns `BTM_SUCCESS` and calls the callback once with
`BTM_SUCCESS_NO_SECURITY`, whatever the security state, the pairing state and the rest
of the service table; it makes no other call, and nothing in the control block changes
but the connection handle of the device record. -/
theorem C16_sdp_allowed_when_registered (K : Hdr) (E : Env) (w w1 : World)
    (bd_addr : BD_ADDR) (handle : Nat) (conn_type : CONNECTION_TYPE) (c p_ref_data p s : Nat)
    (hdev : btm_find_or_alloc_dev K E w bd_addr = (some p, w1))
    (hserv : btm_sec_find_first_serv K w1.cb conn_type K.BT_PSM_SDP = some s) :
    btm_sec_l2cap_access_req K E w bd_addr K.BT_PSM_SDP handle conn_type (some c) p_ref_data
      = (tBTM_STATUS.BTM_SUCCESS,
          (w1.setDev p (fun r => { r with hci_handle := handle })).emit
            (Event.sec_callback c bd_addr 0 p_ref_data tBTM_STATUS.BTM_SUCCESS_NO_SECURITY)) ∧
    (btm_sec_l2cap_access_req K E w bd_addr K.BT_PSM_SDP handle conn_type (some c)
        p_ref_data).2.out
      = w1.out ++ [Event.sec_callback c bd_addr 0 p_ref_data
          tBTM_STATUS.BTM_SUCCESS_NO_SECURITY] := by
  have h : btm_sec_l2cap_access_req K E w bd_addr K.BT_PSM_SDP handle conn_type (some c)
      p_ref_data
      = (tBTM_STATUS.BTM_SUCCESS,
          (w1.setDev p (fun r => { r with hci_handle := handle })).emit
            (Event.sec_callback c bd_addr 0 p_ref_data
              tBTM_STATUS.BTM_SUCCESS_NO_SECURITY)) := by
    unfold btm_sec_l2cap_access_req
    simp only [hdev, World.derefDev, find_first_serv_setDev, hserv, beq_self_eq_true, if_true,
      World.callback]
  rw [h]
  exact ⟨rfl, rfl⟩

/-- C16 (amended) at a concrete input: the example device asks for the SDP PSM, for
which a service is registered. -/
theorem C16_sdp_allowed_when_registered_witness :
    btm_sec_l2cap_access_req stdHdr exampleEnv exampleWorldSdp
        [0x00, 0x1A, 0x7D, 0xDA, 0x71, 0x13] stdHdr.BT_PSM_SDP 5 CONN_ORIENT_TERM (some 9) 77
      = (tBTM_STATUS.BTM_SUCCESS,
          (exampleWorldSdp.setDev 0 (fun r => { r with hci_handle := 5 })).emit
            (Event.sec_callback 9 [0x00, 0x1A, 0x7D, 0xDA, 0x71, 0x13] 0 77
              tBTM_STATUS.BTM_SUCCESS_NO_SECURITY)) ∧
    (btm_sec_l2cap_access_req stdHdr exampleEnv exampleWorldSdp
        [0x00, 0x1A, 0x7D, 0xDA, 0x71, 0x13] stdHdr.BT_PSM_SDP 5 CONN_ORIENT_TERM (some 9)
        77).2.out
      = exampleWorldSdp.out ++ [Event.sec_callback 9 [0x00, 0x1A, 0x7D, 0xDA, 0x71, 0x13] 0 77
          tBTM_STATUS.BTM_SUCCESS_NO_SECURITY] :=
  C16_sdp_allowed_when_registered stdHdr exampleEnv exampleWorldSdp exampleWorldSdp
    [0x00, 0x1A, 0x7D, 0xDA, 0x71, 0x13] 5 CONN_ORIENT_TERM 9 77 0 1 (by decide) (by decide)

/-- C17 at the failing input. No service is registered for PSM 3, protocol 3, channel
5. `btm_sec_mx_access_request` tells the callback `BTM_MODE_UNSUPPORTED` but returns
`BTM_NO_RESOURCES`; on the same input `btm_sec_l2cap_access_req` returns
`BTM_MODE_UNSUPPORTED`, the status it tells the callback. -/
theorem C17_mx_no_service_returns_no_resources :
    btm_sec_find_mx_serv stdHdr exampleWorld.cb false 3 3 5 = none ∧
    (btm_sec_mx_access_request stdHdr exampleEnv exampleWorld
        [0x00, 0x1A, 0x7D, 0xDA, 0x71, 0x13] 3 false 3 5 (some 9) 77).1
      = tBTM_STATUS.BTM_NO_RESOURCES ∧
    (btm_sec_mx_access_request stdHdr exampleEnv exampleWorld
        [0x00, 0x1A, 0x7D, 0xDA, 0x71, 0x13] 3 false 3 5 (some 9) 77).2.out
      = [Event.sec_callback 9 [0x00, 0x1A, 0x7D, 0xDA, 0x71, 0x13] 0 77
          tBTM_STATUS.BTM_MODE_UNSUPPORTED] ∧
    (btm_sec_l2cap_access_req stdHdr exampleEnv exampleWorld
        [0x00, 0x1A, 0x7D, 0xDA, 0x71, 0x13] 3 1 CONN_ORIENT_TERM (some 9) 77).1
      = tBTM_STATUS.BTM_MODE_UNSUPPORTED ∧
    (btm_sec_l2cap_access_req stdHdr exampleEnv exampleWorld
        [0x00, 0x1A, 0x7D, 0xDA, 0x71, 0x13] 3 1 CONN_ORIENT_TERM (some 9) 77).2.out
      = [Event.sec_callback 9 [0x00, 0x1A, 0x7D, 0xDA, 0x71, 0x13] 0 77
          tBTM_STATUS.BTM_MODE_UNSUPPORTED] := by
  decide

/-- C20: the three immediate answers of `BTM_SetEncryption`, in the order the code
tests them. The answer is `BTM_WRONG_MODE` when the device is unknown or has no
connection handle on the requested transport; otherwise `BTM_SUCCESS` when the link is
already encrypted on that transport; otherwise `BTM_BUSY` when the callback slot of
the device is occupied. In each case the world after the call is the world before it
plus, when a callback was supplied, one call of that callback with the returned
status: no controller command is issued and the control block, with every device
record, is unchanged. -/
theorem C20_set_encryption_immediate (K : Hdr) (E : Env) (w : World) (bd_addr : BD_ADDR)
    (transport : Nat) (p_callback : Option Nat) (p_ref_data : Nat) :
    (btm_find_dev K w.cb bd_addr = none →
      BTM_SetEncryption K E w bd_addr transport p_callback p_ref_data
        = (tBTM_STATUS.BTM_WRONG_MODE,
            w.callbackIf p_callback bd_addr transport p_ref_data tBTM_STATUS.BTM_WRONG_MODE)) ∧
    (∀ p, btm_find_dev K w.cb bd_addr = some p →
      (noHandleOn K (w.dev p) transport = true →
        BTM_SetEncryption K E w bd_addr transport p_callback p_ref_data
          = (tBTM_STATUS.BTM_WRONG_MODE,
              w.callbackIf p_callback bd_addr transport p_ref_data
                tBTM_STATUS.BTM_WRONG_MODE)) ∧
      (noHandleOn K (w.dev p) transport = false →
        encryptedOn K (w.dev p) transport = true →
        BTM_SetEncryption K E w bd_addr transport p_callback p_ref_data
          = (tBTM_STATUS.BTM_SUCCESS,
              w.callbackIf p_callback bd_addr transport p_ref_data
                tBTM_STATUS.BTM_SUCCESS)) ∧
      (noHandleOn K (w.dev p) transport = false →
        encryptedOn K (w.dev p) transport = false →
        (w.dev p).p_callback.isSome = true →
        BTM_SetEncryption K E w bd_addr transport p_callback p_ref_data
          = (tBTM_STATUS.BTM_BUSY,
              w.callbackIf p_callback bd_addr transport p_ref_data
                tBTM_STATUS.BTM_BUSY))) ∧
    (∀ res, (w.callbackIf p_callback bd_addr transport p_ref_data res).cb = w.cb ∧
      (w.callbackIf p_callback bd_addr transport p_ref_data res).out
        = w.out ++ (match p_callback with
            | some c => [Event.sec_callback c bd_addr transport p_ref_data res]
            | none => [])) := by
  refine ⟨?_, ?_, ?_⟩
  · intro h
    unfold BTM_SetEncryption
    simp only [h]
  · intro p hp
    refine ⟨?_, ?_, ?_⟩
    · intro h1
      unfold BTM_SetEncryption
      unfold noHandleOn at h1
      simp only [hp, h1, if_true]
    · intro h1 h2
      unfold BTM_SetEncryption
      unfold noHandleOn at h1
      unfold encryptedOn at h2
      simp only [hp, h1, h2, if_true, Bool.false_eq_true, if_false]
    · intro h1 h2 h3
      unfold BTM_SetEncryption
      unfold noHandleOn at h1
      unfold encryptedOn at h2
      simp only [hp, h1, h2, h3, if_true, Bool.false_eq_true, if_false]
  · intro res
    cases p_callback with
    | none => exact ⟨rfl, by simp [World.callbackIf]⟩
    | some c => exact ⟨rfl, rfl⟩

/-- C20 at concrete inputs: an unknown address, a link that is already encrypted, and
a device whose callback slot is occupied. -/
theorem C20_set_encryption_immediate_witness :
    BTM_SetEncryption stdHdr exampleEnv exampleWorld [0x11, 0x22, 0x33, 0x44, 0x55, 0x66] 1
        (some 9) 77
      = (tBTM_STATUS.BTM_WRONG_MODE,
          exampleWorld.callbackIf (some 9) [0x11, 0x22, 0x33, 0x44, 0x55, 0x66] 1 77
            tBTM_STATUS.BTM_WRONG_MODE) ∧
    BTM_SetEncryption stdHdr exampleEnv exampleWorldEncrypted
        [0x00, 0x1A, 0x7D, 0xDA, 0x71, 0x13] 1 (some 9) 77
      = (tBTM_STATUS.BTM_SUCCESS,
          exampleWorldEncrypted.callbackIf (some 9) [0x00, 0x1A, 0x7D, 0xDA, 0x71, 0x13] 1 77
            tBTM_STATUS.BTM_SUCCESS) ∧
    BTM_SetEncryption stdHdr exampleEnv exampleWorldPending
        [0x00, 0x1A, 0x7D, 0xDA, 0x71, 0x13] 1 (some 9) 77
      = (tBTM_STATUS.BTM_BUSY,
          exampleWorldPending.callbackIf (some 9) [0x00, 0x1A, 0x7D, 0xDA, 0x71, 0x13] 1 77
            tBTM_STATUS.BTM_BUSY) :=
  ⟨(C20_set_encryption_immediate stdHdr exampleEnv exampleWorld
      [0x11, 0x22, 0x33, 0x44, 0x55, 0x66] 1 (some 9) 77).1 (by decide),
   ((C20_set_encryption_immediate stdHdr exampleEnv exampleWorldEncrypted
      [0x00, 0x1A, 0x7D, 0xDA, 0x71, 0x13] 1 (some 9) 77).2.1 0 (by decide)).2.1
      (by decide) (by decide),
   ((C20_set_encryption_immediate stdHdr exampleEnv exampleWorldPending
      [0x00, 0x1A, 0x7D, 0xDA, 0x71, 0x13] 1 (some 9) 77).2.1 0 (by decide)).2.2
      (by decide) (by decide) (by decide)⟩

/-! ## The legacy decision table of the busy path -/

theorem tst_or_left (x y z : Nat) : tst (x ||| y) z = (tst x z || tst y z) := by
  cases h : tst (x ||| y) z
  · symm
    rw [Bool.or_eq_false_iff]
    constructor
    · cases hx : tst x z
      · rfl
      · obtain ⟨i, h1, h2⟩ := (tst_eq_true_iff x z).1 hx
        have : tst (x ||| y) z = true :=
          (tst_eq_true_iff _ _).2 ⟨i, by simp [Nat.testBit_or, h1], h2⟩
        rw [h] at this; exact (Bool.false_ne_true this).elim
    · cases hy : tst y z
      · rfl
      · obtain ⟨i, h1, h2⟩ := (tst_eq_true_iff y z).1 hy
        have : tst (x ||| y) z = true :=
          (tst_eq_true_iff _ _).2 ⟨i, by simp [Nat.testBit_or, h1], h2⟩
        rw [h] at this; exact (Bool.false_ne_true this).elim
  · obtain ⟨i, h1, h2⟩ := (tst_eq_true_iff _ _).1 h
    rw [Nat.testBit_or, Bool.or_eq_true] at h1
    symm
    rw [Bool.or_eq_true]
    rcases h1 with h1 | h1
    · exact Or.inl ((tst_eq_true_iff _ _).2 ⟨i, h1, h2⟩)
    · exact Or.inr ((tst_eq_true_iff _ _).2 ⟨i, h1, h2⟩)

theorem tst_disjoint {a b : Nat} (h : a &&& b = 0) : tst a b = false ∧ tst b a = false := by
  unfold tst
  rw [Nat.and_comm b a, h]
  exact ⟨rfl, rfl⟩

/-- Testing a bit of a mask gives the same answer before and after masking. -/
theorem tst_masked (sr F X : Nat) (h : F &&& X = X) : tst sr X = tst (sr &&& F) X := by
  unfold tst
  rw [Nat.and_assoc, h]

theorem or3_and_first (a b c : Nat) : (a ||| b ||| c) &&& a = a := by
  apply Nat.eq_of_testBit_eq
  intro i
  simp only [Nat.testBit_and, Nat.testBit_or]
  cases a.testBit i <;> simp

theorem or3_and_second (a b c : Nat) : (a ||| b ||| c) &&& b = b := by
  apply Nat.eq_of_testBit_eq
  intro i
  simp only [Nat.testBit_and, Nat.testBit_or]
  cases b.testBit i <;> simp

theorem or3_and_third (a b c : Nat) : (a ||| b ||| c) &&& c = c := by
  apply Nat.eq_of_testBit_eq
  intro i
  simp only [Nat.testBit_and, Nat.testBit_or]
  cases c.testBit i <;> simp

/-- The policy is met as soon as it is met by the masked requirement. -/
theorem policyMet_of_masked (K : Hdr) (r : tBTM_SEC_DEV_REC) (s : tBTM_SEC_SERV_REC)
    (sr : Nat) (orig : Bool) (m : Nat)
    (hm : sr &&& (if orig then BTM_SEC_OUT_FLAGS K else BTM_SEC_IN_FLAGS K) = m)
    (h : policyMet K r s m orig = true) : policyMet K r s sr orig = true := by
  unfold policyMet at h ⊢
  cases orig
  · simp only [authenticateBit, encryptBit, authorizeBit, Bool.false_eq_true, if_false] at hm h ⊢
    rw [tst_masked sr (BTM_SEC_IN_FLAGS K) K.BTM_SEC_IN_AUTHENTICATE (or3_and_first _ _ _),
      tst_masked sr (BTM_SEC_IN_FLAGS K) K.BTM_SEC_IN_ENCRYPT (or3_and_second _ _ _),
      tst_masked sr (BTM_SEC_IN_FLAGS K) K.BTM_SEC_IN_AUTHORIZE (or3_and_third _ _ _), hm]
    exact h
  · simp only [authenticateBit, encryptBit, authorizeBit, if_true] at hm h ⊢
    rw [tst_masked sr (BTM_SEC_OUT_FLAGS K) K.BTM_SEC_OUT_AUTHENTICATE (or3_and_first _ _ _),
      tst_masked sr (BTM_SEC_OUT_FLAGS K) K.BTM_SEC_OUT_ENCRYPT (or3_and_second _ _ _),
      tst_masked sr (BTM_SEC_OUT_FLAGS K) K.BTM_SEC_OUT_AUTHORIZE (or3_and_third _ _ _), hm]
    exact h

/-- The busy-path table of `btm_sec_l2cap_access_req` grants a request only when the
device record already meets the policy. -/
theorem l2capLegacyGranted_policy (K : Hdr) (hK : K.policyBitsDisjoint) (w : World)
    (p s sr : Nat) (orig : Bool)
    (h : l2capLegacyGranted K w p s sr orig = true) :
    policyMet K (w.dev p) (w.serv K s) sr orig = true := by
  obtain ⟨h1, h2, h3, h4, h5, h6⟩ := hK
  have d1 := tst_disjoint h1
  have d2 := tst_disjoint h2
  have d3 := tst_disjoint h3
  have d4 := tst_disjoint h4
  have d5 := tst_disjoint h5
  have d6 := tst_disjoint h6
  unfold l2capLegacyGranted at h
  cases orig
  swap
  · simp only [if_true] at h
    split_ifs at h with hc
    simp only [Bool.or_eq_true, Bool.and_eq_true, beq_iff_eq] at h
    rcases h with ((h | h) | h) | h
    · refine policyMet_of_masked K _ _ sr true _ h ?_
      simp [policyMet, tst_zero_left]
    · refine policyMet_of_masked K _ _ sr true _ h.1 ?_
      have := h.2
      simp only [btm_dev_authenticated] at this
      simp [policyMet, authenticateBit, encryptBit, authorizeBit, this, tst_or_left,
        d1.1, d1.2, d2.1, d2.2, d3.1, d3.2, d4.1, d4.2, d5.1, d5.2, d6.1, d6.2]
    · refine policyMet_of_masked K _ _ sr true _ h.1 ?_
      have := h.2
      simp only [btm_dev_encrypted] at this
      simp [policyMet, authenticateBit, encryptBit, authorizeBit, this, tst_or_left,
        d1.1, d1.2, d2.1, d2.2, d3.1, d3.2, d4.1, d4.2, d5.1, d5.2, d6.1, d6.2]
    · refine policyMet_of_masked K _ _ sr true _ h.1.1 ?_
      have ha := h.1.2
      have he := h.2
      simp only [btm_dev_encrypted] at he
      simp only [btm_dev_authorized] at ha
      simp [policyMet, he, ha]
  · simp only [Bool.false_eq_true, if_false] at h
    split_ifs at h with hc
    simp only [Bool.or_eq_true, Bool.and_eq_true, beq_iff_eq] at h
    rcases h with (((((h | h) | h) | h) | h) | h) | h
    · refine policyMet_of_masked K _ _ sr false _ h ?_
      simp [policyMet, tst_zero_left]
    · refine policyMet_of_masked K _ _ sr false _ h.1 ?_
      have := h.2
      simp only [btm_dev_authenticated] at this
      simp [policyMet, authenticateBit, encryptBit, authorizeBit, this, tst_or_left,
        d1.1, d1.2, d2.1, d2.2, d3.1, d3.2, d4.1, d4.2, d5.1, d5.2, d6.1, d6.2]
    · refine policyMet_of_masked K _ _ sr false _ h.1 ?_
      have := h.2
      simp only [btm_dev_encrypted] at this
      simp [policyMet, authenticateBit, encryptBit, authorizeBit, this, tst_or_left,
        d1.1, d1.2, d2.1, d2.2, d3.1, d3.2, d4.1, d4.2, d5.1, d5.2, d6.1, d6.2]
    · refine policyMet_of_masked K _ _ sr false _ h.1 ?_
      have := h.2
      simp only [btm_dev_authorized, Bool.or_eq_true] at this
      rcases this with this | this <;>
        simp [policyMet, authenticateBit, encryptBit, authorizeBit, this, tst_or_left,
        d1.1, d1.2, d2.1, d2.2, d3.1, d3.2, d4.1, d4.2, d5.1, d5.2, d6.1, d6.2]
    · refine policyMet_of_masked K _ _ sr false _ h.1 ?_
      have ha := h.2.2
      have hz := h.2.1
      simp only [btm_dev_authenticated] at ha
      simp only [btm_dev_authorized, Bool.or_eq_true] at hz
      rcases hz with hz | hz <;>
        simp [policyMet, authenticateBit, encryptBit, authorizeBit, ha, hz, tst_or_left,
        d1.1, d1.2, d2.1, d2.2, d3.1, d3.2, d4.1, d4.2, d5.1, d5.2, d6.1, d6.2]
    · refine policyMet_of_masked K _ _ sr false _ h.1 ?_
      have he := h.2.2
      have hz := h.2.1
      simp only [btm_dev_encrypted] at he
      simp only [btm_dev_authorized, Bool.or_eq_true] at hz
      rcases hz with hz | hz <;>
        simp [policyMet, authenticateBit, encryptBit, authorizeBit, he, hz, tst_or_left,
        d1.1, d1.2, d2.1, d2.2, d3.1, d3.2, d4.1, d4.2, d5.1, d5.2, d6.1, d6.2]
    · refine policyMet_of_masked K _ _ sr false _ h.1.1 ?_
      have he := h.1.2
      have hz := h.2
      simp only [btm_dev_encrypted] at he
      simp only [btm_dev_authorized, Bool.or_eq_true] at hz
      rcases hz with hz | hz <;>
        simp [policyMet, authenticateBit, encryptBit, authorizeBit, he, hz, tst_or_left,
        d1.1, d1.2, d2.1, d2.2, d3.1, d3.2, d4.1, d4.2, d5.1, d5.2, d6.1, d6.2]

/-- The busy-path table of `btm_sec_mx_access_request` lets a request through only
when the device record already meets the policy. -/
theorem mxLegacyGranted_policy (K : Hdr) (hK : K.policyBitsDisjoint) (w : World)
    (p s : Nat) (orig : Bool)
    (h : mxLegacyGranted K w p s orig = true) :
    policyMet K (w.dev p) (w.serv K s) (w.serv K s).security_flags orig = true := by
  obtain ⟨h1, h2, h3, h4, h5, h6⟩ := hK
  have d1 := tst_disjoint h1
  have d2 := tst_disjoint h2
  have d3 := tst_disjoint h3
  have d4 := tst_disjoint h4
  have d5 := tst_disjoint h5
  have d6 := tst_disjoint h6
  unfold mxLegacyGranted at h
  cases orig
  swap
  · simp only [if_true] at h
    split_ifs at h with hc
    simp only [Bool.or_eq_true, Bool.and_eq_true, beq_iff_eq] at h
    rcases h with (h | h) | h
    · refine policyMet_of_masked K _ _ _ true _ h ?_
      simp [policyMet, tst_zero_left]
    · refine policyMet_of_masked K _ _ _ true _ h.1 ?_
      have := h.2
      simp only [btm_dev_authenticated] at this
      simp [policyMet, authenticateBit, encryptBit, authorizeBit, this, tst_or_left,
        d1.1, d1.2, d2.1, d2.2, d3.1, d3.2, d4.1, d4.2, d5.1, d5.2, d6.1, d6.2]
    · refine policyMet_of_masked K _ _ _ true _ h.1 ?_
      have := h.2
      simp only [btm_dev_encrypted] at this
      simp [policyMet, authenticateBit, encryptBit, authorizeBit, this, tst_or_left,
        d1.1, d1.2, d2.1, d2.2, d3.1, d3.2, d4.1, d4.2, d5.1, d5.2, d6.1, d6.2]
  · simp only [Bool.false_eq_true, if_false] at h
    split_ifs at h with hc
    simp only [Bool.or_eq_true, Bool.and_eq_true, beq_iff_eq] at h
    rcases h with ((((h | h) | h) | h) | h) | h
    · refine policyMet_of_masked K _ _ _ false _ h ?_
      simp [policyMet, tst_zero_left]
    · refine policyMet_of_masked K _ _ _ false _ h.1 ?_
      have := h.2
      simp only [btm_dev_authenticated] at this
      simp [policyMet, authenticateBit, encryptBit, authorizeBit, this, tst_or_left,
        d1.1, d1.2, d2.1, d2.2, d3.1, d3.2, d4.1, d4.2, d5.1, d5.2, d6.1, d6.2]
    · refine policyMet_of_masked K _ _ _ false _ h.1 ?_
      have := h.2
      simp only [btm_dev_authorized] at this
      rcases this with this | this <;>
        simp [policyMet, authenticateBit, encryptBit, authorizeBit, this, tst_or_left,
        d1.1, d1.2, d2.1, d2.2, d3.1, d3.2, d4.1, d4.2, d5.1, d5.2, d6.1, d6.2]
    · refine policyMet_of_masked K _ _ _ false _ h.1 ?_
      have ha := h.2.2
      have hz := h.2.1
      simp only [btm_dev_authenticated] at ha
      simp only [btm_dev_authorized] at hz
      rcases hz with hz | hz <;>
        simp [policyMet, authenticateBit, encryptBit, authorizeBit, ha, hz, tst_or_left,
        d1.1, d1.2, d2.1, d2.2, d3.1, d3.2, d4.1, d4.2, d5.1, d5.2, d6.1, d6.2]
    · refine policyMet_of_masked K _ _ _ false _ h.1 ?_
      have he := h.2.2
      have hz := h.2.1
      simp only [btm_dev_encrypted] at he
      simp only [btm_dev_authorized] at hz
      rcases hz with hz | hz <;>
        simp [policyMet, authenticateBit, encryptBit, authorizeBit, he, hz, tst_or_left,
        d1.1, d1.2, d2.1, d2.2, d3.1, d3.2, d4.1, d4.2, d5.1, d5.2, d6.1, d6.2]
    · refine policyMet_of_masked K _ _ _ false _ h.1 ?_
      have := h.2
      simp only [btm_dev_encrypted] at this
      simp [policyMet, authenticateBit, encryptBit, authorizeBit, this, tst_or_left,
        d1.1, d1.2, d2.1, d2.2, d3.1, d3.2, d4.1, d4.2, d5.1, d5.2, d6.1, d6.2]

/-- C18: on the busy path (another callback outstanding on the device, or pairing not
idle) a request either waits or is let through at once, and it is let through only
when the device record already meets every requirement of the service policy for the
direction of the request. For `btm_sec_l2cap_access_req` (a request that is not for the
SDP PSM and is not granted by the connectionless table tested before the busy test) the
request is either left pending with `BTM_CMD_STARTED`, or answered `BTM_SUCCESS` with
the policy met. For `btm_sec_mx_access_request` the request is either queued with
`BTM_CMD_STARTED`, or goes on to the normal processing with the policy met. `w1` is the
world once the device record `p` has been found or allocated, `s` the service record
found. -/
theorem C18_busy_shortcut_meets_policy (K : Hdr) (E : Env) (hK : K.policyBitsDisjoint)
    (w w1 : World) (bd_addr : BD_ADDR) (psm p s : Nat) (p_callback : Option Nat)
    (p_ref_data : Nat)
    (hdev : btm_find_or_alloc_dev K E w bd_addr = (some p, w1)) :
    (∀ (handle : Nat) (conn_type : CONNECTION_TYPE),
      btm_sec_find_first_serv K w1.cb conn_type psm = some s →
      K.BT_PSM_SDP ≠ psm →
      ((K.L2CAP_UCD_INCLUDED && conn_type.connless) &&
        l2capUcdGranted K ((w1.setDev p (fun r => { r with hci_handle := handle })).dev p)
          (if K.L2CAP_UCD_INCLUDED && conn_type.connless
            then (w1.serv K s).ucd_security_flags else (w1.serv K s).security_flags)
          conn_type.orig) = false →
      (((w1.setDev p (fun r => { r with hci_handle := handle })).dev p).p_callback.isSome
        || w1.cb.pairing_state != tBTM_PAIRING_STATE.BTM_PAIR_STATE_IDLE) = true →
      btm_sec_l2cap_access_req K E w bd_addr psm handle conn_type p_callback p_ref_data
        = (tBTM_STATUS.BTM_CMD_STARTED,
            (w1.setDev p (fun r => { r with hci_handle := handle })).setCb
              (fun cb => { cb with sec_req_pending := true })) ∨
      (btm_sec_l2cap_access_req K E w bd_addr psm handle conn_type p_callback p_ref_data
        = (tBTM_STATUS.BTM_SUCCESS,
            (w1.setDev p (fun r => { r with hci_handle := handle })).callbackIf p_callback
              bd_addr 0 p_ref_data tBTM_STATUS.BTM_SUCCESS) ∧
       policyMet K ((w1.setDev p (fun r => { r with hci_handle := handle })).dev p)
          (w1.serv K s)
          (if K.L2CAP_UCD_INCLUDED && conn_type.connless
            then (w1.serv K s).ucd_security_flags else (w1.serv K s).security_flags)
          conn_type.orig = true)) ∧
    (∀ (is_originator : Bool) (mx_proto_id mx_chan_id : Nat),
      btm_sec_find_mx_serv K w1.cb is_originator psm mx_proto_id mx_chan_id = some s →
      ((w1.dev p).p_callback.isSome
        || w1.cb.pairing_state != tBTM_PAIRING_STATE.BTM_PAIR_STATE_IDLE) = true →
      btm_sec_mx_access_request K E w bd_addr psm is_originator mx_proto_id mx_chan_id
          p_callback p_ref_data
        = (tBTM_STATUS.BTM_CMD_STARTED,
            (btm_sec_queue_mx_request E w1 bd_addr psm is_originator mx_proto_id mx_chan_id
              p_callback p_ref_data).2) ∨
      (btm_sec_mx_access_request K E w bd_addr psm is_originator mx_proto_id mx_chan_id
          p_callback p_ref_data
        = mxProceed K E w1 p s bd_addr is_originator p_callback p_ref_data ∧
       policyMet K (w1.dev p) (w1.serv K s) (w1.serv K s).security_flags is_originator
        = true)) := by
  constructor
  · intro handle conn_type hserv hpsm hucd hbusy
    have hsdp : (K.BT_PSM_SDP == psm) = false := by simpa using hpsm
    cases hg : l2capLegacyGranted K (w1.setDev p (fun r => { r with hci_handle := handle })) p s
        (if K.L2CAP_UCD_INCLUDED && conn_type.connless
          then (w1.serv K s).ucd_security_flags else (w1.serv K s).security_flags)
        conn_type.orig
    · left
      unfold btm_sec_l2cap_access_req
      simp only [hdev, World.derefDev, find_first_serv_setDev, hserv, hsdp]
      have hucd' := hucd
      have hbusy' := hbusy
      have hg' := hg
      simp only [World.serv, World.setDev] at hucd' hbusy' hg' ⊢
      simp only [hucd', hbusy', hg', Bool.false_eq_true, if_false, if_true]
      rfl
    · right
      refine ⟨?_, l2capLegacyGranted_policy K hK _ p s _ _ hg⟩
      unfold btm_sec_l2cap_access_req
      simp only [hdev, World.derefDev, find_first_serv_setDev, hserv, hsdp]
      have hucd' := hucd
      have hbusy' := hbusy
      have hg' := hg
      simp only [World.serv, World.setDev] at hucd' hbusy' hg' ⊢
      simp only [hucd', hbusy', hg', Bool.false_eq_true, if_false, if_true]
  · intro is_originator mx_proto_id mx_chan_id hserv hbusy
    cases hg : mxLegacyGranted K w1 p s is_originator
    · left
      unfold btm_sec_mx_access_request
      simp only [hdev, hserv, World.derefDev, hbusy, hg, Bool.false_eq_true, if_false, if_true]
    · right
      refine ⟨?_, mxLegacyGranted_policy K hK w1 p s is_originator hg⟩
      unfold btm_sec_mx_access_request
      simp only [hdev, hserv, World.derefDev, hbusy, hg, if_true]

/-- C18 at a concrete input: callback 7 is outstanding on the example device and a
second request arrives for a service without requirement, once through L2CAP and once
through a multiplexer. -/
theorem C18_busy_shortcut_meets_policy_witness :
    (btm_sec_l2cap_access_req stdHdr exampleEnv exampleWorldPendingOpen
        [0x00, 0x1A, 0x7D, 0xDA, 0x71, 0x13] 3 1 CONN_ORIENT_TERM (some 9) 77
      = (tBTM_STATUS.BTM_CMD_STARTED,
          (exampleWorldPendingOpen.setDev 0 (fun r => { r with hci_handle := 1 })).setCb
            (fun cb => { cb with sec_req_pending := true })) ∨
     (btm_sec_l2cap_access_req stdHdr exampleEnv exampleWorldPendingOpen
        [0x00, 0x1A, 0x7D, 0xDA, 0x71, 0x13] 3 1 CONN_ORIENT_TERM (some 9) 77
      = (tBTM_STATUS.BTM_SUCCESS,
          (exampleWorldPendingOpen.setDev 0 (fun r => { r with hci_handle := 1 })).callbackIf
            (some 9) [0x00, 0x1A, 0x7D, 0xDA, 0x71, 0x13] 0 77 tBTM_STATUS.BTM_SUCCESS) ∧
      policyMet stdHdr
        ((exampleWorldPendingOpen.setDev 0 (fun r => { r with hci_handle := 1 })).dev 0)
        (exampleWorldPendingOpen.serv stdHdr 1)
        (if stdHdr.L2CAP_UCD_INCLUDED && CONN_ORIENT_TERM.connless
          then (exampleWorldPendingOpen.serv stdHdr 1).ucd_security_flags
          else (exampleWorldPendingOpen.serv stdHdr 1).security_flags)
        CONN_ORIENT_TERM.orig = true)) ∧
    (btm_sec_mx_access_request stdHdr exampleEnv exampleWorldPendingOpen
        [0x00, 0x1A, 0x7D, 0xDA, 0x71, 0x13] 3 false 3 5 (some 9) 77
      = (tBTM_STATUS.BTM_CMD_STARTED,
          (btm_sec_queue_mx_request exampleEnv exampleWorldPendingOpen
            [0x00, 0x1A, 0x7D, 0xDA, 0x71, 0x13] 3 false 3 5 (some 9) 77).2) ∨
     (btm_sec_mx_access_request stdHdr exampleEnv exampleWorldPendingOpen
        [0x00, 0x1A, 0x7D, 0xDA, 0x71, 0x13] 3 false 3 5 (some 9) 77
      = mxProceed stdHdr exampleEnv exampleWorldPendingOpen 0 1
          [0x00, 0x1A, 0x7D, 0xDA, 0x71, 0x13] false (some 9) 77 ∧
      policyMet stdHdr (exampleWorldPendingOpen.dev 0) (exampleWorldPendingOpen.serv stdHdr 1)
        (exampleWorldPendingOpen.serv stdHdr 1).security_flags false = true)) :=
  ⟨(C18_busy_shortcut_meets_policy stdHdr exampleEnv
      ⟨by decide, by decide, by decide, by decide, by decide, by decide⟩
      exampleWorldPendingOpen exampleWorldPendingOpen [0x00, 0x1A, 0x7D, 0xDA, 0x71, 0x13] 3 0 1
      (some 9) 77 (by decide)).1 1 CONN_ORIENT_TERM (by decide) (by decide) (by decide)
      (by decide),
   (C18_busy_shortcut_meets_policy stdHdr exampleEnv
      ⟨by decide, by decide, by decide, by decide, by decide, by decide⟩
      exampleWorldPendingOpen exampleWorldPendingOpen [0x00, 0x1A, 0x7D, 0xDA, 0x71, 0x13] 3 0 1
      (some 9) 77 (by decide)).2 false 3 5 (by decide) (by decide)⟩

/-! ## What service-level procedures leave alone -/

theorem lastPairingTimer_append (out : List Event) (e : Event) :
    lastPairingTimer (out ++ [e])
      = (pairingTimerEvent e).orElse (fun _ => lastPairingTimer out) := by
  unfold lastPairingTimer
  rw [List.foldl_append]
  rfl

theorem pairView_emit (w : World) (e : Event) (h : pairingTimerEvent e = none) :
    (w.emit e).pairView = w.pairView := by
  unfold World.pairView pairViewOf World.emit
  simp only [lastPairingTimer_append, h, Option.orElse]

theorem pairView_setDev (w : World) (p : Nat) (f : tBTM_SEC_DEV_REC → tBTM_SEC_DEV_REC) :
    (w.setDev p f).pairView = w.pairView := by
  unfold World.pairView pairViewOf World.setDev
  simp only [List.length_set]

theorem pairView_callback (w : World) (cbk : Option Nat) (a : BD_ADDR) (t ref : Nat)
    (res : tBTM_STATUS) : (w.callback cbk a t ref res).pairView = w.pairView := by
  cases cbk <;> exact pairView_emit _ _ rfl

theorem pairView_callbackIf (w : World) (cbk : Option Nat) (a : BD_ADDR) (t ref : Nat)
    (res : tBTM_STATUS) : (w.callbackIf cbk a t ref res).pairView = w.pairView := by
  cases cbk
  · rfl
  · exact pairView_emit _ _ rfl

theorem pairView_start_get_name (E : Env) (w : World) (p : Nat) :
    (btm_sec_start_get_name E w p).2.pairView = w.pairView := by
  unfold btm_sec_start_get_name
  simp only
  split_ifs <;> simp [pairView_setDev, pairView_emit, pairingTimerEvent]

theorem pairView_start_authentication (E : Env) (w : World) (p : Nat) :
    (btm_sec_start_authentication E w p).2.pairView = w.pairView := by
  unfold btm_sec_start_authentication
  simp [pairView_setDev, pairView_emit, pairingTimerEvent]

theorem pairView_start_encryption (E : Env) (w : World) (p : Nat) :
    (btm_sec_start_encryption E w p).2.pairView = w.pairView := by
  unfold btm_sec_start_encryption
  simp only
  split_ifs <;> simp [pairView_setDev, pairView_emit, pairingTimerEvent]

theorem pairView_start_authorization (K : Hdr) (E : Env) (w : World) (p : Nat) :
    (btm_sec_start_authorization K E w p).2.pairView = w.pairView := by
  unfold btm_sec_start_authorization
  simp only
  split_ifs <;>
    simp [pairView_setDev, pairView_emit, pairingTimerEvent, pairView_start_get_name]

theorem pairView_derefService (K : Hdr) (w : World) (s : Option Nat) :
    (w.derefService K s).2.pairView = w.pairView := by
  cases s
  · exact pairView_emit _ _ rfl
  · rfl

theorem pairView_executeAuthorize (K : Hdr) (E : Env) (w : World) (p : Nat) :
    (executeAuthorize K E w p).2.pairView = w.pairView := by
  unfold executeAuthorize
  simp only
  split_ifs <;>
    simp [pairView_setDev, pairView_start_authorization, pairView_derefService]

theorem pairView_execute_procedure (K : Hdr) (E : Env) (w : World) (p : Nat) :
    (btm_sec_execute_procedure K E w p).2.pairView = w.pairView := by
  unfold btm_sec_execute_procedure
  simp only
  split_ifs <;>
    simp [pairView_start_get_name, pairView_start_authentication, pairView_start_encryption,
      pairView_executeAuthorize]

theorem pairView_check_upgrade (K : Hdr) (E : Env) (w : World) (p : Nat) (orig : Bool) :
    (btm_sec_check_upgrade K E w p orig).pairView = w.pairView := by
  unfold btm_sec_check_upgrade
  simp only
  split_ifs <;> simp [pairView_setDev, pairView_emit, pairingTimerEvent]

theorem pairView_mxProceed (K : Hdr) (E : Env) (w : World) (p s : Nat) (a : BD_ADDR)
    (orig : Bool) (cbk : Option Nat) (ref : Nat) :
    (mxProceed K E w p s a orig cbk ref).2.pairView = w.pairView := by
  unfold mxProceed
  simp only
  cases cbk <;> split_ifs <;>
    simp [pairView_setDev, pairView_emit, pairingTimerEvent, pairView_execute_procedure,
      pairView_check_upgrade]

theorem pairView_queue_mx_request (E : Env) (w : World) (a : BD_ADDR) (psm : Nat)
    (orig : Bool) (proto chan : Nat) (cbk : Option Nat) (ref : Nat) :
    (btm_sec_queue_mx_request E w a psm orig proto chan cbk ref).2.pairView = w.pairView := by
  unfold btm_sec_queue_mx_request
  split_ifs <;> rfl

theorem pairView_find_or_alloc_dev (K : Hdr) (E : Env) (hE : E.allocKeepsPairing) (w : World)
    (a : BD_ADDR) : (btm_find_or_alloc_dev K E w a).2.pairView = w.pairView := by
  unfold btm_find_or_alloc_dev
  cases btm_find_dev K w.cb a with
  | some p => rfl
  | none => exact hE w.cb a w.out

theorem pairView_derefDev (w : World) (p : Option Nat) :
    (w.derefDev p).2.pairView = w.pairView := by
  cases p
  · exact pairView_emit _ _ rfl
  · rfl

theorem pairView_mx_access_request (K : Hdr) (E : Env) (hE : E.allocKeepsPairing) (w : World)
    (a : BD_ADDR) (psm : Nat) (orig : Bool) (proto chan : Nat) (cbk : Option Nat) (ref : Nat) :
    (btm_sec_mx_access_request K E w a psm orig proto chan cbk ref).2.pairView
      = w.pairView := by
  have h0 := pairView_find_or_alloc_dev K E hE w a
  unfold btm_sec_mx_access_request
  simp only
  split
  · simp [pairView_callbackIf, h0]
  · split_ifs <;>
      simp [pairView_mxProceed, pairView_queue_mx_request, pairView_derefDev, h0]

theorem pairView_replay (K : Hdr) (E : Env) (hE : E.allocKeepsPairing)
    (q : List tBTM_SEC_QUEUE_ENTRY) :
    ∀ (w : World),
      (q.foldl (fun w p_e =>
        if (E.btm_bda_to_acl p_e.bd_addr K.BT_TRANSPORT_BR_EDR).isSome then
          (btm_sec_mx_access_request K E w p_e.bd_addr p_e.psm p_e.is_orig p_e.mx_proto_id
            p_e.mx_chan_id p_e.p_callback p_e.p_ref_data).2
        else w) w).pairView = w.pairView := by
  induction q with
  | nil => intro w; rfl
  | cons e q ih =>
    intro w
    rw [List.foldl_cons, ih]
    split_ifs
    · exact pairView_mx_access_request K E hE w _ _ _ _ _ _ _
    · rfl

theorem pairView_check_pending_reqs (K : Hdr) (E : Env) (hE : E.allocKeepsPairing)
    (w : World) : (btm_sec_check_pending_reqs K E w).pairView = w.pairView := by
  unfold btm_sec_check_pending_reqs
  split_ifs with h1 h2
  · rw [pairView_replay K E hE]
    exact pairView_emit _ _ rfl
  · rw [pairView_replay K E hE]
    rfl
  · rfl

theorem pairView_restore_mode (K : Hdr) (w : World) :
    (btm_restore_mode K w).pairView = w.pairView := by
  unfold btm_restore_mode
  simp only
  split_ifs
  · rw [pairView_emit _ (Event.btsnd_hcic_write_pin_type _) rfl]
    exact pairView_emit _ (Event.btsnd_hcic_write_auth_enable _) rfl
  · exact pairView_emit _ (Event.btsnd_hcic_write_auth_enable _) rfl
  · exact pairView_emit _ (Event.btsnd_hcic_write_pin_type _) rfl
  · rfl

/-- The pairing view after `btm_sec_change_pairing_state (BTM_PAIR_STATE_IDLE)`. -/
theorem pairView_change_idle (K : Hdr) (E : Env) (hE : E.allocKeepsPairing) (w : World) :
    (btm_sec_change_pairing_state K E w tBTM_PAIRING_STATE.BTM_PAIR_STATE_IDLE).pairView
      = { pairing_state := tBTM_PAIRING_STATE.BTM_PAIR_STATE_IDLE, pairing_flags := 0,
          pin_code_len := 0, pairing_bda := noPairingTarget,
          n_dev := w.cb.sec_dev_rec.length, timer := some false } := by
  unfold btm_sec_change_pairing_state
  simp only [beq_self_eq_true, if_true]
  have h := pairView_check_pending_reqs K E hE
    (btm_restore_mode K
      ((((w.setCb (fun cb =>
          { cb with pairing_state := tBTM_PAIRING_STATE.BTM_PAIR_STATE_IDLE })).emit
        (Event.btu_stop_timer Timer.pairing_tle)).setCb (fun cb =>
          { cb with pairing_flags := 0, pin_code_len := 0 })).emit
        (Event.l2cu_update_lcb_4_bonding w.cb.pairing_bda false)))
  rw [pairView_restore_mode, pairView_emit _ (Event.l2cu_update_lcb_4_bonding _ _) rfl] at h
  have h2 := pairView_emit
    (btm_sec_check_pending_reqs K E (btm_restore_mode K
      ((((w.setCb (fun cb =>
          { cb with pairing_state := tBTM_PAIRING_STATE.BTM_PAIR_STATE_IDLE })).emit
        (Event.btu_stop_timer Timer.pairing_tle)).setCb (fun cb =>
          { cb with pairing_flags := 0, pin_code_len := 0 })).emit
        (Event.l2cu_update_lcb_4_bonding w.cb.pairing_bda false))))
    Event.btm_inq_clear_ssp rfl
  rw [h] at h2
  unfold World.pairView pairViewOf at h2 ⊢
  simp only [World.setCb, World.emit, lastPairingTimer_append, pairingTimerEvent,
    Option.orElse, PairView.mk.injEq] at h2 ⊢
  obtain ⟨e1, e2, e3, -, e5, e6⟩ := h2
  exact ⟨e1, e2, e3, trivial, e5, e6⟩

/-- C15: whatever the pairing state, flags and cached PIN were,
`btm_sec_change_pairing_state (BTM_PAIR_STATE_IDLE)` leaves the pairing state idle, the
pairing flags 0, the cached PIN length 0, the pairing target all 0xFF and the pairing
timer stopped (whether or not it was running before); entering any other state stores
that state and ends with a start of the pairing timer with `BTM_SEC_TIMEOUT_VALUE`, so
that the timer is running. The device allocator, which deferred requests may call, is
assumed to touch nothing but the device table. -/
theorem C15_change_pairing_state (K : Hdr) (E : Env) (hE : E.allocKeepsPairing) (w : World) :
    ((btm_sec_change_pairing_state K E w
        tBTM_PAIRING_STATE.BTM_PAIR_STATE_IDLE).cb.pairing_state
      = tBTM_PAIRING_STATE.BTM_PAIR_STATE_IDLE ∧
     (btm_sec_change_pairing_state K E w
        tBTM_PAIRING_STATE.BTM_PAIR_STATE_IDLE).cb.pairing_flags = 0 ∧
     (btm_sec_change_pairing_state K E w
        tBTM_PAIRING_STATE.BTM_PAIR_STATE_IDLE).cb.pin_code_len = 0 ∧
     (btm_sec_change_pairing_state K E w
        tBTM_PAIRING_STATE.BTM_PAIR_STATE_IDLE).cb.pairing_bda
      = [0xFF, 0xFF, 0xFF, 0xFF, 0xFF, 0xFF] ∧
     ∀ before, pairingTimerRunning before
       (btm_sec_change_pairing_state K E w tBTM_PAIRING_STATE.BTM_PAIR_STATE_IDLE).out
      = false) ∧
    (∀ new_state, new_state ≠ tBTM_PAIRING_STATE.BTM_PAIR_STATE_IDLE →
      (btm_sec_change_pairing_state K E w new_state).cb.pairing_state = new_state ∧
      (btm_sec_change_pairing_state K E w new_state).out.getLast?
        = some (Event.btu_start_timer Timer.pairing_tle K.BTM_SEC_TIMEOUT_VALUE) ∧
      ∀ before, pairingTimerRunning before (btm_sec_change_pairing_state K E w new_state).out
        = true) := by
  constructor
  · have h := pairView_change_idle K E hE w
    unfold World.pairView pairViewOf at h
    simp only [PairView.mk.injEq] at h
    obtain ⟨e1, e2, e3, e4, -, e6⟩ := h
    refine ⟨e1, e2, e3, e4, ?_⟩
    intro before
    unfold pairingTimerRunning
    rw [e6]
    rfl
  · intro new_state hne
    have hb : (new_state == tBTM_PAIRING_STATE.BTM_PAIR_STATE_IDLE) = false := by
      simpa using hne
    unfold btm_sec_change_pairing_state
    simp only [hb, Bool.false_eq_true, if_false]
    refine ⟨?_, ?_, ?_⟩
    · split_ifs <;> rfl
    · simp [World.emit]
    · intro before
      unfold pairingTimerRunning
      simp only [World.emit, lastPairingTimer_append, pairingTimerEvent, Option.orElse]
      rfl

/-- C15 at a concrete input: the example world while the PIN of the pairing target is
awaited (flags 0x02, a cached PIN of length 4). -/
theorem C15_change_pairing_state_witness :
    ((btm_sec_change_pairing_state stdHdr exampleEnv exampleWorldPairing
        tBTM_PAIRING_STATE.BTM_PAIR_STATE_IDLE).cb.pairing_state
      = tBTM_PAIRING_STATE.BTM_PAIR_STATE_IDLE ∧
     (btm_sec_change_pairing_state stdHdr exampleEnv exampleWorldPairing
        tBTM_PAIRING_STATE.BTM_PAIR_STATE_IDLE).cb.pairing_flags = 0 ∧
     (btm_sec_change_pairing_state stdHdr exampleEnv exampleWorldPairing
        tBTM_PAIRING_STATE.BTM_PAIR_STATE_IDLE).cb.pin_code_len = 0 ∧
     (btm_sec_change_pairing_state stdHdr exampleEnv exampleWorldPairing
        tBTM_PAIRING_STATE.BTM_PAIR_STATE_IDLE).cb.pairing_bda
      = [0xFF, 0xFF, 0xFF, 0xFF, 0xFF, 0xFF] ∧
     ∀ before, pairingTimerRunning before
       (btm_sec_change_pairing_state stdHdr exampleEnv exampleWorldPairing
         tBTM_PAIRING_STATE.BTM_PAIR_STATE_IDLE).out = false) ∧
    (btm_sec_change_pairing_state stdHdr exampleEnv exampleWorldPairing
        tBTM_PAIRING_STATE.BTM_PAIR_STATE_WAIT_AUTH_COMPLETE).cb.pairing_state
      = tBTM_PAIRING_STATE.BTM_PAIR_STATE_WAIT_AUTH_COMPLETE ∧
    (btm_sec_change_pairing_state stdHdr exampleEnv exampleWorldPairing
        tBTM_PAIRING_STATE.BTM_PAIR_STATE_WAIT_AUTH_COMPLETE).out.getLast?
      = some (Event.btu_start_timer Timer.pairing_tle stdHdr.BTM_SEC_TIMEOUT_VALUE) :=
  ⟨(C15_change_pairing_state stdHdr exampleEnv (fun _ _ _ => rfl) exampleWorldPairing).1,
   ((C15_change_pairing_state stdHdr exampleEnv (fun _ _ _ => rfl) exampleWorldPairing).2
      tBTM_PAIRING_STATE.BTM_PAIR_STATE_WAIT_AUTH_COMPLETE (by decide)).1,
   ((C15_change_pairing_state stdHdr exampleEnv (fun _ _ _ => rfl) exampleWorldPairing).2
      tBTM_PAIRING_STATE.BTM_PAIR_STATE_WAIT_AUTH_COMPLETE (by decide)).2.1⟩

/-! ## Expiry of the pairing timer -/

theorem change_idle_state (K : Hdr) (E : Env) (hE : E.allocKeepsPairing) (w : World) :
    (btm_sec_change_pairing_state K E w
      tBTM_PAIRING_STATE.BTM_PAIR_STATE_IDLE).cb.pairing_state
      = tBTM_PAIRING_STATE.BTM_PAIR_STATE_IDLE :=
  congrArg PairView.pairing_state (pairView_change_idle K E hE w)

theorem pairingTimeoutNotify_cb (K : Hdr) (w : World) (p : Option Nat) :
    (pairingTimeoutNotify K w p).cb = w.cb := by
  unfold pairingTimeoutNotify
  split_ifs
  · cases p <;> rfl
  · rfl

/-- The claim C14 as stated fails in wait-numeric-confirm: the expiry handler sends
the negative confirmation and leaves the pairing state as it was. -/
theorem C14_counterexample :
    exampleWorldConfirm.cb.pairing_state
      = tBTM_PAIRING_STATE.BTM_PAIR_STATE_WAIT_NUMERIC_CONFIRM ∧
    (btm_sec_pairing_timeout stdHdr exampleEnv exampleWorldConfirm).cb.pairing_state
      = tBTM_PAIRING_STATE.BTM_PAIR_STATE_WAIT_NUMERIC_CONFIRM ∧
    (btm_sec_pairing_timeout stdHdr exampleEnv exampleWorldConfirm).out
      = [Event.btsnd_hcic_user_conf_reply [0x00, 0x1A, 0x7D, 0xDA, 0x71, 0x13] false] := by
  decide

/-- C14 (amended): for every value of the pairing flags, after `btm_sec_pairing_timeout`
the pairing state is idle when the state before was wait-local-pin,
wait-local-IO-capabilities, wait-local-OOB-response, wait-auth-complete,
get-remote-name or incoming-SSP, when it was wait-disconnect and the pairing target has
a device record, when it was wait-pin-request and the disconnect-when-done flag is set,
and when it was key-entry in a build whose local IO capability is NoInputNoOutput. In
the other cases (wait-numeric-confirm, key-entry otherwise, wait-pin-request without
that flag, wait-disconnect without a record) the pairing state is left as it was; in
wait-numeric-confirm the negative confirmation is all the handler does. The device
allocator is assumed to touch nothing but the device table. -/
theorem C14_timeout_returns_to_idle (K : Hdr) (E : Env) (hE : E.allocKeepsPairing)
    (w : World) :
    (timeoutReturnsToIdle K w = true →
      (btm_sec_pairing_timeout K E w).cb.pairing_state
        = tBTM_PAIRING_STATE.BTM_PAIR_STATE_IDLE) ∧
    (timeoutReturnsToIdle K w = false →
      (btm_sec_pairing_timeout K E w).cb.pairing_state = w.cb.pairing_state) ∧
    (w.cb.pairing_state = tBTM_PAIRING_STATE.BTM_PAIR_STATE_WAIT_NUMERIC_CONFIRM →
      btm_sec_pairing_timeout K E w
        = w.emit (Event.btsnd_hcic_user_conf_reply w.cb.pairing_bda false)) := by
  have hidle := change_idle_state K E hE
  refine ⟨?_, ?_, ?_⟩
  · intro h
    unfold timeoutReturnsToIdle at h
    unfold btm_sec_pairing_timeout
    cases hs : w.cb.pairing_state <;> simp only [hs] at h ⊢
    · exact hidle w
    · rw [pairingTimeoutNotify_cb]; exact hidle w
    · unfold btm_sec_bond_cancel_complete
      simp only [h, Bool.true_or, if_true]
      split_ifs <;> exact hidle _
    · rw [pairingTimeoutNotify_cb]; exact hidle _
    · exact absurd h (by simp)
    · have h' : (K.BTM_LOCAL_IO_CAPS != BTM_IO_CAP_NONE) = false := by simpa using h
      simp only [h', Bool.false_eq_true, if_false]
      exact hidle w
    · split_ifs <;> exact hidle _
    · split_ifs <;> exact hidle _
    · exact hidle w
    · rw [pairingTimeoutNotify_cb]; exact hidle w
    · cases hf : btm_find_dev K w.cb w.cb.pairing_bda with
      | none => rw [hf] at h; exact absurd h (by simp)
      | some p => exact hidle _
  · intro h
    unfold timeoutReturnsToIdle at h
    unfold btm_sec_pairing_timeout
    cases hs : w.cb.pairing_state <;> simp only [hs] at h ⊢
    all_goals first
      | exact Bool.noConfusion h
      | skip
    · unfold btm_sec_bond_cancel_complete
      have hne : (tBTM_PAIRING_STATE.BTM_PAIR_STATE_WAIT_LOCAL_PIN == w.cb.pairing_state)
          = false := by rw [hs]; rfl
      have hne2 : (w.cb.pairing_state == tBTM_PAIRING_STATE.BTM_PAIR_STATE_GET_REM_NAME)
          = false := by rw [hs]; rfl
      simp only [h, hne, hne2, Bool.false_and, Bool.or_self, Bool.false_eq_true, if_false]
      exact hs
    · exact hs
    · have h' : (K.BTM_LOCAL_IO_CAPS != BTM_IO_CAP_NONE) = true := by simpa using h
      simp only [h', if_true]
      exact hs
    · cases hf : btm_find_dev K w.cb w.cb.pairing_bda with
      | none => exact hs
      | some p => rw [hf] at h; exact absurd h (by simp)
  · intro hs
    unfold btm_sec_pairing_timeout
    simp only [hs]

/-- C14 (amended) at concrete inputs: the timer expires while the local PIN is
awaited, and while a numeric confirmation is awaited. -/
theorem C14_timeout_returns_to_idle_witness :
    (btm_sec_pairing_timeout stdHdr exampleEnv exampleWorldPairing).cb.pairing_state
      = tBTM_PAIRING_STATE.BTM_PAIR_STATE_IDLE ∧
    (btm_sec_pairing_timeout stdHdr exampleEnv exampleWorldConfirm).cb.pairing_state
      = exampleWorldConfirm.cb.pairing_state ∧
    btm_sec_pairing_timeout stdHdr exampleEnv exampleWorldConfirm
      = exampleWorldConfirm.emit
          (Event.btsnd_hcic_user_conf_reply exampleWorldConfirm.cb.pairing_bda false) :=
  ⟨(C14_timeout_returns_to_idle stdHdr exampleEnv (fun _ _ _ => rfl) exampleWorldPairing).1
      (by decide),
   (C14_timeout_returns_to_idle stdHdr exampleEnv (fun _ _ _ => rfl) exampleWorldConfirm).2.1
      (by decide),
   (C14_timeout_returns_to_idle stdHdr exampleEnv (fun _ _ _ => rfl) exampleWorldConfirm).2.2
      (by decide)⟩

/-! ## Loss of the link -/

theorem findIdx_lt {α : Type} (f : α → Bool) (l : List α) (i : Nat)
    (h : l.findIdx? f = some i) : i < l.length :=
  (List.findIdx?_eq_some_iff_findIdx_eq.1 h).1

theorem dev_setDev_lt (w : World) (p : Nat) (f : tBTM_SEC_DEV_REC → tBTM_SEC_DEV_REC)
    (hp : p < w.cb.sec_dev_rec.length) : (w.setDev p f).dev p = f (w.dev p) := by
  rw [dev_setDev_same, if_pos hp]

theorem length_setDev (w : World) (p : Nat) (f : tBTM_SEC_DEV_REC → tBTM_SEC_DEV_REC) :
    (w.setDev p f).cb.sec_dev_rec.length = w.cb.sec_dev_rec.length := by
  unfold World.setDev
  simp only [List.length_set]

/-- Clearing a mask clears every flag contained in it. -/
theorem tst_andNot16_sub (x m b : Nat) (h : m &&& b = b) : tst (andNot16 x m) b = false := by
  cases ht : tst (andNot16 x m) b
  · rfl
  · obtain ⟨i, h1, h2⟩ := (tst_eq_true_iff _ _).1 ht
    have hm := (and_eq_right_iff m b).1 h i h2
    rw [testBit_andNot16, hm] at h1
    simp at h1

/-- Clearing a mask sets no flag. -/
theorem tst_andNot16_of_false (x m b : Nat) (h : tst x b = false) :
    tst (andNot16 x m) b = false := by
  cases ht : tst (andNot16 x m) b
  · rfl
  · obtain ⟨i, h1, h2⟩ := (tst_eq_true_iff _ _).1 ht
    rw [testBit_andNot16] at h1
    have hx : x.testBit i = true := by
      cases hxi : x.testBit i
      · rw [hxi] at h1; simp at h1
      · rfl
    have : tst x b = true := (tst_eq_true_iff _ _).2 ⟨i, hx, h2⟩
    rw [h] at this
    exact (Bool.false_ne_true this).elim

/-- Clearing a mask keeps a 16-bit flag outside it. -/
theorem tst_andNot16_keep (x m b : Nat) (hb : b < 2 ^ 16) (h : b &&& m = 0) :
    tst (andNot16 x m) b = tst x b := by
  have hz := (and_eq_zero_iff_bits b m).1 h
  cases hx : tst x b
  · exact tst_andNot16_of_false x m b hx
  · obtain ⟨i, h1, h2⟩ := (tst_eq_true_iff _ _).1 hx
    apply (tst_eq_true_iff _ _).2
    refine ⟨i, ?_, h2⟩
    rw [testBit_andNot16, h1, hz i h2]
    have : i < 16 := testBit_of_lt16 hb h2
    simp [this]

theorem or4_and_1 (a b c d : Nat) : (a ||| b ||| c ||| d) &&& a = a := by
  apply Nat.eq_of_testBit_eq
  intro i
  simp only [Nat.testBit_and, Nat.testBit_or]
  cases a.testBit i <;> simp

theorem or4_and_2 (a b c d : Nat) : (a ||| b ||| c ||| d) &&& b = b := by
  apply Nat.eq_of_testBit_eq
  intro i
  simp only [Nat.testBit_and, Nat.testBit_or]
  cases b.testBit i <;> simp

theorem or4_and_3 (a b c d : Nat) : (a ||| b ||| c ||| d) &&& c = c := by
  apply Nat.eq_of_testBit_eq
  intro i
  simp only [Nat.testBit_and, Nat.testBit_or]
  cases c.testBit i <;> simp

theorem or4_and_4 (a b c d : Nat) : (a ||| b ||| c ||| d) &&& d = d := by
  apply Nat.eq_of_testBit_eq
  intro i
  simp only [Nat.testBit_and, Nat.testBit_or]
  cases d.testBit i <;> simp

theorem change_idle_length (K : Hdr) (E : Env) (hE : E.allocKeepsPairing) (w : World) :
    (btm_sec_change_pairing_state K E w
      tBTM_PAIRING_STATE.BTM_PAIR_STATE_IDLE).cb.sec_dev_rec.length
      = w.cb.sec_dev_rec.length :=
  congrArg PairView.n_dev (pairView_change_idle K E hE w)

theorem cb_emit (w : World) (e : Event) : (w.emit e).cb = w.cb := rfl

theorem disconnectedBonding_length (K : Hdr) (E : Env) (hE : E.allocKeepsPairing) (w : World)
    (p reason opf : Nat) :
    (disconnectedBonding K E w p reason opf).cb.sec_dev_rec.length
      = w.cb.sec_dev_rec.length := by
  unfold disconnectedBonding
  simp only
  split_ifs
  all_goals first
    | rfl
    | (rw [cb_emit, length_setDev, change_idle_length K E hE])
    | (rw [length_setDev, change_idle_length K E hE])

theorem disconnectedBonding_flag (K : Hdr) (E : Env) (hE : E.allocKeepsPairing) (w : World)
    (p reason opf : Nat) (hp : p < w.cb.sec_dev_rec.length)
    (hc : (w.cb.pairing_state != tBTM_PAIRING_STATE.BTM_PAIR_STATE_IDLE
            && w.cb.pairing_bda == (w.dev p).bd_addr) = true) :
    tst ((disconnectedBonding K E w p reason opf).dev p).sec_flags K.BTM_SEC_LINK_KEY_KNOWN
      = false := by
  have hp' : p < (btm_sec_change_pairing_state K E w
      tBTM_PAIRING_STATE.BTM_PAIR_STATE_IDLE).cb.sec_dev_rec.length := by
    rw [change_idle_length K E hE]; exact hp
  unfold disconnectedBonding
  simp only [hc, if_true]
  split_ifs
  all_goals first
    | (rw [dev_emit, dev_setDev_lt _ _ _ hp']
       exact tst_andNot16_sub _ _ _ (Nat.and_self _))
    | (rw [dev_setDev_lt _ _ _ hp']
       exact tst_andNot16_sub _ _ _ (Nat.and_self _))

theorem disconnectedBonding_skip (K : Hdr) (E : Env) (w : World) (p reason opf : Nat)
    (hc : (w.cb.pairing_state != tBTM_PAIRING_STATE.BTM_PAIR_STATE_IDLE
            && w.cb.pairing_bda == (w.dev p).bd_addr) = false) :
    disconnectedBonding K E w p reason opf = w := by
  unfold disconnectedBonding
  simp only [hc, Bool.false_eq_true, if_false]

/-- The device record after the resets, for the classic transport. -/
theorem disconnectedReset_dev (K : Hdr) (w : World) (p t : Nat)
    (hp : p < w.cb.sec_dev_rec.length)
    (ht : (K.BLE_INCLUDED && K.SMP_INCLUDED && t == K.BT_TRANSPORT_LE) = false) :
    (disconnectedReset K w p t).cb.sec_dev_rec.length = w.cb.sec_dev_rec.length ∧
    ((disconnectedReset K w p t).dev p).hci_handle = K.BTM_SEC_INVALID_HANDLE ∧
    ((disconnectedReset K w p t).dev p).sec_flags
      = andNot16 (w.dev p).sec_flags (disconnectClearMask K) ∧
    ((disconnectedReset K w p t).dev p).sec_state = SecState.IDLE ∧
    ((disconnectedReset K w p t).dev p).security_required = K.BTM_SEC_NONE ∧
    ((disconnectedReset K w p t).dev p).p_callback = (w.dev p).p_callback := by
  unfold disconnectedReset
  simp only [ht, Bool.false_eq_true, if_false]
  split_ifs
  · have h1 : p < ((w.setDev p (fun r => { r with enc_key_size := 0 })).emit
        (Event.btm_ble_update_mode_operation K.HCI_ROLE_UNKNOWN (w.dev p).bd_addr
          K.HCI_SUCCESS)).cb.sec_dev_rec.length := by
      rw [cb_emit, length_setDev]; exact hp
    have h2 := h1
    rw [← length_setDev _ p (fun r =>
      { r with hci_handle := K.BTM_SEC_INVALID_HANDLE,
               sec_flags := andNot16 r.sec_flags (disconnectClearMask K) })] at h2
    rw [dev_setDev_lt _ _ _ h2, dev_setDev_lt _ _ _ h1, dev_emit, dev_setDev_lt _ _ _ hp]
    refine ⟨?_, rfl, rfl, rfl, rfl, rfl⟩
    rw [length_setDev, length_setDev, cb_emit, length_setDev]
  · have h2 := hp
    rw [← length_setDev _ p (fun r =>
      { r with hci_handle := K.BTM_SEC_INVALID_HANDLE,
               sec_flags := andNot16 r.sec_flags (disconnectClearMask K) })] at h2
    rw [dev_setDev_lt _ _ _ h2, dev_setDev_lt _ _ _ hp]
    refine ⟨?_, rfl, rfl, rfl, rfl, rfl⟩
    rw [length_setDev, length_setDev]

/-- The device record after the final callback: the slot is empty, the rest is
kept. -/
theorem disconnectedCallback_dev (K : Hdr) (w : World) (p t reason : Nat)
    (hp : p < w.cb.sec_dev_rec.length) :
    (disconnectedCallback K w p t reason).dev p = { w.dev p with p_callback := none } := by
  unfold disconnectedCallback
  cases hc : (w.dev p).p_callback with
  | none =>
    simp only
    cases hr : w.dev p
    rw [hr] at hc
    simp only at hc
    subst hc
    rfl
  | some c =>
    simp only
    rw [dev_emit, dev_setDev_lt _ _ _ hp]

/-- C19: `btm_sec_disconnected` on the classic ACL handle of the device record found
for that handle, whatever the record and the disconnect reason. Afterwards the
authorized, authenticated, encrypted and role-switched flags are clear, `sec_state` is
idle, `security_required` is `BTM_SEC_NONE`, the classic handle is
`BTM_SEC_INVALID_HANDLE` and the callback slot is empty. The link-key-known flag is
cleared when the pairing state was not idle with this device as pairing target, and
keeps its value otherwise. Assumed of the headers: the two transports have different
codes, the link-key-known flag is a 16-bit value outside the four flags cleared; of the
device allocator: it touches nothing but the device table. -/
theorem C19_disconnected_resets_link_state (K : Hdr) (E : Env) (hE : E.allocKeepsPairing)
    (w : World) (handle reason p : Nat)
    (hfind : btm_find_dev_by_handle K w.cb handle = some p)
    (hh : handle = (w.dev p).hci_handle)
    (hT : K.BT_TRANSPORT_BR_EDR ≠ K.BT_TRANSPORT_LE)
    (hL : K.BTM_SEC_LINK_KEY_KNOWN < 2 ^ 16)
    (hLm : K.BTM_SEC_LINK_KEY_KNOWN &&& disconnectClearMask K = 0) :
    tst ((btm_sec_disconnected K E w handle reason).dev p).sec_flags K.BTM_SEC_AUTHORIZED
      = false ∧
    tst ((btm_sec_disconnected K E w handle reason).dev p).sec_flags K.BTM_SEC_AUTHENTICATED
      = false ∧
    tst ((btm_sec_disconnected K E w handle reason).dev p).sec_flags K.BTM_SEC_ENCRYPTED
      = false ∧
    tst ((btm_sec_disconnected K E w handle reason).dev p).sec_flags K.BTM_SEC_ROLE_SWITCHED
      = false ∧
    ((btm_sec_disconnected K E w handle reason).dev p).sec_state = SecState.IDLE ∧
    ((btm_sec_disconnected K E w handle reason).dev p).security_required = K.BTM_SEC_NONE ∧
    ((btm_sec_disconnected K E w handle reason).dev p).hci_handle
      = K.BTM_SEC_INVALID_HANDLE ∧
    ((btm_sec_disconnected K E w handle reason).dev p).p_callback = none ∧
    ((w.cb.pairing_state ≠ tBTM_PAIRING_STATE.BTM_PAIR_STATE_IDLE ∧
        w.cb.pairing_bda = (w.dev p).bd_addr) →
      tst ((btm_sec_disconnected K E w handle reason).dev p).sec_flags
        K.BTM_SEC_LINK_KEY_KNOWN = false) ∧
    (¬ (w.cb.pairing_state ≠ tBTM_PAIRING_STATE.BTM_PAIR_STATE_IDLE ∧
        w.cb.pairing_bda = (w.dev p).bd_addr) →
      tst ((btm_sec_disconnected K E w handle reason).dev p).sec_flags
          K.BTM_SEC_LINK_KEY_KNOWN
        = tst (w.dev p).sec_flags K.BTM_SEC_LINK_KEY_KNOWN) := by
  have hp : p < w.cb.sec_dev_rec.length := findIdx_lt _ _ _ hfind
  obtain ⟨w1, hw1⟩ : ∃ w1 : World, w1 =
      (((w.setCb (fun cb => { cb with discing := false })).emit
          Event.btm_acl_resubmit_page).setDev p (fun r =>
            { r with rs_disc_pending := K.BTM_SEC_RS_NOT_PENDING })).setDev p (fun r =>
              { r with sm4 := r.sm4 &&& K.BTM_SM4_TRUE }) := ⟨_, rfl⟩
  have hp0 : p < ((w.setCb (fun cb => { cb with discing := false })).emit
      Event.btm_acl_resubmit_page).cb.sec_dev_rec.length := hp
  have hp0' : p < (((w.setCb (fun cb => { cb with discing := false })).emit
      Event.btm_acl_resubmit_page).setDev p (fun r =>
        { r with rs_disc_pending := K.BTM_SEC_RS_NOT_PENDING })).cb.sec_dev_rec.length := by
    rw [length_setDev]; exact hp
  have hp1 : p < w1.cb.sec_dev_rec.length := by
    rw [hw1, length_setDev]; exact hp0'
  have hst1 : w1.cb.pairing_state = w.cb.pairing_state := by rw [hw1]; rfl
  have hbda1 : w1.cb.pairing_bda = w.cb.pairing_bda := by rw [hw1]; rfl
  have hfl1 : (w1.dev p).sec_flags = (w.dev p).sec_flags := by
    rw [hw1, dev_setDev_lt _ _ _ hp0', dev_setDev_lt _ _ _ hp0]
    rfl
  have haddr1 : (w1.dev p).bd_addr = (w.dev p).bd_addr := by
    rw [hw1, dev_setDev_lt _ _ _ hp0', dev_setDev_lt _ _ _ hp0]
    rfl
  have hres : btm_sec_disconnected K E w handle reason
      = disconnectedCallback K
          (disconnectedReset K (disconnectedBonding K E w1 p reason w.cb.pairing_flags) p
            K.BT_TRANSPORT_BR_EDR) p K.BT_TRANSPORT_BR_EDR reason := by
    have hdev0 : ((w.setCb (fun cb => { cb with discing := false })).emit
        Event.btm_acl_resubmit_page).dev p = w.dev p := rfl
    rw [hw1]
    unfold btm_sec_disconnected
    simp only [hfind, hdev0, ← hh, beq_self_eq_true, if_true]
  have ht : (K.BLE_INCLUDED && K.SMP_INCLUDED && K.BT_TRANSPORT_BR_EDR == K.BT_TRANSPORT_LE)
      = false := by
    have : (K.BT_TRANSPORT_BR_EDR == K.BT_TRANSPORT_LE) = false := by simpa using hT
    rw [this, Bool.and_false]
  have hp2 : p < (disconnectedBonding K E w1 p reason w.cb.pairing_flags).cb.sec_dev_rec.length := by
    rw [disconnectedBonding_length K E hE]; exact hp1
  obtain ⟨hlen3, hh3, hf3, hs3, hr3, -⟩ :=
    disconnectedReset_dev K (disconnectedBonding K E w1 p reason w.cb.pairing_flags) p
      K.BT_TRANSPORT_BR_EDR hp2 ht
  have hp3 : p < (disconnectedReset K (disconnectedBonding K E w1 p reason w.cb.pairing_flags)
      p K.BT_TRANSPORT_BR_EDR).cb.sec_dev_rec.length := by
    rw [hlen3]; exact hp2
  have hfin := disconnectedCallback_dev K _ p K.BT_TRANSPORT_BR_EDR reason hp3
  rw [hres, hfin]
  simp only
  refine ⟨?_, ?_, ?_, ?_, hs3, hr3, hh3, trivial, ?_, ?_⟩
  · rw [hf3]; exact tst_andNot16_sub _ _ _ (or4_and_1 _ _ _ _)
  · rw [hf3]; exact tst_andNot16_sub _ _ _ (or4_and_2 _ _ _ _)
  · rw [hf3]; exact tst_andNot16_sub _ _ _ (or4_and_3 _ _ _ _)
  · rw [hf3]; exact tst_andNot16_sub _ _ _ (or4_and_4 _ _ _ _)
  · rintro ⟨h1, h2⟩
    rw [hf3]
    apply tst_andNot16_of_false
    apply disconnectedBonding_flag K E hE w1 p reason _ hp1
    rw [hst1, hbda1, haddr1]
    simp [h1, h2]
  · intro hn
    rw [hf3, disconnectedBonding_skip K E w1 p reason _ ?_, hfl1]
    · exact tst_andNot16_keep _ _ _ hL hLm
    · rw [hst1, hbda1, haddr1]
      by_cases h1 : w.cb.pairing_state = tBTM_PAIRING_STATE.BTM_PAIR_STATE_IDLE
      · simp [h1]
      · have h2 : ¬ w.cb.pairing_bda = (w.dev p).bd_addr := fun h2 => hn ⟨h1, h2⟩
        simp [h2]

/-- C19 at concrete inputs: the link of the example device, authenticated and
encrypted with a link key known and callback 7 waiting, is lost with reason 0x13, once
outside any pairing and once in the middle of a bonding with that device. -/
theorem C19_disconnected_resets_link_state_witness :
    (tst ((btm_sec_disconnected stdHdr exampleEnv exampleWorldSecured 1 0x13).dev 0).sec_flags
        stdHdr.BTM_SEC_ENCRYPTED = false ∧
     ((btm_sec_disconnected stdHdr exampleEnv exampleWorldSecured 1 0x13).dev 0).sec_state
        = SecState.IDLE ∧
     ((btm_sec_disconnected stdHdr exampleEnv exampleWorldSecured 1 0x13).dev 0).p_callback
        = none ∧
     tst ((btm_sec_disconnected stdHdr exampleEnv exampleWorldSecured 1 0x13).dev 0).sec_flags
          stdHdr.BTM_SEC_LINK_KEY_KNOWN
        = tst (exampleWorldSecured.dev 0).sec_flags stdHdr.BTM_SEC_LINK_KEY_KNOWN) ∧
    tst ((btm_sec_disconnected stdHdr exampleEnv exampleWorldSecuredBonding 1 0x13).dev
        0).sec_flags stdHdr.BTM_SEC_LINK_KEY_KNOWN = false :=
  ⟨⟨(C19_disconnected_resets_link_state stdHdr exampleEnv (fun _ _ _ => rfl)
        exampleWorldSecured 1 0x13 0 (by decide) (by decide) (by decide) (by decide)
        (by decide)).2.2.1,
    (C19_disconnected_resets_link_state stdHdr exampleEnv (fun _ _ _ => rfl)
        exampleWorldSecured 1 0x13 0 (by decide) (by decide) (by decide) (by decide)
        (by decide)).2.2.2.2.1,
    (C19_disconnected_resets_link_state stdHdr exampleEnv (fun _ _ _ => rfl)
        exampleWorldSecured 1 0x13 0 (by decide) (by decide) (by decide) (by decide)
        (by decide)).2.2.2.2.2.2.2.1,
    (C19_disconnected_resets_link_state stdHdr exampleEnv (fun _ _ _ => rfl)
        exampleWorldSecured 1 0x13 0 (by decide) (by decide) (by decide) (by decide)
        (by decide)).2.2.2.2.2.2.2.2.2 (by decide)⟩,
   (C19_disconnected_resets_link_state stdHdr exampleEnv (fun _ _ _ => rfl)
      exampleWorldSecuredBonding 1 0x13 0 (by decide) (by decide) (by decide) (by decide)
      (by decide)).2.2.2.2.2.2.2.2.1 (by decide)⟩

/-! ## The name entry and the bounds of the out-of-band blob -/

/-- C23 at the failing input. The local name "abcde" has length 5 and `name_len` is 5:
the requested length covers the whole name, the entry holds the whole name, and yet it
is tagged shortened-local-name (0x08): no entry with the complete-local-name tag (0x09)
is found. With `name_len` 6 the same five bytes are tagged complete. -/
theorem C23_full_name_tagged_shortened :
    strlen exampleDevice.bd_name = 5 ∧
    ((BTM_BuildOobData stdTags true exampleDevice true 100 exampleC exampleR 5).2.drop 49)
      = [6, 0x08, 0x61, 0x62, 0x63, 0x64, 0x65] ∧
    (BTM_ReadOobData stdTags
        (some (BTM_BuildOobData stdTags true exampleDevice true 100 exampleC exampleR 5).2)
        stdTags.BTM_EIR_COMPLETE_LOCAL_NAME_TYPE).p_ret = none ∧
    (BTM_ReadOobData stdTags
        (some (BTM_BuildOobData stdTags true exampleDevice true 100 exampleC exampleR 5).2)
        stdTags.BTM_EIR_SHORTENED_LOCAL_NAME_TYPE).ret_len = 5 ∧
    ((BTM_BuildOobData stdTags true exampleDevice true 100 exampleC exampleR 6).2.drop 49)
      = [6, 0x09, 0x61, 0x62, 0x63, 0x64, 0x65] := by
  decide

/-- C24 at the failing input. With `name_len` 0 the blob still ends with a name entry:
length byte 1, tag shortened-local-name (0x08), no value. `BTM_ReadOobData` for that tag
returns a non-null pointer (offset 51) with length 0. -/
theorem C24_empty_name_entry_written :
    (BTM_BuildOobData stdTags true exampleDevice true 100 exampleC exampleR 0).1 = 51 ∧
    ((BTM_BuildOobData stdTags true exampleDevice true 100 exampleC exampleR 0).2.drop 49)
      = [1, 0x08] ∧
    (BTM_ReadOobData stdTags
        (some (BTM_BuildOobData stdTags true exampleDevice true 100 exampleC exampleR 0).2)
        stdTags.BTM_EIR_SHORTENED_LOCAL_NAME_TYPE).p_ret = some 51 ∧
    (BTM_ReadOobData stdTags
        (some (BTM_BuildOobData stdTags true exampleDevice true 100 exampleC exampleR 0).2)
        stdTags.BTM_EIR_SHORTENED_LOCAL_NAME_TYPE).ret_len = 0 := by
  decide

/-- C27 at two failing inputs. A blob that declares a total length of 10 bytes and
whose only optional entry claims 16 bytes of hash C: the region returned starts at
offset 10 and is 16 bytes long, all of it beyond the declared length. A blob that
declares 9 bytes: the parser reads the type byte at offset 9, beyond the declared
length. -/
theorem C27_region_beyond_declared_length :
    STREAM_TO_UINT16 [10, 0, 1, 2, 3, 4, 5, 6, 17, 0x0E] 0 = 10 ∧
    BTM_ReadOobData stdTags (some [10, 0, 1, 2, 3, 4, 5, 6, 17, 0x0E])
        stdTags.BTM_EIR_OOB_SSP_HASH_C_TYPE
      = { p_ret := some 10, ret_len := 16, reads := [0, 1, 8, 9] } ∧
    STREAM_TO_UINT16 [9, 0, 1, 2, 3, 4, 5, 6, 5] 0 = 9 ∧
    (BTM_ReadOobData stdTags (some [9, 0, 1, 2, 3, 4, 5, 6, 5])
        stdTags.BTM_EIR_OOB_SSP_HASH_C_TYPE).reads = [0, 1, 8, 9] := by
  decide

/-! ## Bonded devices -/

/-- C25 at the failing input, and in general. The example device has its link key
known: `btm_sec_find_bonded_dev` from index 0 stores index 0 and the record through
its two output pointers, and returns `FALSE`. The local `found` is never set: the
function returns `FALSE` for every table and every start index. -/
theorem C25_find_bonded_dev_returns_false :
    tst (exampleWorldSecured.dev 0).sec_flags stdHdr.BTM_SEC_LINK_KEY_KNOWN = true ∧
    btm_sec_find_bonded_dev stdHdr exampleWorldSecured.cb 0
      = { found := false, p_found_idx := some 0, p_rec := some 0 } ∧
    ∀ (K : Hdr) (cb : tBTM_CB) (start_idx : Nat),
      (btm_sec_find_bonded_dev K cb start_idx).found = false := by
  refine ⟨by decide, by decide, ?_⟩
  intro K cb start_idx
  unfold btm_sec_find_bonded_dev
  simp only
  split_ifs
  · rfl
  · split <;> rfl
  · rfl

/-! ## The state left by a failed step -/

/-- C26 at two failing inputs. The application refuses an authorization at once:
`btm_sec_execute_procedure` returns `BTM_NOT_AUTHORIZED` and leaves `sec_state` at
authorizing. No command buffer is available for the authentication request: it returns
`BTM_NO_RESOURCES` and leaves `sec_state` at authenticating. In both cases the device
was idle before, and the next call finds it busy and returns `BTM_CMD_STARTED` without
doing anything. -/
theorem C26_failed_step_leaves_transient_state :
    (exampleWorldOwesAuthorization.dev 0).sec_state = SecState.IDLE ∧
    (btm_sec_execute_procedure stdHdr exampleEnvRefuses exampleWorldOwesAuthorization 0).1
      = tBTM_STATUS.BTM_NOT_AUTHORIZED ∧
    ((btm_sec_execute_procedure stdHdr exampleEnvRefuses exampleWorldOwesAuthorization 0).2.dev
        0).sec_state = SecState.AUTHORIZING ∧
    btm_sec_execute_procedure stdHdr exampleEnvRefuses
        (btm_sec_execute_procedure stdHdr exampleEnvRefuses exampleWorldOwesAuthorization 0).2 0
      = (tBTM_STATUS.BTM_CMD_STARTED,
          (btm_sec_execute_procedure stdHdr exampleEnvRefuses
            exampleWorldOwesAuthorization 0).2) ∧
    (exampleWorldOwesAuth.dev 0).sec_state = SecState.IDLE ∧
    (btm_sec_execute_procedure stdHdr exampleEnvNoBuffers exampleWorldOwesAuth 0).1
      = tBTM_STATUS.BTM_NO_RESOURCES ∧
    ((btm_sec_execute_procedure stdHdr exampleEnvNoBuffers exampleWorldOwesAuth 0).2.dev
        0).sec_state = SecState.AUTHENTICATING := by
  decide

/-! ## Authentication before encryption -/

theorem clrLoop_fst (K : Hdr) (service_id : Nat) (recs : List tBTM_SEC_SERV_REC) :
    ∀ n, (clrLoop K service_id recs n).1
      = recs.map (fun r => if clrMatches K service_id r then clrRecord K r else r) := by
  induction recs with
  | nil => intro n; rfl
  | cons r rs ih =>
    intro n
    unfold clrLoop
    split_ifs with h
    · simp only [List.map_cons, h, if_true, ih]
    · simp only [List.map_cons, h, Bool.false_eq_true, if_false, ih]

theorem clrLoop_snd (K : Hdr) (service_id : Nat) (recs : List tBTM_SEC_SERV_REC) :
    ∀ n, n < 256 → (clrLoop K service_id recs n).2
      = u8 (n + recs.countP (clrMatches K service_id)) := by
  induction recs with
  | nil =>
    intro n hn
    simp only [clrLoop, List.countP_nil, Nat.add_zero]
    unfold u8
    omega
  | cons r rs ih =>
    intro n hn
    unfold clrLoop
    split_ifs with h
    · have hlt : u8 (n + 1) < 256 := by unfold u8; omega
      simp only [ih _ hlt, List.countP_cons, h, if_true]
      unfold u8
      omega
    · simp only [ih _ hn, List.countP_cons, h, Bool.false_eq_true, if_false, Nat.add_zero]

theorem clrMatches_iff (K : Hdr) (service_id : Nat) (r : tBTM_SEC_SERV_REC) :
    clrMatches K service_id r = true ↔
      (tst r.security_flags K.BTM_SEC_IN_USE = true ∧ r.psm ≠ K.BT_PSM_SDP ∧
        (service_id = 0 ∨ service_id = r.service_id)) := by
  unfold clrMatches
  simp only [Bool.and_eq_true, Bool.or_eq_true, bne_iff_ne, ne_eq, beq_iff_eq, and_assoc]

/-- C22: `BTM_SecClrService`, for every `service_id` (0 included). The table keeps its
length, and slot by slot: a record whose PSM is the discovery PSM is left unchanged; a
record that is in use, is not the discovery service and whose service id is
`service_id` (any id when `service_id` is 0) has its security flags set to 0 (and,
with `L2CAP_UCD_INCLUDED`, its connectionless flags too) and nothing else changed;
every other record is left unchanged. The cached outgoing service and the security
mode are not touched. The value returned is the number of records cleared, as a
`UINT8`: it is that number whenever the table has fewer than 256 slots. -/
theorem C22_clr_service (K : Hdr) (db : ServDb) (service_id : Nat) :
    (BTM_SecClrService K db service_id).2.sec_serv_rec.length = db.sec_serv_rec.length ∧
    (∀ (i : Nat) (r : tBTM_SEC_SERV_REC), db.sec_serv_rec[i]? = some r →
      (r.psm = K.BT_PSM_SDP →
        (BTM_SecClrService K db service_id).2.sec_serv_rec[i]? = some r) ∧
      (tst r.security_flags K.BTM_SEC_IN_USE = true → r.psm ≠ K.BT_PSM_SDP →
        (service_id = 0 ∨ service_id = r.service_id) →
        (BTM_SecClrService K db service_id).2.sec_serv_rec[i]?
          = some { r with
              security_flags := 0,
              ucd_security_flags :=
                if K.L2CAP_UCD_INCLUDED then 0 else r.ucd_security_flags }) ∧
      (¬ (tst r.security_flags K.BTM_SEC_IN_USE = true ∧ r.psm ≠ K.BT_PSM_SDP ∧
            (service_id = 0 ∨ service_id = r.service_id)) →
        (BTM_SecClrService K db service_id).2.sec_serv_rec[i]? = some r)) ∧
    (BTM_SecClrService K db service_id).2.p_out_serv = db.p_out_serv ∧
    (BTM_SecClrService K db service_id).2.security_mode = db.security_mode ∧
    (BTM_SecClrService K db service_id).1
      = u8 (db.sec_serv_rec.countP (fun r =>
          tst r.security_flags K.BTM_SEC_IN_USE && r.psm != K.BT_PSM_SDP &&
            (service_id == 0 || service_id == r.service_id))) ∧
    (db.sec_serv_rec.length < 256 →
      (BTM_SecClrService K db service_id).1
        = db.sec_serv_rec.countP (fun r =>
            tst r.security_flags K.BTM_SEC_IN_USE && r.psm != K.BT_PSM_SDP &&
              (service_id == 0 || service_id == r.service_id))) := by
  have hrecs : (BTM_SecClrService K db service_id).2.sec_serv_rec
      = db.sec_serv_rec.map (fun r => if clrMatches K service_id r then clrRecord K r else r) :=
    clrLoop_fst K service_id db.sec_serv_rec 0
  have hret : (BTM_SecClrService K db service_id).1
      = u8 (db.sec_serv_rec.countP (clrMatches K service_id)) := by
    have := clrLoop_snd K service_id db.sec_serv_rec 0 (by decide)
    rw [Nat.zero_add] at this
    exact this
  refine ⟨?_, ?_, rfl, rfl, hret, ?_⟩
  · rw [hrecs, List.length_map]
  · intro i r hr
    have hget : (BTM_SecClrService K db service_id).2.sec_serv_rec[i]?
        = some (if clrMatches K service_id r then clrRecord K r else r) := by
      rw [hrecs, List.getElem?_map, hr]
      rfl
    refine ⟨?_, ?_, ?_⟩
    · intro hsdp
      have hm : clrMatches K service_id r = false := by
        cases h : clrMatches K service_id r
        · rfl
        · exact absurd hsdp ((clrMatches_iff K service_id r).1 h).2.1
      rw [hget, hm]
      rfl
    · intro h1 h2 h3
      rw [hget, (clrMatches_iff K service_id r).2 ⟨h1, h2, h3⟩]
      rfl
    · intro hn
      have hm : clrMatches K service_id r = false := by
        cases h : clrMatches K service_id r
        · rfl
        · exact absurd ((clrMatches_iff K service_id r).1 h) hn
      rw [hget, hm]
      rfl
  · intro hlen
    rw [hret]
    have hle : db.sec_serv_rec.countP (clrMatches K service_id) ≤ db.sec_serv_rec.length :=
      List.countP_le_length _
    unfold u8
    exact Nat.mod_eq_of_lt (by omega)

/-- C22 at concrete inputs: the registry of four slots, cleared for service id 3 (the
discovery service has that id and stays; one record is cleared) and for service id 0
(both other records in use are cleared). -/
theorem C22_clr_service_witness :
    ((BTM_SecClrService stdHdr exampleDbThree 3).2.sec_serv_rec[0]?
        = some { tBTM_SEC_SERV_REC.zero stdHdr with
                  psm := 1, service_id := 3, security_flags := 0x80 }) ∧
    ((BTM_SecClrService stdHdr exampleDbThree 3).2.sec_serv_rec[1]?
        = some { exampleServRec with
            security_flags := 0,
            ucd_security_flags :=
              if stdHdr.L2CAP_UCD_INCLUDED then 0 else exampleServRec.ucd_security_flags }) ∧
    ((BTM_SecClrService stdHdr exampleDbThree 3).2.sec_serv_rec[2]?
        = some exampleOtherService) ∧
    (BTM_SecClrService stdHdr exampleDbThree 3).1 = 1 ∧
    ((BTM_SecClrService stdHdr exampleDbThree 0).2.sec_serv_rec[2]?
        = some { exampleOtherService with
            security_flags := 0,
            ucd_security_flags :=
              if stdHdr.L2CAP_UCD_INCLUDED then 0
              else exampleOtherService.ucd_security_flags }) ∧
    (BTM_SecClrService stdHdr exampleDbThree 0).1 = 2 :=
  ⟨((C22_clr_service stdHdr exampleDbThree 3).2.1 0 _ rfl).1 (by decide),
   ((C22_clr_service stdHdr exampleDbThree 3).2.1 1 _ rfl).2.1 (by decide) (by decide)
     (by decide),
   ((C22_clr_service stdHdr exampleDbThree 3).2.1 2 _ rfl).2.2 (by decide),
   ((C22_clr_service stdHdr exampleDbThree 3).2.2.2.2.2 (by decide)).trans (by decide),
   ((C22_clr_service stdHdr exampleDbThree 0).2.1 2 _ rfl).2.1 (by decide) (by decide)
     (by decide),
   ((C22_clr_service stdHdr exampleDbThree 0).2.2.2.2.2 (by decide)).trans (by decide)⟩

/-! ## Reuse of a matching record, allocation of the lowest free slot -/

theorem tst_or_u16_self (x y m : Nat) (h0 : m ≠ 0) (h16 : m < 2 ^ 16) :
    tst (x ||| u16 (y ||| m)) m = true := by
  have h : (x ||| u16 (y ||| m)) &&& m = m := by
    apply (and_eq_right_iff _ _).2
    intro i hi
    simp [Nat.testBit_or, testBit_u16, hi, testBit_of_lt16 h16 hi]
  unfold tst
  rw [h]
  simpa using h0

theorem tst_or_u16_only (x m : Nat) (h0 : m ≠ 0) (h16 : m < 2 ^ 16) :
    tst (x ||| u16 m) m = true := by
  have h : (x ||| u16 m) &&& m = m := by
    apply (and_eq_right_iff _ _).2
    intro i hi
    simp [Nat.testBit_or, testBit_u16, hi, testBit_of_lt16 h16 hi]
  unfold tst
  rw [h]
  simpa using h0

/-- The record written by a registration is in use. -/
theorem servUpdate_in_use (K : Hdr) (mode : Nat) (r : tBTM_SEC_SERV_REC) (orig ucd : Bool)
    (p_name : List Nat) (service_id sec_level psm mx_proto_id mx_chan_id : Nat)
    (h0 : K.BTM_SEC_IN_USE ≠ 0) (h16 : K.BTM_SEC_IN_USE < 2 ^ 16) :
    tst (servUpdate K mode r orig ucd p_name service_id sec_level psm mx_proto_id
        mx_chan_id).security_flags K.BTM_SEC_IN_USE = true := by
  cases ucd
  · rw [(servUpdate_flags_conn K mode r orig p_name service_id sec_level psm mx_proto_id
      mx_chan_id).1]
    exact tst_or_u16_self _ _ _ h0 h16
  · rw [(servUpdate_flags_ucd K mode r orig p_name service_id sec_level psm mx_proto_id
      mx_chan_id).1]
    exact tst_or_u16_only _ _ h0 h16

/-- The loop changes no slot from free to in use or back. -/
theorem servScan_map_in_use (K : Hdr) (p_name : List Nat) (service_id psm mx_proto_id : Nat)
    (rest : List tBTM_SEC_SERV_REC) :
    ∀ (seen : List tBTM_SEC_SERV_REC) (a : Bool) (f : Nat),
      (servScan K p_name service_id psm mx_proto_id seen rest a f).recs.map
          (fun r => tst r.security_flags K.BTM_SEC_IN_USE)
        = (seen ++ rest).map (fun r => tst r.security_flags K.BTM_SEC_IN_USE) := by
  induction rest with
  | nil => intro seen a f; simp [servScan]
  | cons x xs ih =>
    intro seen a f
    unfold servScan
    split_ifs with h1 h2 h3
    · rfl
    · rw [ih]; simp
    · rw [ih]
      have hz : tst (tBTM_SEC_SERV_REC.zero K).security_flags K.BTM_SEC_IN_USE = false :=
        tst_zero_left _
      have hx : tst x.security_flags K.BTM_SEC_IN_USE = false := by simpa using h1
      simp [hz, hx]
    · rw [ih]; simp

/-- When a record in use matches among the records still to visit, the loop stops at
the first such record. -/
theorem servScan_match (K : Hdr) (p_name : List Nat) (service_id psm mx_proto_id : Nat)
    (rest : List tBTM_SEC_SERV_REC) :
    ∀ (seen : List tBTM_SEC_SERV_REC) (a : Bool) (f : Nat) (k : Nat) (r : tBTM_SEC_SERV_REC),
      rest[k]? = some r → tst r.security_flags K.BTM_SEC_IN_USE = true →
      servMatches K r p_name service_id psm mx_proto_id = true →
      (∀ (j : Nat) (x : tBTM_SEC_SERV_REC), j < k → rest[j]? = some x →
        tst x.security_flags K.BTM_SEC_IN_USE = true →
        servMatches K x p_name service_id psm mx_proto_id = false) →
      (servScan K p_name service_id psm mx_proto_id seen rest a f).record_allocated = true ∧
      (servScan K p_name service_id psm mx_proto_id seen rest a f).index = seen.length + k := by
  induction rest with
  | nil => intro seen a f k r h; simp at h
  | cons x xs ih =>
    intro seen a f k r hk hu hm hfirst
    cases k with
    | zero =>
      simp only [List.getElem?_cons_zero, Option.some.injEq] at hk
      subst hk
      unfold servScan
      simp only [hu, hm, if_true]
      exact ⟨trivial, rfl⟩
    | succ k =>
      simp only [List.getElem?_cons_succ] at hk
      have hfirst' : ∀ (j : Nat) (y : tBTM_SEC_SERV_REC), j < k → xs[j]? = some y →
          tst y.security_flags K.BTM_SEC_IN_USE = true →
          servMatches K y p_name service_id psm mx_proto_id = false := by
        intro j y hj hy hyu
        exact hfirst (j + 1) y (by omega) (by simpa using hy) hyu
      unfold servScan
      split_ifs with h1 h2 h3
      · have := hfirst 0 x (by omega) (by simp) h1
        rw [this] at h2
        exact absurd h2 (by simp)
      · have := ih (seen ++ [x]) a f k r hk hu hm hfirst'
        simp only [List.length_append, List.length_singleton] at this
        exact ⟨this.1, by rw [this.2]; omega⟩
      · have := ih (seen ++ [tBTM_SEC_SERV_REC.zero K]) true seen.length k r hk hu hm hfirst'
        simp only [List.length_append, List.length_singleton] at this
        exact ⟨this.1, by rw [this.2]; omega⟩
      · have := ih (seen ++ [x]) a f k r hk hu hm hfirst'
        simp only [List.length_append, List.length_singleton] at this
        exact ⟨this.1, by rw [this.2]; omega⟩

/-- With a slot already marked and no matching record left, the loop runs to the end
and changes nothing. -/
theorem servScan_marked (K : Hdr) (p_name : List Nat) (service_id psm mx_proto_id : Nat)
    (rest : List tBTM_SEC_SERV_REC) :
    ∀ (seen : List tBTM_SEC_SERV_REC) (f : Nat),
      (∀ x ∈ rest, tst x.security_flags K.BTM_SEC_IN_USE = true →
        servMatches K x p_name service_id psm mx_proto_id = false) →
      servScan K p_name service_id psm mx_proto_id seen rest true f
        = { recs := seen ++ rest, index := seen.length + rest.length,
            record_allocated := true, first_unused_record := f } := by
  induction rest with
  | nil => intro seen f _; simp [servScan]
  | cons x xs ih =>
    intro seen f hno
    have hno' : ∀ y ∈ xs, tst y.security_flags K.BTM_SEC_IN_USE = true →
        servMatches K y p_name service_id psm mx_proto_id = false :=
      fun y hy => hno y (List.mem_cons_of_mem _ hy)
    unfold servScan
    split_ifs with h1 h2
    · have := hno x (List.mem_cons_self _ _) h1
      rw [this] at h2
      exact absurd h2 (by simp)
    · rw [ih _ _ hno']
      simp
      omega
    · rename_i h3
      exact absurd h3 (by simp)
    · rw [ih _ _ hno']
      simp
      omega

/-- With no slot marked yet and no matching record left, the loop zeroes and marks
the first free slot. -/
theorem servScan_free (K : Hdr) (p_name : List Nat) (service_id psm mx_proto_id : Nat)
    (rest : List tBTM_SEC_SERV_REC) :
    ∀ (seen : List tBTM_SEC_SERV_REC) (f : Nat) (k : Nat) (r : tBTM_SEC_SERV_REC),
      (∀ x ∈ rest, tst x.security_flags K.BTM_SEC_IN_USE = true →
        servMatches K x p_name service_id psm mx_proto_id = false) →
      rest[k]? = some r → tst r.security_flags K.BTM_SEC_IN_USE = false →
      (∀ (j : Nat) (x : tBTM_SEC_SERV_REC), j < k → rest[j]? = some x →
        tst x.security_flags K.BTM_SEC_IN_USE = true) →
      servScan K p_name service_id psm mx_proto_id seen rest false f
        = { recs := seen ++ rest.set k (tBTM_SEC_SERV_REC.zero K),
            index := seen.length + rest.length,
            record_allocated := true, first_unused_record := seen.length + k } := by
  induction rest with
  | nil => intro seen f k r _ h; simp at h
  | cons x xs ih =>
    intro seen f k r hno hk hu hfirst
    have hno' : ∀ y ∈ xs, tst y.security_flags K.BTM_SEC_IN_USE = true →
        servMatches K y p_name service_id psm mx_proto_id = false :=
      fun y hy => hno y (List.mem_cons_of_mem _ hy)
    cases k with
    | zero =>
      simp only [List.getElem?_cons_zero, Option.some.injEq] at hk
      subst hk
      unfold servScan
      simp only [hu, Bool.false_eq_true, if_false, Bool.not_false, if_true]
      rw [servScan_marked K p_name service_id psm mx_proto_id xs _ _ hno']
      simp
      omega
    | succ k =>
      simp only [List.getElem?_cons_succ] at hk
      have hx : tst x.security_flags K.BTM_SEC_IN_USE = true := hfirst 0 x (by omega) (by simp)
      have hxm := hno x (List.mem_cons_self _ _) hx
      have hfirst' : ∀ (j : Nat) (y : tBTM_SEC_SERV_REC), j < k → xs[j]? = some y →
          tst y.security_flags K.BTM_SEC_IN_USE = true := by
        intro j y hj hy
        exact hfirst (j + 1) y (by omega) (by simpa using hy)
      unfold servScan
      simp only [hx, hxm, if_true, Bool.false_eq_true, if_false]
      rw [ih (seen ++ [x]) f k r hno' hk hu hfirst']
      simp
      omega

/-- With no slot marked yet, no matching record and no free slot left, the loop runs
to the end without marking a slot. -/
theorem servScan_full (K : Hdr) (p_name : List Nat) (service_id psm mx_proto_id : Nat)
    (rest : List tBTM_SEC_SERV_REC) :
    ∀ (seen : List tBTM_SEC_SERV_REC) (f : Nat),
      (∀ x ∈ rest, tst x.security_flags K.BTM_SEC_IN_USE = true ∧
        servMatches K x p_name service_id psm mx_proto_id = false) →
      servScan K p_name service_id psm mx_proto_id seen rest false f
        = { recs := seen ++ rest, index := seen.length + rest.length,
            record_allocated := false, first_unused_record := f } := by
  induction rest with
  | nil => intro seen f _; simp [servScan]
  | cons x xs ih =>
    intro seen f hall
    have hx := hall x (List.mem_cons_self _ _)
    unfold servScan
    simp only [hx.1, hx.2, if_true, Bool.false_eq_true, if_false]
    rw [ih _ _ (fun y hy => hall y (List.mem_cons_of_mem _ hy))]
    simp
    omega

theorem map_set_same {α β : Type} (g : α → β) :
    ∀ (l : List α) (k : Nat) (y r : α), l[k]? = some r → g y = g r →
      (l.set k y).map g = l.map g := by
  intro l
  induction l with
  | nil => intro k y r h; simp at h
  | cons x xs ih =>
    intro k y r h hg
    cases k with
    | zero =>
      simp only [List.getElem?_cons_zero, Option.some.injEq] at h
      subst h
      simp [hg]
    | succ k =>
      simp only [List.getElem?_cons_succ] at h
      simp [ih k y r h hg]

theorem countP_set_gain {α : Type} (p : α → Bool) :
    ∀ (l : List α) (k : Nat) (y r : α), l[k]? = some r → p r = false → p y = true →
      (l.set k y).countP p = l.countP p + 1 := by
  intro l
  induction l with
  | nil => intro k y r h; simp at h
  | cons x xs ih =>
    intro k y r h hr hy
    cases k with
    | zero =>
      simp only [List.getElem?_cons_zero, Option.some.injEq] at h
      subst h
      simp [List.countP_cons, hr, hy]
    | succ k =>
      simp only [List.getElem?_cons_succ] at h
      simp only [List.set_cons_succ, List.countP_cons, ih k y r h hr hy]
      omega

theorem countP_of_map_eq {α : Type} (p : α → Bool) (l1 l2 : List α)
    (h : l1.map p = l2.map p) : l1.countP p = l2.countP p := by
  have h1 : ∀ l : List α, l.countP p = (l.map p).count true := by
    intro l
    induction l with
    | nil => rfl
    | cons x xs ih =>
      cases hx : p x <;> simp [List.countP_cons, hx, ih]
  rw [h1, h1, h]

/-- A registration that finds a matching record in use works on the first such
record. -/
theorem set_level_first_match (K : Hdr) (db : ServDb) (ct : CONNECTION_TYPE)
    (p_name : List Nat) (service_id sec_level psm mx_proto_id mx_chan_id : Nat)
    (k : Nat) (r : tBTM_SEC_SERV_REC)
    (hk : db.sec_serv_rec[k]? = some r)
    (hu : tst r.security_flags K.BTM_SEC_IN_USE = true)
    (hm : servMatches K r p_name service_id psm mx_proto_id = true)
    (hfirst : ∀ (j : Nat) (x : tBTM_SEC_SERV_REC), j < k → db.sec_serv_rec[j]? = some x →
        tst x.security_flags K.BTM_SEC_IN_USE = true →
        servMatches K x p_name service_id psm mx_proto_id = false) :
    btm_sec_set_security_level K db ct p_name service_id sec_level psm mx_proto_id mx_chan_id
      = { ret := true, index := k,
          db := { db with
            sec_serv_rec :=
              (servScan K p_name service_id psm mx_proto_id [] db.sec_serv_rec false 0).recs.set
                k (servUpdate K db.security_mode r ct.orig (K.L2CAP_UCD_INCLUDED && ct.connless)
                    p_name service_id sec_level psm mx_proto_id mx_chan_id),
            p_out_serv :=
              if ct.orig && !(K.L2CAP_UCD_INCLUDED && ct.connless) then some k
              else db.p_out_serv } } ∧
    (servScan K p_name service_id psm mx_proto_id [] db.sec_serv_rec false 0).recs[k]?
      = some r := by
  have hs := servScan_match K p_name service_id psm mx_proto_id db.sec_serv_rec [] false 0 k r
    hk hu hm hfirst
  have hin := servScan_in_use K p_name service_id psm mx_proto_id db.sec_serv_rec [] false 0 k r
    (by simpa using hk) hu
  simp only [List.length_nil, Nat.zero_add] at hs
  have hlt : k < db.sec_serv_rec.length := by
    by_contra hge
    rw [List.getElem?_eq_none (Nat.le_of_not_lt hge)] at hk
    cases hk
  refine ⟨?_, hin⟩
  unfold btm_sec_set_security_level
  simp only [hs.1, hs.2, Bool.not_true, Bool.false_eq_true, if_false, ge_iff_le,
    Nat.not_le.2 hlt, hin]

/-- A registration that finds no matching record in use works on the first free
slot, after zeroing it. -/
theorem set_level_first_free (K : Hdr) (db : ServDb) (ct : CONNECTION_TYPE)
    (p_name : List Nat) (service_id sec_level psm mx_proto_id mx_chan_id : Nat)
    (k : Nat) (r : tBTM_SEC_SERV_REC)
    (hno : ∀ x ∈ db.sec_serv_rec, tst x.security_flags K.BTM_SEC_IN_USE = true →
        servMatches K x p_name service_id psm mx_proto_id = false)
    (hk : db.sec_serv_rec[k]? = some r)
    (hu : tst r.security_flags K.BTM_SEC_IN_USE = false)
    (hfirst : ∀ (j : Nat) (x : tBTM_SEC_SERV_REC), j < k → db.sec_serv_rec[j]? = some x →
        tst x.security_flags K.BTM_SEC_IN_USE = true) :
    btm_sec_set_security_level K db ct p_name service_id sec_level psm mx_proto_id mx_chan_id
      = { ret := true, index := k,
          db := { db with
            sec_serv_rec :=
              db.sec_serv_rec.set k
                (servUpdate K db.security_mode (tBTM_SEC_SERV_REC.zero K) ct.orig
                  (K.L2CAP_UCD_INCLUDED && ct.connless)
                  p_name service_id sec_level psm mx_proto_id mx_chan_id),
            p_out_serv :=
              if ct.orig && !(K.L2CAP_UCD_INCLUDED && ct.connless) then some k
              else db.p_out_serv } } := by
  have hs := servScan_free K p_name service_id psm mx_proto_id db.sec_serv_rec [] 0 k r
    hno hk hu hfirst
  simp only [List.length_nil, Nat.zero_add, List.nil_append] at hs
  have hlt : k < db.sec_serv_rec.length := by
    by_contra hge
    rw [List.getElem?_eq_none (Nat.le_of_not_lt hge)] at hk
    cases hk
  have hget : (db.sec_serv_rec.set k (tBTM_SEC_SERV_REC.zero K))[k]?
      = some (tBTM_SEC_SERV_REC.zero K) := by
    simp [List.getElem?_set, hlt]
  unfold btm_sec_set_security_level
  simp only [hs, Bool.not_true, Bool.false_eq_true, if_false, ge_iff_le, Nat.le_refl, if_true,
    hget, List.set_set]

/-- C21: `btm_sec_set_security_level`, with `BTM_SEC_IN_USE` a non-zero 16-bit flag.
When some record in use has the PSM, multiplexer protocol id, service id and service
name of the registration, the call succeeds, the record it works on (at the returned
index, not after the given one) is such a record and is rewritten by the update of
its previous contents, every slot keeps its in-use status, and so the number of
records in use is unchanged. When no record in use matches and `k` is the lowest free
slot (every slot below it is in use), the call succeeds on slot `k`: the table after
the call is the table before it with slot `k` replaced by the update of a zeroed
record, that record is in use, and the number of records in use has grown by one. -/
theorem C21_reuse_or_lowest_free (K : Hdr) (db : ServDb) (ct : CONNECTION_TYPE)
    (p_name : List Nat) (service_id sec_level psm mx_proto_id mx_chan_id : Nat)
    (h0 : K.BTM_SEC_IN_USE ≠ 0) (h16 : K.BTM_SEC_IN_USE < 2 ^ 16) :
    (∀ (i : Nat) (r : tBTM_SEC_SERV_REC), db.sec_serv_rec[i]? = some r →
      tst r.security_flags K.BTM_SEC_IN_USE = true →
      servMatches K r p_name service_id psm mx_proto_id = true →
      (btm_sec_set_security_level K db ct p_name service_id sec_level psm mx_proto_id
          mx_chan_id).ret = true ∧
      (btm_sec_set_security_level K db ct p_name service_id sec_level psm mx_proto_id
          mx_chan_id).index ≤ i ∧
      (∃ r0 : tBTM_SEC_SERV_REC,
        db.sec_serv_rec[(btm_sec_set_security_level K db ct p_name service_id sec_level psm
            mx_proto_id mx_chan_id).index]? = some r0 ∧
        tst r0.security_flags K.BTM_SEC_IN_USE = true ∧
        servMatches K r0 p_name service_id psm mx_proto_id = true ∧
        (btm_sec_set_security_level K db ct p_name service_id sec_level psm mx_proto_id
            mx_chan_id).db.sec_serv_rec[(btm_sec_set_security_level K db ct p_name service_id
            sec_level psm mx_proto_id mx_chan_id).index]?
          = some (servUpdate K db.security_mode r0 ct.orig
              (K.L2CAP_UCD_INCLUDED && ct.connless) p_name service_id sec_level psm
              mx_proto_id mx_chan_id)) ∧
      (btm_sec_set_security_level K db ct p_name service_id sec_level psm mx_proto_id
          mx_chan_id).db.sec_serv_rec.map (fun x => tst x.security_flags K.BTM_SEC_IN_USE)
        = db.sec_serv_rec.map (fun x => tst x.security_flags K.BTM_SEC_IN_USE) ∧
      (btm_sec_set_security_level K db ct p_name service_id sec_level psm mx_proto_id
          mx_chan_id).db.sec_serv_rec.countP (fun x => tst x.security_flags K.BTM_SEC_IN_USE)
        = db.sec_serv_rec.countP (fun x => tst x.security_flags K.BTM_SEC_IN_USE)) ∧
    (∀ (k : Nat) (r : tBTM_SEC_SERV_REC),
      (∀ x ∈ db.sec_serv_rec, tst x.security_flags K.BTM_SEC_IN_USE = true →
        servMatches K x p_name service_id psm mx_proto_id = false) →
      db.sec_serv_rec[k]? = some r →
      tst r.security_flags K.BTM_SEC_IN_USE = false →
      (∀ (j : Nat) (x : tBTM_SEC_SERV_REC), j < k → db.sec_serv_rec[j]? = some x →
        tst x.security_flags K.BTM_SEC_IN_USE = true) →
      (btm_sec_set_security_level K db ct p_name service_id sec_level psm mx_proto_id
          mx_chan_id).ret = true ∧
      (btm_sec_set_security_level K db ct p_name service_id sec_level psm mx_proto_id
          mx_chan_id).index = k ∧
      (btm_sec_set_security_level K db ct p_name service_id sec_level psm mx_proto_id
          mx_chan_id).db.sec_serv_rec
        = db.sec_serv_rec.set k
            (servUpdate K db.security_mode (tBTM_SEC_SERV_REC.zero K) ct.orig
              (K.L2CAP_UCD_INCLUDED && ct.connless) p_name service_id sec_level psm
              mx_proto_id mx_chan_id) ∧
      tst (servUpdate K db.security_mode (tBTM_SEC_SERV_REC.zero K) ct.orig
              (K.L2CAP_UCD_INCLUDED && ct.connless) p_name service_id sec_level psm
              mx_proto_id mx_chan_id).security_flags K.BTM_SEC_IN_USE = true ∧
      (btm_sec_set_security_level K db ct p_name service_id sec_level psm mx_proto_id
          mx_chan_id).db.sec_serv_rec.countP (fun x => tst x.security_flags K.BTM_SEC_IN_USE)
        = db.sec_serv_rec.countP (fun x => tst x.security_flags K.BTM_SEC_IN_USE) + 1) := by
  constructor
  · intro i r hi hu hm
    classical
    have hex : ∃ j, ∃ x, db.sec_serv_rec[j]? = some x ∧
        tst x.security_flags K.BTM_SEC_IN_USE = true ∧
        servMatches K x p_name service_id psm mx_proto_id = true := ⟨i, r, hi, hu, hm⟩
    obtain ⟨r0, hk0, hu0, hm0⟩ := Nat.find_spec hex
    have hle : Nat.find hex ≤ i := Nat.find_min' hex ⟨r, hi, hu, hm⟩
    have hfirst : ∀ (j : Nat) (x : tBTM_SEC_SERV_REC), j < Nat.find hex →
        db.sec_serv_rec[j]? = some x → tst x.security_flags K.BTM_SEC_IN_USE = true →
        servMatches K x p_name service_id psm mx_proto_id = false := by
      intro j x hj hx hxu
      cases hxm : servMatches K x p_name service_id psm mx_proto_id
      · rfl
      · exact absurd ⟨x, hx, hxu, hxm⟩ (Nat.find_min hex hj)
    generalize Nat.find hex = k at hk0 hle hfirst
    obtain ⟨hres, hsc⟩ := set_level_first_match K db ct p_name service_id sec_level psm
      mx_proto_id mx_chan_id k r0 hk0 hu0 hm0 hfirst
    have hlt : k < (servScan K p_name service_id psm mx_proto_id [] db.sec_serv_rec
        false 0).recs.length := by
      by_contra hge
      rw [List.getElem?_eq_none (Nat.le_of_not_lt hge)] at hsc
      cases hsc
    have hmap : (btm_sec_set_security_level K db ct p_name service_id sec_level psm mx_proto_id
          mx_chan_id).db.sec_serv_rec.map (fun x => tst x.security_flags K.BTM_SEC_IN_USE)
        = db.sec_serv_rec.map (fun x => tst x.security_flags K.BTM_SEC_IN_USE) := by
      rw [hres]
      show ((servScan K p_name service_id psm mx_proto_id [] db.sec_serv_rec false 0).recs.set
          k _).map (fun x => tst x.security_flags K.BTM_SEC_IN_USE) = _
      rw [map_set_same (fun x => tst x.security_flags K.BTM_SEC_IN_USE) _ k _ r0 hsc
        (by
          show tst (servUpdate K db.security_mode r0 ct.orig
              (K.L2CAP_UCD_INCLUDED && ct.connless) p_name service_id sec_level psm
              mx_proto_id mx_chan_id).security_flags K.BTM_SEC_IN_USE
            = tst r0.security_flags K.BTM_SEC_IN_USE
          rw [hu0]
          exact servUpdate_in_use K _ _ _ _ _ _ _ _ _ _ h0 h16)]
      have := servScan_map_in_use K p_name service_id psm mx_proto_id db.sec_serv_rec [] false 0
      simpa using this
    refine ⟨by rw [hres], by rw [hres]; exact hle, ⟨r0, ?_, hu0, hm0, ?_⟩, hmap,
      countP_of_map_eq _ _ _ hmap⟩
    · rw [hres]; exact hk0
    · rw [hres]
      show ((servScan K p_name service_id psm mx_proto_id [] db.sec_serv_rec false 0).recs.set
          k _)[k]? = _
      simp [List.getElem?_set, hlt]
  · intro k r hno hk hu hfirst
    have hres := set_level_first_free K db ct p_name service_id sec_level psm mx_proto_id
      mx_chan_id k r hno hk hu hfirst
    have hin := servUpdate_in_use K db.security_mode (tBTM_SEC_SERV_REC.zero K) ct.orig
      (K.L2CAP_UCD_INCLUDED && ct.connless) p_name service_id sec_level psm mx_proto_id
      mx_chan_id h0 h16
    refine ⟨by rw [hres], by rw [hres], by rw [hres], hin, ?_⟩
    rw [hres]
    exact countP_set_gain (fun x => tst x.security_flags K.BTM_SEC_IN_USE) _ k _ r hk hu hin

/-- C21 at concrete inputs, on the two-slot registry whose first record is in use. A
registration with the identifiers and name of that record keeps one record in use; a
registration for another PSM takes slot 1, the lowest free slot, and two records are
in use. -/
theorem C21_reuse_or_lowest_free_witness :
    ((btm_sec_set_security_level stdHdr exampleDbInUse CONN_ORIENT_TERM [] 3 0x02 0x1001 0
        0).ret = true ∧
      (btm_sec_set_security_level stdHdr exampleDbInUse CONN_ORIENT_TERM [] 3 0x02 0x1001 0
        0).index ≤ 0 ∧
      (btm_sec_set_security_level stdHdr exampleDbInUse CONN_ORIENT_TERM [] 3 0x02 0x1001 0
          0).db.sec_serv_rec.countP (fun x => tst x.security_flags stdHdr.BTM_SEC_IN_USE)
        = exampleDbInUse.sec_serv_rec.countP
            (fun x => tst x.security_flags stdHdr.BTM_SEC_IN_USE)) ∧
    ((btm_sec_set_security_level stdHdr exampleDbInUse CONN_ORIENT_TERM [] 4 0x02 0x1003 0
        0).ret = true ∧
      (btm_sec_set_security_level stdHdr exampleDbInUse CONN_ORIENT_TERM [] 4 0x02 0x1003 0
        0).index = 1 ∧
      (btm_sec_set_security_level stdHdr exampleDbInUse CONN_ORIENT_TERM [] 4 0x02 0x1003 0
          0).db.sec_serv_rec.countP (fun x => tst x.security_flags stdHdr.BTM_SEC_IN_USE)
        = exampleDbInUse.sec_serv_rec.countP
            (fun x => tst x.security_flags stdHdr.BTM_SEC_IN_USE) + 1) :=
  ⟨⟨((C21_reuse_or_lowest_free stdHdr exampleDbInUse CONN_ORIENT_TERM [] 3 0x02 0x1001 0 0
        (by decide) (by decide)).1 0 exampleServRec rfl (by decide) (by decide)).1,
    ((C21_reuse_or_lowest_free stdHdr exampleDbInUse CONN_ORIENT_TERM [] 3 0x02 0x1001 0 0
        (by decide) (by decide)).1 0 exampleServRec rfl (by decide) (by decide)).2.1,
    ((C21_reuse_or_lowest_free stdHdr exampleDbInUse CONN_ORIENT_TERM [] 3 0x02 0x1001 0 0
        (by decide) (by decide)).1 0 exampleServRec rfl (by decide) (by decide)).2.2.2.2⟩,
   ⟨((C21_reuse_or_lowest_free stdHdr exampleDbInUse CONN_ORIENT_TERM [] 4 0x02 0x1003 0 0
        (by decide) (by decide)).2 1 (tBTM_SEC_SERV_REC.zero stdHdr) (by decide) rfl (by decide)
        (fun j x hj hx => by
          have hj0 : j = 0 := by omega
          subst hj0
          have hx0 : exampleServRec = x := Option.some.inj hx
          subst hx0
          decide)).1,
    ((C21_reuse_or_lowest_free stdHdr exampleDbInUse CONN_ORIENT_TERM [] 4 0x02 0x1003 0 0
        (by decide) (by decide)).2 1 (tBTM_SEC_SERV_REC.zero stdHdr) (by decide) rfl (by decide)
        (fun j x hj hx => by
          have hj0 : j = 0 := by omega
          subst hj0
          have hx0 : exampleServRec = x := Option.some.inj hx
          subst hx0
          decide)).2.1,
    ((C21_reuse_or_lowest_free stdHdr exampleDbInUse CONN_ORIENT_TERM [] 4 0x02 0x1003 0 0
        (by decide) (by decide)).2 1 (tBTM_SEC_SERV_REC.zero stdHdr) (by decide) rfl (by decide)
        (fun j x hj hx => by
          have hj0 : j = 0 := by omega
          subst hj0
          have hx0 : exampleServRec = x := Option.some.inj hx
          subst hx0
          decide)).2.2.2.2⟩⟩

/-! ## The pairing target under an IO capability request -/

/-- C29 at the failing input. The pairing state is incoming-SSP with target
00:1A:7D:DA:71:13, and an IO capability request arrives for the other known device,
00:1B:DC:07:32:A1: `btm_io_capabilities_req` compares no address in that state, answers
the request with an IO capability reply, moves to wait-local-IO-capabilities and
overwrites `pairing_bda` with the other address. In the state wait-PIN-request, where
the code does compare the address, the same event is refused with
`HCI_ERR_HOST_BUSY_PAIRING` (0x38) and the target is kept. -/
theorem C29_incoming_ssp_target_overwritten :
    exampleWorldIncomingSsp.cb.pairing_state
      = tBTM_PAIRING_STATE.BTM_PAIR_STATE_INCOMING_SSP ∧
    exampleWorldIncomingSsp.cb.pairing_bda = [0x00, 0x1A, 0x7D, 0xDA, 0x71, 0x13] ∧
    (btm_io_capabilities_req stdHdr exampleEnv exampleWorldIncomingSsp
        [0x00, 0x1B, 0xDC, 0x07, 0x32, 0xA1]).cb.pairing_bda
      = [0x00, 0x1B, 0xDC, 0x07, 0x32, 0xA1] ∧
    (btm_io_capabilities_req stdHdr exampleEnv exampleWorldIncomingSsp
        [0x00, 0x1B, 0xDC, 0x07, 0x32, 0xA1]).cb.pairing_state
      = tBTM_PAIRING_STATE.BTM_PAIR_STATE_WAIT_LOCAL_IOCAPS ∧
    (btm_io_capabilities_req stdHdr exampleEnv exampleWorldIncomingSsp
        [0x00, 0x1B, 0xDC, 0x07, 0x32, 0xA1]).out
      = [Event.l2c_pin_code_request [0x00, 0x1B, 0xDC, 0x07, 0x32, 0xA1],
         Event.btu_start_timer Timer.pairing_tle stdHdr.BTM_SEC_TIMEOUT_VALUE,
         Event.p_sp_callback_io_req [0x00, 0x1B, 0xDC, 0x07, 0x32, 0xA1] 1 0 4 false,
         Event.btsnd_hcic_io_cap_req_reply [0x00, 0x1B, 0xDC, 0x07, 0x32, 0xA1] 1 0 4] ∧
    (btm_io_capabilities_req stdHdr exampleEnv exampleWorldWaitPinReq
        [0x00, 0x1B, 0xDC, 0x07, 0x32, 0xA1]).cb.pairing_bda
      = [0x00, 0x1A, 0x7D, 0xDA, 0x71, 0x13] ∧
    (btm_io_capabilities_req stdHdr exampleEnv exampleWorldWaitPinReq
        [0x00, 0x1B, 0xDC, 0x07, 0x32, 0xA1]).out
      = [Event.btsnd_hcic_io_cap_req_neg_reply [0x00, 0x1B, 0xDC, 0x07, 0x32, 0xA1] 0x38] := by
  decide

/-! ## The single retry of an authentication -/

theorem restore_mode_fields (K : Hdr) (w : World) :
    (btm_restore_mode K w).cb.sec_dev_rec = w.cb.sec_dev_rec ∧
    (btm_restore_mode K w).cb.pairing_state = w.cb.pairing_state ∧
    (btm_restore_mode K w).cb.pairing_flags = w.cb.pairing_flags ∧
    (btm_restore_mode K w).cb.api = w.cb.api := by
  unfold btm_restore_mode
  simp only
  split_ifs <;> exact ⟨rfl, rfl, rfl, rfl⟩

theorem tst_eq_false_iff (x m : Nat) : tst x m = false ↔ x &&& m = 0 := by
  unfold tst
  simp

theorem tst_andNot8_self (x m : Nat) : tst (andNot8 x m) m = false := by
  rw [tst_eq_false_iff]
  apply Nat.eq_of_testBit_eq
  intro i
  unfold andNot8
  simp only [Nat.testBit_and, Nat.testBit_xor, Nat.testBit_two_pow_sub_one,
    Nat.testBit_mod_two_pow, Nat.zero_testBit]
  by_cases hi : i < 8 <;> cases m.testBit i <;> simp [hi]

theorem tst_u8_or_self (x m : Nat) (h0 : m ≠ 0) (h8 : m < 2 ^ 8) :
    tst (u8 (x ||| m)) m = true := by
  have h : u8 (x ||| m) &&& m = m := by
    apply (and_eq_right_iff _ _).2
    intro i hi
    have hlt : i < 8 := by
      by_contra hge
      have : m < 2 ^ i := Nat.lt_of_lt_of_le h8 (Nat.pow_le_pow_right (by decide) (by omega))
      rw [Nat.testBit_lt_two_pow this] at hi
      exact Bool.false_ne_true hi
    unfold u8
    rw [Nat.testBit_mod_two_pow, Nat.testBit_or, hi]
    simp [hlt]
  unfold tst
  rw [h]
  simpa using h0

/-- An authentication-complete event that is no transaction collision, for a device
that is authenticating while no pairing is going on, reaches the test of the status
with the retry bit cleared and `sec_state` idle, without any call of a callback. -/
theorem auth_complete_idle (K : Hdr) (E : Env) (w : World) (handle status p : Nat)
    (hfind : btm_find_dev_by_handle K w.cb handle = some p)
    (hidle : w.cb.pairing_state = tBTM_PAIRING_STATE.BTM_PAIR_STATE_IDLE)
    (hflags : w.cb.pairing_flags = 0)
    (hstate : (w.dev p).sec_state = SecState.AUTHENTICATING)
    (hs1 : status ≠ K.HCI_ERR_LMP_ERR_TRANS_COLLISION)
    (hs2 : status ≠ K.HCI_ERR_DIFF_TRANSACTION_COLLISION)
    (hs3 : status ≠ K.HCI_ERR_COMMAND_DISALLOWED) :
    btm_sec_auth_complete K E w handle status
      = authCompleteFinish K E (authCompleteIdle K w p) p status (w.dev p).sm4 := by
  have hp : p < w.cb.sec_dev_rec.length := findIdx_lt _ _ _ hfind
  obtain ⟨hr1, hr2, hr3, _⟩ := restore_mode_fields K
    (w.setCb (fun cb => { cb with collision_start_time := 0 }))
  generalize hw1 : btm_restore_mode K
    (w.setCb (fun cb => { cb with collision_start_time := 0 })) = w1 at hr1 hr2 hr3
  have hr1' : w1.cb.sec_dev_rec = w.cb.sec_dev_rec := hr1
  have hr2' : w1.cb.pairing_state = tBTM_PAIRING_STATE.BTM_PAIR_STATE_IDLE := hr2.trans hidle
  have hr3' : w1.cb.pairing_flags = 0 := hr3.trans hflags
  have hdev1 : w1.dev p = w.dev p := by
    unfold World.dev
    rw [hr1']
  have hp1 : p < w1.cb.sec_dev_rec.length := by rw [hr1']; exact hp
  have hdev2 : (w1.setDev p (fun r => { r with sm4 := andNot8 r.sm4 K.BTM_SM4_RETRY })).dev p
      = { w.dev p with sm4 := andNot8 (w.dev p).sm4 K.BTM_SM4_RETRY } := by
    rw [dev_setDev_lt _ _ _ hp1, hdev1]
  have hst2 : (w1.setDev p (fun r => { r with sm4 := andNot8 r.sm4 K.BTM_SM4_RETRY })).cb.pairing_state
      = tBTM_PAIRING_STATE.BTM_PAIR_STATE_IDLE := hr2'
  have hknown : authCompleteKnown K E w1 p status tBTM_PAIRING_STATE.BTM_PAIR_STATE_IDLE
      = authCompleteFinish K E
          ((w1.setDev p (fun r => { r with sm4 := andNot8 r.sm4 K.BTM_SM4_RETRY })).setDev p
            (fun r => { r with sec_state := SecState.IDLE })) p status (w.dev p).sm4 := by
    unfold authCompleteKnown
    simp only [hst2, bne_self_eq_false, Bool.false_and, Bool.false_eq_true, if_false, hdev2,
      hstate, ne_eq, not_true_eq_false, Bool.and_false, hdev1,
      beq_eq_false_iff_ne.2 hs3]
  unfold btm_sec_auth_complete
  simp only [hfind, beq_eq_false_iff_ne.2 hs1, beq_eq_false_iff_ne.2 hs2, Bool.or_self,
    Bool.false_eq_true, if_false, hw1, hr3', tst_zero_left, Bool.false_and, hidle, hknown]
  unfold authCompleteIdle
  rw [hw1]

/-- The single retry for a missing key. The event is for a known device that is
authenticating while no pairing is going on (pairing state idle, no pairing flag set),
and the status is no transaction collision. If the status is key-missing, the retry bit
of the device is clear and the device supports Simple Pairing, the code sets the retry
bit, clears the link-key-known flag and runs `btm_sec_execute_procedure` once: the world
after the event is the world that call leaves, and no callback was called before it. If
the status is a failure (not success, not command-disallowed) and the retry bit is set,
the retry bit is cleared and `btm_sec_dev_rec_cback_event` is called with
`BTM_ERR_PROCESSING`: a stored callback is removed from its slot and called with that
status, then the follow-up of a failure is run; `btm_sec_execute_procedure` is not run
for a retry. -/
theorem auth_complete_single_retry (K : Hdr) (E : Env) (w : World) (handle p : Nat)
    (hfind : btm_find_dev_by_handle K w.cb handle = some p)
    (hidle : w.cb.pairing_state = tBTM_PAIRING_STATE.BTM_PAIR_STATE_IDLE)
    (hflags : w.cb.pairing_flags = 0)
    (hstate : (w.dev p).sec_state = SecState.AUTHENTICATING)
    (hR0 : K.BTM_SM4_RETRY ≠ 0) (hR8 : K.BTM_SM4_RETRY < 2 ^ 8) :
    (K.HCI_ERR_KEY_MISSING ≠ K.HCI_ERR_LMP_ERR_TRANS_COLLISION →
      K.HCI_ERR_KEY_MISSING ≠ K.HCI_ERR_DIFF_TRANSACTION_COLLISION →
      K.HCI_ERR_KEY_MISSING ≠ K.HCI_ERR_COMMAND_DISALLOWED →
      K.HCI_ERR_KEY_MISSING ≠ K.HCI_SUCCESS →
      tst (w.dev p).sm4 K.BTM_SM4_RETRY = false →
      K.BTM_SEC_IS_SM4 (andNot8 (w.dev p).sm4 K.BTM_SM4_RETRY) = true →
      btm_sec_auth_complete K E w handle K.HCI_ERR_KEY_MISSING
        = (btm_sec_execute_procedure K E
            (authCompleteRetry K (authCompleteIdle K w p) p) p).2 ∧
      tst ((authCompleteRetry K (authCompleteIdle K w p) p).dev p).sm4 K.BTM_SM4_RETRY
        = true ∧
      tst ((authCompleteRetry K (authCompleteIdle K w p) p).dev p).sec_flags
        K.BTM_SEC_LINK_KEY_KNOWN = false ∧
      ((authCompleteRetry K (authCompleteIdle K w p) p).dev p).sec_state = SecState.IDLE ∧
      (authCompleteRetry K (authCompleteIdle K w p) p).out
        = (btm_restore_mode K
            (w.setCb (fun cb => { cb with collision_start_time := 0 }))).out) ∧
    (∀ status : Nat,
      status ≠ K.HCI_ERR_LMP_ERR_TRANS_COLLISION →
      status ≠ K.HCI_ERR_DIFF_TRANSACTION_COLLISION →
      status ≠ K.HCI_ERR_COMMAND_DISALLOWED →
      status ≠ K.HCI_SUCCESS →
      tst (w.dev p).sm4 K.BTM_SM4_RETRY = true →
      btm_sec_auth_complete K E w handle status
        = authCompleteFailed K E
            (btm_sec_dev_rec_cback_event K E (authCompleteIdle K w p) p
              tBTM_STATUS.BTM_ERR_PROCESSING false) p ∧
      btm_sec_dev_rec_cback_event K E (authCompleteIdle K w p) p
          tBTM_STATUS.BTM_ERR_PROCESSING false
        = btm_sec_check_pending_reqs K E
            (devRecCallback K (authCompleteIdle K w p) p
              tBTM_STATUS.BTM_ERR_PROCESSING false) ∧
      tst ((authCompleteIdle K w p).dev p).sm4 K.BTM_SM4_RETRY = false ∧
      (∀ c : Nat, (w.dev p).p_callback = some c →
        devRecCallback K (authCompleteIdle K w p) p tBTM_STATUS.BTM_ERR_PROCESSING false
          = ((authCompleteIdle K w p).setDev p (fun r => { r with p_callback := none })).emit
              (Event.sec_callback c (w.dev p).bd_addr K.BT_TRANSPORT_BR_EDR
                (w.dev p).p_ref_data tBTM_STATUS.BTM_ERR_PROCESSING))) := by
  have hp : p < w.cb.sec_dev_rec.length := findIdx_lt _ _ _ hfind
  obtain ⟨hr1, _, _, _⟩ := restore_mode_fields K
    (w.setCb (fun cb => { cb with collision_start_time := 0 }))
  have hr1' : (btm_restore_mode K
      (w.setCb (fun cb => { cb with collision_start_time := 0 }))).cb.sec_dev_rec
        = w.cb.sec_dev_rec := hr1
  have hdev1 : (btm_restore_mode K
      (w.setCb (fun cb => { cb with collision_start_time := 0 }))).dev p = w.dev p := by
    unfold World.dev
    rw [hr1']
  have hp1 : p < (btm_restore_mode K
      (w.setCb (fun cb => { cb with collision_start_time := 0 }))).cb.sec_dev_rec.length := by
    rw [hr1']; exact hp
  have hidev : (authCompleteIdle K w p).dev p
      = { w.dev p with sm4 := andNot8 (w.dev p).sm4 K.BTM_SM4_RETRY,
                       sec_state := SecState.IDLE } := by
    unfold authCompleteIdle
    rw [dev_setDev_lt _ _ _ (by rw [length_setDev]; exact hp1), dev_setDev_lt _ _ _ hp1, hdev1]
  have hilen : p < (authCompleteIdle K w p).cb.sec_dev_rec.length := by
    unfold authCompleteIdle
    rw [length_setDev, length_setDev]
    exact hp1
  have hrdev : (authCompleteRetry K (authCompleteIdle K w p) p).dev p
      = { w.dev p with
          sm4 := u8 (andNot8 (w.dev p).sm4 K.BTM_SM4_RETRY ||| K.BTM_SM4_RETRY),
          sec_flags := andNot16 (w.dev p).sec_flags K.BTM_SEC_LINK_KEY_KNOWN,
          sec_state := SecState.IDLE } := by
    unfold authCompleteRetry
    rw [dev_setDev_lt _ _ _ hilen, hidev]
  constructor
  · intro hs1 hs2 hs3 hs4 hretry hsm4
    have hold : ((w.dev p).sm4 &&& K.BTM_SM4_RETRY == 0) = true := by
      rw [beq_iff_eq]
      exact (tst_eq_false_iff _ _).1 hretry
    have hset : tst ((authCompleteRetry K (authCompleteIdle K w p) p).dev p).sm4
        K.BTM_SM4_RETRY = true := by
      rw [hrdev]
      exact tst_u8_or_self _ _ hR0 hR8
    refine ⟨?_, hset, ?_, ?_, rfl⟩
    · rw [auth_complete_idle K E w handle _ p hfind hidle hflags hstate hs1 hs2 hs3]
      unfold authCompleteFinish
      simp only [bne_iff_ne, ne_eq, hs4, not_false_eq_true, if_true, hold,
        beq_eq_false_iff_ne.2 hs1, Bool.false_eq_true, if_false, beq_self_eq_true,
        Bool.true_and, hidev, hsm4]
      have hset' := hset
      unfold authCompleteRetry at hset'
      simp only [hset', if_true]
      rfl
    · rw [hrdev]
      exact tst_andNot16_sub _ _ _ (Nat.and_self _)
    · rw [hrdev]
  · intro status hs1 hs2 hs3 hs4 hretry
    have hold : ((w.dev p).sm4 &&& K.BTM_SM4_RETRY == 0) = false := by
      rw [beq_eq_false_iff_ne]
      intro h
      rw [(tst_eq_false_iff _ _).2 h] at hretry
      exact Bool.false_ne_true hretry
    refine ⟨?_, rfl, ?_, ?_⟩
    · rw [auth_complete_idle K E w handle _ p hfind hidle hflags hstate hs1 hs2 hs3]
      unfold authCompleteFinish authCompleteFailed
      simp only [bne_iff_ne, ne_eq, hs4, not_false_eq_true, if_true, hold,
        Bool.false_eq_true, if_false, Bool.false_and]
    · rw [hidev]
      exact tst_andNot8_self _ _
    · intro c hc
      unfold devRecCallback
      simp only [hidev, hc, Bool.false_eq_true, if_false]
      rw [dev_setDev_lt _ _ _ hilen, hidev]

/-- The single retry at concrete inputs. The device of `traceRequestedSm4` supports
Simple Pairing and has made no retry: a key-missing event (0x06) on handle 1 leaves the
world of the single run of `btm_sec_execute_procedure`, which sends a second
authentication request. The device of `traceRequestedRetried` has made its retry: an
authentication-failure event (0x05) gives `BTM_ERR_PROCESSING` to the stored
callback 7. -/
theorem auth_complete_single_retry_example :
    (btm_sec_auth_complete stdHdr traceEnv traceRequestedSm4 1 stdHdr.HCI_ERR_KEY_MISSING
        = (btm_sec_execute_procedure stdHdr traceEnv
            (authCompleteRetry stdHdr (authCompleteIdle stdHdr traceRequestedSm4 0) 0) 0).2 ∧
      (btm_sec_auth_complete stdHdr traceEnv traceRequestedSm4 1
          stdHdr.HCI_ERR_KEY_MISSING).out
        = [Event.btsnd_hcic_auth_request 1, Event.btsnd_hcic_auth_request 1]) ∧
    (btm_sec_auth_complete stdHdr traceEnv traceRequestedRetried 1 0x05
        = authCompleteFailed stdHdr traceEnv
            (btm_sec_dev_rec_cback_event stdHdr traceEnv
              (authCompleteIdle stdHdr traceRequestedRetried 0) 0
              tBTM_STATUS.BTM_ERR_PROCESSING false) 0 ∧
      (btm_sec_auth_complete stdHdr traceEnv traceRequestedRetried 1 0x05).out
        = [Event.btsnd_hcic_auth_request 1,
           Event.sec_callback 7 [0x00, 0x1A, 0x7D, 0xDA, 0x71, 0x13] 1 42
             tBTM_STATUS.BTM_ERR_PROCESSING]) :=
  ⟨⟨((auth_complete_single_retry stdHdr traceEnv traceRequestedSm4 1 0 (by decide) (by decide)
        (by decide) (by decide) (by decide) (by decide)).1 (by decide) (by decide) (by decide)
        (by decide) (by decide) (by decide)).1, by decide⟩,
   ⟨((auth_complete_single_retry stdHdr traceEnv traceRequestedRetried 1 0 (by decide) (by decide)
        (by decide) (by decide) (by decide) (by decide)).2 0x05 (by decide) (by decide)
        (by decide) (by decide) (by decide)).1, by decide⟩⟩

/-! ## The PIN length stored by a refused reply -/

/-- C37 at the failing input. The local PIN of device 00:1A:7D:DA:71:13 is awaited
and `BTM_PINCodeReply` is called for it with a PIN of 17 bytes: the length is found
illegal (`PIN_CODE_LEN` is 16) and the request is answered negatively, but
`pin_key_len` of the device record, 0 before the call, is 17 after it. The test
`pin_key_len < 16` of the high-security step then takes the PIN for a long one. -/
theorem C37_refused_pin_length_stored :
    stdHdr.PIN_CODE_LEN = 16 ∧
    exampleWorldPairing.cb.pairing_state = tBTM_PAIRING_STATE.BTM_PAIR_STATE_WAIT_LOCAL_PIN ∧
    (exampleWorldPairing.dev 0).pin_key_len = 0 ∧
    ((BTM_PINCodeReply stdHdr exampleEnv exampleWorldPairing
        [0x00, 0x1A, 0x7D, 0xDA, 0x71, 0x13] tBTM_STATUS.BTM_SUCCESS 17
        (some (List.replicate 17 0x31)) none).dev 0).pin_key_len = 17 ∧
    (BTM_PINCodeReply stdHdr exampleEnv exampleWorldPairing
        [0x00, 0x1A, 0x7D, 0xDA, 0x71, 0x13] tBTM_STATUS.BTM_SUCCESS 17
        (some (List.replicate 17 0x31)) none).out
      = [Event.btu_start_timer Timer.pairing_tle stdHdr.BTM_SEC_TIMEOUT_VALUE,
         Event.btsnd_hcic_pin_code_neg_reply [0x00, 0x1A, 0x7D, 0xDA, 0x71, 0x13]] ∧
    decide (((BTM_PINCodeReply stdHdr exampleEnv exampleWorldPairing
        [0x00, 0x1A, 0x7D, 0xDA, 0x71, 0x13] tBTM_STATUS.BTM_SUCCESS 17
        (some (List.replicate 17 0x31)) none).dev 0).pin_key_len < 16) = false := by
  decide

/-! ## The cached outgoing service after its removal -/

/-- C38 at the failing input, reached through entry points only: start-up,
registration of an outgoing service on PSM 3 with service id 7 (which makes it the
cached outgoing service), and removal of service id 7 by `BTM_SecClrService`. The
record is cleared (flags 0, not in use) but `p_out_serv` still points to it, and
`btm_sec_find_first_serv` for an originator on PSM 3 returns it. An outgoing access
request on PSM 3 is then granted at once with no security, while an incoming one, and
an outgoing one before any registration, are refused with `BTM_MODE_UNSUPPORTED`. -/
theorem C38_cleared_service_returned :
    (traceRegistered.BTM_SecClrService stdHdr 7).1 = 1 ∧
    traceCleared.cb.p_out_serv = some 0 ∧
    tst (traceCleared.serv stdHdr 0).security_flags stdHdr.BTM_SEC_IN_USE = false ∧
    (traceCleared.serv stdHdr 0).security_flags = 0 ∧
    btm_sec_find_first_serv stdHdr traceCleared.cb CONN_ORIENT_ORIG 3 = some 0 ∧
    btm_sec_find_first_serv stdHdr traceCleared.cb CONN_ORIENT_TERM 3 = none ∧
    (btm_sec_l2cap_access_req stdHdr traceEnv traceCleared
        [0x00, 0x1A, 0x7D, 0xDA, 0x71, 0x13] 3 1 CONN_ORIENT_ORIG (some 7) 42).1
      = tBTM_STATUS.BTM_SUCCESS ∧
    (btm_sec_l2cap_access_req stdHdr traceEnv traceCleared
        [0x00, 0x1A, 0x7D, 0xDA, 0x71, 0x13] 3 1 CONN_ORIENT_ORIG (some 7) 42).2.out
      = [Event.sec_callback 7 [0x00, 0x1A, 0x7D, 0xDA, 0x71, 0x13] 0 42
          tBTM_STATUS.BTM_SUCCESS] ∧
    (btm_sec_l2cap_access_req stdHdr traceEnv traceCleared
        [0x00, 0x1A, 0x7D, 0xDA, 0x71, 0x13] 3 1 CONN_ORIENT_TERM (some 7) 42).1
      = tBTM_STATUS.BTM_MODE_UNSUPPORTED ∧
    (btm_sec_l2cap_access_req stdHdr traceEnv traceStart
        [0x00, 0x1A, 0x7D, 0xDA, 0x71, 0x13] 3 1 CONN_ORIENT_ORIG (some 7) 42).1
      = tBTM_STATUS.BTM_MODE_UNSUPPORTED := by
  decide

/-! ## Abort of an access request -/

theorem dev_setDev_ne (w : World) (p q : Nat) (f : tBTM_SEC_DEV_REC → tBTM_SEC_DEV_REC)
    (h : q ≠ p) : (w.setDev p f).dev q = w.dev q := by
  unfold World.setDev World.dev
  simp only [List.getD_eq_getElem?_getD]
  rw [List.getElem?_set_ne (Ne.symm h)]

/-- C35: `btm_sec_abort_access_req`. For an unknown address the world is left as it
was. For a known device the only call made is the application's abort callback, if one
is registered: no disconnect and no other controller command is issued. When the
device is being authorized or authenticated, its `sec_state` becomes idle and its
callback slot is emptied, and nothing else changes in the control block. For every
other `sec_state` the control block, with `sec_state` and the callback slot of every
device, is left as it was. -/
theorem C35_abort_access_req (K : Hdr) (w : World) (bd_addr : BD_ADDR) :
    (btm_find_dev K w.cb bd_addr = none → btm_sec_abort_access_req K w bd_addr = w) ∧
    (∀ p : Nat, btm_find_dev K w.cb bd_addr = some p →
      (btm_sec_abort_access_req K w bd_addr).out = w.out ++ abortCalls w bd_addr ∧
      (∀ e ∈ abortCalls w bd_addr, e.isControllerCommand = false) ∧
      (((w.dev p).sec_state = SecState.AUTHORIZING ∨
          (w.dev p).sec_state = SecState.AUTHENTICATING) →
        ((btm_sec_abort_access_req K w bd_addr).dev p).sec_state = SecState.IDLE ∧
        ((btm_sec_abort_access_req K w bd_addr).dev p).p_callback = none ∧
        (btm_sec_abort_access_req K w bd_addr).cb
          = (w.setDev p (fun r =>
              { r with sec_state := SecState.IDLE, p_callback := none })).cb ∧
        ∀ q : Nat, q ≠ p → (btm_sec_abort_access_req K w bd_addr).dev q = w.dev q) ∧
      ((w.dev p).sec_state ≠ SecState.AUTHORIZING →
        (w.dev p).sec_state ≠ SecState.AUTHENTICATING →
        (btm_sec_abort_access_req K w bd_addr).cb = w.cb)) := by
  constructor
  · intro h
    unfold btm_sec_abort_access_req
    rw [h]
  · intro p hp
    have hlt : p < w.cb.sec_dev_rec.length := findIdx_lt _ _ _ hp
    have hcalls : ∀ e ∈ abortCalls w bd_addr, e.isControllerCommand = false := by
      intro e he
      unfold abortCalls at he
      split_ifs at he
      · rw [List.mem_singleton.1 he]
        rfl
      · cases he
    by_cases hst : (w.dev p).sec_state = SecState.AUTHORIZING ∨
        (w.dev p).sec_state = SecState.AUTHENTICATING
    · have hres : btm_sec_abort_access_req K w bd_addr
          = { cb := (w.setDev p (fun r =>
                { r with sec_state := SecState.IDLE, p_callback := none })).cb,
              out := w.out ++ abortCalls w bd_addr } := by
        unfold btm_sec_abort_access_req abortCalls
        rw [hp]
        cases hc : w.cb.api.p_abort_callback <;> rcases hst with h | h <;>
          simp only [if_true, if_false, Bool.false_eq_true, dev_emit, h, ne_eq,
            not_true_eq_false, decide_False, decide_True, decide_not, Bool.not_true,
            Bool.false_and, Bool.and_false, reduceCtorEq, not_false_eq_true, Bool.not_false,
            Bool.and_true, Bool.and_self, List.append_nil] <;> rfl
      refine ⟨by rw [hres], hcalls, ?_, ?_⟩
      · intro _
        have hdev : ∀ q, (btm_sec_abort_access_req K w bd_addr).dev q
            = (w.setDev p (fun r =>
                { r with sec_state := SecState.IDLE, p_callback := none })).dev q := by
          intro q
          rw [hres]
          rfl
        refine ⟨?_, ?_, by rw [hres], ?_⟩
        · rw [hdev, dev_setDev_lt _ _ _ hlt]
        · rw [hdev, dev_setDev_lt _ _ _ hlt]
        · intro q hq
          rw [hdev, dev_setDev_ne _ _ _ _ hq]
      · intro h1 h2
        rcases hst with h | h
        · exact absurd h h1
        · exact absurd h h2
    · have h1 : (w.dev p).sec_state ≠ SecState.AUTHORIZING := fun h => hst (Or.inl h)
      have h2 : (w.dev p).sec_state ≠ SecState.AUTHENTICATING := fun h => hst (Or.inr h)
      have hres : btm_sec_abort_access_req K w bd_addr
          = { cb := w.cb, out := w.out ++ abortCalls w bd_addr } := by
        unfold btm_sec_abort_access_req abortCalls
        rw [hp]
        cases hc : w.cb.api.p_abort_callback <;>
          (simp only [if_true, if_false, Bool.false_eq_true, dev_emit, h1, h2, ne_eq,
            not_false_eq_true, decide_True, Bool.and_self, List.append_nil]; try rfl)
      refine ⟨by rw [hres], hcalls, ?_, ?_⟩
      · intro h
        exact absurd h hst
      · intro _ _
        rw [hres]

/-- C35 at concrete inputs: an unknown address, the example device while it is being
authenticated, and the example device while idle. -/
theorem C35_abort_access_req_witness :
    btm_sec_abort_access_req stdHdr exampleWorldAuthenticating
        [0x11, 0x22, 0x33, 0x44, 0x55, 0x66] = exampleWorldAuthenticating ∧
    (((btm_sec_abort_access_req stdHdr exampleWorldAuthenticating
          [0x00, 0x1A, 0x7D, 0xDA, 0x71, 0x13]).dev 0).sec_state = SecState.IDLE ∧
      ((btm_sec_abort_access_req stdHdr exampleWorldAuthenticating
          [0x00, 0x1A, 0x7D, 0xDA, 0x71, 0x13]).dev 0).p_callback = none) ∧
    (btm_sec_abort_access_req stdHdr exampleWorldAuthenticating
        [0x00, 0x1A, 0x7D, 0xDA, 0x71, 0x13]).out
      = exampleWorldAuthenticating.out
        ++ abortCalls exampleWorldAuthenticating [0x00, 0x1A, 0x7D, 0xDA, 0x71, 0x13] ∧
    (btm_sec_abort_access_req stdHdr exampleWorld
        [0x00, 0x1A, 0x7D, 0xDA, 0x71, 0x13]).cb = exampleWorld.cb :=
  ⟨(C35_abort_access_req stdHdr exampleWorldAuthenticating
      [0x11, 0x22, 0x33, 0x44, 0x55, 0x66]).1 (by decide),
   ⟨(((C35_abort_access_req stdHdr exampleWorldAuthenticating
      [0x00, 0x1A, 0x7D, 0xDA, 0x71, 0x13]).2 0 (by decide)).2.2.1
      (Or.inr (by decide))).1,
    (((C35_abort_access_req stdHdr exampleWorldAuthenticating
      [0x00, 0x1A, 0x7D, 0xDA, 0x71, 0x13]).2 0 (by decide)).2.2.1
      (Or.inr (by decide))).2.1⟩,
   ((C35_abort_access_req stdHdr exampleWorldAuthenticating
      [0x00, 0x1A, 0x7D, 0xDA, 0x71, 0x13]).2 0 (by decide)).1,
   ((C35_abort_access_req stdHdr exampleWorld
      [0x00, 0x1A, 0x7D, 0xDA, 0x71, 0x13]).2 0 (by decide)).2.2.2 (by decide) (by decide)⟩

/-! ## The collision window -/

/-- C32: `btm_sec_auth_collision`. The collision start time is written only when none
is recorded: a non-zero start time is left as it is, a zero one becomes the tick count
of the call. When the ticks elapsed since the start time are not below
`max_collision_delay`, no call is made, so no timer is armed, and the device table and
the collided-device pointer are left as they were. When they are below it and a device
is found, the collision timer is armed (the only call made), the device becomes the
collided device, its `sec_state` becomes idle if it was authenticating or encrypting
and is kept otherwise, and no other device record is modified; when no device is
found, nothing but the start time changes. -/
theorem C32_auth_collision (K : Hdr) (E : Env) (w : World) (handle : Nat) :
    (btm_sec_auth_collision K E w handle).cb.collision_start_time = collisionStart E w.cb ∧
    (w.cb.collision_start_time ≠ 0 →
      (btm_sec_auth_collision K E w handle).cb.collision_start_time
        = w.cb.collision_start_time) ∧
    (¬ collisionElapsed E w.cb < w.cb.max_collision_delay →
      (btm_sec_auth_collision K E w handle).out = w.out ∧
      (btm_sec_auth_collision K E w handle).cb.sec_dev_rec = w.cb.sec_dev_rec ∧
      (btm_sec_auth_collision K E w handle).cb.p_collided_dev_rec
        = w.cb.p_collided_dev_rec) ∧
    (collisionElapsed E w.cb < w.cb.max_collision_delay →
      (collidedDevice K w.cb handle = none →
        (btm_sec_auth_collision K E w handle).out = w.out ∧
        (btm_sec_auth_collision K E w handle).cb.sec_dev_rec = w.cb.sec_dev_rec ∧
        (btm_sec_auth_collision K E w handle).cb.p_collided_dev_rec
          = w.cb.p_collided_dev_rec) ∧
      (∀ p : Nat, collidedDevice K w.cb handle = some p →
        (btm_sec_auth_collision K E w handle).out
          = w.out ++ [Event.btu_start_timer Timer.sec_collision_tle K.BT_1SEC_TIMEOUT] ∧
        (btm_sec_auth_collision K E w handle).cb.p_collided_dev_rec = some p ∧
        (p < w.cb.sec_dev_rec.length →
          (btm_sec_auth_collision K E w handle).dev p
            = { w.dev p with
                sec_state :=
                  if (w.dev p).sec_state = SecState.AUTHENTICATING
                      ∨ (w.dev p).sec_state = SecState.ENCRYPTING
                  then SecState.IDLE else (w.dev p).sec_state }) ∧
        ∀ q : Nat, q ≠ p → (btm_sec_auth_collision K E w handle).dev q = w.dev q)) := by
  have hfind : ∀ t : Nat,
      (if handle == K.BTM_SEC_INVALID_HANDLE then
        match btm_sec_find_dev_by_sec_state K
            (w.setCb (fun cb => { cb with collision_start_time := t })).cb
            SecState.AUTHENTICATING with
        | some p => some p
        | none => btm_sec_find_dev_by_sec_state K
            (w.setCb (fun cb => { cb with collision_start_time := t })).cb SecState.ENCRYPTING
      else btm_find_dev_by_handle K
        (w.setCb (fun cb => { cb with collision_start_time := t })).cb handle)
      = collidedDevice K w.cb handle := fun _ => rfl
  have hmain : ∀ w1 : World, w1.cb.sec_dev_rec = w.cb.sec_dev_rec → w1.out = w.out →
      w1.cb.p_collided_dev_rec = w.cb.p_collided_dev_rec →
      w1.cb.collision_start_time = collisionStart E w.cb →
      w1.cb.max_collision_delay = w.cb.max_collision_delay →
      (if handle == K.BTM_SEC_INVALID_HANDLE then
        match btm_sec_find_dev_by_sec_state K w1.cb SecState.AUTHENTICATING with
        | some p => some p
        | none => btm_sec_find_dev_by_sec_state K w1.cb SecState.ENCRYPTING
      else btm_find_dev_by_handle K w1.cb handle) = collidedDevice K w.cb handle →
      btm_sec_auth_collision K E w handle
        = (if (E.GKI_get_tick_count + 2 ^ 32 - w1.cb.collision_start_time) % 2 ^ 32
              < w1.cb.max_collision_delay then
            match collidedDevice K w.cb handle with
            | some p =>
              ((if (w1.dev p).sec_state == SecState.AUTHENTICATING
                    || (w1.dev p).sec_state == SecState.ENCRYPTING then
                  w1.setDev p (fun r => { r with sec_state := SecState.IDLE })
                else w1).setCb (fun cb => { cb with p_collided_dev_rec := some p })).emit
                (Event.btu_start_timer Timer.sec_collision_tle K.BT_1SEC_TIMEOUT)
            | none => w1
          else w1) →
      (btm_sec_auth_collision K E w handle).cb.collision_start_time = collisionStart E w.cb ∧
      (¬ collisionElapsed E w.cb < w.cb.max_collision_delay →
        (btm_sec_auth_collision K E w handle).out = w.out ∧
        (btm_sec_auth_collision K E w handle).cb.sec_dev_rec = w.cb.sec_dev_rec ∧
        (btm_sec_auth_collision K E w handle).cb.p_collided_dev_rec
          = w.cb.p_collided_dev_rec) ∧
      (collisionElapsed E w.cb < w.cb.max_collision_delay →
        (collidedDevice K w.cb handle = none →
          (btm_sec_auth_collision K E w handle).out = w.out ∧
          (btm_sec_auth_collision K E w handle).cb.sec_dev_rec = w.cb.sec_dev_rec ∧
          (btm_sec_auth_collision K E w handle).cb.p_collided_dev_rec
            = w.cb.p_collided_dev_rec) ∧
        (∀ p : Nat, collidedDevice K w.cb handle = some p →
          (btm_sec_auth_collision K E w handle).out
            = w.out ++ [Event.btu_start_timer Timer.sec_collision_tle K.BT_1SEC_TIMEOUT] ∧
          (btm_sec_auth_collision K E w handle).cb.p_collided_dev_rec = some p ∧
          (p < w.cb.sec_dev_rec.length →
            (btm_sec_auth_collision K E w handle).dev p
              = { w.dev p with
                  sec_state :=
                    if (w.dev p).sec_state = SecState.AUTHENTICATING
                        ∨ (w.dev p).sec_state = SecState.ENCRYPTING
                    then SecState.IDLE else (w.dev p).sec_state }) ∧
          ∀ q : Nat, q ≠ p → (btm_sec_auth_collision K E w handle).dev q = w.dev q)) := by
    intro w1 hrec hout hcol hstart hmax _ hres
    have hdev : ∀ q, w1.dev q = w.dev q := by
      intro q
      unfold World.dev
      rw [hrec]
    have hel : (E.GKI_get_tick_count + 2 ^ 32 - w1.cb.collision_start_time) % 2 ^ 32
        = collisionElapsed E w.cb := by
      unfold collisionElapsed
      rw [hstart]
    rw [hel, hmax] at hres
    refine ⟨?_, ?_, ?_⟩
    · rw [hres]
      split_ifs
      · split
        · split_ifs <;> exact hstart
        · exact hstart
      · exact hstart
    · intro hno
      rw [hres, if_neg hno]
      exact ⟨hout, hrec, hcol⟩
    · intro hin
      rw [hres, if_pos hin]
      constructor
      · intro hnone
        rw [hnone]
        exact ⟨hout, hrec, hcol⟩
      · intro p hp
        rw [hp]
        simp only
        refine ⟨?_, ?_, ?_, ?_⟩
        · split_ifs <;> simp [World.emit, World.setCb, World.setDev, hout]
        · split_ifs <;> rfl
        · intro hlt
          have hlt1 : p < w1.cb.sec_dev_rec.length := by rw [hrec]; exact hlt
          rw [hdev]
          by_cases hs : (w.dev p).sec_state = SecState.AUTHENTICATING
              ∨ (w.dev p).sec_state = SecState.ENCRYPTING
          · have hb : ((w.dev p).sec_state == SecState.AUTHENTICATING
                || (w.dev p).sec_state == SecState.ENCRYPTING) = true := by
              rcases hs with h | h <;> simp [h]
            rw [if_pos hb, if_pos hs]
            show (w1.setDev p (fun r => { r with sec_state := SecState.IDLE })).dev p = _
            rw [dev_setDev_lt _ _ _ hlt1, hdev]
          · have hb : ((w.dev p).sec_state == SecState.AUTHENTICATING
                || (w.dev p).sec_state == SecState.ENCRYPTING) = false := by
              cases hb : ((w.dev p).sec_state == SecState.AUTHENTICATING
                || (w.dev p).sec_state == SecState.ENCRYPTING)
              · rfl
              · simp at hb
                exact absurd hb hs
            rw [hb, if_neg hs]
            show w1.dev p = _
            rw [hdev]
        · intro q hq
          split_ifs
          · show (w1.setDev p (fun r => { r with sec_state := SecState.IDLE })).dev q = _
            rw [dev_setDev_ne _ _ _ _ hq, hdev]
          · show w1.dev q = _
            rw [hdev]
  by_cases h0 : w.cb.collision_start_time = 0
  · have hb : (w.cb.collision_start_time == 0) = true := by simp [h0]
    have hcs : collisionStart E w.cb = E.GKI_get_tick_count := by
      unfold collisionStart
      rw [if_pos hb]
    have := hmain (w.setCb (fun cb => { cb with collision_start_time := E.GKI_get_tick_count }))
      rfl rfl rfl hcs.symm rfl (hfind _)
      (by
        unfold btm_sec_auth_collision
        simp only [hb, if_true]
        rw [hfind])
    exact ⟨this.1, fun hne => absurd h0 hne, this.2.1, this.2.2⟩
  · have hb : (w.cb.collision_start_time == 0) = false := by simp [h0]
    have hcs : collisionStart E w.cb = w.cb.collision_start_time := by
      unfold collisionStart
      rw [hb]
      rfl
    have := hmain w rfl rfl rfl hcs.symm rfl rfl
      (by
        unfold btm_sec_auth_collision
        simp only [hb, Bool.false_eq_true, if_false]
        rfl)
    exact ⟨this.1, fun _ => this.1.trans hcs, this.2.1, this.2.2⟩

/-- C32 at concrete inputs. A collision was recorded at tick 100 and the call comes at
tick 1000. With a window of 5000 ticks the start time stays 100, the collision timer is
armed and the authenticating device of handle 1 becomes idle. With a window of 500
ticks no call is made and the device table is left as it was. -/
theorem C32_auth_collision_witness :
    (btm_sec_auth_collision stdHdr traceEnv traceRequestedInWindow 1).cb.collision_start_time
      = 100 ∧
    (btm_sec_auth_collision stdHdr traceEnv traceRequestedInWindow 1).out
      = traceRequestedInWindow.out
        ++ [Event.btu_start_timer Timer.sec_collision_tle stdHdr.BT_1SEC_TIMEOUT] ∧
    (btm_sec_auth_collision stdHdr traceEnv traceRequestedInWindow 1).dev 0
      = { traceRequestedInWindow.dev 0 with
          sec_state :=
            if (traceRequestedInWindow.dev 0).sec_state = SecState.AUTHENTICATING
                ∨ (traceRequestedInWindow.dev 0).sec_state = SecState.ENCRYPTING
            then SecState.IDLE else (traceRequestedInWindow.dev 0).sec_state } ∧
    ((btm_sec_auth_collision stdHdr traceEnv traceRequestedLate 1).out
        = traceRequestedLate.out ∧
      (btm_sec_auth_collision stdHdr traceEnv traceRequestedLate 1).cb.sec_dev_rec
        = traceRequestedLate.cb.sec_dev_rec ∧
      (btm_sec_auth_collision stdHdr traceEnv traceRequestedLate 1).cb.p_collided_dev_rec
        = traceRequestedLate.cb.p_collided_dev_rec) :=
  ⟨(C32_auth_collision stdHdr traceEnv traceRequestedInWindow 1).2.1 (by decide),
   (((C32_auth_collision stdHdr traceEnv traceRequestedInWindow 1).2.2.2 (by decide)).2 0
      (by decide)).1,
   (((C32_auth_collision stdHdr traceEnv traceRequestedInWindow 1).2.2.2 (by decide)).2 0
      (by decide)).2.2.1 (by decide),
   (C32_auth_collision stdHdr traceEnv traceRequestedLate 1).2.2.1 (by decide)⟩

/-! ## The requirement bits after a success -/

/-- C31 as stated fails. The device owes authorization as acceptor
(`security_required` 0x01) and the application grants it at once:
`btm_sec_execute_procedure` returns `BTM_SUCCESS`, the answer of the authorization
step, and `security_required` is still 0x01. A second call finds the device authorized,
clears the bits and returns `BTM_SUCCESS` again. -/
theorem C31_counterexample :
    (btm_sec_execute_procedure stdHdr exampleEnv exampleWorldOwesAuthorization 0).1
      = tBTM_STATUS.BTM_SUCCESS ∧
    ((btm_sec_execute_procedure stdHdr exampleEnv exampleWorldOwesAuthorization 0).2.dev
        0).security_required = 0x01 ∧
    tst ((btm_sec_execute_procedure stdHdr exampleEnv exampleWorldOwesAuthorization 0).2.dev
        0).security_required stdHdr.BTM_SEC_IN_AUTHORIZE = true ∧
    (btm_sec_execute_procedure stdHdr exampleEnv
        (btm_sec_execute_procedure stdHdr exampleEnv exampleWorldOwesAuthorization 0).2 0).1
      = tBTM_STATUS.BTM_SUCCESS ∧
    ((btm_sec_execute_procedure stdHdr exampleEnv
        (btm_sec_execute_procedure stdHdr exampleEnv exampleWorldOwesAuthorization 0).2 0).2.dev
        0).security_required = 0 := by
  decide

/-- Each of the six requirement bits is part of the mask cleared on success. -/
theorem satisfiedMask_contains (K : Hdr) :
    satisfiedMask K &&& K.BTM_SEC_OUT_AUTHORIZE = K.BTM_SEC_OUT_AUTHORIZE ∧
    satisfiedMask K &&& K.BTM_SEC_IN_AUTHORIZE = K.BTM_SEC_IN_AUTHORIZE ∧
    satisfiedMask K &&& K.BTM_SEC_OUT_AUTHENTICATE = K.BTM_SEC_OUT_AUTHENTICATE ∧
    satisfiedMask K &&& K.BTM_SEC_IN_AUTHENTICATE = K.BTM_SEC_IN_AUTHENTICATE ∧
    satisfiedMask K &&& K.BTM_SEC_OUT_ENCRYPT = K.BTM_SEC_OUT_ENCRYPT ∧
    satisfiedMask K &&& K.BTM_SEC_IN_ENCRYPT = K.BTM_SEC_IN_ENCRYPT := by
  unfold satisfiedMask
  refine ⟨?_, ?_, ?_, ?_, ?_, ?_⟩ <;>
    (apply (and_eq_right_iff _ _).2
     intro i hi
     simp [Nat.testBit_or, hi])

/-- The authorization step leaves `security_required` of the device as it was. -/
theorem start_authorization_required (K : Hdr) (E : Env) (w : World) (p : Nat)
    (hp : p < w.cb.sec_dev_rec.length) :
    ((btm_sec_start_authorization K E w p).2.dev p).security_required
      = (w.dev p).security_required := by
  unfold btm_sec_start_authorization btm_sec_start_get_name
  simp only
  split_ifs <;>
    simp only [dev_setDev_same, dev_emit, length_setDev, cb_emit, hp, if_true]

/-- C31, amended. Whenever `btm_sec_execute_procedure` returns `BTM_SUCCESS` for a
device record of the table, one of two things has happened. Either the function has
reached its last step: `security_required` is its former value without the bits of the
mask cleared there, so that it contains none of the authorize, authenticate and encrypt
bits of either direction. Or the success is the answer of the authorization step: the
device was not authorized and owed authorization for its direction, and
`security_required` is left as it was. -/
theorem C31_success_clears_or_authorized (K : Hdr) (E : Env) (w : World) (p : Nat)
    (hp : p < w.cb.sec_dev_rec.length)
    (h : (btm_sec_execute_procedure K E w p).1 = tBTM_STATUS.BTM_SUCCESS) :
    (((btm_sec_execute_procedure K E w p).2.dev p).security_required
        = andNot16 (w.dev p).security_required (satisfiedMask K) ∧
      tst ((btm_sec_execute_procedure K E w p).2.dev p).security_required
        K.BTM_SEC_OUT_AUTHORIZE = false ∧
      tst ((btm_sec_execute_procedure K E w p).2.dev p).security_required
        K.BTM_SEC_IN_AUTHORIZE = false ∧
      tst ((btm_sec_execute_procedure K E w p).2.dev p).security_required
        K.BTM_SEC_OUT_AUTHENTICATE = false ∧
      tst ((btm_sec_execute_procedure K E w p).2.dev p).security_required
        K.BTM_SEC_IN_AUTHENTICATE = false ∧
      tst ((btm_sec_execute_procedure K E w p).2.dev p).security_required
        K.BTM_SEC_OUT_ENCRYPT = false ∧
      tst ((btm_sec_execute_procedure K E w p).2.dev p).security_required
        K.BTM_SEC_IN_ENCRYPT = false) ∨
    (tst (w.dev p).sec_flags K.BTM_SEC_AUTHORIZED = false ∧
      tst (w.dev p).security_required (authorizeBit K (w.dev p).is_originator) = true ∧
      ((btm_sec_execute_procedure K E w p).2.dev p).security_required
        = (w.dev p).security_required) := by
  have hmask := satisfiedMask_contains K
  have hgranted : ∀ w0 : World, w0.cb.sec_dev_rec = w.cb.sec_dev_rec →
      ((w0.setDev p (fun r =>
          { r with security_required := andNot16 r.security_required (satisfiedMask K) })).dev
          p).security_required
        = andNot16 (w.dev p).security_required (satisfiedMask K) := by
    intro w0 h0
    have hlt : p < w0.cb.sec_dev_rec.length := by rw [h0]; exact hp
    have hd : w0.dev p = w.dev p := by unfold World.dev; rw [h0]
    rw [dev_setDev_lt _ _ _ hlt, hd]
  have hleft : ∀ x : Nat, x = andNot16 (w.dev p).security_required (satisfiedMask K) →
      x = andNot16 (w.dev p).security_required (satisfiedMask K) ∧
      tst x K.BTM_SEC_OUT_AUTHORIZE = false ∧ tst x K.BTM_SEC_IN_AUTHORIZE = false ∧
      tst x K.BTM_SEC_OUT_AUTHENTICATE = false ∧ tst x K.BTM_SEC_IN_AUTHENTICATE = false ∧
      tst x K.BTM_SEC_OUT_ENCRYPT = false ∧ tst x K.BTM_SEC_IN_ENCRYPT = false := by
    intro x hx
    subst hx
    exact ⟨rfl, tst_andNot16_sub _ _ _ hmask.1, tst_andNot16_sub _ _ _ hmask.2.1,
      tst_andNot16_sub _ _ _ hmask.2.2.1, tst_andNot16_sub _ _ _ hmask.2.2.2.1,
      tst_andNot16_sub _ _ _ hmask.2.2.2.2.1, tst_andNot16_sub _ _ _ hmask.2.2.2.2.2⟩
  unfold btm_sec_execute_procedure at h ⊢
  simp only at h ⊢
  split_ifs at h ⊢ with c1 c2 c3 c4 c5 c6 c7 c8 c9
  unfold executeAuthorize at h ⊢
  simp only at h ⊢
  split_ifs at h ⊢ with a1 a2 a3
  · right
    have ha : tst (w.dev p).sec_flags K.BTM_SEC_AUTHORIZED = false ∧
        tst (w.dev p).security_required (authorizeBit K (w.dev p).is_originator) = true := by
      unfold authorizeBit
      cases ho : (w.dev p).is_originator <;> simp [ho] at a1 ⊢ <;> exact a1
    refine ⟨ha.1, ha.2, ?_⟩
    cases hs : (w.dev p).p_cur_service with
    | none =>
      simp only [World.derefService]
      rw [start_authorization_required K E _ p (by exact hp)]
      rfl
    | some s =>
      simp only [World.derefService]
      exact start_authorization_required K E w p hp
  · left
    apply hleft
    cases hs : (w.dev p).p_cur_service with
    | none => exact hgranted _ rfl
    | some s => exact hgranted _ rfl
  · left
    exact hleft _ (hgranted w rfl)
  · left
    exact hleft _ (hgranted w rfl)

/-- C31 at concrete inputs: the example device with nothing owed reaches the last
step; the example device owing authorization gets the answer of the authorization
step. -/
theorem C31_success_clears_or_authorized_witness :
    ((((btm_sec_execute_procedure stdHdr exampleEnv exampleWorld 0).2.dev 0).security_required
        = andNot16 (exampleWorld.dev 0).security_required (satisfiedMask stdHdr) ∧
      tst ((btm_sec_execute_procedure stdHdr exampleEnv exampleWorld 0).2.dev
        0).security_required stdHdr.BTM_SEC_OUT_AUTHORIZE = false ∧
      tst ((btm_sec_execute_procedure stdHdr exampleEnv exampleWorld 0).2.dev
        0).security_required stdHdr.BTM_SEC_IN_AUTHORIZE = false ∧
      tst ((btm_sec_execute_procedure stdHdr exampleEnv exampleWorld 0).2.dev
        0).security_required stdHdr.BTM_SEC_OUT_AUTHENTICATE = false ∧
      tst ((btm_sec_execute_procedure stdHdr exampleEnv exampleWorld 0).2.dev
        0).security_required stdHdr.BTM_SEC_IN_AUTHENTICATE = false ∧
      tst ((btm_sec_execute_procedure stdHdr exampleEnv exampleWorld 0).2.dev
        0).security_required stdHdr.BTM_SEC_OUT_ENCRYPT = false ∧
      tst ((btm_sec_execute_procedure stdHdr exampleEnv exampleWorld 0).2.dev
        0).security_required stdHdr.BTM_SEC_IN_ENCRYPT = false) ∨
    (tst (exampleWorld.dev 0).sec_flags stdHdr.BTM_SEC_AUTHORIZED = false ∧
      tst (exampleWorld.dev 0).security_required
        (authorizeBit stdHdr (exampleWorld.dev 0).is_originator) = true ∧
      ((btm_sec_execute_procedure stdHdr exampleEnv exampleWorld 0).2.dev 0).security_required
        = (exampleWorld.dev 0).security_required)) ∧
    (btm_sec_execute_procedure stdHdr exampleEnv exampleWorldOwesAuthorization 0).1
      = tBTM_STATUS.BTM_SUCCESS :=
  ⟨C31_success_clears_or_authorized stdHdr exampleEnv exampleWorld 0 (by decide) (by decide),
   by decide⟩

/-! ## The IO capability reply of a link-key upgrade -/

/-- C34 as stated fails. A link-key upgrade is pending on the device while a dedicated
bonding started locally waits for its PIN request (pairing flags 0x01):
`btm_io_capabilities_req` answers with the authentication requirement 3, dedicated
bonding with MITM protection, not with `BTM_AUTH_SPGB_YES` (5). With no pairing flag
set the reply carries 5. In both cases the upgrade bit (0x04) is cleared. -/
theorem C34_counterexample :
    tst (exampleWorldUpgradeBonding.dev 0).sm4 stdHdr.BTM_SM4_UPGRADE = true ∧
    stdHdr.BTM_AUTH_SPGB_YES = 5 ∧
    (btm_io_capabilities_req stdHdr exampleEnv exampleWorldUpgradeBonding
        [0x00, 0x1A, 0x7D, 0xDA, 0x71, 0x13]).out
      = [Event.l2c_pin_code_request [0x00, 0x1A, 0x7D, 0xDA, 0x71, 0x13],
         Event.btu_start_timer Timer.pairing_tle stdHdr.BTM_SEC_TIMEOUT_VALUE,
         Event.btsnd_hcic_io_cap_req_reply [0x00, 0x1A, 0x7D, 0xDA, 0x71, 0x13] 1 0 3] ∧
    tst ((btm_io_capabilities_req stdHdr exampleEnv exampleWorldUpgradeBonding
        [0x00, 0x1A, 0x7D, 0xDA, 0x71, 0x13]).dev 0).sm4 stdHdr.BTM_SM4_UPGRADE = false ∧
    (btm_io_capabilities_req stdHdr exampleEnv exampleWorldUpgrade
        [0x00, 0x1A, 0x7D, 0xDA, 0x71, 0x13]).out
      = [Event.l2c_pin_code_request [0x00, 0x1A, 0x7D, 0xDA, 0x71, 0x13],
         Event.l2cu_update_lcb_4_bonding [0x00, 0x1A, 0x7D, 0xDA, 0x71, 0x13] true,
         Event.btu_start_timer Timer.pairing_tle stdHdr.BTM_SEC_TIMEOUT_VALUE,
         Event.btsnd_hcic_io_cap_req_reply [0x00, 0x1A, 0x7D, 0xDA, 0x71, 0x13] 1 0 5] := by
  decide

theorem dev_setCb (w : World) (f : tBTM_CB → tBTM_CB) (p : Nat)
    (h : (f w.cb).sec_dev_rec = w.cb.sec_dev_rec) : (w.setCb f).dev p = w.dev p := by
  unfold World.dev World.setCb
  simp only [h]

theorem tst_u8_or_keep (x y m : Nat) (h8 : m < 2 ^ 8) (h : tst x m = true) :
    tst (u8 (x ||| y)) m = true := by
  obtain ⟨i, h1, h2⟩ := (tst_eq_true_iff _ _).1 h
  apply (tst_eq_true_iff _ _).2
  have hlt : i < 8 := by
    by_contra hge
    have : m < 2 ^ i := Nat.lt_of_lt_of_le h8 (Nat.pow_le_pow_right (by decide) (by omega))
    rw [Nat.testBit_lt_two_pow this] at h2
    exact Bool.false_ne_true h2
  refine ⟨i, ?_, h2⟩
  unfold u8
  rw [Nat.testBit_mod_two_pow, Nat.testBit_or, h1]
  simp [hlt]

/-- The outcome of the test of the pairing state does not depend on `sm4`. -/
theorem ioCapReqState_sm4 (K : Hdr) (w : World) (p : Nat) (bd_addr : BD_ADDR) (v : Nat → Nat) :
    ioCapReqState K (w.setDev p (fun r => { r with sm4 := v r.sm4 })) p bd_addr
      = ioCapReqState K w p bd_addr := by
  have hr : ((w.setDev p (fun r => { r with sm4 := v r.sm4 })).dev p).rmt_auth_req
      = (w.dev p).rmt_auth_req := by
    rw [dev_setDev_same]
    split_ifs with hlt
    · rfl
    · unfold World.dev
      rw [List.getD_eq_default _ _ (by omega)]
  unfold ioCapReqState
  rw [hr]
  rfl

/-- C34, amended. A link-key upgrade is pending on a known device and the IO capability
request for it is not refused (no error code from the test of the pairing state,
pairing not disabled). Then `btm_io_capabilities_req` does not ask the application: the
last call it makes is the IO capability reply for the address, carrying the local IO
capability, no OOB data and the authentication requirement `BTM_AUTH_SPGB_YES` when the
local device has not started a dedicated bonding, or dedicated bonding with the yes/no
bit of that value when it has. That requirement is stored as `loc_auth_req`, and the
upgrade bit of the device is cleared. -/
theorem C34_upgrade_reply (K : Hdr) (E : Env) (w : World) (bd_addr : BD_ADDR) (p : Nat)
    (hdev : btm_find_dev K w.cb bd_addr = some p)
    (hup : tst (w.dev p).sm4 K.BTM_SM4_UPGRADE = true)
    (hU8 : K.BTM_SM4_UPGRADE < 2 ^ 8)
    (hok : (ioCapReqState K w p bd_addr).2.2 = 0)
    (hen : w.cb.pairing_disabled = false) :
    (btm_io_capabilities_req K E w bd_addr).out
      = w.out ++ [Event.l2c_pin_code_request bd_addr]
        ++ (if w.cb.pairing_state = tBTM_PAIRING_STATE.BTM_PAIR_STATE_IDLE
            then [Event.l2cu_update_lcb_4_bonding bd_addr true] else [])
        ++ [Event.btu_start_timer Timer.pairing_tle K.BTM_SEC_TIMEOUT_VALUE,
            Event.btsnd_hcic_io_cap_req_reply bd_addr w.cb.loc_io_caps K.BTM_OOB_NONE
              (upgradeAuthReq K w.cb.pairing_flags)] ∧
    (btm_io_capabilities_req K E w bd_addr).cb.loc_auth_req
      = upgradeAuthReq K w.cb.pairing_flags ∧
    tst ((btm_io_capabilities_req K E w bd_addr).dev p).sm4 K.BTM_SM4_UPGRADE = false := by
  have hp : p < w.cb.sec_dev_rec.length := findIdx_lt _ _ _ hdev
  have hfa : btm_find_or_alloc_dev K E w bd_addr = (some p, w) := by
    unfold btm_find_or_alloc_dev
    rw [hdev]
  rcases hst : ioCapReqState K w p bd_addr with ⟨io, ar, ec⟩
  rw [hst] at hok
  simp only at hok
  subst hok
  -- the world after the pairing state has been changed
  generalize hw1 : w.setDev p (fun r => { r with sm4 := u8 (r.sm4 ||| K.BTM_SM4_TRUE) }) = w1
  have hst1 : ioCapReqState K w1 p bd_addr = (io, ar, 0) := by
    rw [← hw1, ioCapReqState_sm4 K w p bd_addr (fun s => u8 (s ||| K.BTM_SM4_TRUE)), hst]
  have hcb1 : w1.cb = { w.cb with sec_dev_rec := w1.cb.sec_dev_rec } := by
    rw [← hw1]; rfl
  have hout1 : w1.out = w.out := by rw [← hw1]; rfl
  have hlen1 : w1.cb.sec_dev_rec.length = w.cb.sec_dev_rec.length := by
    rw [← hw1, length_setDev]
  have hsm1 : tst (w1.dev p).sm4 K.BTM_SM4_UPGRADE = true := by
    rw [← hw1, dev_setDev_lt _ _ _ hp]
    exact tst_u8_or_keep _ _ _ hU8 hup
  have hen1 : w1.cb.pairing_disabled = false := by rw [hcb1]; exact hen
  have hflags1 : w1.cb.pairing_flags = w.cb.pairing_flags := by rw [hcb1]
  have hio1 : w1.cb.loc_io_caps = w.cb.loc_io_caps := by rw [hcb1]
  have hps1 : w1.cb.pairing_state = w.cb.pairing_state := by rw [hcb1]
  have hp1 : p < w1.cb.sec_dev_rec.length := by rw [hlen1]; exact hp
  have hsm1' : tst (w1.cb.sec_dev_rec[p]).sm4 K.BTM_SM4_UPGRADE = true := by
    have := hsm1
    unfold World.dev at this
    rw [List.getD_eq_getElem _ _ hp1] at this
    exact this
  have hni : (tBTM_PAIRING_STATE.BTM_PAIR_STATE_WAIT_LOCAL_IOCAPS
      == tBTM_PAIRING_STATE.BTM_PAIR_STATE_IDLE) = false := by decide
  unfold btm_io_capabilities_req
  simp only [hfa, World.derefDev, hw1, hst1, hen1, Bool.false_eq_true, if_false,
    bne_self_eq_false]
  unfold upgradeAuthReq btm_sec_change_pairing_state
  by_cases hc : bd_addr = w1.cb.connecting_bda <;>
    by_cases hi : w.cb.pairing_state = tBTM_PAIRING_STATE.BTM_PAIR_STATE_IDLE <;>
    by_cases hf : tst w.cb.pairing_flags K.BTM_PAIR_FLAGS_WE_STARTED_DD = true <;>
    simp [World.emit, World.setCb, World.setDev, World.dev, hni, hsm1', hout1,
      hflags1, hio1, hps1, hi, hf, hc, hp1, tst_andNot8_self]

/-- C34 at concrete inputs: the upgrade pending with no pairing going on (the reply
carries `BTM_AUTH_SPGB_YES`, 5), and during a dedicated bonding started locally (the
reply carries 3). -/
theorem C34_upgrade_reply_witness :
    (btm_io_capabilities_req stdHdr exampleEnv exampleWorldUpgrade
        [0x00, 0x1A, 0x7D, 0xDA, 0x71, 0x13]).cb.loc_auth_req
      = upgradeAuthReq stdHdr exampleWorldUpgrade.cb.pairing_flags ∧
    upgradeAuthReq stdHdr exampleWorldUpgrade.cb.pairing_flags = 5 ∧
    tst ((btm_io_capabilities_req stdHdr exampleEnv exampleWorldUpgrade
        [0x00, 0x1A, 0x7D, 0xDA, 0x71, 0x13]).dev 0).sm4 stdHdr.BTM_SM4_UPGRADE = false ∧
    (btm_io_capabilities_req stdHdr exampleEnv exampleWorldUpgradeBonding
        [0x00, 0x1A, 0x7D, 0xDA, 0x71, 0x13]).cb.loc_auth_req
      = upgradeAuthReq stdHdr exampleWorldUpgradeBonding.cb.pairing_flags ∧
    upgradeAuthReq stdHdr exampleWorldUpgradeBonding.cb.pairing_flags = 3 :=
  ⟨(C34_upgrade_reply stdHdr exampleEnv exampleWorldUpgrade
      [0x00, 0x1A, 0x7D, 0xDA, 0x71, 0x13] 0 (by decide) (by decide) (by decide) (by decide)
      (by decide)).2.1,
   by decide,
   (C34_upgrade_reply stdHdr exampleEnv exampleWorldUpgrade
      [0x00, 0x1A, 0x7D, 0xDA, 0x71, 0x13] 0 (by decide) (by decide) (by decide) (by decide)
      (by decide)).2.2,
   (C34_upgrade_reply stdHdr exampleEnv exampleWorldUpgradeBonding
      [0x00, 0x1A, 0x7D, 0xDA, 0x71, 0x13] 0 (by decide) (by decide) (by decide) (by decide)
      (by decide)).2.1,
   by decide⟩

/-! ## Bits of a record after a registration -/

theorem tst_congr_bits (x y h : Nat)
    (hh : ∀ i, h.testBit i = true → x.testBit i = y.testBit i) : tst x h = tst y h := by
  cases hx : tst x h
  · cases hy : tst y h
    · rfl
    · obtain ⟨i, h1, h2⟩ := (tst_eq_true_iff _ _).1 hy
      have : tst x h = true := (tst_eq_true_iff _ _).2 ⟨i, by rw [hh i h2]; exact h1, h2⟩
      rw [hx] at this
      exact this
  · obtain ⟨i, h1, h2⟩ := (tst_eq_true_iff _ _).1 hx
    exact ((tst_eq_true_iff _ _).2 ⟨i, by rw [← hh i h2]; exact h1, h2⟩).symm

theorem newFlags_testBit (f clr lvl use i : Nat) :
    (andNot16 f clr ||| u16 (lvl ||| use)).testBit i
      = ((f.testBit i && (decide (i < 16) && !clr.testBit i))
          || (decide (i < 16) && (lvl.testBit i || use.testBit i))) := by
  simp only [Nat.testBit_or, testBit_andNot16, testBit_u16]

theorem level2_testBit (sl strip mitm : Nat) (c : Bool) (i : Nat) :
    (if c then u16 (andNot16 sl strip ||| mitm) else andNot16 sl strip).testBit i
      = (decide (i < 16) && ((sl.testBit i && !strip.testBit i) || (c && mitm.testBit i))) := by
  cases c <;> by_cases hi : i < 16 <;>
    simp [testBit_u16, testBit_andNot16, Nat.testBit_or, hi]

theorem level_testBit (sl strip enc auth mitm : Nat) (c : Bool) (i : Nat) :
    (if tst (if c then u16 (andNot16 sl strip ||| mitm) else andNot16 sl strip) enc
      then u16 ((if c then u16 (andNot16 sl strip ||| mitm) else andNot16 sl strip) ||| auth)
      else (if c then u16 (andNot16 sl strip ||| mitm) else andNot16 sl strip)).testBit i
      = (decide (i < 16) &&
          ((sl.testBit i && !strip.testBit i) || (c && mitm.testBit i)
            || (tst (if c then u16 (andNot16 sl strip ||| mitm) else andNot16 sl strip) enc
                && auth.testBit i))) := by
  generalize hs2 : (if c then u16 (andNot16 sl strip ||| mitm) else andNot16 sl strip) = s2
  have h2 := level2_testBit sl strip mitm c i
  rw [hs2] at h2
  cases he : tst s2 enc
  · simp only [Bool.false_eq_true, if_false, Bool.false_and, Bool.or_false]
    exact h2
  · simp only [if_true, Bool.true_and, testBit_u16, Nat.testBit_or, h2]
    by_cases hi : i < 16 <;> simp [hi]

/-- A mask contained in the bits cleared by a registration, and apart from the
stripped bits, the MITM and authenticate bits added and the in-use bit, has in the new
flags the value it has in the `sec_level` passed. -/
theorem replaced_bits (f clr sl strip enc auth mitm use h : Nat) (c : Bool)
    (h16 : h < 2 ^ 16) (hclr : clr &&& h = h) (hstrip : h &&& strip = 0)
    (hmitm : h &&& mitm = 0) (hauth : h &&& auth = 0) (huse : h &&& use = 0) :
    tst (andNot16 f clr ||| u16
        ((if tst (if c then u16 (andNot16 sl strip ||| mitm) else andNot16 sl strip) enc
          then u16 ((if c then u16 (andNot16 sl strip ||| mitm) else andNot16 sl strip) ||| auth)
          else (if c then u16 (andNot16 sl strip ||| mitm) else andNot16 sl strip)) ||| use)) h
      = tst sl h := by
  apply tst_congr_bits
  intro i hi
  have hi16 := testBit_of_lt16 h16 hi
  have h1 := (and_eq_right_iff clr h).1 hclr i hi
  have h2 := (and_eq_zero_iff_bits h strip).1 hstrip i hi
  have h3 := (and_eq_zero_iff_bits h mitm).1 hmitm i hi
  have h4 := (and_eq_zero_iff_bits h auth).1 hauth i hi
  have h5 := (and_eq_zero_iff_bits h use).1 huse i hi
  rw [newFlags_testBit, level_testBit]
  simp [hi16, h1, h2, h3, h4, h5]

/-! ## Role hints -/

/-- C36 as stated fails. Service 3 is registered on the acceptor side with the hint
force-master (0x0100): the record carries the hint. A later originator-side
registration on the same record with `sec_level` 0x10, which does not set the hint,
works on that record (index 0) and leaves it without the hint, while the acceptor-side
authenticate and MITM bits are still there. -/
theorem C36_counterexample :
    (exampleDbRoleHint.sec_serv_rec.map (fun r => r.security_flags)) = [0x1182, 0] ∧
    tst 0x1182 stdHdr.BTM_SEC_FORCE_MASTER = true ∧
    (btm_sec_set_security_level stdHdr exampleDbRoleHint CONN_ORIENT_ORIG [0x41] 3 0x10 0x1001
        0 0).index = 0 ∧
    ((btm_sec_set_security_level stdHdr exampleDbRoleHint CONN_ORIENT_ORIG [0x41] 3 0x10 0x1001
        0 0).db.sec_serv_rec.map (fun r => r.security_flags)) = [0x3092, 0] ∧
    tst 0x3092 stdHdr.BTM_SEC_FORCE_MASTER = false ∧
    tst 0x3092 stdHdr.BTM_SEC_IN_AUTHENTICATE = true ∧
    tst 0x3092 stdHdr.BTM_SEC_IN_MITM = true := by
  decide

/-- The four role hints are among the bits each side clears. -/
theorem role_in_clear (K : Hdr) (h : Nat)
    (hrole : h = K.BTM_SEC_FORCE_MASTER ∨ h = K.BTM_SEC_ATTEMPT_MASTER ∨
      h = K.BTM_SEC_FORCE_SLAVE ∨ h = K.BTM_SEC_ATTEMPT_SLAVE) (sc : Nat) (orig : Bool) :
    ((if orig then origClearMask K else termClearMask K) ||| sc) &&& h = h := by
  apply (and_eq_right_iff _ _).2
  intro i hi
  unfold origClearMask termClearMask
  rcases hrole with rfl | rfl | rfl | rfl <;> cases orig <;>
    simp [Nat.testBit_or, hi]

/-- C36, amended. The role hints (force or attempt master, force or attempt slave) of
a service record are shared by the two sides: after a successful connection-oriented
registration on either side, each hint is set in the record exactly when it is set in
the `sec_level` of that registration, whatever the record held before. A hint
registered by one side is therefore still present after a registration of the other
side only if that registration sets it too. Assumed of the headers: the hint is a
16-bit mask apart from the requirement bits of both directions and from the in-use
bit. -/
theorem C36_role_hints_replaced (K : Hdr) (db : ServDb) (orig : Bool)
    (p_name : List Nat) (service_id sec_level psm mx_proto_id mx_chan_id h : Nat)
    (hrole : h = K.BTM_SEC_FORCE_MASTER ∨ h = K.BTM_SEC_ATTEMPT_MASTER ∨
      h = K.BTM_SEC_FORCE_SLAVE ∨ h = K.BTM_SEC_ATTEMPT_SLAVE)
    (h16 : h < 2 ^ 16)
    (hin : h &&& inLevelMask K = 0) (hout : h &&& outLevelMask K = 0)
    (huse : h &&& K.BTM_SEC_IN_USE = 0)
    (hret : (btm_sec_set_security_level K db ⟨orig, false⟩ p_name service_id sec_level psm
              mx_proto_id mx_chan_id).ret = true) :
    ∃ r, (btm_sec_set_security_level K db ⟨orig, false⟩ p_name service_id sec_level psm
            mx_proto_id mx_chan_id).db.sec_serv_rec[(btm_sec_set_security_level K db
            ⟨orig, false⟩ p_name service_id sec_level psm mx_proto_id mx_chan_id).index]?
          = some r ∧
      tst r.security_flags h = tst sec_level h := by
  obtain ⟨r0, hr0, -⟩ := set_level_record K db ⟨orig, false⟩ p_name service_id sec_level psm
    mx_proto_id mx_chan_id hret
  refine ⟨_, hr0, ?_⟩
  simp only [Bool.and_false]
  rw [(servUpdate_flags_conn K db.security_mode r0 orig p_name service_id sec_level psm
    mx_proto_id mx_chan_id).1]
  have hclr := role_in_clear K h hrole
    (if K.BTM_SECURE_CONN_HOST_INCLUDED then K.BTM_SEC_SECURE_CONN else 0) orig
  unfold inLevelMask at hin
  unfold outLevelMask at hout
  have hi1 := and_or_eq_zero hin
  have hi2 := and_or_eq_zero hi1.1
  have ho1 := and_or_eq_zero hout
  have ho2 := and_or_eq_zero ho1.1
  cases orig
  · simp only [Bool.false_eq_true, if_false] at hclr ⊢
    exact replaced_bits _ _ sec_level (outLevelMask K) K.BTM_SEC_IN_ENCRYPT
      K.BTM_SEC_IN_AUTHENTICATE K.BTM_SEC_IN_MITM K.BTM_SEC_IN_USE h _ h16 hclr hout
      hi1.2 hi2.2 huse
  · simp only [if_true] at hclr ⊢
    exact replaced_bits _ _ sec_level (inLevelMask K) K.BTM_SEC_OUT_ENCRYPT
      K.BTM_SEC_OUT_AUTHENTICATE K.BTM_SEC_OUT_MITM K.BTM_SEC_IN_USE h _ h16 hclr hin
      ho1.2 ho2.2 huse

/-- C36 at a concrete input: the originator-side registration with `sec_level` 0x10
on the record that carries the hint force-master. -/
theorem C36_role_hints_replaced_witness :
    ∃ r, (btm_sec_set_security_level stdHdr exampleDbRoleHint ⟨true, false⟩ [0x41] 3 0x10 0x1001
            0 0).db.sec_serv_rec[(btm_sec_set_security_level stdHdr exampleDbRoleHint
            ⟨true, false⟩ [0x41] 3 0x10 0x1001 0 0).index]? = some r ∧
      tst r.security_flags stdHdr.BTM_SEC_FORCE_MASTER
        = tst 0x10 stdHdr.BTM_SEC_FORCE_MASTER :=
  C36_role_hints_replaced stdHdr exampleDbRoleHint true [0x41] 3 0x10 0x1001 0 0
    stdHdr.BTM_SEC_FORCE_MASTER (Or.inl rfl) (by decide) (by decide) (by decide) (by decide)
    (by decide)

/-! ## The MITM bit in Secure Simple Pairing mode -/

/-- C39 as stated fails. In Secure Simple Pairing mode (4) an originator-side
registration with `sec_level` 0x20 (encrypt only) leaves the record with the encrypt
and authenticate bits of that side (flags 0xB0) and without its MITM bit (0x2000); an
acceptor-side registration with `sec_level` 0x04 leaves flags 0x86, without the MITM
bit 0x1000. With the authenticate bit in `sec_level` (0x10) the MITM bit is set
(flags 0x2090). -/
theorem C39_counterexample :
    exampleDb.security_mode = stdHdr.BTM_SEC_MODE_SP ∧
    ((btm_sec_set_security_level stdHdr exampleDb CONN_ORIENT_ORIG [0x41] 3 0x20 0x1001
        0 0).db.sec_serv_rec.map (fun r => r.security_flags)) = [0xB0, 0] ∧
    tst 0xB0 stdHdr.BTM_SEC_OUT_AUTHENTICATE = true ∧
    tst 0xB0 stdHdr.BTM_SEC_OUT_MITM = false ∧
    ((btm_sec_set_security_level stdHdr exampleDb CONN_ORIENT_TERM [0x41] 3 0x04 0x1001
        0 0).db.sec_serv_rec.map (fun r => r.security_flags)) = [0x86, 0] ∧
    tst 0x86 stdHdr.BTM_SEC_IN_AUTHENTICATE = true ∧
    tst 0x86 stdHdr.BTM_SEC_IN_MITM = false ∧
    ((btm_sec_set_security_level stdHdr exampleDb CONN_ORIENT_ORIG [0x41] 3 0x10 0x1001
        0 0).db.sec_serv_rec.map (fun r => r.security_flags)) = [0x2090, 0] ∧
    tst 0x2090 stdHdr.BTM_SEC_OUT_MITM = true := by
  decide

/-- The flags after a registration whose `sec_level` has the authenticate bit, when
the MITM bit is added for such levels: the MITM bit is set. -/
theorem mitm_added (f clr sl strip enc auth mitm use : Nat)
    (hauth16 : auth < 2 ^ 16) (hmitm16 : mitm < 2 ^ 16) (hmitm0 : mitm ≠ 0)
    (hstrip : auth &&& strip = 0) (hsl : tst sl auth = true) :
    tst (andNot16 f clr ||| u16
        ((if tst (if (true && tst (andNot16 sl strip) auth)
              then u16 (andNot16 sl strip ||| mitm) else andNot16 sl strip) enc
          then u16 ((if (true && tst (andNot16 sl strip) auth)
              then u16 (andNot16 sl strip ||| mitm) else andNot16 sl strip) ||| auth)
          else (if (true && tst (andNot16 sl strip) auth)
              then u16 (andNot16 sl strip ||| mitm) else andNot16 sl strip)) ||| use)) mitm
      = true := by
  have hs1 : tst (andNot16 sl strip) auth = true := by
    rw [tst_andNot16_keep _ _ _ hauth16 hstrip]
    exact hsl
  obtain ⟨i, hi⟩ : ∃ i, mitm.testBit i = true := by
    by_contra hno
    apply hmitm0
    apply Nat.eq_of_testBit_eq
    intro i
    rw [Nat.zero_testBit]
    cases hb : mitm.testBit i
    · rfl
    · exact absurd ⟨i, hb⟩ hno
  have hi16 := testBit_of_lt16 hmitm16 hi
  apply (tst_eq_true_iff _ _).2
  refine ⟨i, ?_, hi⟩
  rw [newFlags_testBit, level_testBit]
  simp [hi16, hs1, hi]

/-- The flags after a registration whose `sec_level` has the encrypt bit and neither
the authenticate nor the MITM bit, when the MITM bit is added only for levels with the
authenticate bit: the authenticate bit is set and the MITM bit is not. -/
theorem mitm_missing (f clr sl strip enc auth mitm use : Nat) (c0 : Bool)
    (hauth16 : auth < 2 ^ 16) (henc16 : enc < 2 ^ 16) (hauth0 : auth ≠ 0)
    (hclr : clr &&& mitm = mitm) (henc_strip : enc &&& strip = 0)
    (hma : mitm &&& auth = 0) (hmu : mitm &&& use = 0)
    (hsl_enc : tst sl enc = true) (hsl_auth : tst sl auth = false)
    (hsl_mitm : tst sl mitm = false) :
    tst (andNot16 f clr ||| u16
        ((if tst (if (c0 && tst (andNot16 sl strip) auth)
              then u16 (andNot16 sl strip ||| mitm) else andNot16 sl strip) enc
          then u16 ((if (c0 && tst (andNot16 sl strip) auth)
              then u16 (andNot16 sl strip ||| mitm) else andNot16 sl strip) ||| auth)
          else (if (c0 && tst (andNot16 sl strip) auth)
              then u16 (andNot16 sl strip ||| mitm) else andNot16 sl strip)) ||| use)) auth
      = true ∧
    tst (andNot16 f clr ||| u16
        ((if tst (if (c0 && tst (andNot16 sl strip) auth)
              then u16 (andNot16 sl strip ||| mitm) else andNot16 sl strip) enc
          then u16 ((if (c0 && tst (andNot16 sl strip) auth)
              then u16 (andNot16 sl strip ||| mitm) else andNot16 sl strip) ||| auth)
          else (if (c0 && tst (andNot16 sl strip) auth)
              then u16 (andNot16 sl strip ||| mitm) else andNot16 sl strip)) ||| use)) mitm
      = false := by
  have hs1a : tst (andNot16 sl strip) auth = false := tst_andNot16_of_false _ _ _ hsl_auth
  have hs1e : tst (andNot16 sl strip) enc = true := by
    rw [tst_andNot16_keep _ _ _ henc16 henc_strip]
    exact hsl_enc
  have hc : (c0 && tst (andNot16 sl strip) auth) = false := by rw [hs1a, Bool.and_false]
  rw [hc]
  simp only [Bool.false_eq_true, if_false, hs1e, if_true]
  constructor
  · obtain ⟨i, hi⟩ : ∃ i, auth.testBit i = true := by
      by_contra hno
      apply hauth0
      apply Nat.eq_of_testBit_eq
      intro i
      rw [Nat.zero_testBit]
      cases hb : auth.testBit i
      · rfl
      · exact absurd ⟨i, hb⟩ hno
    have hi16 := testBit_of_lt16 hauth16 hi
    apply (tst_eq_true_iff _ _).2
    refine ⟨i, ?_, hi⟩
    simp [Nat.testBit_or, testBit_u16, hi16, hi]
  · cases ht : tst (andNot16 f clr ||| u16 (u16 (andNot16 sl strip ||| auth) ||| use)) mitm
    · rfl
    · obtain ⟨i, h1, h2⟩ := (tst_eq_true_iff _ _).1 ht
      have hc1 := (and_eq_right_iff clr mitm).1 hclr i h2
      have ha1 := (and_eq_zero_iff_bits mitm auth).1 hma i h2
      have hu1 := (and_eq_zero_iff_bits mitm use).1 hmu i h2
      have hsl1 : sl.testBit i = false := by
        cases hb : sl.testBit i
        · rfl
        · have := (tst_eq_true_iff sl mitm).2 ⟨i, hb, h2⟩
          rw [hsl_mitm] at this
          exact absurd this (by simp)
      simp [Nat.testBit_or, testBit_u16, testBit_andNot16, hc1, ha1, hu1, hsl1] at h1

/-- The MITM bit of a side is among the bits that side clears. -/
theorem mitm_in_clear (K : Hdr) (sc : Nat) (orig : Bool) :
    ((if orig then origClearMask K else termClearMask K) ||| sc) &&& mitmBit K orig
      = mitmBit K orig := by
  apply (and_eq_right_iff _ _).2
  intro i hi
  unfold origClearMask termClearMask
  unfold mitmBit at hi
  cases orig <;> simp only [Bool.false_eq_true, if_false, if_true] at hi ⊢ <;>
    simp [Nat.testBit_or, hi]

/-- C39, amended. In Secure Simple Pairing mode, after a successful
connection-oriented registration: when the `sec_level` of the caller has the
authenticate bit of the direction, the record has the MITM bit of that direction;
when `sec_level` has the encrypt bit of the direction and neither its authenticate
nor its MITM bit, the record has the authenticate bit (forced by the encrypt bit,
lines 735-736 and 784-785) and not the MITM bit. Assumed of the headers: the
authenticate, encrypt and MITM bits of the direction are non-empty 16-bit masks
outside the requirement bits of the other direction, and the MITM bit is apart from
the authenticate bit and from the in-use bit. -/
theorem C39_mitm_follows_requested_authentication (K : Hdr) (db : ServDb) (orig : Bool)
    (p_name : List Nat) (service_id sec_level psm mx_proto_id mx_chan_id : Nat)
    (hmode : db.security_mode = K.BTM_SEC_MODE_SP)
    (hauth16 : authenticateBit K orig < 2 ^ 16) (hauth0 : authenticateBit K orig ≠ 0)
    (henc16 : encryptBit K orig < 2 ^ 16)
    (hmitm16 : mitmBit K orig < 2 ^ 16) (hmitm0 : mitmBit K orig ≠ 0)
    (hauth_other : authenticateBit K orig &&&
      (if orig then inLevelMask K else outLevelMask K) = 0)
    (henc_other : encryptBit K orig &&&
      (if orig then inLevelMask K else outLevelMask K) = 0)
    (hma : mitmBit K orig &&& authenticateBit K orig = 0)
    (hmu : mitmBit K orig &&& K.BTM_SEC_IN_USE = 0)
    (hret : (btm_sec_set_security_level K db ⟨orig, false⟩ p_name service_id sec_level psm
              mx_proto_id mx_chan_id).ret = true) :
    ∃ r, (btm_sec_set_security_level K db ⟨orig, false⟩ p_name service_id sec_level psm
            mx_proto_id mx_chan_id).db.sec_serv_rec[(btm_sec_set_security_level K db
            ⟨orig, false⟩ p_name service_id sec_level psm mx_proto_id mx_chan_id).index]?
          = some r ∧
      (tst sec_level (authenticateBit K orig) = true →
        tst r.security_flags (mitmBit K orig) = true) ∧
      (tst sec_level (encryptBit K orig) = true →
        tst sec_level (authenticateBit K orig) = false →
        tst sec_level (mitmBit K orig) = false →
        tst r.security_flags (authenticateBit K orig) = true ∧
        tst r.security_flags (mitmBit K orig) = false) := by
  obtain ⟨r0, hr0, -⟩ := set_level_record K db ⟨orig, false⟩ p_name service_id sec_level psm
    mx_proto_id mx_chan_id hret
  refine ⟨_, hr0, ?_⟩
  simp only [Bool.and_false]
  rw [(servUpdate_flags_conn K db.security_mode r0 orig p_name service_id sec_level psm
    mx_proto_id mx_chan_id).1]
  have hclr := mitm_in_clear K
    (if K.BTM_SECURE_CONN_HOST_INCLUDED then K.BTM_SEC_SECURE_CONN else 0) orig
  have hbeq : (db.security_mode == K.BTM_SEC_MODE_SP) = true := by
    rw [hmode]
    exact beq_self_eq_true _
  unfold origSecLevel termSecLevel
  simp only [hbeq]
  unfold authenticateBit at hauth16 hauth0 hauth_other hma ⊢
  unfold encryptBit at henc16 henc_other ⊢
  unfold mitmBit at hmitm16 hmitm0 hma hmu hclr ⊢
  cases orig
  · simp only [Bool.false_eq_true, if_false] at *
    exact ⟨fun ha => mitm_added _ _ sec_level (outLevelMask K) K.BTM_SEC_IN_ENCRYPT
        K.BTM_SEC_IN_AUTHENTICATE K.BTM_SEC_IN_MITM K.BTM_SEC_IN_USE hauth16 hmitm16 hmitm0
        hauth_other ha,
      fun he ha hm => mitm_missing _ _ sec_level (outLevelMask K) K.BTM_SEC_IN_ENCRYPT
        K.BTM_SEC_IN_AUTHENTICATE K.BTM_SEC_IN_MITM K.BTM_SEC_IN_USE true hauth16 henc16 hauth0
        hclr henc_other hma hmu he ha hm⟩
  · simp only [if_true] at *
    exact ⟨fun ha => mitm_added _ _ sec_level (inLevelMask K) K.BTM_SEC_OUT_ENCRYPT
        K.BTM_SEC_OUT_AUTHENTICATE K.BTM_SEC_OUT_MITM K.BTM_SEC_IN_USE hauth16 hmitm16 hmitm0
        hauth_other ha,
      fun he ha hm => mitm_missing _ _ sec_level (inLevelMask K) K.BTM_SEC_OUT_ENCRYPT
        K.BTM_SEC_OUT_AUTHENTICATE K.BTM_SEC_OUT_MITM K.BTM_SEC_IN_USE true hauth16 henc16 hauth0
        hclr henc_other hma hmu he ha hm⟩

/-- C39 at a concrete input: the originator-side registration of service 3 in
`exampleDb` (Secure Simple Pairing mode) with `sec_level` 0x20, encrypt only. -/
theorem C39_mitm_follows_requested_authentication_witness :
    ∃ r, (btm_sec_set_security_level stdHdr exampleDb ⟨true, false⟩ [0x41] 3 0x20 0x1001
            0 0).db.sec_serv_rec[(btm_sec_set_security_level stdHdr exampleDb
            ⟨true, false⟩ [0x41] 3 0x20 0x1001 0 0).index]? = some r ∧
      (tst 0x20 (authenticateBit stdHdr true) = true →
        tst r.security_flags (mitmBit stdHdr true) = true) ∧
      (tst 0x20 (encryptBit stdHdr true) = true →
        tst 0x20 (authenticateBit stdHdr true) = false →
        tst 0x20 (mitmBit stdHdr true) = false →
        tst r.security_flags (authenticateBit stdHdr true) = true ∧
        tst r.security_flags (mitmBit stdHdr true) = false) :=
  C39_mitm_follows_requested_authentication stdHdr exampleDb true [0x41] 3 0x20 0x1001 0 0
    (by decide) (by decide) (by decide) (by decide) (by decide) (by decide) (by decide)
    (by decide) (by decide) (by decide) (by decide)

/-! ## The length returned by `BTM_BuildOobData` -/

/-- An optional entry keeps the agreement between `len` and the number of bytes
written, never lowers `len`, and keeps `len + max_len` within the size of the
buffer. -/
theorem oobEntry_counts (st : OobBuild) (size tag : Nat) (value : List Nat) (m : Nat)
    (hm : m < 2 ^ 16) (hsize : size + 2 < 2 ^ 16) (hval : value.length = size)
    (hlen : st.out.length = st.len) (hsum : st.len + st.max_len ≤ m) :
    (oobEntry st size tag value).out.length = (oobEntry st size tag value).len ∧
    (oobEntry st size tag value).len + (oobEntry st size tag value).max_len ≤ m ∧
    st.len ≤ (oobEntry st size tag value).len := by
  unfold oobEntry
  dsimp only
  split_ifs with h
  · simp only [u16, List.length_append, List.length_cons, List.length_nil] at h ⊢
    omega
  · exact ⟨hlen, hsum, Nat.le_refl _⟩

/-- C40. For every 16-bit buffer size `max_len`, every hash, randomizer and 8-bit
`name_len`, with or without a buffer pointer: the length returned by
`BTM_BuildOobData` is the number of bytes the call has written and is at most
`max_len`; when the pointer is not null and `max_len` is at least the mandatory size
8, the returned length is at least 8 and equals the little-endian value stored in the
first two bytes of the blob; when `max_len` is below 8 the call returns 0 and writes
nothing. -/
theorem C40_build_oob_length (T : EirTags) (name_included : Bool) (dev : LocalDevice)
    (p_data : Bool) (max_len : Nat) (c r : List Nat) (name_len : Nat)
    (hmax : max_len < 2 ^ 16) (hname : name_len < 2 ^ 8) :
    (BTM_BuildOobData T name_included dev p_data max_len c r name_len).2.length
      = (BTM_BuildOobData T name_included dev p_data max_len c r name_len).1 ∧
    (BTM_BuildOobData T name_included dev p_data max_len c r name_len).1 ≤ max_len ∧
    (p_data = true → BTM_OOB_MANDATORY_SIZE ≤ max_len →
      BTM_OOB_MANDATORY_SIZE
        ≤ (BTM_BuildOobData T name_included dev p_data max_len c r name_len).1 ∧
      STREAM_TO_UINT16
          (BTM_BuildOobData T name_included dev p_data max_len c r name_len).2 0
        = (BTM_BuildOobData T name_included dev p_data max_len c r name_len).1) ∧
    (max_len < BTM_OOB_MANDATORY_SIZE →
      BTM_BuildOobData T name_included dev p_data max_len c r name_len = (0, [])) := by
  unfold BTM_BuildOobData
  by_cases hgo : (p_data && decide (max_len ≥ BTM_OOB_MANDATORY_SIZE)) = true
  · rw [if_pos hgo]
    have h8 : BTM_OOB_MANDATORY_SIZE ≤ max_len := by
      simp only [Bool.and_eq_true, decide_eq_true_eq] at hgo
      exact hgo.2
    simp only [BTM_OOB_MANDATORY_SIZE] at h8 ⊢
    obtain ⟨st0, hst0⟩ : ∃ st0 : OobBuild, st0 =
        ⟨UINT16_TO_STREAM 0 ++ BDADDR_TO_STREAM dev.local_addr, 8, u16 (max_len - 8)⟩ :=
      ⟨_, rfl⟩
    rw [← hst0]
    have hl0 : st0.out.length = st0.len := by
      rw [hst0]
      simp [UINT16_TO_STREAM, bdaddr_stream_length]
    have hs0 : st0.len + st0.max_len ≤ max_len := by
      rw [hst0]
      simp only [u16]
      omega
    have hg0 : 8 ≤ st0.len := by rw [hst0]
    obtain ⟨hl1, hs1, hg1⟩ := oobEntry_counts st0 BTM_OOB_HASH_C_SIZE
      T.BTM_EIR_OOB_SSP_HASH_C_TYPE (ARRAY_TO_STREAM c BTM_OOB_HASH_C_SIZE) max_len hmax
      (by decide) (array_to_stream_length _ _) hl0 hs0
    generalize oobEntry st0 BTM_OOB_HASH_C_SIZE T.BTM_EIR_OOB_SSP_HASH_C_TYPE
      (ARRAY_TO_STREAM c BTM_OOB_HASH_C_SIZE) = st1 at hl1 hs1 hg1 ⊢
    obtain ⟨hl2, hs2, hg2⟩ := oobEntry_counts st1 BTM_OOB_RAND_R_SIZE
      T.BTM_EIR_OOB_SSP_RAND_R_TYPE (ARRAY_TO_STREAM r BTM_OOB_RAND_R_SIZE) max_len hmax
      (by decide) (array_to_stream_length _ _) hl1 hs1
    generalize oobEntry st1 BTM_OOB_RAND_R_SIZE T.BTM_EIR_OOB_SSP_RAND_R_TYPE
      (ARRAY_TO_STREAM r BTM_OOB_RAND_R_SIZE) = st2 at hl2 hs2 hg2 ⊢
    obtain ⟨hl3, hs3, hg3⟩ := oobEntry_counts st2 BTM_OOB_COD_SIZE
      T.BTM_EIR_OOB_COD_TYPE (DEVCLASS_TO_STREAM dev.dev_class) max_len hmax
      (by decide) (devclass_stream_length _) hl2 hs2
    generalize oobEntry st2 BTM_OOB_COD_SIZE T.BTM_EIR_OOB_COD_TYPE
      (DEVCLASS_TO_STREAM dev.dev_class) = st3 at hl3 hs3 hg3 ⊢
    have key : ∀ st4 : OobBuild, st4.out.length = st4.len → st4.len + st4.max_len ≤ max_len →
        st3.len ≤ st4.len →
        (st4.len, UINT16_TO_STREAM st4.len ++ st4.out.drop 2).2.length
          = (st4.len, UINT16_TO_STREAM st4.len ++ st4.out.drop 2).1 ∧
        (st4.len, UINT16_TO_STREAM st4.len ++ st4.out.drop 2).1 ≤ max_len ∧
        (p_data = true → 8 ≤ max_len →
          8 ≤ (st4.len, UINT16_TO_STREAM st4.len ++ st4.out.drop 2).1 ∧
          STREAM_TO_UINT16 (st4.len, UINT16_TO_STREAM st4.len ++ st4.out.drop 2).2 0
            = (st4.len, UINT16_TO_STREAM st4.len ++ st4.out.drop 2).1) ∧
        (max_len < 8 →
          (st4.len, UINT16_TO_STREAM st4.len ++ st4.out.drop 2) = (0, [])) := by
      intro st4 hl4 hs4 hg4
      refine ⟨?_, by dsimp only; omega, fun _ _ => ⟨by dsimp only; omega, ?_⟩,
        fun hlt => absurd hlt (by omega)⟩
      · simp only [List.length_append, List.length_drop, UINT16_TO_STREAM, List.length_cons,
          List.length_nil]
        omega
      · exact stream_uint16_roundtrip st4.len (by omega) _
    cases name_included
    · exact key st3 hl3 hs3 (Nat.le_refl _)
    · simp only [if_true]
      have hns : (if name_len > strlen dev.bd_name then u16 (strlen dev.bd_name) else name_len)
          + 2 < 2 ^ 16 := by
        split_ifs with hgt
        · simp only [u16]
          omega
        · omega
      obtain ⟨hl4, hs4, hg4⟩ := oobEntry_counts st3
        (if name_len > strlen dev.bd_name then u16 (strlen dev.bd_name) else name_len)
        (if name_len > strlen dev.bd_name then T.BTM_EIR_COMPLETE_LOCAL_NAME_TYPE
          else T.BTM_EIR_SHORTENED_LOCAL_NAME_TYPE)
        (ARRAY_TO_STREAM dev.bd_name
          (if name_len > strlen dev.bd_name then u16 (strlen dev.bd_name) else name_len))
        max_len hmax hns (array_to_stream_length _ _) hl3 hs3
      exact key _ hl4 hs4 hg4
  · rw [if_neg hgo]
    refine ⟨rfl, Nat.zero_le _, fun hp h8 => ?_, fun _ => rfl⟩
    exact absurd (by simp [hp, h8]) hgo

/-- C40 at concrete inputs: a buffer of 100 bytes with a five-character name, which
receives all four optional entries, and a buffer of 30 bytes, which has room for the
hash entry only. -/
theorem C40_build_oob_length_witness :
    (BTM_BuildOobData stdTags true exampleDevice true 100 exampleC exampleR 5).1 = 56 ∧
    (BTM_BuildOobData stdTags true exampleDevice true 30 exampleC exampleR 5).1 = 26 ∧
    ((BTM_BuildOobData stdTags true exampleDevice true 100 exampleC exampleR 5).2.length
      = (BTM_BuildOobData stdTags true exampleDevice true 100 exampleC exampleR 5).1 ∧
    (BTM_BuildOobData stdTags true exampleDevice true 100 exampleC exampleR 5).1 ≤ 100 ∧
    (true = true → BTM_OOB_MANDATORY_SIZE ≤ 100 →
      BTM_OOB_MANDATORY_SIZE
        ≤ (BTM_BuildOobData stdTags true exampleDevice true 100 exampleC exampleR 5).1 ∧
      STREAM_TO_UINT16
          (BTM_BuildOobData stdTags true exampleDevice true 100 exampleC exampleR 5).2 0
        = (BTM_BuildOobData stdTags true exampleDevice true 100 exampleC exampleR 5).1) ∧
    (100 < BTM_OOB_MANDATORY_SIZE →
      BTM_BuildOobData stdTags true exampleDevice true 100 exampleC exampleR 5 = (0, []))) :=
  ⟨by decide, by decide,
   C40_build_oob_length stdTags true exampleDevice true 100 exampleC exampleR 5
    (by decide) (by decide)⟩

/-! ## Encrypted and authenticated flags -/

/-- C33 as stated fails. In Secure Simple Pairing mode, the device of
`exampleWorldUpgradable` is authenticated and encrypted (`sec_flags` 0x9E) on an
unauthenticated combination key. An incoming access request on PSM 0x1001, whose
service requires MITM protection, finds that the key can be upgraded; the application
confirms, and `btm_sec_check_upgrade` clears the link-key flags and the authenticated
flag but not the encrypted flag. The request returns `BTM_CMD_STARTED` with an
authentication request sent, and the record is left encrypted and not authenticated
(`sec_flags` 0x8C). -/
theorem C33_counterexample :
    exampleWorldUpgradable.cb.security_mode = stdHdr.BTM_SEC_MODE_SP ∧
    (exampleWorldUpgradable.dev 0).sec_flags = 0x9E ∧
    encryptedImpliesAuthenticated stdHdr (exampleWorldUpgradable.dev 0) = true ∧
    (btm_sec_l2cap_access_req stdHdr exampleEnv exampleWorldUpgradable
        [0x00, 0x1A, 0x7D, 0xDA, 0x71, 0x13] 0x1001 1 CONN_ORIENT_TERM (some 7) 42).1
      = tBTM_STATUS.BTM_CMD_STARTED ∧
    (btm_sec_l2cap_access_req stdHdr exampleEnv exampleWorldUpgradable
        [0x00, 0x1A, 0x7D, 0xDA, 0x71, 0x13] 0x1001 1 CONN_ORIENT_TERM (some 7) 42).2.out
      = [Event.p_sp_callback_upgrade [0x00, 0x1A, 0x7D, 0xDA, 0x71, 0x13],
         Event.btsnd_hcic_auth_request 1] ∧
    ((btm_sec_l2cap_access_req stdHdr exampleEnv exampleWorldUpgradable
        [0x00, 0x1A, 0x7D, 0xDA, 0x71, 0x13] 0x1001 1 CONN_ORIENT_TERM (some 7) 42).2.dev
        0).sec_flags = 0x8C ∧
    tst 0x8C stdHdr.BTM_SEC_ENCRYPTED = true ∧
    tst 0x8C stdHdr.BTM_SEC_AUTHENTICATED = false ∧
    encryptedImpliesAuthenticated stdHdr
      ((btm_sec_l2cap_access_req stdHdr exampleEnv exampleWorldUpgradable
        [0x00, 0x1A, 0x7D, 0xDA, 0x71, 0x13] 0x1001 1 CONN_ORIENT_TERM (some 7) 42).2.dev 0)
      = false := by
  decide

/-- Narrowing to 16 bits does not change the test of a 16-bit mask. -/
theorem tst_u16 (y b : Nat) (hb : b < 2 ^ 16) : tst (u16 y) b = tst y b := by
  cases h : tst y b
  · cases h2 : tst (u16 y) b
    · rfl
    · obtain ⟨i, h1, hi⟩ := (tst_eq_true_iff _ _).1 h2
      rw [testBit_u16] at h1
      have : tst y b = true := (tst_eq_true_iff _ _).2 ⟨i, by simp_all, hi⟩
      rw [h] at this
      exact (Bool.false_ne_true this).elim
  · obtain ⟨i, h1, hi⟩ := (tst_eq_true_iff _ _).1 h
    apply (tst_eq_true_iff _ _).2
    refine ⟨i, ?_, hi⟩
    rw [testBit_u16, h1]
    simp [testBit_of_lt16 hb hi]

theorem tst_u16_or (x m b : Nat) (hb : b < 2 ^ 16) :
    tst (u16 (x ||| m)) b = (tst x b || tst m b) := by
  rw [tst_u16 _ _ hb, tst_or_left]

theorem tst_self (m : Nat) (h : m ≠ 0) : tst m m = true := by
  unfold tst
  rw [Nat.and_self]
  simpa using h

/-- Setting a mask apart from a 16-bit flag keeps the flag. -/
theorem tst_u16_or_keep (x m b : Nat) (hb : b < 2 ^ 16) (h : b &&& m = 0) :
    tst (u16 (x ||| m)) b = tst x b := by
  rw [tst_u16_or _ _ _ hb, (tst_disjoint h).2, Bool.or_false]

theorem or_and_self_left (a b : Nat) : (a ||| b) &&& a = a := by
  apply (and_eq_right_iff _ _).2
  intro i hi
  simp [Nat.testBit_or, hi]

/-- The flag initialisation of `btm_sec_connected` for the classic handle leaves the
implication true. -/
theorem connected_classic (K : Hdr) (mode : Nat) (r : tBTM_SEC_DEV_REC) (enc_mode : Nat)
    (hA0 : K.BTM_SEC_AUTHENTICATED ≠ 0) (hA16 : K.BTM_SEC_AUTHENTICATED < 2 ^ 16) :
    encryptedImpliesAuthenticated K (connectedFlags K mode r 0 enc_mode) = true := by
  have hclrE : tst (andNot16 r.sec_flags (K.BTM_SEC_AUTHORIZED ||| K.BTM_SEC_AUTHENTICATED
      ||| K.BTM_SEC_ENCRYPTED ||| K.BTM_SEC_ROLE_SWITCHED)) K.BTM_SEC_ENCRYPTED = false := by
    apply tst_andNot16_sub
    apply (and_eq_right_iff _ _).2
    intro i hi
    simp [Nat.testBit_or, hi]
  unfold encryptedImpliesAuthenticated connectedFlags
  simp only [Nat.shiftLeft_zero]
  by_cases he : (enc_mode != K.HCI_ENCRYPT_MODE_DISABLED) = true
  · simp only [he, if_true]
    by_cases hm : (mode == K.BTM_SEC_MODE_LINK) = true
    · simp only [hm, if_true]
      rw [tst_u16_or _ _ K.BTM_SEC_AUTHENTICATED hA16, tst_self _ hA0]
      simp
    · simp only [hm, Bool.false_eq_true, if_false]
      rw [tst_u16_or _ _ _ hA16, tst_or_left K.BTM_SEC_AUTHENTICATED, tst_self _ hA0]
      simp
  · simp only [he, Bool.false_eq_true, if_false]
    by_cases hm : (mode == K.BTM_SEC_MODE_LINK) = true
    · simp only [hm, if_true]
      rw [tst_u16_or _ _ _ hA16, tst_self _ hA0]
      simp
    · simp only [hm, Bool.false_eq_true, if_false]
      rw [hclrE]
      rfl

/-- What `btm_sec_check_upgrade` does to the flags of the device it is called for:
nothing, or, when the link key is known and can be upgraded, the authenticated flag is
cleared and the encrypted flag is left as it was. -/
theorem check_upgrade_flags (K : Hdr) (E : Env) (w : World) (p : Nat) (orig : Bool)
    (hE16 : K.BTM_SEC_ENCRYPTED < 2 ^ 16)
    (hEA : K.BTM_SEC_ENCRYPTED &&& K.BTM_SEC_AUTHENTICATED = 0)
    (hEK : K.BTM_SEC_ENCRYPTED &&& (K.BTM_SEC_LINK_KEY_KNOWN ||| K.BTM_SEC_LINK_KEY_AUTHED) = 0) :
    ((btm_sec_check_upgrade K E w p orig).dev p).sec_flags = (w.dev p).sec_flags ∨
    (tst (w.dev p).sec_flags K.BTM_SEC_LINK_KEY_KNOWN = true ∧
      btm_sec_is_upgrade_possible K w p orig = true ∧
      tst ((btm_sec_check_upgrade K E w p orig).dev p).sec_flags K.BTM_SEC_ENCRYPTED
        = tst (w.dev p).sec_flags K.BTM_SEC_ENCRYPTED ∧
      tst ((btm_sec_check_upgrade K E w p orig).dev p).sec_flags K.BTM_SEC_AUTHENTICATED
        = false) := by
  unfold btm_sec_check_upgrade
  simp only
  by_cases hk : tst (w.dev p).sec_flags K.BTM_SEC_LINK_KEY_KNOWN = true
  · by_cases hu : btm_sec_is_upgrade_possible K w p orig = true
    · simp only [hk, hu, Bool.not_true, Bool.false_eq_true, if_false, beq_self_eq_true,
        if_true]
      have hw1 : ∀ q, (if w.cb.api.p_sp_callback = true
          then w.emit (Event.p_sp_callback_upgrade (w.dev p).bd_addr) else w).dev q
          = w.dev q := by
        intro q
        split_ifs <;> rfl
      have hc1 : (if w.cb.api.p_sp_callback = true
          then w.emit (Event.p_sp_callback_upgrade (w.dev p).bd_addr) else w).cb = w.cb := by
        split_ifs <;> rfl
      generalize (if w.cb.api.p_sp_callback = true
          then w.emit (Event.p_sp_callback_upgrade (w.dev p).bd_addr) else w) = w1
        at hw1 hc1 ⊢
      generalize (if w1.cb.api.p_sp_callback = true then E.sp_upgrade (w.dev p).bd_addr
        else true) = up
      cases up
      · left
        simp only [Bool.false_eq_true, if_false]
        rw [hw1]
      · simp only [if_true]
        by_cases hp : p < w.cb.sec_dev_rec.length
        · right
          have hp1 : p < w1.cb.sec_dev_rec.length := by rw [hc1]; exact hp
          refine ⟨trivial, trivial, ?_, ?_⟩
          · rw [dev_setDev_lt _ _ _ hp1, hw1]
            simp only
            rw [tst_andNot16_keep _ _ _ hE16 hEA, tst_andNot16_keep _ _ _ hE16 hEK]
          · rw [dev_setDev_lt _ _ _ hp1]
            simp only
            exact tst_andNot16_sub _ _ _ (Nat.and_self _)
        · left
          have hz : w.dev p = tBTM_SEC_DEV_REC.zero := by
            unfold World.dev
            exact List.getD_eq_default _ _ (by omega)
          rw [dev_setDev_same, if_neg (by rw [hc1]; exact hp), hz]
    · left
      have hu2 : btm_sec_is_upgrade_possible K w p orig = false := by simpa using hu
      simp [hk, hu2]
  · left
    have hk2 : tst (w.dev p).sec_flags K.BTM_SEC_LINK_KEY_KNOWN = false := by simpa using hk
    simp [hk2]

/-- Other records are not touched by `btm_sec_check_upgrade`. -/
theorem check_upgrade_other (K : Hdr) (E : Env) (w : World) (p q : Nat) (orig : Bool)
    (h : q ≠ p) : (btm_sec_check_upgrade K E w p orig).dev q = w.dev q := by
  unfold btm_sec_check_upgrade
  simp only
  split_ifs <;> simp only [dev_setDev_ne _ _ _ _ h, dev_emit]

/-- C4 at the failing input. The device of `exampleWorldNameUnknown` owes nothing
(`security_required` 0), is idle and connected (handle 1), and its name is not known
(flags 0x80). `btm_sec_execute_procedure` does not return `BTM_SUCCESS`: the test of
line 5419, under the comment "If any security is required, get the name first", does
not look at `security_required`, so a remote-name request is issued, the device is
left in state getting-name and the call returns `BTM_CMD_STARTED`. With the name known
(`exampleWorld`) the same call returns `BTM_SUCCESS` and makes no call. -/
theorem C4_name_requested_with_nothing_owed :
    (exampleWorldNameUnknown.dev 0).security_required = 0 ∧
    (exampleWorldNameUnknown.dev 0).sec_state = SecState.IDLE ∧
    (exampleWorldNameUnknown.dev 0).hci_handle = 1 ∧
    tst (exampleWorldNameUnknown.dev 0).sec_flags stdHdr.BTM_SEC_NAME_KNOWN = false ∧
    exampleWorldNameUnknown.out = [] ∧
    (btm_sec_execute_procedure stdHdr exampleEnv exampleWorldNameUnknown 0).1
      = tBTM_STATUS.BTM_CMD_STARTED ∧
    (btm_sec_execute_procedure stdHdr exampleEnv exampleWorldNameUnknown 0).2.out
      = [Event.btm_initiate_rem_name [0x00, 0x1A, 0x7D, 0xDA, 0x71, 0x13]] ∧
    ((btm_sec_execute_procedure stdHdr exampleEnv exampleWorldNameUnknown 0).2.dev 0).sec_state
      = SecState.GETTING_NAME ∧
    ((btm_sec_execute_procedure stdHdr exampleEnv exampleWorldNameUnknown 0).2.dev
      0).security_required = 0 ∧
    (exampleWorld.dev 0).security_required = 0 ∧
    btm_sec_execute_procedure stdHdr exampleEnv exampleWorld 0
      = (tBTM_STATUS.BTM_SUCCESS, exampleWorld) := by
  decide

theorem sub_of_or_left {a b m : Nat} (h : a &&& m = m) : (a ||| b) &&& m = m := by
  apply (and_eq_right_iff _ _).2
  intro i hi
  have := (and_eq_right_iff a m).1 h i hi
  simp [Nat.testBit_or, this]

theorem sub_of_or_right {a b m : Nat} (h : b &&& m = m) : (a ||| b) &&& m = m := by
  apply (and_eq_right_iff _ _).2
  intro i hi
  have := (and_eq_right_iff b m).1 h i hi
  simp [Nat.testBit_or, this]

theorem apart_sub {b M m : Nat} (h : b &&& M = 0) (hsub : M &&& m = m) : b &&& m = 0 := by
  apply (and_eq_zero_iff_bits _ _).2
  intro i hi
  cases hm : m.testBit i
  · rfl
  · have h1 := (and_eq_right_iff M m).1 hsub i hm
    have h2 := (and_eq_zero_iff_bits b M).1 h i hi
    rw [h1] at h2
    exact absurd h2 (by simp)

theorem flagsOkOf_of_eq (K : Hdr) (s : Bool) (x y : Nat)
    (hE : tst y K.BTM_SEC_ENCRYPTED = tst x K.BTM_SEC_ENCRYPTED)
    (hA : tst y K.BTM_SEC_AUTHENTICATED = tst x K.BTM_SEC_AUTHENTICATED)
    (hK : tst y K.BTM_SEC_LINK_KEY_KNOWN = tst x K.BTM_SEC_LINK_KEY_KNOWN) :
    flagsOkOf K s y = flagsOkOf K s x := by
  unfold flagsOkOf
  rw [hE, hA, hK]

/-- Setting flags apart from the three leaves the test as it was. -/
theorem flagsOkOf_or (K : Hdr) (H : K.flagsApart) (s : Bool) (x m : Nat)
    (hm : otherFlags K &&& m = m) :
    flagsOkOf K s (u16 (x ||| m)) = flagsOkOf K s x :=
  flagsOkOf_of_eq K s _ _
    (tst_u16_or_keep _ _ _ H.enc16 (apart_sub H.enc_other hm))
    (tst_u16_or_keep _ _ _ H.auth16 (apart_sub H.auth_other hm))
    (tst_u16_or_keep _ _ _ H.known16 (apart_sub H.known_other hm))

/-- Clearing flags apart from the three leaves the test as it was. -/
theorem flagsOkOf_andNot (K : Hdr) (H : K.flagsApart) (s : Bool) (x m : Nat)
    (hm : otherFlags K &&& m = m) :
    flagsOkOf K s (andNot16 x m) = flagsOkOf K s x :=
  flagsOkOf_of_eq K s _ _
    (tst_andNot16_keep _ _ _ H.enc16 (apart_sub H.enc_other hm))
    (tst_andNot16_keep _ _ _ H.auth16 (apart_sub H.auth_other hm))
    (tst_andNot16_keep _ _ _ H.known16 (apart_sub H.known_other hm))

/-- Setting the authenticated flag makes the test pass. -/
theorem flagsOkOf_or_auth (K : Hdr) (H : K.flagsApart) (s : Bool) (x m : Nat)
    (hm : m &&& K.BTM_SEC_AUTHENTICATED = K.BTM_SEC_AUTHENTICATED) :
    flagsOkOf K s (u16 (x ||| m)) = true := by
  unfold flagsOkOf
  have : tst (u16 (x ||| m)) K.BTM_SEC_AUTHENTICATED = true := by
    rw [tst_u16_or _ _ _ H.auth16, tst_of_contains H.auth_ne hm, Bool.or_true]
  rw [this]
  simp

/-- Clearing the encrypted flag makes the test pass. -/
theorem flagsOkOf_andNot_enc (K : Hdr) (s : Bool) (x m : Nat)
    (hm : m &&& K.BTM_SEC_ENCRYPTED = K.BTM_SEC_ENCRYPTED) :
    flagsOkOf K s (andNot16 x m) = true := by
  unfold flagsOkOf
  rw [tst_andNot16_sub _ _ _ hm]
  rfl

/-- Clearing flags among which the authenticated flag is not keeps a passed test. -/
theorem flagsOkOf_andNot_keep (K : Hdr) (H : K.flagsApart) (s : Bool) (x m : Nat)
    (hm : K.BTM_SEC_AUTHENTICATED &&& m = 0) (h : flagsOkOf K s x = true) :
    flagsOkOf K s (andNot16 x m) = true := by
  unfold flagsOkOf at h ⊢
  rw [tst_andNot16_keep _ _ _ H.auth16 hm]
  cases hE : tst x K.BTM_SEC_ENCRYPTED
  · rw [tst_andNot16_of_false _ _ _ hE]
    rfl
  · cases hA : tst x K.BTM_SEC_AUTHENTICATED
    · rw [hE, hA] at h
      cases hK : tst x K.BTM_SEC_LINK_KEY_KNOWN
      · rw [tst_andNot16_of_false _ _ _ hK]
        rw [hK] at h
        cases s <;> simp_all
      · rw [hK] at h
        cases s <;> simp_all
    · simp

/-- Without the link-key-known flag the relaxed test passes. -/
theorem flagsOkOf_relaxed (K : Hdr) (x : Nat) (h : tst x K.BTM_SEC_LINK_KEY_KNOWN = false) :
    flagsOkOf K false x = true := by
  unfold flagsOkOf
  rw [h]
  simp

theorem flagsOkOf_zero (K : Hdr) (s : Bool) : flagsOkOf K s 0 = true := by
  unfold flagsOkOf
  rw [tst_zero_left]
  rfl

/-! ### The invariant and the primitive steps -/

theorem kept_emit (K : Hdr) (s : Bool) (w : World) (e : Event) :
    (w.emit e).flagsKept K s ↔ w.flagsKept K s := Iff.rfl

/-- A world with the same device table and callbacks. -/
theorem kept_congr (K : Hdr) (s : Bool) (w w1 : World)
    (hd : w1.cb.sec_dev_rec = w.cb.sec_dev_rec) (ha : w1.cb.api = w.cb.api) :
    w1.flagsKept K s ↔ w.flagsKept K s := by
  unfold World.flagsKept
  rw [hd, ha]

theorem kept_setCb (K : Hdr) (s : Bool) (w : World) (f : tBTM_CB → tBTM_CB)
    (hd : (f w.cb).sec_dev_rec = w.cb.sec_dev_rec) (ha : (f w.cb).api = w.cb.api) :
    (w.setCb f).flagsKept K s ↔ w.flagsKept K s :=
  kept_congr K s w _ hd ha

theorem kept_dev (K : Hdr) (s : Bool) (w : World) (h : w.flagsKept K s) (p : Nat) :
    flagsOk K s (w.dev p) = true := by
  unfold World.dev
  by_cases hp : p < w.cb.sec_dev_rec.length
  · rw [List.getD_eq_getElem _ _ hp]
    exact h.1 _ (List.getElem_mem _)
  · rw [List.getD_eq_default _ _ (by omega)]
    exact flagsOkOf_zero K s

/-- An assignment to a record that keeps a passed test keeps the invariant. -/
theorem kept_setDev (K : Hdr) (s : Bool) (w : World) (p : Nat)
    (f : tBTM_SEC_DEV_REC → tBTM_SEC_DEV_REC)
    (hf : flagsOk K s (w.dev p) = true → flagsOk K s (f (w.dev p)) = true)
    (h : w.flagsKept K s) : (w.setDev p f).flagsKept K s := by
  refine ⟨?_, h.2⟩
  intro r hr
  rcases List.mem_or_eq_of_mem_set hr with hr | rfl
  · exact h.1 r hr
  · exact hf (kept_dev K s w h p)

/-- An assignment to a record that leaves the test as it was. -/
theorem kept_setDev_iff (K : Hdr) (s : Bool) (w : World) (p : Nat)
    (f : tBTM_SEC_DEV_REC → tBTM_SEC_DEV_REC)
    (hf : ∀ r, flagsOk K s (f r) = flagsOk K s r) :
    (w.setDev p f).flagsKept K s ↔ w.flagsKept K s := by
  constructor
  · intro h
    refine ⟨?_, h.2⟩
    intro r hr
    obtain ⟨i, hi, rfl⟩ := List.getElem_of_mem hr
    by_cases hip : i = p
    · subst hip
      have hm : (w.setDev i f).cb.sec_dev_rec[i]? = some (f (w.dev i)) := by
        unfold World.setDev
        simp [List.getElem?_set, hi]
      have := h.1 _ (List.getElem?_mem hm)
      rw [hf] at this
      unfold World.dev at this
      rw [List.getD_eq_getElem _ _ hi] at this
      exact this
    · have hm : (w.setDev p f).cb.sec_dev_rec[i]? = some w.cb.sec_dev_rec[i] := by
        unfold World.setDev
        simp only
        rw [List.getElem?_set_ne (Ne.symm hip)]
        exact List.getElem?_eq_getElem hi
      exact h.1 _ (List.getElem?_mem hm)
  · exact kept_setDev K s w p f (fun h => by rw [hf]; exact h)

/-- An assignment to fields of a record other than `sec_flags`. -/
theorem kept_setDev_frame (K : Hdr) (s : Bool) (w : World) (p : Nat)
    (f : tBTM_SEC_DEV_REC → tBTM_SEC_DEV_REC)
    (hf : ∀ r, (f r).sec_flags = r.sec_flags) :
    (w.setDev p f).flagsKept K s ↔ w.flagsKept K s :=
  kept_setDev_iff K s w p f (fun r => by unfold flagsOk; rw [hf])

/-! ### Steps that leave the security flags alone -/

theorem kept_callback (K : Hdr) (s : Bool) (w : World) (cbk : Option Nat) (a : BD_ADDR)
    (t ref : Nat) (res : tBTM_STATUS) :
    (w.callback cbk a t ref res).flagsKept K s ↔ w.flagsKept K s := by
  cases cbk <;> exact Iff.rfl

theorem kept_callbackIf (K : Hdr) (s : Bool) (w : World) (cbk : Option Nat) (a : BD_ADDR)
    (t ref : Nat) (res : tBTM_STATUS) :
    (w.callbackIf cbk a t ref res).flagsKept K s ↔ w.flagsKept K s := by
  cases cbk <;> exact Iff.rfl

theorem kept_derefDev (K : Hdr) (s : Bool) (w : World) (p : Option Nat) :
    (w.derefDev p).2.flagsKept K s ↔ w.flagsKept K s := by
  cases p <;> exact Iff.rfl

theorem kept_derefService (K : Hdr) (s : Bool) (w : World) (p : Option Nat) :
    (w.derefService K p).2.flagsKept K s ↔ w.flagsKept K s := by
  cases p <;> exact Iff.rfl

theorem kept_start_get_name (K : Hdr) (s : Bool) (E : Env) (w : World) (p : Nat) :
    (btm_sec_start_get_name E w p).2.flagsKept K s ↔ w.flagsKept K s := by
  unfold btm_sec_start_get_name
  simp only
  split_ifs <;> simp [kept_emit, kept_setDev_frame]

theorem kept_start_authentication (K : Hdr) (s : Bool) (E : Env) (w : World) (p : Nat) :
    (btm_sec_start_authentication E w p).2.flagsKept K s ↔ w.flagsKept K s := by
  unfold btm_sec_start_authentication
  simp [kept_emit, kept_setDev_frame]

theorem kept_start_encryption (K : Hdr) (s : Bool) (E : Env) (w : World) (p : Nat) :
    (btm_sec_start_encryption E w p).2.flagsKept K s ↔ w.flagsKept K s := by
  unfold btm_sec_start_encryption
  simp only
  split_ifs <;> simp [kept_emit, kept_setDev_frame]

theorem other_authorized (K : Hdr) :
    otherFlags K &&& K.BTM_SEC_AUTHORIZED = K.BTM_SEC_AUTHORIZED := by
  apply (and_eq_right_iff _ _).2
  intro i hi
  unfold otherFlags
  simp [Nat.testBit_or, hi]

theorem other_name_known (K : Hdr) :
    otherFlags K &&& K.BTM_SEC_NAME_KNOWN = K.BTM_SEC_NAME_KNOWN := by
  apply (and_eq_right_iff _ _).2
  intro i hi
  unfold otherFlags
  simp [Nat.testBit_or, hi]

theorem other_link_key_authed (K : Hdr) :
    otherFlags K &&& K.BTM_SEC_LINK_KEY_AUTHED = K.BTM_SEC_LINK_KEY_AUTHED := by
  apply (and_eq_right_iff _ _).2
  intro i hi
  unfold otherFlags
  simp [Nat.testBit_or, hi]

theorem other_le_mask (K : Hdr) :
    otherFlags K &&& K.BTM_SEC_LE_MASK = K.BTM_SEC_LE_MASK := by
  apply (and_eq_right_iff _ _).2
  intro i hi
  unfold otherFlags
  simp [Nat.testBit_or, hi]

theorem other_le_encrypted (K : Hdr) :
    otherFlags K &&& K.BTM_SEC_LE_ENCRYPTED = K.BTM_SEC_LE_ENCRYPTED := by
  apply (and_eq_right_iff _ _).2
  intro i hi
  unfold otherFlags
  simp [Nat.testBit_or, hi]

theorem other_le_link_key_known (K : Hdr) :
    otherFlags K &&& K.BTM_SEC_LE_LINK_KEY_KNOWN = K.BTM_SEC_LE_LINK_KEY_KNOWN := by
  apply (and_eq_right_iff _ _).2
  intro i hi
  unfold otherFlags
  simp [Nat.testBit_or, hi]

theorem other_le_flags (K : Hdr) :
    otherFlags K &&& (K.BTM_SEC_LE_AUTHENTICATED ||| K.BTM_SEC_LE_ENCRYPTED)
      = K.BTM_SEC_LE_AUTHENTICATED ||| K.BTM_SEC_LE_ENCRYPTED := by
  apply (and_eq_right_iff _ _).2
  intro i hi
  unfold otherFlags
  rw [Nat.testBit_or] at hi
  cases h1 : K.BTM_SEC_LE_AUTHENTICATED.testBit i <;>
    cases h2 : K.BTM_SEC_LE_ENCRYPTED.testBit i <;> simp_all [Nat.testBit_or]

/-- The flags `btm_sec_connected` initialises, shifted to the LE range. -/
theorem other_shifted_init (K : Hdr) :
    otherFlags K &&& ((K.BTM_SEC_AUTHORIZED ||| K.BTM_SEC_AUTHENTICATED
        ||| K.BTM_SEC_ENCRYPTED ||| K.BTM_SEC_ROLE_SWITCHED) <<< 8)
      = (K.BTM_SEC_AUTHORIZED ||| K.BTM_SEC_AUTHENTICATED ||| K.BTM_SEC_ENCRYPTED
        ||| K.BTM_SEC_ROLE_SWITCHED) <<< 8 := by
  apply (and_eq_right_iff _ _).2
  intro i hi
  unfold otherFlags
  simp [Nat.testBit_or, hi]

theorem other_shifted_keys (K : Hdr) :
    otherFlags K &&& ((K.BTM_SEC_LINK_KEY_KNOWN ||| K.BTM_SEC_LINK_KEY_AUTHED) <<< 8)
      = (K.BTM_SEC_LINK_KEY_KNOWN ||| K.BTM_SEC_LINK_KEY_AUTHED) <<< 8 := by
  apply (and_eq_right_iff _ _).2
  intro i hi
  unfold otherFlags
  simp [Nat.testBit_or, hi]

theorem other_shifted_le_key (K : Hdr) :
    otherFlags K &&& (K.BTM_SEC_LE_LINK_KEY_KNOWN <<< 8) = K.BTM_SEC_LE_LINK_KEY_KNOWN <<< 8 := by
  apply (and_eq_right_iff _ _).2
  intro i hi
  unfold otherFlags
  simp [Nat.testBit_or, hi]

/-! ### The executor -/

theorem kept_start_authorization (K : Hdr) (H : K.flagsApart) (s : Bool) (E : Env)
    (w : World) (p : Nat) :
    (btm_sec_start_authorization K E w p).2.flagsKept K s ↔ w.flagsKept K s := by
  unfold btm_sec_start_authorization
  simp only
  split_ifs <;>
    simp [kept_emit, kept_setDev_frame, kept_setDev_iff, kept_start_get_name, flagsOk,
      flagsOkOf_or K H s _ _ (other_authorized K)]

theorem kept_executeAuthorize (K : Hdr) (H : K.flagsApart) (s : Bool) (E : Env)
    (w : World) (p : Nat) :
    (executeAuthorize K E w p).2.flagsKept K s ↔ w.flagsKept K s := by
  unfold executeAuthorize
  simp only
  split_ifs <;>
    simp [kept_setDev_frame, kept_start_authorization K H, kept_derefService]

theorem kept_execute_procedure (K : Hdr) (H : K.flagsApart) (s : Bool) (E : Env)
    (w : World) (p : Nat) :
    (btm_sec_execute_procedure K E w p).2.flagsKept K s ↔ w.flagsKept K s := by
  unfold btm_sec_execute_procedure
  simp only
  split_ifs <;>
    simp [kept_start_get_name, kept_start_authentication, kept_start_encryption,
      kept_executeAuthorize K H]

theorem kept_queue_mx_request (K : Hdr) (s : Bool) (E : Env) (w : World) (a : BD_ADDR)
    (psm : Nat) (orig : Bool) (proto chan : Nat) (cbk : Option Nat) (ref : Nat) :
    (btm_sec_queue_mx_request E w a psm orig proto chan cbk ref).2.flagsKept K s
      ↔ w.flagsKept K s := by
  unfold btm_sec_queue_mx_request
  split_ifs <;> exact Iff.rfl

/-! ### Link-key upgrade, the one step that clears the authenticated flag alone -/

/-- `btm_sec_check_upgrade` keeps the relaxed invariant, and keeps the strict one
when the application declines the upgrade. -/
theorem keeps_check_upgrade (K : Hdr) (s : Bool) (E : Env)
    (hE : s = true → E.declinesUpgrade) (w : World) (p : Nat) (orig : Bool)
    (h : w.flagsKept K s) : (btm_sec_check_upgrade K E w p orig).flagsKept K s := by
  unfold btm_sec_check_upgrade
  simp only
  have h1 : (if w.cb.api.p_sp_callback = true
      then w.emit (Event.p_sp_callback_upgrade (w.dev p).bd_addr) else w).flagsKept K s := by
    split_ifs <;> exact h
  generalize (if w.cb.api.p_sp_callback = true
      then w.emit (Event.p_sp_callback_upgrade (w.dev p).bd_addr) else w) = w1 at h1 ⊢
  split_ifs
  all_goals first
    | exact h
    | exact h1
    | (cases s
       · exact kept_setDev K false _ _ _ (fun _ => flagsOkOf_relaxed K _
           (tst_andNot16_of_false _ _ _ (tst_andNot16_sub _ _ _ (or_and_self_left _ _)))) h1
       · have hd := hE rfl
         have ha := h1.2 rfl
         unfold Env.declinesUpgrade at hd
         simp_all)

/-! ### Access requests and the replay of queued requests -/

theorem keeps_mxProceed (K : Hdr) (H : K.flagsApart) (s : Bool) (E : Env)
    (hE : s = true → E.declinesUpgrade) (w : World) (p sv : Nat) (a : BD_ADDR)
    (orig : Bool) (cbk : Option Nat) (ref : Nat) (h : w.flagsKept K s) :
    (mxProceed K E w p sv a orig cbk ref).2.flagsKept K s := by
  unfold mxProceed
  simp only
  cases cbk <;> split_ifs
  all_goals
    repeat' first
      | simp only [kept_emit, kept_setDev_frame, kept_setDev_iff, kept_execute_procedure K H,
          flagsOk, flagsOkOf_andNot K H s _ _ (other_authorized K), implies_true, h]
      | with_reducible apply keeps_check_upgrade K s E hE

theorem keeps_find_or_alloc_dev (K : Hdr) (s : Bool) (E : Env)
    (hA : E.allocKeepsFlags K s) (w : World) (a : BD_ADDR) (h : w.flagsKept K s) :
    (btm_find_or_alloc_dev K E w a).2.flagsKept K s := by
  unfold btm_find_or_alloc_dev
  cases btm_find_dev K w.cb a with
  | some p => exact h
  | none => exact hA w.cb a w.out h

theorem keeps_mx_access_request (K : Hdr) (H : K.flagsApart) (s : Bool) (E : Env)
    (hE : s = true → E.declinesUpgrade) (hA : E.allocKeepsFlags K s) (w : World)
    (a : BD_ADDR) (psm : Nat) (orig : Bool) (proto chan : Nat) (cbk : Option Nat) (ref : Nat)
    (h : w.flagsKept K s) :
    (btm_sec_mx_access_request K E w a psm orig proto chan cbk ref).2.flagsKept K s := by
  have h0 := keeps_find_or_alloc_dev K s E hA w a h
  unfold btm_sec_mx_access_request
  simp only
  split
  · simp [kept_callbackIf, h0]
  · split_ifs
    all_goals
      repeat' first
        | simp only [kept_queue_mx_request, kept_derefDev, h0]
        | with_reducible apply keeps_mxProceed K H s E hE

theorem keeps_replay (K : Hdr) (H : K.flagsApart) (s : Bool) (E : Env)
    (hE : s = true → E.declinesUpgrade) (hA : E.allocKeepsFlags K s)
    (q : List tBTM_SEC_QUEUE_ENTRY) :
    ∀ (w : World), w.flagsKept K s →
      (q.foldl (fun w p_e =>
        if (E.btm_bda_to_acl p_e.bd_addr K.BT_TRANSPORT_BR_EDR).isSome then
          (btm_sec_mx_access_request K E w p_e.bd_addr p_e.psm p_e.is_orig p_e.mx_proto_id
            p_e.mx_chan_id p_e.p_callback p_e.p_ref_data).2
        else w) w).flagsKept K s := by
  induction q with
  | nil => intro w h; exact h
  | cons e q ih =>
    intro w h
    rw [List.foldl_cons]
    apply ih
    split_ifs
    · exact keeps_mx_access_request K H s E hE hA w _ _ _ _ _ _ _ h
    · exact h

theorem keeps_check_pending_reqs (K : Hdr) (H : K.flagsApart) (s : Bool) (E : Env)
    (hE : s = true → E.declinesUpgrade) (hA : E.allocKeepsFlags K s) (w : World)
    (h : w.flagsKept K s) : (btm_sec_check_pending_reqs K E w).flagsKept K s := by
  unfold btm_sec_check_pending_reqs
  split_ifs
  · exact keeps_replay K H s E hE hA _ _ h
  · exact keeps_replay K H s E hE hA _ _ h
  · exact h

theorem kept_devRecCallback (K : Hdr) (s : Bool) (w : World) (p : Nat) (res : tBTM_STATUS)
    (le : Bool) : (devRecCallback K w p res le).flagsKept K s ↔ w.flagsKept K s := by
  unfold devRecCallback
  simp only
  split <;> simp [kept_emit, kept_setDev_frame]

theorem keeps_dev_rec_cback_event (K : Hdr) (H : K.flagsApart) (s : Bool) (E : Env)
    (hE : s = true → E.declinesUpgrade) (hA : E.allocKeepsFlags K s) (w : World)
    (p : Nat) (res : tBTM_STATUS) (le : Bool) (h : w.flagsKept K s) :
    (btm_sec_dev_rec_cback_event K E w p res le).flagsKept K s := by
  unfold btm_sec_dev_rec_cback_event
  exact keeps_check_pending_reqs K H s E hE hA _ ((kept_devRecCallback K s w p res le).2 h)

/-! ### Pairing state, mode restoring and link teardown -/

theorem kept_with_cb (K : Hdr) (s : Bool) (w : World) (cb1 : tBTM_CB)
    (hd : cb1.sec_dev_rec = w.cb.sec_dev_rec) (ha : cb1.api = w.cb.api) :
    World.flagsKept K s { cb := cb1, out := w.out } ↔ w.flagsKept K s :=
  kept_congr K s w _ hd ha

theorem kept_writeAuthEnable (K : Hdr) (s : Bool) (w : World) (a : BD_ADDR) :
    (writeAuthEnable K w a).flagsKept K s ↔ w.flagsKept K s := by
  unfold writeAuthEnable
  split
  · split_ifs <;> simp only [kept_emit]
  · simp only [kept_emit]

theorem kept_restore_mode (K : Hdr) (s : Bool) (w : World) :
    (btm_restore_mode K w).flagsKept K s ↔ w.flagsKept K s := by
  unfold btm_restore_mode
  simp only
  split_ifs <;> simp [kept_emit, kept_setCb]

theorem keeps_change_pairing_state (K : Hdr) (H : K.flagsApart) (s : Bool) (E : Env)
    (hE : s = true → E.declinesUpgrade) (hA : E.allocKeepsFlags K s) (w : World)
    (st : tBTM_PAIRING_STATE) (h : w.flagsKept K s) :
    (btm_sec_change_pairing_state K E w st).flagsKept K s := by
  unfold btm_sec_change_pairing_state
  simp only
  split_ifs
  all_goals
    repeat' first
      | simp only [kept_emit, kept_setCb, kept_restore_mode, implies_true, h]
      | with_reducible apply keeps_check_pending_reqs K H s E hE hA

theorem kept_send_hci_disconnect (K : Hdr) (s : Bool) (E : Env) (w : World) (p : Nat)
    (reason handle : Nat) :
    (btm_sec_send_hci_disconnect K E w p reason handle).2.flagsKept K s ↔ w.flagsKept K s := by
  unfold btm_sec_send_hci_disconnect
  simp only
  split_ifs <;> simp [kept_emit, kept_setDev_frame]

theorem keeps_dd_create_conn (K : Hdr) (H : K.flagsApart) (s : Bool) (E : Env)
    (hE : s = true → E.declinesUpgrade) (hA : E.allocKeepsFlags K s) (w : World)
    (p : Nat) (h : w.flagsKept K s) :
    (btm_sec_dd_create_conn K E w p).2.flagsKept K s := by
  unfold btm_sec_dd_create_conn
  simp only
  split_ifs
  all_goals
    repeat' first
      | simp only [kept_emit, kept_setCb, implies_true, h]
      | with_reducible apply keeps_change_pairing_state K H s E hE hA

theorem kept_auth_collision (K : Hdr) (s : Bool) (E : Env) (w : World) (handle : Nat) :
    (btm_sec_auth_collision K E w handle).flagsKept K s ↔ w.flagsKept K s := by
  unfold btm_sec_auth_collision
  simp only
  split_ifs <;> (try split) <;> (try split_ifs) <;> simp [kept_emit, kept_setCb, kept_setDev_frame]

theorem kept_abort_access_req (K : Hdr) (s : Bool) (w : World) (a : BD_ADDR) :
    (btm_sec_abort_access_req K w a).flagsKept K s ↔ w.flagsKept K s := by
  unfold btm_sec_abort_access_req
  split
  · exact Iff.rfl
  · simp only
    split_ifs <;> simp [kept_emit, kept_setDev_frame]

theorem kept_init (K : Hdr) (s : Bool) (w : World) (m : Nat) :
    (btm_sec_init K w m).flagsKept K s ↔ w.flagsKept K s := by
  unfold btm_sec_init
  simp [kept_setCb]

theorem kept_send_link_key_notif (K : Hdr) (s : Bool) (w : World) (p : Nat) :
    (btm_send_link_key_notif w p).flagsKept K s ↔ w.flagsKept K s := by
  unfold btm_send_link_key_notif
  split_ifs <;> simp [kept_emit]

/-! ### L2CAP access requests and encryption requests -/

theorem keeps_l2capInstall (K : Hdr) (H : K.flagsApart) (s : Bool) (E : Env)
    (hE : s = true → E.declinesUpgrade) (w : World) (p sv : Nat) (a : BD_ADDR) (psm : Nat)
    (orig connless : Bool) (req : Nat) (chk : Bool) (cbk : Option Nat) (ref : Nat)
    (h : w.flagsKept K s) :
    (l2capInstall K E w p sv a psm orig connless req chk cbk ref).2.flagsKept K s := by
  unfold l2capInstall
  simp -zeta only
  lift_lets
  repeat
    intro x
    first
      | (have hx : World.flagsKept K s x := by
          repeat' first
            | with_reducible assumption
            | simp +zetaDelta only [kept_emit, kept_setCb, kept_with_cb, kept_setDev_frame,
                kept_setDev_iff, kept_callback, kept_callbackIf, kept_derefDev, kept_derefService,
                kept_writeAuthEnable, kept_restore_mode, kept_send_hci_disconnect,
                kept_auth_collision, kept_start_get_name, kept_start_authentication,
                kept_start_encryption, kept_execute_procedure K H, kept_devRecCallback, flagsOk,
                flagsOkOf_or K H s _ _ (other_authorized K),
                flagsOkOf_andNot K H s _ _ (other_authorized K), implies_true]
            | with_reducible apply keeps_check_upgrade K s E hE
            | split_ifs
         clear_value x)
      | skip
  split_ifs
  all_goals
    repeat' first
      | with_reducible assumption
      | simp +zetaDelta only [kept_emit, kept_setCb, kept_with_cb, kept_setDev_frame,
          kept_setDev_iff, kept_callback, kept_callbackIf, kept_derefDev, kept_derefService,
          kept_writeAuthEnable, kept_restore_mode, kept_send_hci_disconnect, kept_auth_collision,
          kept_start_get_name, kept_start_authentication, kept_start_encryption,
          kept_execute_procedure K H, kept_devRecCallback, flagsOk,
          flagsOkOf_or K H s _ _ (other_authorized K),
          flagsOkOf_andNot K H s _ _ (other_authorized K), implies_true]

theorem keeps_l2capProceed (K : Hdr) (H : K.flagsApart) (s : Bool) (E : Env)
    (hE : s = true → E.declinesUpgrade) (w : World) (p sv : Nat) (a : BD_ADDR) (psm : Nat)
    (orig connless : Bool) (req : Nat) (cbk : Option Nat) (ref : Nat)
    (h : w.flagsKept K s) :
    (l2capProceed K E w p sv a psm orig connless req cbk ref).2.flagsKept K s := by
  unfold l2capProceed
  lift_lets
  repeat
    intro x
    first
      | (have hx : World.flagsKept K s x := by
          repeat' first
            | with_reducible assumption
            | simp +zetaDelta only [kept_emit, kept_setCb, kept_with_cb, kept_setDev_frame,
                kept_setDev_iff, kept_callback, kept_callbackIf, kept_derefDev, kept_derefService,
                kept_writeAuthEnable, kept_restore_mode, kept_send_hci_disconnect,
                kept_auth_collision, kept_start_get_name, kept_start_authentication,
                kept_start_encryption, kept_execute_procedure K H, kept_devRecCallback, flagsOk,
                implies_true]
         clear_value x)
  split_ifs
  all_goals
    repeat' first
      | with_reducible assumption
      | simp +zetaDelta only [kept_emit, kept_setCb, kept_with_cb, kept_setDev_frame,
          kept_setDev_iff, kept_callback, kept_callbackIf, kept_derefDev, kept_derefService,
          kept_writeAuthEnable, kept_restore_mode, kept_send_hci_disconnect, kept_auth_collision,
          kept_start_get_name, kept_start_authentication, kept_start_encryption,
          kept_execute_procedure K H, kept_devRecCallback, flagsOk, implies_true]
      | with_reducible apply keeps_l2capInstall K H s E hE

theorem keeps_l2cap_access_req (K : Hdr) (H : K.flagsApart) (s : Bool) (E : Env)
    (hE : s = true → E.declinesUpgrade) (hA : E.allocKeepsFlags K s) (w : World)
    (a : BD_ADDR) (psm handle : Nat) (ct : CONNECTION_TYPE) (cbk : Option Nat) (ref : Nat)
    (h : w.flagsKept K s) :
    (btm_sec_l2cap_access_req K E w a psm handle ct cbk ref).2.flagsKept K s := by
  have h0 := keeps_find_or_alloc_dev K s E hA w a h
  unfold btm_sec_l2cap_access_req
  simp -zeta only
  lift_lets
  repeat
    intro x
    first
      | (have hx : World.flagsKept K s x := by
          repeat' first
            | with_reducible assumption
            | simp +zetaDelta only [kept_emit, kept_setCb, kept_with_cb, kept_setDev_frame,
                kept_setDev_iff, kept_callback, kept_callbackIf, kept_derefDev, kept_derefService,
                kept_writeAuthEnable, kept_restore_mode, kept_send_hci_disconnect,
                kept_auth_collision, kept_start_get_name, kept_start_authentication,
                kept_start_encryption, kept_execute_procedure K H, kept_devRecCallback, flagsOk,
                implies_true]
         clear_value x)
      | skip
  all_goals
    repeat' first
      | with_reducible assumption
      | simp +zetaDelta only [kept_emit, kept_setCb, kept_with_cb, kept_setDev_frame,
          kept_setDev_iff, kept_callback, kept_callbackIf, kept_derefDev, kept_derefService,
          kept_writeAuthEnable, kept_restore_mode, kept_send_hci_disconnect, kept_auth_collision,
          kept_start_get_name, kept_start_authentication, kept_start_encryption,
          kept_execute_procedure K H, kept_devRecCallback, flagsOk, implies_true]
      | with_reducible apply keeps_l2capProceed K H s E hE
      | split

theorem keeps_SetEncryption (K : Hdr) (H : K.flagsApart) (s : Bool) (E : Env) (w : World)
    (a : BD_ADDR) (t : Nat) (cbk : Option Nat) (ref : Nat) (h : w.flagsKept K s) :
    (BTM_SetEncryption K E w a t cbk ref).2.flagsKept K s := by
  unfold BTM_SetEncryption
  cases btm_find_dev K w.cb a
  all_goals cases cbk
  all_goals simp -zeta only
  all_goals lift_lets
  all_goals
    repeat
      intro x
      first
        | (have hx : World.flagsKept K s x := by
            repeat' first
              | with_reducible assumption
              | simp +zetaDelta only [kept_emit, kept_setCb, kept_with_cb, kept_setDev_frame,
                  kept_setDev_iff, kept_callback, kept_callbackIf, kept_derefDev,
                  kept_derefService, kept_writeAuthEnable, kept_restore_mode,
                  kept_send_hci_disconnect, kept_auth_collision, kept_start_get_name,
                  kept_start_authentication, kept_start_encryption, kept_execute_procedure K H,
                  kept_devRecCallback, flagsOk, implies_true]
              | split
           clear_value x)
        | skip
  all_goals first | split_ifs | skip
  all_goals
    repeat' first
      | with_reducible assumption
      | simp +zetaDelta only [kept_emit, kept_setCb, kept_with_cb, kept_setDev_frame,
          kept_setDev_iff, kept_callback, kept_callbackIf, kept_derefDev, kept_derefService,
          kept_writeAuthEnable, kept_restore_mode, kept_send_hci_disconnect, kept_auth_collision,
          kept_start_get_name, kept_start_authentication, kept_start_encryption,
          kept_execute_procedure K H, kept_devRecCallback, flagsOk, implies_true]

/-! ### Bonding and the PIN code reply -/

/-- An assignment to a record that keeps a passed test, whatever the record. -/
theorem keeps_setDev_all (K : Hdr) (s : Bool) (w : World) (p : Nat)
    (f : tBTM_SEC_DEV_REC → tBTM_SEC_DEV_REC)
    (hf : ∀ r, flagsOk K s r = true → flagsOk K s (f r) = true)
    (h : w.flagsKept K s) : (w.setDev p f).flagsKept K s :=
  kept_setDev K s w p f (hf _) h

/-- An assignment that clears the encrypted flag of a record. -/
theorem keeps_setDev_enc (K : Hdr) (s : Bool) (w : World) (p : Nat)
    (f : tBTM_SEC_DEV_REC → tBTM_SEC_DEV_REC) (m : Nat)
    (hm : m &&& K.BTM_SEC_ENCRYPTED = K.BTM_SEC_ENCRYPTED)
    (hf : ∀ r, (f r).sec_flags = andNot16 r.sec_flags m)
    (h : w.flagsKept K s) : (w.setDev p f).flagsKept K s :=
  kept_setDev K s w p f
    (fun _ => by unfold flagsOk; rw [hf]; exact flagsOkOf_andNot_enc K s _ _ hm) h

/-- An assignment that clears flags among which the authenticated flag is not. -/
theorem keeps_setDev_keep (K : Hdr) (H : K.flagsApart) (s : Bool) (w : World) (p : Nat)
    (f : tBTM_SEC_DEV_REC → tBTM_SEC_DEV_REC) (m : Nat)
    (hm : K.BTM_SEC_AUTHENTICATED &&& m = 0)
    (hf : ∀ r, (f r).sec_flags = andNot16 r.sec_flags m)
    (h : w.flagsKept K s) : (w.setDev p f).flagsKept K s :=
  kept_setDev K s w p f
    (fun h0 => by
      unfold flagsOk at h0 ⊢
      rw [hf]
      exact flagsOkOf_andNot_keep K H s _ _ hm h0) h

/-- An assignment that sets the authenticated flag of a record. -/
theorem keeps_setDev_auth (K : Hdr) (H : K.flagsApart) (s : Bool) (w : World) (p : Nat)
    (f : tBTM_SEC_DEV_REC → tBTM_SEC_DEV_REC) (m : Nat)
    (hm : m &&& K.BTM_SEC_AUTHENTICATED = K.BTM_SEC_AUTHENTICATED)
    (hf : ∀ r, (f r).sec_flags = u16 (r.sec_flags ||| m))
    (h : w.flagsKept K s) : (w.setDev p f).flagsKept K s :=
  kept_setDev K s w p f
    (fun _ => by unfold flagsOk; rw [hf]; exact flagsOkOf_or_auth K H s _ _ hm) h

theorem bond_clears_enc (K : Hdr) :
    bondClearMask K &&& K.BTM_SEC_ENCRYPTED = K.BTM_SEC_ENCRYPTED := by
  apply (and_eq_right_iff _ _).2
  intro i hi
  unfold bondClearMask
  simp [Nat.testBit_or, hi]

theorem disconnect_clears_enc (K : Hdr) :
    disconnectClearMask K &&& K.BTM_SEC_ENCRYPTED = K.BTM_SEC_ENCRYPTED := by
  apply (and_eq_right_iff _ _).2
  intro i hi
  unfold disconnectClearMask
  simp [Nat.testBit_or, hi]

theorem keeps_PINCodeReply (K : Hdr) (H : K.flagsApart) (s : Bool) (E : Env)
    (hE : s = true → E.declinesUpgrade) (hA : E.allocKeepsFlags K s) (w : World)
    (a : BD_ADDR) (res : tBTM_STATUS) (n : Nat) (pin : Option (List Nat))
    (tm : Option (List Nat)) (h : w.flagsKept K s) :
    (BTM_PINCodeReply K E w a res n pin tm).flagsKept K s := by
  unfold BTM_PINCodeReply
  by_cases h1 : w.cb.pairing_state ≠ tBTM_PAIRING_STATE.BTM_PAIR_STATE_WAIT_LOCAL_PIN
  · rw [if_pos h1]
    exact h
  rw [if_neg h1]
  by_cases h2 : a ≠ w.cb.pairing_bda
  · rw [if_pos h2]
    exact h
  rw [if_neg h2]
  cases btm_find_dev K w.cb a with
  | none => exact h
  | some p =>
    simp -zeta only
    lift_lets
    repeat
      intro x
      first
        | (have hx : World.flagsKept K s x := by
            repeat' first
              | with_reducible assumption
              | simp +zetaDelta only [kept_emit, kept_setCb, kept_with_cb, kept_setDev_frame,
                  kept_setDev_iff, kept_callback, kept_callbackIf, kept_derefDev,
                  kept_derefService, kept_writeAuthEnable, kept_restore_mode,
                  kept_send_hci_disconnect, kept_auth_collision, kept_start_get_name,
                  kept_start_authentication, kept_start_encryption, kept_execute_procedure K H,
                  kept_devRecCallback, flagsOk, flagsOkOf_or K H s _ _ (other_link_key_authed K),
                  flagsOkOf_andNot K H s _ _ (other_link_key_authed K), implies_true]
              | with_reducible apply keeps_change_pairing_state K H s E hE hA
              | with_reducible apply keeps_dd_create_conn K H s E hE hA
              | split
           clear_value x)
        | skip
    split_ifs
    all_goals
      repeat' first
        | with_reducible assumption
        | simp +zetaDelta only [kept_emit, kept_setCb, kept_with_cb, kept_setDev_frame,
            kept_setDev_iff, kept_callback, kept_callbackIf, kept_derefDev, kept_derefService,
            kept_writeAuthEnable, kept_restore_mode, kept_send_hci_disconnect,
            kept_auth_collision, kept_start_get_name, kept_start_authentication,
            kept_start_encryption, kept_execute_procedure K H, kept_devRecCallback, flagsOk,
            flagsOkOf_or K H s _ _ (other_link_key_authed K),
            flagsOkOf_andNot K H s _ _ (other_link_key_authed K), implies_true]
        | with_reducible apply keeps_change_pairing_state K H s E hE hA
        | with_reducible apply keeps_dd_create_conn K H s E hE hA

theorem keeps_check_prefetch_pin (K : Hdr) (H : K.flagsApart) (s : Bool) (E : Env)
    (hE : s = true → E.declinesUpgrade) (hA : E.allocKeepsFlags K s) (w : World)
    (p : Nat) (h : w.flagsKept K s) :
    (btm_sec_check_prefetch_pin K E w p).2.flagsKept K s := by
  unfold btm_sec_check_prefetch_pin
  lift_lets
  repeat
    intro x
    first
      | (have hx : World.flagsKept K s x := by
          repeat' first
            | with_reducible assumption
            | simp +zetaDelta only [kept_emit, kept_setCb, kept_with_cb, kept_setDev_frame,
                kept_setDev_iff, kept_callback, kept_callbackIf, kept_derefDev, kept_derefService,
                kept_writeAuthEnable, kept_restore_mode, kept_send_hci_disconnect,
                kept_auth_collision, kept_start_get_name, kept_start_authentication,
                kept_start_encryption, kept_execute_procedure K H, kept_devRecCallback, flagsOk,
                implies_true]
            | with_reducible apply keeps_change_pairing_state K H s E hE hA
            | with_reducible apply keeps_PINCodeReply K H s E hE hA
            | split_ifs
         clear_value x)
      | skip
  split_ifs
  all_goals
    repeat' first
      | with_reducible assumption
      | simp +zetaDelta only [kept_emit, kept_setCb, kept_with_cb, kept_setDev_frame,
          kept_setDev_iff, kept_callback, kept_callbackIf, kept_derefDev, kept_derefService,
          kept_writeAuthEnable, kept_restore_mode, kept_send_hci_disconnect, kept_auth_collision,
          kept_start_get_name, kept_start_authentication, kept_start_encryption,
          kept_execute_procedure K H, kept_devRecCallback, flagsOk, implies_true]
      | with_reducible apply keeps_change_pairing_state K H s E hE hA
      | with_reducible apply keeps_PINCodeReply K H s E hE hA

theorem keeps_bondClassic (K : Hdr) (H : K.flagsApart) (s : Bool) (E : Env)
    (hE : s = true → E.declinesUpgrade) (hA : E.allocKeepsFlags K s) (w : World)
    (p : Nat) (a : BD_ADDR) (acl : Option tACL_CONN) (h : w.flagsKept K s) :
    (bondClassic K E w p a acl).2.flagsKept K s := by
  unfold bondClassic
  simp -zeta only
  lift_lets
  repeat
    intro x
    first
      | (have hx : World.flagsKept K s x := by
          repeat' first
            | with_reducible assumption
            | simp +zetaDelta only [kept_emit, kept_setCb, kept_with_cb, kept_setDev_frame,
                kept_setDev_iff, kept_callback, kept_callbackIf, kept_derefDev, kept_derefService,
                kept_writeAuthEnable, kept_restore_mode, kept_send_hci_disconnect,
                kept_auth_collision, kept_start_get_name, kept_start_authentication,
                kept_start_encryption, kept_execute_procedure K H, kept_devRecCallback, flagsOk,
                flagsOkOf_or K H s _ _ (other_name_known K),
                flagsOkOf_andNot K H s _ _ (other_name_known K), implies_true]
            | with_reducible apply keeps_change_pairing_state K H s E hE hA
            | with_reducible apply keeps_dd_create_conn K H s E hE hA
            | with_reducible apply keeps_check_prefetch_pin K H s E hE hA
            | with_reducible refine keeps_setDev_enc K s _ _ _ _ (bond_clears_enc K) (fun _ => rfl) ?_
            | split_ifs
         clear_value x)
      | skip
  split_ifs
  all_goals
    repeat' first
      | with_reducible assumption
      | simp +zetaDelta only [kept_emit, kept_setCb, kept_with_cb, kept_setDev_frame,
          kept_setDev_iff, kept_callback, kept_callbackIf, kept_derefDev, kept_derefService,
          kept_writeAuthEnable, kept_restore_mode, kept_send_hci_disconnect, kept_auth_collision,
          kept_start_get_name, kept_start_authentication, kept_start_encryption,
          kept_execute_procedure K H, kept_devRecCallback, flagsOk,
          flagsOkOf_or K H s _ _ (other_name_known K),
          flagsOkOf_andNot K H s _ _ (other_name_known K), implies_true]
      | with_reducible apply keeps_change_pairing_state K H s E hE hA
      | with_reducible apply keeps_dd_create_conn K H s E hE hA
      | with_reducible apply keeps_check_prefetch_pin K H s E hE hA
      | with_reducible refine keeps_setDev_enc K s _ _ _ _ (bond_clears_enc K) (fun _ => rfl) ?_
      | split_ifs

theorem keeps_bond_by_transport (K : Hdr) (H : K.flagsApart) (s : Bool) (E : Env)
    (hE : s = true → E.declinesUpgrade) (hA : E.allocKeepsFlags K s) (w : World)
    (a : BD_ADDR) (t n : Nat) (pin : Option (List Nat)) (tm : Option (List Nat))
    (h : w.flagsKept K s) :
    (btm_sec_bond_by_transport K E w a t n pin tm).2.flagsKept K s := by
  have h0 := keeps_find_or_alloc_dev K s E hA w a h
  unfold btm_sec_bond_by_transport
  generalize btm_find_or_alloc_dev K E w a = x at h0 ⊢
  rcases x with ⟨_ | p, w1⟩
  all_goals simp only at h0
  all_goals simp -zeta only
  all_goals lift_lets
  all_goals
    repeat
      intro x
      first
        | (have hx : World.flagsKept K s x := by
            repeat' first
              | with_reducible assumption
              | simp +zetaDelta only [kept_emit, kept_setCb, kept_with_cb, kept_setDev_frame,
                  kept_setDev_iff, kept_callback, kept_callbackIf, kept_derefDev,
                  kept_derefService, kept_writeAuthEnable, kept_restore_mode,
                  kept_send_hci_disconnect, kept_auth_collision, kept_start_get_name,
                  kept_start_authentication, kept_start_encryption, kept_execute_procedure K H,
                  kept_devRecCallback, flagsOk, flagsOkOf_or K H s _ _ (other_le_mask K),
                  flagsOkOf_andNot K H s _ _ (other_le_mask K), implies_true]
              | with_reducible apply keeps_change_pairing_state K H s E hE hA
              | with_reducible apply keeps_bondClassic K H s E hE hA
              | split
           clear_value x)
        | skip
  all_goals split_ifs
  all_goals
    repeat' first
      | with_reducible assumption
      | simp +zetaDelta only [kept_emit, kept_setCb, kept_with_cb, kept_setDev_frame,
          kept_setDev_iff, kept_callback, kept_callbackIf, kept_derefDev, kept_derefService,
          kept_writeAuthEnable, kept_restore_mode, kept_send_hci_disconnect, kept_auth_collision,
          kept_start_get_name, kept_start_authentication, kept_start_encryption,
          kept_execute_procedure K H, kept_devRecCallback, flagsOk,
          flagsOkOf_or K H s _ _ (other_le_mask K), flagsOkOf_andNot K H s _ _ (other_le_mask K),
          implies_true]
      | with_reducible apply keeps_change_pairing_state K H s E hE hA
      | with_reducible apply keeps_bondClassic K H s E hE hA

/-! ### Authentication complete, timeouts and disconnection -/

theorem keeps_authCompleteFinish (K : Hdr) (H : K.flagsApart) (s : Bool) (E : Env)
    (hE : s = true → E.declinesUpgrade) (hA : E.allocKeepsFlags K s) (w : World)
    (p status old_sm4 : Nat) (h : w.flagsKept K s) :
    (authCompleteFinish K E w p status old_sm4).flagsKept K s := by
  unfold authCompleteFinish
  simp -zeta only
  lift_lets
  repeat
    intro x
    first
      | (have hx : World.flagsKept K s x := by
          repeat' first
            | with_reducible assumption
            | simp +zetaDelta only [kept_emit, kept_setCb, kept_with_cb, kept_setDev_frame,
                kept_setDev_iff, kept_callback, kept_callbackIf, kept_derefDev, kept_derefService,
                kept_writeAuthEnable, kept_restore_mode, kept_send_hci_disconnect,
                kept_auth_collision, kept_start_get_name, kept_start_authentication,
                kept_start_encryption, kept_execute_procedure K H, kept_devRecCallback, flagsOk,
                implies_true]
            | with_reducible apply keeps_dev_rec_cback_event K H s E hE hA
            | with_reducible refine keeps_setDev_keep K H s _ _ _ _ H.auth_known (fun _ => rfl) ?_
            | with_reducible refine keeps_setDev_auth K H s _ _ _ _ (Nat.and_self _) (fun _ => rfl) ?_
            | split_ifs
         clear_value x)
  split_ifs
  all_goals
    repeat' first
      | with_reducible assumption
      | simp +zetaDelta only [kept_emit, kept_setCb, kept_with_cb, kept_setDev_frame,
          kept_setDev_iff, kept_callback, kept_callbackIf, kept_derefDev, kept_derefService,
          kept_writeAuthEnable, kept_restore_mode, kept_send_hci_disconnect, kept_auth_collision,
          kept_start_get_name, kept_start_authentication, kept_start_encryption,
          kept_execute_procedure K H, kept_devRecCallback, flagsOk, implies_true]
      | with_reducible apply keeps_dev_rec_cback_event K H s E hE hA

theorem keeps_authCompleteKnown (K : Hdr) (H : K.flagsApart) (s : Bool) (E : Env)
    (hE : s = true → E.declinesUpgrade) (hA : E.allocKeepsFlags K s) (w : World)
    (p status : Nat) (old_state : tBTM_PAIRING_STATE) (h : w.flagsKept K s) :
    (authCompleteKnown K E w p status old_state).flagsKept K s := by
  unfold authCompleteKnown
  lift_lets
  repeat
    intro x
    first
      | (have hx : World.flagsKept K s x := by
          repeat' first
            | with_reducible assumption
            | simp +zetaDelta only [kept_emit, kept_setCb, kept_with_cb, kept_setDev_frame,
                kept_setDev_iff, kept_callback, kept_callbackIf, kept_derefDev, kept_derefService,
                kept_writeAuthEnable, kept_restore_mode, kept_send_hci_disconnect,
                kept_auth_collision, kept_start_get_name, kept_start_authentication,
                kept_start_encryption, kept_execute_procedure K H, kept_devRecCallback, flagsOk,
                implies_true]
            | with_reducible apply keeps_change_pairing_state K H s E hE hA
            | with_reducible apply keeps_authCompleteFinish K H s E hE hA
            | split_ifs
         clear_value x)
      | skip
  split_ifs
  all_goals
    repeat' first
      | with_reducible assumption
      | simp +zetaDelta only [kept_emit, kept_setCb, kept_with_cb, kept_setDev_frame,
          kept_setDev_iff, kept_callback, kept_callbackIf, kept_derefDev, kept_derefService,
          kept_writeAuthEnable, kept_restore_mode, kept_send_hci_disconnect, kept_auth_collision,
          kept_start_get_name, kept_start_authentication, kept_start_encryption,
          kept_execute_procedure K H, kept_devRecCallback, flagsOk, implies_true]
      | with_reducible apply keeps_change_pairing_state K H s E hE hA
      | with_reducible apply keeps_authCompleteFinish K H s E hE hA

theorem keeps_auth_complete (K : Hdr) (H : K.flagsApart) (s : Bool) (E : Env)
    (hE : s = true → E.declinesUpgrade) (hA : E.allocKeepsFlags K s) (w : World)
    (handle status : Nat) (h : w.flagsKept K s) :
    (btm_sec_auth_complete K E w handle status).flagsKept K s := by
  unfold btm_sec_auth_complete
  lift_lets
  repeat
    intro x
    first
      | (have hx : World.flagsKept K s x := by
          repeat' first
            | with_reducible assumption
            | simp +zetaDelta only [kept_emit, kept_setCb, kept_with_cb, kept_setDev_frame,
                kept_setDev_iff, kept_callback, kept_callbackIf, kept_derefDev, kept_derefService,
                kept_writeAuthEnable, kept_restore_mode, kept_send_hci_disconnect,
                kept_auth_collision, kept_start_get_name, kept_start_authentication,
                kept_start_encryption, kept_execute_procedure K H, kept_devRecCallback, flagsOk,
                implies_true]
            | with_reducible apply keeps_change_pairing_state K H s E hE hA
         clear_value x)
      | skip
  split_ifs
  all_goals
    repeat' first
      | with_reducible assumption
      | simp +zetaDelta only [kept_emit, kept_setCb, kept_with_cb, kept_setDev_frame,
          kept_setDev_iff, kept_callback, kept_callbackIf, kept_derefDev, kept_derefService,
          kept_writeAuthEnable, kept_restore_mode, kept_send_hci_disconnect, kept_auth_collision,
          kept_start_get_name, kept_start_authentication, kept_start_encryption,
          kept_execute_procedure K H, kept_devRecCallback, flagsOk, implies_true]
      | with_reducible apply keeps_change_pairing_state K H s E hE hA
      | with_reducible apply keeps_authCompleteKnown K H s E hE hA
      | split

theorem kept_SetSecurityLevel (K : Hdr) (s : Bool) (w : World) (orig : Bool)
    (name : List Nat) (sid lvl psm proto chan : Nat) :
    (w.BTM_SetSecurityLevel K orig name sid lvl psm proto chan).2.flagsKept K s
      ↔ w.flagsKept K s := by
  unfold World.BTM_SetSecurityLevel
  simp [kept_setCb]

theorem kept_SecClrService (K : Hdr) (s : Bool) (w : World) (sid : Nat) :
    (w.BTM_SecClrService K sid).2.flagsKept K s ↔ w.flagsKept K s := by
  unfold World.BTM_SecClrService
  simp [kept_setCb]

theorem kept_pairingTimeoutNotify (K : Hdr) (s : Bool) (w : World) (p : Option Nat) :
    (pairingTimeoutNotify K w p).flagsKept K s ↔ w.flagsKept K s := by
  unfold pairingTimeoutNotify
  cases p <;> split_ifs <;> simp only [kept_emit]

theorem kept_disconnectedCallback (K : Hdr) (s : Bool) (w : World) (p t reason : Nat) :
    (disconnectedCallback K w p t reason).flagsKept K s ↔ w.flagsKept K s := by
  unfold disconnectedCallback
  split <;> simp [kept_emit, kept_setDev_frame]

theorem keeps_bond_cancel_complete (K : Hdr) (H : K.flagsApart) (s : Bool) (E : Env)
    (hE : s = true → E.declinesUpgrade) (hA : E.allocKeepsFlags K s) (w : World)
    (h : w.flagsKept K s) : (btm_sec_bond_cancel_complete K E w).flagsKept K s := by
  unfold btm_sec_bond_cancel_complete
  lift_lets
  repeat
    intro x
    first
      | (have hx : World.flagsKept K s x := by
          repeat' first
            | with_reducible assumption
            | simp +zetaDelta only [kept_emit, kept_setCb, kept_with_cb, kept_setDev_frame,
                kept_setDev_iff, kept_callback, kept_callbackIf, kept_derefDev, kept_derefService,
                kept_writeAuthEnable, kept_restore_mode, kept_send_hci_disconnect,
                kept_auth_collision, kept_start_get_name, kept_start_authentication,
                kept_start_encryption, kept_execute_procedure K H, kept_devRecCallback, flagsOk,
                implies_true]
            | with_reducible apply keeps_change_pairing_state K H s E hE hA
            | split
         clear_value x)
  split_ifs
  all_goals
    repeat' first
      | with_reducible assumption
      | simp +zetaDelta only [kept_emit, kept_setCb, kept_with_cb, kept_setDev_frame,
          kept_setDev_iff, kept_callback, kept_callbackIf, kept_derefDev, kept_derefService,
          kept_writeAuthEnable, kept_restore_mode, kept_send_hci_disconnect, kept_auth_collision,
          kept_start_get_name, kept_start_authentication, kept_start_encryption,
          kept_execute_procedure K H, kept_devRecCallback, flagsOk, implies_true]

theorem keeps_pairing_timeout (K : Hdr) (H : K.flagsApart) (s : Bool) (E : Env)
    (hE : s = true → E.declinesUpgrade) (hA : E.allocKeepsFlags K s) (w : World)
    (h : w.flagsKept K s) : (btm_sec_pairing_timeout K E w).flagsKept K s := by
  unfold btm_sec_pairing_timeout
  lift_lets
  repeat
    intro x
    first
      | (have hx : World.flagsKept K s x := by
          repeat' first
            | with_reducible assumption
            | simp +zetaDelta only [kept_emit, kept_setCb, kept_with_cb, kept_setDev_frame,
                kept_setDev_iff, kept_callback, kept_callbackIf, kept_derefDev, kept_derefService,
                kept_writeAuthEnable, kept_restore_mode, kept_send_hci_disconnect,
                kept_auth_collision, kept_start_get_name, kept_start_authentication,
                kept_start_encryption, kept_execute_procedure K H, kept_devRecCallback, flagsOk,
                kept_pairingTimeoutNotify, implies_true]
            | with_reducible apply keeps_change_pairing_state K H s E hE hA
            | with_reducible apply keeps_bond_cancel_complete K H s E hE hA
            | split
         clear_value x)
      | skip
  all_goals
    repeat' first
      | with_reducible assumption
      | simp +zetaDelta only [kept_emit, kept_setCb, kept_with_cb, kept_setDev_frame,
          kept_setDev_iff, kept_callback, kept_callbackIf, kept_derefDev, kept_derefService,
          kept_writeAuthEnable, kept_restore_mode, kept_send_hci_disconnect, kept_auth_collision,
          kept_start_get_name, kept_start_authentication, kept_start_encryption,
          kept_execute_procedure K H, kept_devRecCallback, flagsOk, kept_pairingTimeoutNotify,
          implies_true]
      | with_reducible apply keeps_change_pairing_state K H s E hE hA
      | with_reducible apply keeps_bond_cancel_complete K H s E hE hA
      | split

theorem keeps_disconnectedBonding (K : Hdr) (H : K.flagsApart) (s : Bool) (E : Env)
    (hE : s = true → E.declinesUpgrade) (hA : E.allocKeepsFlags K s) (w : World)
    (p reason flags : Nat) (h : w.flagsKept K s) :
    (disconnectedBonding K E w p reason flags).flagsKept K s := by
  unfold disconnectedBonding
  lift_lets
  repeat
    intro x
    first
      | (have hx : World.flagsKept K s x := by
          repeat' first
            | with_reducible assumption
            | simp +zetaDelta only [kept_emit, kept_setCb, kept_with_cb, kept_setDev_frame,
                kept_setDev_iff, kept_callback, kept_callbackIf, kept_derefDev, kept_derefService,
                kept_writeAuthEnable, kept_restore_mode, kept_send_hci_disconnect,
                kept_auth_collision, kept_start_get_name, kept_start_authentication,
                kept_start_encryption, kept_execute_procedure K H, kept_devRecCallback, flagsOk,
                implies_true]
            | with_reducible apply keeps_change_pairing_state K H s E hE hA
            | with_reducible refine keeps_setDev_keep K H s _ _ _ _ H.auth_known (fun _ => rfl) ?_
         clear_value x)
      | skip
  split_ifs
  all_goals
    repeat' first
      | with_reducible assumption
      | simp +zetaDelta only [kept_emit, kept_setCb, kept_with_cb, kept_setDev_frame,
          kept_setDev_iff, kept_callback, kept_callbackIf, kept_derefDev, kept_derefService,
          kept_writeAuthEnable, kept_restore_mode, kept_send_hci_disconnect, kept_auth_collision,
          kept_start_get_name, kept_start_authentication, kept_start_encryption,
          kept_execute_procedure K H, kept_devRecCallback, flagsOk, implies_true]

theorem keeps_disconnectedReset (K : Hdr) (H : K.flagsApart) (s : Bool) (w : World)
    (p t : Nat) (h : w.flagsKept K s) : (disconnectedReset K w p t).flagsKept K s := by
  unfold disconnectedReset
  simp only
  all_goals
    repeat' first
      | with_reducible assumption
      | simp +zetaDelta only [kept_emit, kept_setCb, kept_with_cb, kept_setDev_frame,
          kept_setDev_iff, kept_callback, kept_callbackIf, kept_derefDev, kept_derefService,
          kept_writeAuthEnable, kept_restore_mode, kept_send_hci_disconnect, kept_auth_collision,
          kept_start_get_name, kept_start_authentication, kept_start_encryption,
          kept_execute_procedure K H, kept_devRecCallback, flagsOk,
          flagsOkOf_or K H s _ _ (other_le_flags K),
          flagsOkOf_andNot K H s _ _ (other_le_flags K), implies_true]
      | with_reducible refine keeps_setDev_enc K s _ _ _ _ (disconnect_clears_enc K) (fun _ => rfl) ?_
      | split_ifs

theorem keeps_disconnected (K : Hdr) (H : K.flagsApart) (s : Bool) (E : Env)
    (hE : s = true → E.declinesUpgrade) (hA : E.allocKeepsFlags K s) (w : World)
    (handle reason : Nat) (h : w.flagsKept K s) :
    (btm_sec_disconnected K E w handle reason).flagsKept K s := by
  unfold btm_sec_disconnected
  simp only
  all_goals
    repeat' first
      | with_reducible assumption
      | simp +zetaDelta only [kept_emit, kept_setCb, kept_with_cb, kept_setDev_frame,
          kept_setDev_iff, kept_callback, kept_callbackIf, kept_derefDev, kept_derefService,
          kept_writeAuthEnable, kept_restore_mode, kept_send_hci_disconnect, kept_auth_collision,
          kept_start_get_name, kept_start_authentication, kept_start_encryption,
          kept_execute_procedure K H, kept_devRecCallback, flagsOk, kept_disconnectedCallback,
          implies_true]
      | with_reducible apply keeps_disconnectedBonding K H s E hE hA
      | with_reducible apply keeps_disconnectedReset K H s
      | split

theorem keeps_io_capabilities_req (K : Hdr) (H : K.flagsApart) (s : Bool) (E : Env)
    (hE : s = true → E.declinesUpgrade) (hA : E.allocKeepsFlags K s) (w : World)
    (a : BD_ADDR) (h : w.flagsKept K s) :
    (btm_io_capabilities_req K E w a).flagsKept K s := by
  have h0 := keeps_find_or_alloc_dev K s E hA w a h
  unfold btm_io_capabilities_req
  simp -zeta only
  lift_lets
  repeat
    intro x
    first
      | (have hx : World.flagsKept K s x := by
          repeat' first
            | with_reducible assumption
            | simp +zetaDelta only [kept_emit, kept_setCb, kept_with_cb, kept_setDev_frame,
                kept_setDev_iff, kept_callback, kept_callbackIf, kept_derefDev, kept_derefService,
                kept_writeAuthEnable, kept_restore_mode, kept_send_hci_disconnect,
                kept_auth_collision, kept_start_get_name, kept_start_authentication,
                kept_start_encryption, kept_execute_procedure K H, kept_devRecCallback, flagsOk,
                implies_true]
            | with_reducible apply keeps_change_pairing_state K H s E hE hA
            | split
         clear_value x)
      | skip
  split_ifs
  all_goals
    repeat' first
      | with_reducible assumption
      | simp +zetaDelta only [kept_emit, kept_setCb, kept_with_cb, kept_setDev_frame,
          kept_setDev_iff, kept_callback, kept_callbackIf, kept_derefDev, kept_derefService,
          kept_writeAuthEnable, kept_restore_mode, kept_send_hci_disconnect, kept_auth_collision,
          kept_start_get_name, kept_start_authentication, kept_start_encryption,
          kept_execute_procedure K H, kept_devRecCallback, flagsOk, implies_true]

/-! ### Encryption change, Simple Pairing complete and connection complete -/

theorem sub_shift {M c m : Nat} (s : Nat) (h : M &&& (c <<< s) = c <<< s)
    (hsub : c &&& m = m) : M &&& (m <<< s) = m <<< s := by
  apply (and_eq_right_iff _ _).2
  intro i hi
  apply (and_eq_right_iff _ _).1 h
  rw [Nat.testBit_shiftLeft] at hi ⊢
  cases hge : decide (i ≥ s)
  · simp [hge] at hi
  · simp only [hge, Bool.true_and] at hi ⊢
    exact (and_eq_right_iff c m).1 hsub _ hi

theorem other_shifted_both (K : Hdr) :
    otherFlags K &&& ((K.BTM_SEC_AUTHENTICATED ||| K.BTM_SEC_ENCRYPTED) <<< 8)
      = (K.BTM_SEC_AUTHENTICATED ||| K.BTM_SEC_ENCRYPTED) <<< 8 := by
  apply sub_shift 8 (other_shifted_init K)
  apply (and_eq_right_iff _ _).2
  intro i hi
  rw [Nat.testBit_or] at hi
  simp only [Nat.testBit_or]
  cases ha : K.BTM_SEC_AUTHENTICATED.testBit i <;>
    cases hb : K.BTM_SEC_ENCRYPTED.testBit i <;> simp_all

theorem other_shifted_auth (K : Hdr) :
    otherFlags K &&& (K.BTM_SEC_AUTHENTICATED <<< 8) = K.BTM_SEC_AUTHENTICATED <<< 8 := by
  apply sub_shift 8 (other_shifted_init K)
  apply (and_eq_right_iff _ _).2
  intro i hi
  simp [Nat.testBit_or, hi]

theorem other_le_key_unshifted (K : Hdr) :
    otherFlags K &&& (K.BTM_SEC_LE_LINK_KEY_KNOWN <<< 0) = K.BTM_SEC_LE_LINK_KEY_KNOWN <<< 0 := by
  rw [Nat.shiftLeft_zero]
  exact other_le_link_key_known K

/-- The authenticated flag is apart from the two link-key flags. -/
theorem auth_apart_keys {K : Hdr} (H : K.flagsApart) :
    K.BTM_SEC_AUTHENTICATED &&& ((K.BTM_SEC_LINK_KEY_KNOWN ||| K.BTM_SEC_LINK_KEY_AUTHED) <<< 0)
      = 0 := by
  rw [Nat.shiftLeft_zero]
  exact and_or_zero H.auth_known (apart_sub H.auth_other (other_link_key_authed K))

/-- The flag update of `btm_sec_encrypt_change` (lines 4264-4280) keeps a passed test. -/
theorem ok_encryptChangeFlags (K : Hdr) (H : K.flagsApart) (s : Bool) (r : tBTM_SEC_DEV_REC)
    (handle status encr_enable : Nat) (h : flagsOk K s r = true) :
    flagsOk K s (encryptChangeFlags K r handle status encr_enable) = true := by
  unfold flagsOk at h ⊢
  unfold encryptChangeFlags
  simp only
  by_cases hs : (status == K.HCI_SUCCESS) = true
  · by_cases he : (encr_enable != 0) = true
    · simp only [hs, he, Bool.and_self, if_true, Bool.not_true, Bool.and_false,
        Bool.false_eq_true, if_false]
      by_cases hh : (r.hci_handle == handle) = true
      · simp only [hh, if_true]
        exact flagsOkOf_or_auth K H s _ _ (or_and_self_left _ _)
      · simp only [hh, Bool.false_eq_true, if_false]
        rw [flagsOkOf_or K H s _ _ (other_le_flags K)]
        exact h
    · have he2 : (encr_enable != 0) = false := by simpa using he
      simp only [hs, he2, Bool.and_false, Bool.false_eq_true, if_false, Bool.not_false,
        Bool.and_self, if_true]
      by_cases hh : (r.hci_handle == handle) = true
      · simp only [hh, if_true]
        exact flagsOkOf_andNot_enc K s _ _ (Nat.and_self _)
      · simp only [hh, Bool.false_eq_true, if_false]
        rw [flagsOkOf_andNot K H s _ _ (other_le_encrypted K)]
        exact h
  · have hs2 : (status == K.HCI_SUCCESS) = false := by simpa using hs
    simp only [hs2, Bool.false_and, Bool.false_eq_true, if_false]
    exact h

/-- The flag initialisation of `btm_sec_connected` (lines 4679-4686) for the classic
handle leaves a record that passes the test. -/
theorem ok_connectedFlags_classic (K : Hdr) (H : K.flagsApart) (s : Bool) (mode : Nat)
    (r : tBTM_SEC_DEV_REC) (enc_mode : Nat) :
    flagsOk K s (connectedFlags K mode r 0 enc_mode) = true := by
  have h := connected_classic K mode r enc_mode H.auth_ne H.auth16
  unfold encryptedImpliesAuthenticated at h
  unfold flagsOk flagsOkOf
  rw [h]
  rfl

/-- The flag initialisation of `btm_sec_connected` for the LE handle (shift 8) leaves
the test as it was. -/
theorem ok_connectedFlags_le (K : Hdr) (H : K.flagsApart) (s : Bool) (mode : Nat)
    (r : tBTM_SEC_DEV_REC) (enc_mode : Nat) :
    flagsOkOf K s (connectedFlags K mode r 8 enc_mode).sec_flags = flagsOkOf K s r.sec_flags := by
  unfold connectedFlags
  simp only
  split_ifs <;>
    simp only [flagsOkOf_or K H s _ _ (other_shifted_both K),
      flagsOkOf_or K H s _ _ (other_shifted_auth K),
      flagsOkOf_andNot K H s _ _ (other_shifted_init K)]

theorem kept_mk (K : Hdr) (s : Bool) (w : World) (out : List Event) :
    World.flagsKept K s { cb := w.cb, out := out } ↔ w.flagsKept K s := Iff.rfl

theorem keeps_alloc (K : Hdr) (s : Bool) (E : Env) (hA : E.allocKeepsFlags K s)
    (cb : tBTM_CB) (a : BD_ADDR) (out : List Event)
    (h : World.flagsKept K s { cb := cb, out := out }) :
    World.flagsKept K s { cb := (E.btm_sec_alloc_dev cb a).2, out := out } :=
  hA cb a out h

set_option maxHeartbeats 4000000 in
theorem keeps_encrypt_change (K : Hdr) (H : K.flagsApart) (s : Bool) (E : Env)
    (hE : s = true → E.declinesUpgrade) (hA : E.allocKeepsFlags K s) (w : World)
    (handle status encr_enable : Nat) (h : w.flagsKept K s) :
    (btm_sec_encrypt_change K E w handle status encr_enable).flagsKept K s := by
  unfold btm_sec_encrypt_change
  lift_lets
  intro pd
  clear_value pd
  cases pd
  all_goals simp -zeta only
  all_goals lift_lets
  all_goals
    repeat
      intro x
      first
        | (have hx : World.flagsKept K s x := by
            repeat' first
              | with_reducible assumption
              | simp +zetaDelta only [kept_emit, kept_setCb, kept_with_cb, kept_setDev_frame,
                  kept_setDev_iff, kept_callback, kept_callbackIf, kept_derefDev,
                  kept_derefService, kept_writeAuthEnable, kept_restore_mode,
                  kept_send_hci_disconnect, kept_auth_collision, kept_start_get_name,
                  kept_start_authentication, kept_start_encryption, kept_execute_procedure K H,
                  kept_devRecCallback, flagsOk,
                  flagsOkOf_or K H s _ _ (other_le_link_key_known K),
                  flagsOkOf_andNot K H s _ _ (other_le_link_key_known K), implies_true]
              | with_reducible apply keeps_dev_rec_cback_event K H s E hE hA
              | with_reducible refine keeps_setDev_all K s _ _ _ (fun r hr => ok_encryptChangeFlags K H s r _ _ _ hr) ?_
              | split
           clear_value x)
  all_goals split_ifs
  all_goals
    repeat' first
      | with_reducible assumption
      | simp +zetaDelta only [kept_emit, kept_setCb, kept_with_cb, kept_setDev_frame,
          kept_setDev_iff, kept_callback, kept_callbackIf, kept_derefDev, kept_derefService,
          kept_writeAuthEnable, kept_restore_mode, kept_send_hci_disconnect, kept_auth_collision,
          kept_start_get_name, kept_start_authentication, kept_start_encryption,
          kept_execute_procedure K H, kept_devRecCallback, flagsOk,
          flagsOkOf_or K H s _ _ (other_le_link_key_known K),
          flagsOkOf_andNot K H s _ _ (other_le_link_key_known K), implies_true]
      | with_reducible apply keeps_dev_rec_cback_event K H s E hE hA

theorem keeps_simple_pair_complete (K : Hdr) (H : K.flagsApart) (s : Bool) (E : Env)
    (hE : s = true → E.declinesUpgrade) (hA : E.allocKeepsFlags K s) (w : World)
    (status : Nat) (a : BD_ADDR) (h : w.flagsKept K s) :
    (btm_simple_pair_complete K E w status a).flagsKept K s := by
  unfold btm_simple_pair_complete
  cases btm_find_dev K w.cb a
  all_goals simp -zeta only
  all_goals lift_lets
  all_goals
    repeat
      intro x
      first
        | (have hx : World.flagsKept K s x := by
            repeat' first
              | with_reducible assumption
              | simp +zetaDelta only [kept_emit, kept_setCb, kept_with_cb, kept_setDev_frame,
                  kept_setDev_iff, kept_callback, kept_callbackIf, kept_derefDev,
                  kept_derefService, kept_writeAuthEnable, kept_restore_mode,
                  kept_send_hci_disconnect, kept_auth_collision, kept_start_get_name,
                  kept_start_authentication, kept_start_encryption, kept_execute_procedure K H,
                  kept_devRecCallback, flagsOk, implies_true]
              | with_reducible apply keeps_change_pairing_state K H s E hE hA
              | with_reducible refine keeps_setDev_auth K H s _ _ _ _ (Nat.and_self _) (fun _ => rfl) ?_
              | split
           clear_value x)
  all_goals first | split_ifs | skip
  all_goals
    repeat' first
      | with_reducible assumption
      | simp +zetaDelta only [kept_emit, kept_setCb, kept_with_cb, kept_setDev_frame,
          kept_setDev_iff, kept_callback, kept_callbackIf, kept_derefDev, kept_derefService,
          kept_writeAuthEnable, kept_restore_mode, kept_send_hci_disconnect, kept_auth_collision,
          kept_start_get_name, kept_start_authentication, kept_start_encryption,
          kept_execute_procedure K H, kept_devRecCallback, flagsOk, implies_true]

theorem keeps_connectedTail (K : Hdr) (H : K.flagsApart) (s : Bool) (E : Env)
    (hE : s = true → E.declinesUpgrade) (hA : E.allocKeepsFlags K s)
    (b : Nat) (hb : b = 0 ∨ b = 8) (w : World) (p : Nat) (bda : BD_ADDR)
    (handle status enc_mode : Nat) (pairing : Bool) (h : w.flagsKept K s) :
    (connectedTail K E w p bda handle status enc_mode b pairing).flagsKept K s := by
  unfold connectedTail
  rcases hb with rfl | rfl
  all_goals simp -zeta only
  all_goals lift_lets
  all_goals
    repeat
      intro x
      first
        | (have hx : World.flagsKept K s x := by
            repeat' first
              | with_reducible assumption
              | simp +zetaDelta only [kept_emit, kept_setCb, kept_with_cb, kept_setDev_frame,
                  kept_setDev_iff, kept_callback, kept_callbackIf, kept_derefDev,
                  kept_derefService, kept_writeAuthEnable, kept_restore_mode,
                  kept_send_hci_disconnect, kept_auth_collision, kept_start_get_name,
                  kept_start_authentication, kept_start_encryption, kept_execute_procedure K H,
                  kept_devRecCallback, flagsOk, flagsOkOf_or K H s _ _ (other_shifted_keys K),
                  flagsOkOf_andNot K H s _ _ (other_shifted_keys K),
                  flagsOkOf_or K H s _ _ (other_shifted_le_key K),
                  flagsOkOf_andNot K H s _ _ (other_shifted_le_key K),
                  flagsOkOf_or K H s _ _ (other_le_key_unshifted K),
                  flagsOkOf_andNot K H s _ _ (other_le_key_unshifted K),
                  ok_connectedFlags_le K H s, kept_send_link_key_notif, implies_true]
              | with_reducible apply keeps_change_pairing_state K H s E hE hA
              | with_reducible apply keeps_dev_rec_cback_event K H s E hE hA
              | with_reducible refine keeps_setDev_keep K H s _ _ _ _ (auth_apart_keys H) (fun _ => rfl) ?_
              | with_reducible refine keeps_setDev_all K s _ _ _ (fun r _ => ok_connectedFlags_classic K H s _ r _) ?_
              | split_ifs
           clear_value x)
        | skip
  all_goals split_ifs
  all_goals
    repeat' first
      | with_reducible assumption
      | simp +zetaDelta only [kept_emit, kept_setCb, kept_with_cb, kept_setDev_frame,
          kept_setDev_iff, kept_callback, kept_callbackIf, kept_derefDev, kept_derefService,
          kept_writeAuthEnable, kept_restore_mode, kept_send_hci_disconnect, kept_auth_collision,
          kept_start_get_name, kept_start_authentication, kept_start_encryption,
          kept_execute_procedure K H, kept_devRecCallback, flagsOk,
          flagsOkOf_or K H s _ _ (other_shifted_keys K),
          flagsOkOf_andNot K H s _ _ (other_shifted_keys K),
          flagsOkOf_or K H s _ _ (other_shifted_le_key K),
          flagsOkOf_andNot K H s _ _ (other_shifted_le_key K),
          flagsOkOf_or K H s _ _ (other_le_key_unshifted K),
          flagsOkOf_andNot K H s _ _ (other_le_key_unshifted K), ok_connectedFlags_le K H s,
          kept_send_link_key_notif, implies_true]
      | with_reducible apply keeps_change_pairing_state K H s E hE hA
      | with_reducible apply keeps_dev_rec_cback_event K H s E hE hA

theorem keeps_connectedKnown (K : Hdr) (H : K.flagsApart) (s : Bool) (E : Env)
    (hE : s = true → E.declinesUpgrade) (hA : E.allocKeepsFlags K s)
    (b : Nat) (hb : b = 0 ∨ b = 8) (w : World) (p : Nat) (bda : BD_ADDR)
    (handle status enc_mode : Nat) (h : w.flagsKept K s) :
    (connectedKnown K E w p bda handle status enc_mode b).flagsKept K s := by
  unfold connectedKnown
  lift_lets
  repeat
    intro x
    first
      | (have hx : World.flagsKept K s x := by
          repeat' first
            | with_reducible assumption
            | simp +zetaDelta only [kept_emit, kept_setCb, kept_with_cb, kept_setDev_frame,
                kept_setDev_iff, kept_callback, kept_callbackIf, kept_derefDev, kept_derefService,
                kept_writeAuthEnable, kept_restore_mode, kept_send_hci_disconnect,
                kept_auth_collision, kept_start_get_name, kept_start_authentication,
                kept_start_encryption, kept_execute_procedure K H, kept_devRecCallback, flagsOk,
                implies_true]
            | with_reducible apply keeps_change_pairing_state K H s E hE hA
            | with_reducible apply keeps_connectedTail K H s E hE hA b hb
            | split_ifs
         clear_value x)
  split_ifs
  all_goals
    repeat' first
      | with_reducible assumption
      | simp +zetaDelta only [kept_emit, kept_setCb, kept_with_cb, kept_setDev_frame,
          kept_setDev_iff, kept_callback, kept_callbackIf, kept_derefDev, kept_derefService,
          kept_writeAuthEnable, kept_restore_mode, kept_send_hci_disconnect, kept_auth_collision,
          kept_start_get_name, kept_start_authentication, kept_start_encryption,
          kept_execute_procedure K H, kept_devRecCallback, flagsOk, implies_true]
      | with_reducible apply keeps_change_pairing_state K H s E hE hA
      | with_reducible apply keeps_connectedTail K H s E hE hA b hb

set_option maxHeartbeats 4000000 in
theorem keeps_connected (K : Hdr) (H : K.flagsApart) (s : Bool) (E : Env)
    (hE : s = true → E.declinesUpgrade) (hA : E.allocKeepsFlags K s) (w : World)
    (bda : BD_ADDR) (handle status enc_mode : Nat) (h : w.flagsKept K s) :
    (btm_sec_connected K E w bda handle status enc_mode).flagsKept K s := by
  unfold btm_sec_connected
  lift_lets
  intro pd
  clear_value pd
  cases pd
  all_goals simp -zeta only
  all_goals lift_lets
  all_goals
    repeat
      intro x
      first
        | (have hx : World.flagsKept K s x := by
            repeat' first
              | with_reducible assumption
              | simp +zetaDelta only [kept_emit, kept_setCb, kept_with_cb, kept_setDev_frame,
                  kept_setDev_iff, kept_callback, kept_callbackIf, kept_derefDev,
                  kept_derefService, kept_writeAuthEnable, kept_restore_mode,
                  kept_send_hci_disconnect, kept_auth_collision, kept_start_get_name,
                  kept_start_authentication, kept_start_encryption, kept_execute_procedure K H,
                  kept_devRecCallback, flagsOk, kept_mk, implies_true]
              | with_reducible apply keeps_change_pairing_state K H s E hE hA
              | with_reducible apply keeps_connectedKnown K H s E hE hA 8 (Or.inr rfl)
              | with_reducible apply keeps_connectedKnown K H s E hE hA 0 (Or.inl rfl)
              | with_reducible apply keeps_alloc K s E hA
              | split_ifs
           clear_value x)
        | skip
  all_goals split_ifs
  all_goals
    repeat' first
      | with_reducible assumption
      | simp +zetaDelta only [kept_emit, kept_setCb, kept_with_cb, kept_setDev_frame,
          kept_setDev_iff, kept_callback, kept_callbackIf, kept_derefDev, kept_derefService,
          kept_writeAuthEnable, kept_restore_mode, kept_send_hci_disconnect, kept_auth_collision,
          kept_start_get_name, kept_start_authentication, kept_start_encryption,
          kept_execute_procedure K H, kept_devRecCallback, flagsOk, kept_mk, implies_true]
      | with_reducible apply keeps_change_pairing_state K H s E hE hA
      | with_reducible apply keeps_connectedKnown K H s E hE hA 8 (Or.inr rfl)
      | with_reducible apply keeps_connectedKnown K H s E hE hA 0 (Or.inl rfl)
      | with_reducible apply keeps_alloc K s E hA
      | split_ifs

/-! ### Every operation -/

theorem keeps_run (K : Hdr) (H : K.flagsApart) (s : Bool) (E : Env)
    (hE : s = true → E.declinesUpgrade) (hA : E.allocKeepsFlags K s) (op : Operation)
    (w : World) (h : w.flagsKept K s) : (op.run K E w).flagsKept K s := by
  cases op <;> unfold Operation.run <;> simp only
  case BTM_SetSecurityLevel => exact (kept_SetSecurityLevel K s w _ _ _ _ _ _ _).2 h
  case BTM_SecClrService => exact (kept_SecClrService K s w _).2 h
  case BTM_PINCodeReply => exact keeps_PINCodeReply K H s E hE hA w _ _ _ _ _ h
  case btm_sec_bond_by_transport => exact keeps_bond_by_transport K H s E hE hA w _ _ _ _ _ h
  case BTM_SetEncryption => exact keeps_SetEncryption K H s E w _ _ _ _ h
  case btm_sec_l2cap_access_req => exact keeps_l2cap_access_req K H s E hE hA w _ _ _ _ _ _ h
  case btm_sec_mx_access_request =>
    exact keeps_mx_access_request K H s E hE hA w _ _ _ _ _ _ _ h
  case btm_sec_init => exact (kept_init K s w _).2 h
  case btm_sec_dev_rec_cback_event => exact keeps_dev_rec_cback_event K H s E hE hA w _ _ _ h
  case btm_sec_abort_access_req => exact (kept_abort_access_req K s w _).2 h
  case btm_sec_dd_create_conn => exact keeps_dd_create_conn K H s E hE hA w _ h
  case btm_io_capabilities_req => exact keeps_io_capabilities_req K H s E hE hA w _ h
  case btm_simple_pair_complete => exact keeps_simple_pair_complete K H s E hE hA w _ _ h
  case btm_sec_auth_collision => exact (kept_auth_collision K s E w _).2 h
  case btm_sec_auth_complete => exact keeps_auth_complete K H s E hE hA w _ _ h
  case btm_sec_encrypt_change => exact keeps_encrypt_change K H s E hE hA w _ _ _ h
  case btm_sec_connected => exact keeps_connected K H s E hE hA w _ _ _ _ h
  case btm_sec_disconnected => exact keeps_disconnected K H s E hE hA w _ _ h
  case btm_sec_bond_cancel_complete => exact keeps_bond_cancel_complete K H s E hE hA w h
  case btm_sec_pairing_timeout => exact keeps_pairing_timeout K H s E hE hA w h
  case btm_sec_execute_procedure => exact (kept_execute_procedure K H s E w _).2 h
  case btm_sec_start_get_name => exact (kept_start_get_name K s E w _).2 h
  case btm_sec_start_authentication => exact (kept_start_authentication K s E w _).2 h
  case btm_sec_start_encryption => exact (kept_start_encryption K s E w _).2 h
  case btm_sec_start_authorization => exact (kept_start_authorization K H s E w _).2 h
  case btm_send_link_key_notif => exact (kept_send_link_key_notif K s w _).2 h
  case btm_restore_mode => exact (kept_restore_mode K s w).2 h
  case btm_sec_send_hci_disconnect => exact (kept_send_hci_disconnect K s E w _ _ _).2 h
  case btm_sec_change_pairing_state => exact keeps_change_pairing_state K H s E hE hA w _ h
  case btm_sec_check_prefetch_pin => exact keeps_check_prefetch_pin K H s E hE hA w _ h
  case btm_sec_queue_mx_request => exact (kept_queue_mx_request K s E w _ _ _ _ _ _ _).2 h
  case btm_sec_check_pending_reqs => exact keeps_check_pending_reqs K H s E hE hA w h
  case btm_sec_check_upgrade => exact keeps_check_upgrade K s E hE w _ _ h

theorem flagsOk_strict (K : Hdr) (r : tBTM_SEC_DEV_REC) :
    flagsOk K true r = encryptedImpliesAuthenticated K r := by
  unfold flagsOk flagsOkOf encryptedImpliesAuthenticated
  simp

theorem flagsOk_relaxed (K : Hdr) (r : tBTM_SEC_DEV_REC) :
    flagsOk K false r = true ↔
      (encryptedImpliesAuthenticated K r = true ∨
        tst r.sec_flags K.BTM_SEC_LINK_KEY_KNOWN = false) := by
  unfold flagsOk flagsOkOf encryptedImpliesAuthenticated
  cases tst r.sec_flags K.BTM_SEC_ENCRYPTED <;> cases tst r.sec_flags K.BTM_SEC_AUTHENTICATED <;>
    cases tst r.sec_flags K.BTM_SEC_LINK_KEY_KNOWN <;> simp

/-- C33, amended: the implication "encrypted on the classic transport implies
authenticated on the classic transport" is kept on every device record by every
operation, a link-key upgrade apart. The operations are those of `Operation`, all the
functions of the file modelled here, among them every function that writes one of the
two flags. From a state in which the implication holds on every record: if the Simple
Pairing callback is registered and the application declines every link-key upgrade,
then after the operation the implication holds on every record and the callback is
still registered; and whatever the application answers, a record that violates the
implication after the operation has its link-key-known flag clear. That is the state
the upgrade of `btm_sec_check_upgrade` (lines 2216-2217) leaves: the function touches
no other record, and on the record it is called for it either leaves the security
flags as they were or, when the link key is known and can be upgraded, clears the
authenticated flag and leaves the encrypted flag as it was. Assumed of the headers:
`Hdr.flagsApart`; assumed of `btm_sec_alloc_dev`, which is outside the file:
`Env.allocKeepsFlags`. -/
theorem C33_every_operation_keeps_implication (K : Hdr) (E : Env) (op : Operation)
    (w : World) (p q : Nat) (orig : Bool) (H : K.flagsApart)
    (hA : ∀ strict, E.allocKeepsFlags K strict)
    (h : ∀ r ∈ w.cb.sec_dev_rec, encryptedImpliesAuthenticated K r = true) :
    (E.declinesUpgrade → w.cb.api.p_sp_callback = true →
      (∀ r ∈ (op.run K E w).cb.sec_dev_rec, encryptedImpliesAuthenticated K r = true) ∧
      (op.run K E w).cb.api.p_sp_callback = true) ∧
    (∀ r ∈ (op.run K E w).cb.sec_dev_rec,
      encryptedImpliesAuthenticated K r = true ∨
        tst r.sec_flags K.BTM_SEC_LINK_KEY_KNOWN = false) ∧
    (q ≠ p → (btm_sec_check_upgrade K E w p orig).dev q = w.dev q) ∧
    (((btm_sec_check_upgrade K E w p orig).dev p).sec_flags = (w.dev p).sec_flags ∨
      (tst (w.dev p).sec_flags K.BTM_SEC_LINK_KEY_KNOWN = true ∧
        btm_sec_is_upgrade_possible K w p orig = true ∧
        tst ((btm_sec_check_upgrade K E w p orig).dev p).sec_flags K.BTM_SEC_ENCRYPTED
          = tst (w.dev p).sec_flags K.BTM_SEC_ENCRYPTED ∧
        tst ((btm_sec_check_upgrade K E w p orig).dev p).sec_flags K.BTM_SEC_AUTHENTICATED
          = false)) := by
  refine ⟨?_, ?_, check_upgrade_other K E w p q orig, ?_⟩
  · intro hE hcb
    have hk := keeps_run K H true E (fun _ => hE) (hA true) op w
      ⟨fun r hr => by rw [flagsOk_strict]; exact h r hr, fun _ => hcb⟩
    exact ⟨fun r hr => by rw [← flagsOk_strict]; exact hk.1 r hr, hk.2 rfl⟩
  · have hk := keeps_run K H false E (fun hs => Bool.noConfusion hs) (hA false) op w
      ⟨fun r hr => (flagsOk_relaxed K r).2 (Or.inl (h r hr)), fun hs => Bool.noConfusion hs⟩
    exact fun r hr => (flagsOk_relaxed K r).1 (hk.1 r hr)
  · exact check_upgrade_flags K E w p orig H.enc16 H.enc_auth
      (and_or_zero H.enc_known (apart_sub H.enc_other (other_link_key_authed K)))

/-- C33 at a concrete input, the incoming access request on PSM 0x1001 for the device
of `exampleWorldUpgradableOwing` (flags 0x9E), where the application confirms the
upgrade: the record is left encrypted and not authenticated with the link-key-known
flag clear (flags 0x8C), and `btm_sec_check_upgrade` called for record 0 leaves
record 1 alone. -/
theorem C33_every_operation_keeps_implication_witness :
    stdHdr.flagsApart ∧
    (∀ r ∈ exampleWorldUpgradableOwing.cb.sec_dev_rec,
      encryptedImpliesAuthenticated stdHdr r = true) ∧
    (((Operation.btm_sec_l2cap_access_req [0x00, 0x1A, 0x7D, 0xDA, 0x71, 0x13] 0x1001 1
        CONN_ORIENT_TERM (some 7) 42).run stdHdr exampleEnv exampleWorldUpgradableOwing).dev
      0).sec_flags = 0x8C ∧
    tst 0x8C stdHdr.BTM_SEC_LINK_KEY_KNOWN = false ∧
    ((exampleEnv.declinesUpgrade → exampleWorldUpgradableOwing.cb.api.p_sp_callback = true →
      (∀ r ∈ ((Operation.btm_sec_l2cap_access_req [0x00, 0x1A, 0x7D, 0xDA, 0x71, 0x13]
          0x1001 1 CONN_ORIENT_TERM (some 7) 42).run stdHdr exampleEnv
          exampleWorldUpgradableOwing).cb.sec_dev_rec,
        encryptedImpliesAuthenticated stdHdr r = true) ∧
      ((Operation.btm_sec_l2cap_access_req [0x00, 0x1A, 0x7D, 0xDA, 0x71, 0x13] 0x1001 1
        CONN_ORIENT_TERM (some 7) 42).run stdHdr exampleEnv
        exampleWorldUpgradableOwing).cb.api.p_sp_callback = true) ∧
    (∀ r ∈ ((Operation.btm_sec_l2cap_access_req [0x00, 0x1A, 0x7D, 0xDA, 0x71, 0x13]
        0x1001 1 CONN_ORIENT_TERM (some 7) 42).run stdHdr exampleEnv
        exampleWorldUpgradableOwing).cb.sec_dev_rec,
      encryptedImpliesAuthenticated stdHdr r = true ∨
        tst r.sec_flags stdHdr.BTM_SEC_LINK_KEY_KNOWN = false) ∧
    (1 ≠ 0 → (btm_sec_check_upgrade stdHdr exampleEnv exampleWorldUpgradableOwing 0
        false).dev 1 = exampleWorldUpgradableOwing.dev 1) ∧
    (((btm_sec_check_upgrade stdHdr exampleEnv exampleWorldUpgradableOwing 0 false).dev
        0).sec_flags = (exampleWorldUpgradableOwing.dev 0).sec_flags ∨
      (tst (exampleWorldUpgradableOwing.dev 0).sec_flags stdHdr.BTM_SEC_LINK_KEY_KNOWN = true ∧
        btm_sec_is_upgrade_possible stdHdr exampleWorldUpgradableOwing 0 false = true ∧
        tst ((btm_sec_check_upgrade stdHdr exampleEnv exampleWorldUpgradableOwing 0
            false).dev 0).sec_flags stdHdr.BTM_SEC_ENCRYPTED
          = tst (exampleWorldUpgradableOwing.dev 0).sec_flags stdHdr.BTM_SEC_ENCRYPTED ∧
        tst ((btm_sec_check_upgrade stdHdr exampleEnv exampleWorldUpgradableOwing 0
            false).dev 0).sec_flags stdHdr.BTM_SEC_AUTHENTICATED = false))) :=
  ⟨⟨by decide, by decide, by decide, by decide, by decide, by decide, by decide, by decide,
      by decide, by decide⟩,
   by decide, by decide, by decide,
   C33_every_operation_keeps_implication stdHdr exampleEnv
    (Operation.btm_sec_l2cap_access_req [0x00, 0x1A, 0x7D, 0xDA, 0x71, 0x13] 0x1001 1
      CONN_ORIENT_TERM (some 7) 42) exampleWorldUpgradableOwing 0 1 false
    ⟨by decide, by decide, by decide, by decide, by decide, by decide, by decide, by decide,
      by decide, by decide⟩
    (fun _ _ _ _ h => h) (by decide)⟩

end BtmSec
